import Mathlib

/-!
# nine_shader.c : Direct3D 9 shader bytecode to TGSI translation

A shallow embedding of `src/gallium/state_trackers/nine/nine_shader.c`.

* 32-bit words (`DWORD`) are natural numbers; a token stream is a `List Nat`
  and the cursor `tx->parse` is an index into it.  Reading a word outside the
  stream is undefined behaviour in C and is a `Fault.undefined` here.
* The translator state `struct shader_translator` is passed explicitly; a C
  function `f(tx, ...)` becomes `f tx ... : Except Fault (result × shader_translator)`,
  or `Except Fault shader_translator` when it returns nothing.
* `assert(c)` aborts only in a build with assertions; the field
  `tx.env.asserts` says which build is modelled.
* The IR emitter (`struct ureg_program`, tgsi_ureg.h) is not part of the
  sources.  It is modelled as the ordered log of the calls made on it.
-/

namespace Nine

/-! ## Faults and results -/

/-- Ways in which the C program leaves defined, normal execution. -/
inductive Fault where
  /-- an `assert` failed in a build with assertions enabled -/
  | assertion
  /-- undefined behaviour: a read or write outside an array, or use of a null pointer -/
  | undefined
  /-- the iteration bound of a modelled loop was exhausted (never reached, see `*_total`) -/
  | fuel
deriving DecidableEq, Repr

/-- The `HRESULT` values used by the translator. -/
inductive HRESULT where
  | D3D_OK
  | D3DERR_INVALIDCALL
  | E_OUTOFMEMORY
  | D3DERR_DRIVERINTERNALERROR
deriving DecidableEq, Repr

/-! ## Constants of the bytecode format

`d3d9types.h` is not part of the sources; the values below are taken from the
source file itself where it defines them and from the bitstream layout of the
specification (section 6) otherwise. -/

def NINED3D_SM1_VS : Nat := 0xfffe
def NINED3D_SM1_PS : Nat := 0xffff
def NINE_MAX_COND_DEPTH : Nat := 64
def NINE_MAX_LOOP_DEPTH : Nat := 64
def NINED3DSP_END : Nat := 0x0000ffff
def NINED3DSPTYPE_FLOAT4 : Nat := 0
def NINED3DSPTYPE_INT4 : Nat := 1
def NINED3DSPTYPE_BOOL : Nat := 2
def NINED3DSP_WRITEMASK_SHIFT : Nat := 16
def NINED3DSHADER_INST_PREDICATED : Nat := 1 <<< 28
def NINED3DSHADER_REL_OP_GT : Nat := 1
def NINED3DSHADER_REL_OP_EQ : Nat := 2
def NINED3DSHADER_REL_OP_GE : Nat := 3
def NINED3DSHADER_REL_OP_LT : Nat := 4
def NINED3DSHADER_REL_OP_NE : Nat := 5
def NINED3DSHADER_REL_OP_LE : Nat := 6
def NINED3DSIO_OPCODE_FLAGS_SHIFT : Nat := 16
def NINED3DSIO_OPCODE_FLAGS_MASK : Nat := 0xff <<< NINED3DSIO_OPCODE_FLAGS_SHIFT
def NINED3DSI_TEXLD_PROJECT : Nat := 0x1
def NINED3DSI_TEXLD_BIAS : Nat := 0x2
def NINED3DSP_WRITEMASK_0 : Nat := 0x1
def NINED3DSP_WRITEMASK_1 : Nat := 0x2
def NINED3DSP_WRITEMASK_2 : Nat := 0x4
def NINED3DSP_WRITEMASK_3 : Nat := 0x8
def NINED3DSP_WRITEMASK_ALL : Nat := 0xf
def NINED3DSP_NOSWIZZLE : Nat := (0 <<< 0) ||| (1 <<< 2) ||| (2 <<< 4) ||| (3 <<< 6)

/-- Modelled from the spec: `D3DSI_OPCODE_MASK` (d3d9types.h); "bits 0..15 opcode". -/
def D3DSI_OPCODE_MASK : Nat := 0x0000ffff
/-- Modelled from the spec: `D3DSI_INSTLENGTH_MASK`; "bits 24..27 length (major≥2)". -/
def D3DSI_INSTLENGTH_MASK : Nat := 0x0f000000
def D3DSI_INSTLENGTH_SHIFT : Nat := 24
/-- Modelled from the spec: `D3DSI_COISSUE`; "bit 30 coissue". -/
def D3DSI_COISSUE : Nat := 0x40000000
/-- Modelled from the spec: `D3DSI_COMMENTSIZE_MASK`; "Comment token: opcode=0xFFFE,
bits 16..30 length in words". -/
def D3DSI_COMMENTSIZE_MASK : Nat := 0x7fff0000
def D3DSI_COMMENTSIZE_SHIFT : Nat := 16
/-- Modelled from the spec: `D3DSHADER_ADDRMODE_RELATIVE`; "bit 31 relative (on dst/src
words)". -/
def D3DSHADER_ADDRMODE_RELATIVE : Nat := 0x80000000
/-- Modelled from the spec: `D3DSP_REGNUM_MASK`; "bits 0..10 index". -/
def D3DSP_REGNUM_MASK : Nat := 0x000007ff
/-- Modelled from the spec: the register-file tag is split over two bit ranges of the
parameter word that "must be OR-combined".  The low part of the tag is `D3DSP_REGTYPE_MASK`
starting at bit 28, the high part is `D3DSP_REGTYPE_MASK2` at bits 11..12.  Section 6 of
the specification names bits 28..29 for the first range; the tag has to reach
`D3DSPR_PREDICATE = 19`, so the first range is the three bits 28..30 of the Direct3D 9
format. -/
def D3DSP_REGTYPE_MASK : Nat := 0x70000000
def D3DSP_REGTYPE_SHIFT : Nat := 28
def D3DSP_REGTYPE_MASK2 : Nat := 0x00001800
def D3DSP_REGTYPE_SHIFT2 : Nat := 8
/-- Modelled from the spec: `D3DSP_WRITEMASK_ALL`; "bits 16..19 writemask". -/
def D3DSP_WRITEMASK_ALL : Nat := 0x000f0000
def NINED3DSP_WRITEMASK_MASK : Nat := D3DSP_WRITEMASK_ALL
/-- Modelled from the spec: `D3DSP_DSTMOD_MASK`; "bits 20..23 dst-modifier". -/
def D3DSP_DSTMOD_MASK : Nat := 0x00f00000
def D3DSP_DSTMOD_SHIFT : Nat := 20
/-- Modelled from the spec: `D3DSP_DSTSHIFT_MASK`; "bits 24..27 signed shift". -/
def D3DSP_DSTSHIFT_MASK : Nat := 0x0f000000
def D3DSP_DSTSHIFT_SHIFT : Nat := 24
/-- Modelled from the spec: `D3DSP_SWIZZLE_MASK`; "bits 16..23 swizzle". -/
def D3DSP_SWIZZLE_MASK : Nat := 0x00ff0000
def D3DSP_SWIZZLE_SHIFT : Nat := 16
/-- Modelled from the spec: `D3DSP_NOSWIZZLE`, the identity swizzle xyzw in place in a
source word (bits 16..23). -/
def D3DSP_NOSWIZZLE : Nat := NINED3DSP_NOSWIZZLE <<< D3DSP_SWIZZLE_SHIFT
/-- Modelled from the spec: `D3DSP_SRCMOD_MASK`; "bits 24..27 src-modifier". -/
def D3DSP_SRCMOD_MASK : Nat := 0x0f000000
def D3DSP_SRCMOD_SHIFT : Nat := 24
/-- Modelled from the spec: fields of the first DCL token (usage, usage index, sampler
type) as laid out in the Direct3D 9 format. -/
def D3DSP_DCL_USAGE_MASK : Nat := 0x0000000f
def D3DSP_DCL_USAGE_SHIFT : Nat := 0
def D3DSP_DCL_USAGEINDEX_MASK : Nat := 0x000f0000
def D3DSP_DCL_USAGEINDEX_SHIFT : Nat := 16
def D3DSP_TEXTURETYPE_MASK : Nat := 0x78000000
def D3DSP_TEXTURETYPE_SHIFT : Nat := 27

/-- Modelled from the spec: `D3DSHADER_VERSION_MAJOR`; "low 16 bits = major<<8 | minor". -/
def D3DSHADER_VERSION_MAJOR (tok : Nat) : Nat := (tok >>> 8) &&& 0xff
def D3DSHADER_VERSION_MINOR (tok : Nat) : Nat := (tok >>> 0) &&& 0xff

/-! ### Register files (`D3DSHADER_PARAM_REGISTER_TYPE`) -/

def D3DSPR_TEMP : Nat := 0
def D3DSPR_INPUT : Nat := 1
def D3DSPR_CONST : Nat := 2
def D3DSPR_ADDR : Nat := 3
def D3DSPR_RASTOUT : Nat := 4
def D3DSPR_ATTROUT : Nat := 5
def D3DSPR_TEXCRDOUT : Nat := 6
def D3DSPR_OUTPUT : Nat := 6
def D3DSPR_CONSTINT : Nat := 7
def D3DSPR_COLOROUT : Nat := 8
def D3DSPR_DEPTHOUT : Nat := 9
def D3DSPR_SAMPLER : Nat := 10
def D3DSPR_CONST2 : Nat := 11
def D3DSPR_CONST3 : Nat := 12
def D3DSPR_CONST4 : Nat := 13
def D3DSPR_CONSTBOOL : Nat := 14
def D3DSPR_LOOP : Nat := 15
def D3DSPR_TEMPFLOAT16 : Nat := 16
def D3DSPR_MISCTYPE : Nat := 17
def D3DSPR_LABEL : Nat := 18
def D3DSPR_PREDICATE : Nat := 19
def NINED3DSPR_IMMEDIATE : Nat := D3DSPR_PREDICATE + 1

def D3DSMO_POSITION : Nat := 0
def D3DSMO_FACE : Nat := 1

/-! ### Source and destination modifiers, already shifted down (`NINED3DSPSM_*`) -/

def NINED3DSPSM_NONE : Nat := 0
def NINED3DSPSM_NEG : Nat := 1
def NINED3DSPSM_BIAS : Nat := 2
def NINED3DSPSM_BIASNEG : Nat := 3
def NINED3DSPSM_SIGN : Nat := 4
def NINED3DSPSM_SIGNNEG : Nat := 5
def NINED3DSPSM_COMP : Nat := 6
def NINED3DSPSM_X2 : Nat := 7
def NINED3DSPSM_X2NEG : Nat := 8
def NINED3DSPSM_DZ : Nat := 9
def NINED3DSPSM_DW : Nat := 10
def NINED3DSPSM_ABS : Nat := 11
def NINED3DSPSM_ABSNEG : Nat := 12
def NINED3DSPSM_NOT : Nat := 13
def NINED3DSPDM_SATURATE : Nat := 1
def NINED3DSPDM_CENTROID : Nat := 4

/-! ### Opcodes (`D3DSHADER_INSTRUCTION_OPCODE_TYPE`)

The value of an opcode is its position in the name table of `d3dsio_to_string`, which is
also its row in `inst_table`. -/

def D3DSIO_NOP : Nat := 0
def D3DSIO_MOV : Nat := 1
def D3DSIO_M4x4 : Nat := 20
def D3DSIO_M4x3 : Nat := 21
def D3DSIO_M3x4 : Nat := 22
def D3DSIO_M3x3 : Nat := 23
def D3DSIO_M3x2 : Nat := 24
def D3DSIO_CALL : Nat := 25
def D3DSIO_CALLNZ : Nat := 26
def D3DSIO_LOOP : Nat := 27
def D3DSIO_RET : Nat := 28
def D3DSIO_ENDLOOP : Nat := 29
def D3DSIO_LABEL : Nat := 30
def D3DSIO_DCL : Nat := 31
def D3DSIO_CRS : Nat := 33
def D3DSIO_SGN : Nat := 34
def D3DSIO_REP : Nat := 38
def D3DSIO_ENDREP : Nat := 39
def D3DSIO_IF : Nat := 40
def D3DSIO_IFC : Nat := 41
def D3DSIO_ELSE : Nat := 42
def D3DSIO_ENDIF : Nat := 43
def D3DSIO_BREAK : Nat := 44
def D3DSIO_BREAKC : Nat := 45
def D3DSIO_MOVA : Nat := 46
def D3DSIO_DEFB : Nat := 47
def D3DSIO_DEFI : Nat := 48
def D3DSIO_TEXCOORD : Nat := 64
def D3DSIO_TEXKILL : Nat := 65
def D3DSIO_TEX : Nat := 66
def D3DSIO_DEF : Nat := 81
def D3DSIO_TEXLDD : Nat := 93
def D3DSIO_TEXLDL : Nat := 95
/-- Modelled from the spec: `D3DSIO_PHASE`, an opcode beyond the table that is not the
comment opcode (0xFFFD in the Direct3D 9 format). -/
def D3DSIO_PHASE : Nat := 0xfffd
/-- Modelled from the spec: `D3DSIO_COMMENT`; "Comment token: opcode=0xFFFE". -/
def D3DSIO_COMMENT : Nat := 0xfffe
def D3DSIO_END : Nat := 0xffff

/-! ### Declaration usages (`D3DDECLUSAGE`) and sampler texture types -/

def D3DDECLUSAGE_POSITION : Nat := 0
def D3DDECLUSAGE_BLENDWEIGHT : Nat := 1
def D3DDECLUSAGE_BLENDINDICES : Nat := 2
def D3DDECLUSAGE_NORMAL : Nat := 3
def D3DDECLUSAGE_PSIZE : Nat := 4
def D3DDECLUSAGE_TEXCOORD : Nat := 5
def D3DDECLUSAGE_TANGENT : Nat := 6
def D3DDECLUSAGE_BINORMAL : Nat := 7
def D3DDECLUSAGE_TESSFACTOR : Nat := 8
def D3DDECLUSAGE_POSITIONT : Nat := 9
def D3DDECLUSAGE_COLOR : Nat := 10
def D3DDECLUSAGE_FOG : Nat := 11
def D3DDECLUSAGE_DEPTH : Nat := 12
def D3DDECLUSAGE_SAMPLE : Nat := 13

def NINED3DSTT_1D : Nat := 1
def NINED3DSTT_2D : Nat := 2
def NINED3DSTT_CUBE : Nat := 3
def NINED3DSTT_VOLUME : Nat := 4

/-! ## The IR: TGSI names (p_shader_tokens.h)

The numeric values of the TGSI enumerations never reach the translator's control flow,
except that zero-filled memory reads as `TGSI_FILE_NULL` (an undefined register), so the
enumerations are modelled by their names. -/

/-- TGSI opcodes named by the source.  `ZERO` is the literal `0` that the rows of
`inst_table` with a special handler carry in their opcode column; the source notes that
the column is ignored for them. -/
inductive tgsi_opcode where
  | ZERO
  | NOP | MOV | ADD | SUB | MAD | MUL | RCP | RSQ | DP3 | DP4 | MIN | MAX | SLT | SGE
  | EX2 | LG2 | LIT | DST | LRP | FRC | POW | XPD | SSG | ABS | ENDIF | BRK | ARL
  | EXP | LOG | CND | CMP | DP2A | DDX | DDY
  | SGT | SEQ | SNE | SLE | SFL
  | NOT | UMAD | USGE | UADD | IF | UIF | ELSE | BGNLOOP | ENDLOOP | BREAKC
  | CAL | RET | SCS | KIL | TEX | TXP | TXB | TXD | TXL | END
deriving DecidableEq, Repr

inductive tgsi_file where
  | NULL | CONSTANT | INPUT | OUTPUT | TEMPORARY | SAMPLER | ADDRESS | IMMEDIATE | PREDICATE
deriving DecidableEq, Repr

/-- TGSI texture targets; `BUFFER` is the enumerator with value 0, which is what the
zero-filled `sampler_targets` array holds before any DCL. -/
inductive tgsi_texture where
  | BUFFER | T1D | T2D | T3D | CUBE | UNKNOWN
deriving DecidableEq, Repr

inductive tgsi_semantic where
  | POSITION | COLOR | BCOLOR | FOG | PSIZE | GENERIC | NORMAL | FACE | EDGEFLAG
  | PRIMID | INSTANCEID | VERTEXID | CLIPDIST | CLIPVERTEX | TEXCOORD | PCOORD | COUNT
deriving DecidableEq, Repr

inductive tgsi_interpolate where
  | CONSTANT | LINEAR | PERSPECTIVE
deriving DecidableEq, Repr

inductive tgsi_processor where
  | FRAGMENT | VERTEX
  /-- the value `~0` used for an unknown shader type -/
  | INVALID
deriving DecidableEq, Repr

def TGSI_SWIZZLE_X : Nat := 0
def TGSI_SWIZZLE_Y : Nat := 1
def TGSI_SWIZZLE_Z : Nat := 2
def TGSI_SWIZZLE_W : Nat := 3
def TGSI_WRITEMASK_X : Nat := 0x1
def TGSI_WRITEMASK_Z : Nat := 0x4
def TGSI_WRITEMASK_XY : Nat := 0x3
def TGSI_WRITEMASK_XYZW : Nat := 0xf

/-! ## IR operands (tgsi_ureg.h)

`struct ureg_src` and `struct ureg_dst` with the fields the translator reads or writes.
The register index is a signed 16-bit field in C; every index the translator forms is
a bytecode register number (≤ 8191) plus a small offset, so it is modelled without
wrap-around. -/

structure ureg_src where
  File : tgsi_file
  SwizzleX : Nat
  SwizzleY : Nat
  SwizzleZ : Nat
  SwizzleW : Nat
  Indirect : Bool
  Absolute : Bool
  Negate : Bool
  IndirectFile : tgsi_file
  IndirectSwizzle : Nat
  Index : Int
  IndirectIndex : Int
deriving DecidableEq, Repr

structure ureg_dst where
  File : tgsi_file
  WriteMask : Nat
  Indirect : Bool
  Saturate : Bool
  Index : Int
  IndirectIndex : Int
  IndirectSwizzle : Nat
deriving DecidableEq, Repr

/-- Modelled from the spec: `ureg_src_undef` (tgsi_ureg.h), the "undefined" register
the environment is initialised to; it is all-zero memory. -/
def ureg_src_undef : ureg_src :=
  { File := .NULL, SwizzleX := 0, SwizzleY := 0, SwizzleZ := 0, SwizzleW := 0,
    Indirect := false, Absolute := false, Negate := false, IndirectFile := .NULL,
    IndirectSwizzle := 0, Index := 0, IndirectIndex := 0 }

/-- Modelled from the spec: `ureg_dst_undef` (tgsi_ureg.h); all-zero memory. -/
def ureg_dst_undef : ureg_dst :=
  { File := .NULL, WriteMask := 0, Indirect := false, Saturate := false, Index := 0,
    IndirectIndex := 0, IndirectSwizzle := 0 }

/-- Modelled from the spec: `ureg_src_is_undef` (tgsi_ureg.h). -/
def ureg_src_is_undef (src : ureg_src) : Bool := src.File == .NULL

/-- Modelled from the spec: `ureg_dst_is_undef` (tgsi_ureg.h). -/
def ureg_dst_is_undef (dst : ureg_dst) : Bool := dst.File == .NULL

/-- Modelled from the spec: `ureg_src_register` (tgsi_ureg.h): a plain source operand
with the identity swizzle. -/
def ureg_src_register (file : tgsi_file) (index : Int) : ureg_src :=
  { File := file, SwizzleX := TGSI_SWIZZLE_X, SwizzleY := TGSI_SWIZZLE_Y,
    SwizzleZ := TGSI_SWIZZLE_Z, SwizzleW := TGSI_SWIZZLE_W, Indirect := false,
    Absolute := false, Negate := false, IndirectFile := .NULL, IndirectSwizzle := 0,
    Index := index, IndirectIndex := 0 }

/-- Modelled from the spec: `ureg_dst_register` (tgsi_ureg.h): a plain destination with
all four components enabled. -/
def ureg_dst_register (file : tgsi_file) (index : Int) : ureg_dst :=
  { File := file, WriteMask := TGSI_WRITEMASK_XYZW, Indirect := false, Saturate := false,
    Index := index, IndirectIndex := 0, IndirectSwizzle := 0 }

/-- Modelled from the spec: the function `ureg_src(dst)` (tgsi_ureg.h): read the register
that `dst` writes, with the identity swizzle and without modifiers.  (Named `ureg_src_of`
because the structure already has the name `ureg_src`.) -/
def ureg_src_of (dst : ureg_dst) : ureg_src :=
  { File := dst.File, SwizzleX := TGSI_SWIZZLE_X, SwizzleY := TGSI_SWIZZLE_Y,
    SwizzleZ := TGSI_SWIZZLE_Z, SwizzleW := TGSI_SWIZZLE_W, Indirect := dst.Indirect,
    Absolute := false, Negate := false, IndirectFile := .ADDRESS,
    IndirectSwizzle := dst.IndirectSwizzle, Index := dst.Index,
    IndirectIndex := dst.IndirectIndex }

/-- Modelled from the spec: the function `ureg_dst(src)` (tgsi_ureg.h): write the register
that `src` reads, all four components enabled. -/
def ureg_dst_of (src : ureg_src) : ureg_dst :=
  { File := src.File, WriteMask := TGSI_WRITEMASK_XYZW, Indirect := src.Indirect,
    Saturate := false, Index := src.Index, IndirectIndex := src.IndirectIndex,
    IndirectSwizzle := src.IndirectSwizzle }

/-- Modelled from the spec: `ureg_writemask` (tgsi_ureg.h): "a 4-bit per-component enable
for destination writes"; the new mask restricts the one already on the operand
(`reg.WriteMask &= writemask`). -/
def ureg_writemask (reg : ureg_dst) (writemask : Nat) : ureg_dst :=
  { reg with WriteMask := reg.WriteMask &&& writemask }

/-- Modelled from the spec: `ureg_saturate` (tgsi_ureg.h). -/
def ureg_saturate (reg : ureg_dst) : ureg_dst :=
  { reg with Saturate := true }

/-- Component `c` (0..3) of the packed swizzle of `reg`. -/
def ureg_src.swz (reg : ureg_src) (c : Nat) : Nat :=
  match c with
  | 0 => reg.SwizzleX
  | 1 => reg.SwizzleY
  | 2 => reg.SwizzleZ
  | _ => reg.SwizzleW

/-- Modelled from the spec: `ureg_swizzle` (tgsi_ureg.h): "a 4×2-bit component permutation
selecting one of {x,y,z,w} per output lane", composed with the swizzle already on the
operand. -/
def ureg_swizzle (reg : ureg_src) (x y z w : Nat) : ureg_src :=
  { reg with SwizzleX := reg.swz x, SwizzleY := reg.swz y, SwizzleZ := reg.swz z,
             SwizzleW := reg.swz w }

/-- Modelled from the spec: `ureg_scalar` (tgsi_ureg.h): broadcast one component. -/
def ureg_scalar (reg : ureg_src) (x : Nat) : ureg_src :=
  ureg_swizzle reg x x x x

/-- Modelled from the spec: `ureg_negate` (tgsi_ureg.h): toggles the negate flag. -/
def ureg_negate (reg : ureg_src) : ureg_src :=
  { reg with Negate := !reg.Negate }

/-- Modelled from the spec: `ureg_abs` (tgsi_ureg.h): absolute value, clearing negate. -/
def ureg_abs (reg : ureg_src) : ureg_src :=
  { reg with Absolute := true, Negate := false }

/-- Modelled from the spec: `ureg_src_indirect` (tgsi_ureg.h): "wrap base in indirect
addressing" by the x-selected component of `addr`. -/
def ureg_src_indirect (reg addr : ureg_src) : ureg_src :=
  { reg with Indirect := true, IndirectFile := addr.File, IndirectIndex := addr.Index,
             IndirectSwizzle := addr.SwizzleX }

/-- Modelled from the spec: `ureg_dst_indirect` (tgsi_ureg.h). -/
def ureg_dst_indirect (reg : ureg_dst) (addr : ureg_src) : ureg_dst :=
  { reg with Indirect := true, IndirectIndex := addr.Index,
             IndirectSwizzle := addr.SwizzleX }

/-! ## The IR emitter (tgsi_ureg.c)

"The downstream IR builder API (an opaque emitter with declare/immediate/write
primitives)" is out of the translator's scope.  It is modelled as the ordered log of the
calls the translator makes, together with the counters from which the emitter numbers the
registers it hands out. -/

/-- The value of one component of an immediate. -/
inductive imm_value where
  /-- a `float` given by its 32-bit pattern -/
  | f32 (bits : Nat)
  /-- the `float` obtained by converting the C `int` `i` -/
  | f32_of_int (i : Int)
  | i32 (i : Int)
  | u32 (n : Nat)
deriving DecidableEq, Repr

/-- One call on the emitter. -/
inductive ureg_item where
  | DECL_constant (index : Nat)
  | DECL_temporary (index : Nat)
  | DECL_local_temporary (index : Nat)
  | DECL_address (index : Nat)
  | DECL_predicate (index : Nat)
  | DECL_sampler (nr : Int)
  | DECL_vs_input (index : Int)
  | DECL_fs_input (name : tgsi_semantic) (index : Nat) (interp : tgsi_interpolate)
      (cylwrap : Nat) (centroid : Bool)
  | DECL_output_masked (name : tgsi_semantic) (index : Nat) (usage_mask : Nat)
  | immediate (values : List imm_value)
  /-- an instruction without texture target or label -/
  | insn (opcode : tgsi_opcode) (dst : List ureg_dst) (src : List ureg_src)
  /-- a texture instruction, tagged with its target -/
  | tex_insn (opcode : tgsi_opcode) (dst : ureg_dst) (target : tgsi_texture)
      (src : List ureg_src)
  /-- an instruction that carries a label (IF, UIF, ELSE, BGNLOOP, ENDLOOP, CAL) -/
  | label_insn (opcode : tgsi_opcode) (src : List ureg_src)
  | fixup_label (label_token : Nat) (instruction_number : Nat)
deriving DecidableEq, Repr

/-- Whether a logged call is an instruction. -/
def ureg_item.is_insn : ureg_item → Bool
  | .insn _ _ _ => true
  | .tex_insn _ _ _ _ => true
  | .label_insn _ _ => true
  | _ => false

/-- Whether a logged call is a texture instruction. -/
def ureg_item.is_tex : ureg_item → Bool
  | .tex_insn _ _ _ _ => true
  | _ => false

structure ureg_program where
  processor : tgsi_processor
  /-- every call made so far, oldest first -/
  items : List ureg_item
  nr_temps : Nat
  nr_addrs : Nat
  nr_preds : Nat
  nr_immediates : Nat
  nr_instructions : Nat
  /-- semantic name and index of the fragment inputs declared so far -/
  fs_inputs : List (tgsi_semantic × Nat)
  /-- semantic name and index of the outputs declared so far -/
  outputs : List (tgsi_semantic × Nat)
deriving DecidableEq, Repr

/-- Modelled from the spec: `ureg_create` (tgsi_ureg.c): a fresh, empty program. -/
def ureg_create (processor : tgsi_processor) : ureg_program :=
  { processor := processor, items := [], nr_temps := 0, nr_addrs := 0, nr_preds := 0,
    nr_immediates := 0, nr_instructions := 0, fs_inputs := [], outputs := [] }

/-- Append one call to the log. -/
def ureg_program.log (ureg : ureg_program) (it : ureg_item) : ureg_program :=
  { ureg with items := ureg.items ++ [it] }

/-- Modelled from the spec: `ureg_DECL_constant` (declaration primitive). -/
def ureg_DECL_constant (ureg : ureg_program) (index : Nat) : ureg_program :=
  ureg.log (.DECL_constant index)

/-- Modelled from the spec: `ureg_DECL_temporary`: declares the next temporary. -/
def ureg_DECL_temporary (ureg : ureg_program) : ureg_dst × ureg_program :=
  (ureg_dst_register .TEMPORARY ureg.nr_temps,
   { ureg.log (.DECL_temporary ureg.nr_temps) with nr_temps := ureg.nr_temps + 1 })

/-- Modelled from the spec: `ureg_DECL_local_temporary`: declares the next temporary,
marked local. -/
def ureg_DECL_local_temporary (ureg : ureg_program) : ureg_dst × ureg_program :=
  (ureg_dst_register .TEMPORARY ureg.nr_temps,
   { ureg.log (.DECL_local_temporary ureg.nr_temps) with nr_temps := ureg.nr_temps + 1 })

/-- Modelled from the spec: `ureg_DECL_address`. -/
def ureg_DECL_address (ureg : ureg_program) : ureg_dst × ureg_program :=
  (ureg_dst_register .ADDRESS ureg.nr_addrs,
   { ureg.log (.DECL_address ureg.nr_addrs) with nr_addrs := ureg.nr_addrs + 1 })

/-- Modelled from the spec: `ureg_DECL_predicate`. -/
def ureg_DECL_predicate (ureg : ureg_program) : ureg_dst × ureg_program :=
  (ureg_dst_register .PREDICATE ureg.nr_preds,
   { ureg.log (.DECL_predicate ureg.nr_preds) with nr_preds := ureg.nr_preds + 1 })

/-- Modelled from the spec: `ureg_DECL_sampler`. -/
def ureg_DECL_sampler (ureg : ureg_program) (nr : Int) : ureg_program :=
  ureg.log (.DECL_sampler nr)

/-- Modelled from the spec: `ureg_DECL_vs_input`. -/
def ureg_DECL_vs_input (ureg : ureg_program) (index : Int) : ureg_program :=
  ureg.log (.DECL_vs_input index)

/-- Slot of the pair `key` in `slots`, or the next free slot. -/
def ureg_slot (slots : List (tgsi_semantic × Nat)) (key : tgsi_semantic × Nat) : Nat :=
  match slots.indexOf? key with
  | some i => i
  | none => slots.length

/-- Modelled from the spec: `ureg_DECL_fs_input_cyl_centroid` ("fs-input-interpolated"):
an input with the same semantic is given its existing slot. -/
def ureg_DECL_fs_input_cyl_centroid (ureg : ureg_program) (name : tgsi_semantic)
    (index : Nat) (interp : tgsi_interpolate) (cylwrap : Nat) (centroid : Bool) :
    ureg_src × ureg_program :=
  let i := ureg_slot ureg.fs_inputs (name, index)
  (ureg_src_register .INPUT i,
   { ureg.log (.DECL_fs_input name index interp cylwrap centroid) with
     fs_inputs := if i < ureg.fs_inputs.length then ureg.fs_inputs
                  else ureg.fs_inputs ++ [(name, index)] })

/-- Modelled from the spec: `ureg_DECL_fs_input`. -/
def ureg_DECL_fs_input (ureg : ureg_program) (name : tgsi_semantic) (index : Nat)
    (interp : tgsi_interpolate) : ureg_src × ureg_program :=
  ureg_DECL_fs_input_cyl_centroid ureg name index interp 0 false

/-- Modelled from the spec: `ureg_DECL_output_masked` ("masked output"). -/
def ureg_DECL_output_masked (ureg : ureg_program) (name : tgsi_semantic) (index : Nat)
    (usage_mask : Nat) : ureg_dst × ureg_program :=
  let i := ureg_slot ureg.outputs (name, index)
  (ureg_dst_register .OUTPUT i,
   { ureg.log (.DECL_output_masked name index usage_mask) with
     outputs := if i < ureg.outputs.length then ureg.outputs
                else ureg.outputs ++ [(name, index)] })

/-- Modelled from the spec: `ureg_DECL_output`. -/
def ureg_DECL_output (ureg : ureg_program) (name : tgsi_semantic) (index : Nat) :
    ureg_dst × ureg_program :=
  ureg_DECL_output_masked ureg name index TGSI_WRITEMASK_XYZW

/-- Modelled from the spec: the immediate primitives (`ureg_imm4f`, `ureg_imm4i`,
`ureg_imm1f`, `ureg_imm1u`).  Every call registers one immediate and yields its handle;
the emitter's sharing of equal immediates is not modelled. -/
def ureg_DECL_immediate (ureg : ureg_program) (values : List imm_value) :
    ureg_src × ureg_program :=
  (ureg_src_register .IMMEDIATE ureg.nr_immediates,
   { ureg.log (.immediate values) with nr_immediates := ureg.nr_immediates + 1 })

def ureg_imm4f (ureg : ureg_program) (a b c d : imm_value) : ureg_src × ureg_program :=
  ureg_DECL_immediate ureg [a, b, c, d]

def ureg_imm4i (ureg : ureg_program) (a b c d : Int) : ureg_src × ureg_program :=
  ureg_DECL_immediate ureg [.i32 a, .i32 b, .i32 c, .i32 d]

def ureg_imm1f (ureg : ureg_program) (a : imm_value) : ureg_src × ureg_program :=
  let r := ureg_DECL_immediate ureg [a]
  (ureg_scalar r.1 TGSI_SWIZZLE_X, r.2)

def ureg_imm1u (ureg : ureg_program) (a : Nat) : ureg_src × ureg_program :=
  let r := ureg_DECL_immediate ureg [.u32 a]
  (ureg_scalar r.1 TGSI_SWIZZLE_X, r.2)

/-- Modelled from the spec: `ureg_insn`, the "arithmetic/logic" write primitive. -/
def ureg_insn (ureg : ureg_program) (opcode : tgsi_opcode) (dst : List ureg_dst)
    (src : List ureg_src) : ureg_program :=
  { ureg.log (.insn opcode dst src) with nr_instructions := ureg.nr_instructions + 1 }

/-- Modelled from the spec: the texture write primitives (`ureg_TEX`, `ureg_TXP`,
`ureg_TXB`, `ureg_TXD`, `ureg_TXL`): one instruction tagged with the texture target. -/
def ureg_tex_insn (ureg : ureg_program) (opcode : tgsi_opcode) (dst : ureg_dst)
    (target : tgsi_texture) (src : List ureg_src) : ureg_program :=
  { ureg.log (.tex_insn opcode dst target src) with
    nr_instructions := ureg.nr_instructions + 1 }

/-- Modelled from the spec: the control-flow primitives that take a label pointer
(`ureg_IF`, `ureg_UIF`, `ureg_ELSE`, `ureg_BGNLOOP`, `ureg_ENDLOOP`, `ureg_CAL`).  The
emitter stores through the pointer the token by which the label can later be fixed up;
the token is the position of the instruction in the log and is returned here for the
caller to store. -/
def ureg_label_insn (ureg : ureg_program) (opcode : tgsi_opcode) (src : List ureg_src) :
    Nat × ureg_program :=
  (ureg.items.length,
   { ureg.log (.label_insn opcode src) with nr_instructions := ureg.nr_instructions + 1 })

/-- Modelled from the spec: `ureg_fixup_label` ("label fix-up"). -/
def ureg_fixup_label (ureg : ureg_program) (label_token instruction_number : Nat) :
    ureg_program :=
  ureg.log (.fixup_label label_token instruction_number)

/-- Modelled from the spec: `ureg_get_instruction_number`. -/
def ureg_get_instruction_number (ureg : ureg_program) : Nat :=
  ureg.nr_instructions

/-! ## Decoded instructions -/

/-- The C structure `sm1_src_param`.  The pointer `rel` is NULL or points to the
sub-parameter stored next to the parameter in the instruction (`src_rel[i]`, `dst_rel[i]`),
which is written at the moment the pointer is set; it is an owned optional field here.
`imm` is the union `imm`, seen as its four words `d[0..3]`. -/
structure sm1_src_param where
  idx : Int
  rel : Option sm1_src_param
  file : Nat
  swizzle : Nat
  mod : Nat
  type : Nat
  imm : List Nat
deriving Repr

/-- Decidable equality of source parameters, by recursion on the sub-parameter. -/
def sm1_src_param.decEq : (a b : sm1_src_param) → Decidable (a = b)
  | ⟨i1, none, f1, s1, m1, t1, d1⟩, ⟨i2, none, f2, s2, m2, t2, d2⟩ =>
      if h : i1 = i2 ∧ f1 = f2 ∧ s1 = s2 ∧ m1 = m2 ∧ t1 = t2 ∧ d1 = d2 then
        isTrue (by rw [h.1, h.2.1, h.2.2.1, h.2.2.2.1, h.2.2.2.2.1, h.2.2.2.2.2])
      else
        isFalse (by intro e; injection e with e1 _ e3 e4 e5 e6 e7
                    exact h ⟨e1, e3, e4, e5, e6, e7⟩)
  | ⟨_, none, _, _, _, _, _⟩, ⟨_, some _, _, _, _, _, _⟩ =>
      isFalse (by intro e; injection e with _ e2; cases e2)
  | ⟨_, some _, _, _, _, _, _⟩, ⟨_, none, _, _, _, _, _⟩ =>
      isFalse (by intro e; injection e with _ e2; cases e2)
  | ⟨i1, some r1, f1, s1, m1, t1, d1⟩, ⟨i2, some r2, f2, s2, m2, t2, d2⟩ =>
      match sm1_src_param.decEq r1 r2 with
      | isTrue hr =>
        if h : i1 = i2 ∧ f1 = f2 ∧ s1 = s2 ∧ m1 = m2 ∧ t1 = t2 ∧ d1 = d2 then
          isTrue (by rw [h.1, h.2.1, h.2.2.1, h.2.2.2.1, h.2.2.2.2.1, h.2.2.2.2.2, hr])
        else
          isFalse (by intro e; injection e with e1 _ e3 e4 e5 e6 e7
                      exact h ⟨e1, e3, e4, e5, e6, e7⟩)
      | isFalse hr =>
        isFalse (by intro e; injection e with _ e2; injection e2 with e2; exact hr e2)

instance : DecidableEq sm1_src_param := sm1_src_param.decEq

/-- A zero-filled `sm1_src_param` (the translator is allocated with `CALLOC_STRUCT`). -/
def sm1_src_param.zero : sm1_src_param :=
  { idx := 0, rel := none, file := 0, swizzle := 0, mod := 0, type := 0,
    imm := [0, 0, 0, 0] }

/-- The C structure `sm1_dst_param`.  `shift` is declared `BYTE`. -/
structure sm1_dst_param where
  idx : Int
  rel : Option sm1_src_param
  file : Nat
  mask : Nat
  mod : Nat
  shift : Nat
  type : Nat
deriving DecidableEq, Repr

def sm1_dst_param.zero : sm1_dst_param :=
  { idx := 0, rel := none, file := 0, mask := 0, mod := 0, shift := 0, type := 0 }

structure sm1_semantic where
  reg : sm1_dst_param
  sampler_type : Nat
  usage : Nat
  usage_idx : Nat
deriving DecidableEq, Repr

/-- The special handlers (`translate_instruction_func`), by name. -/
inductive handler_id where
  | M4x4 | M4x3 | M3x4 | M3x3 | M3x2
  | CALL | CALLNZ | LOOP | RET | ENDLOOP | LABEL | DCL
  | NRM | SINCOS | REP | ENDREP | IF | IFC | ELSE | ENDIF | BREAKC
  | DEFB | DEFI | DEF
  | TEXCOORD | TEXKILL | TEX | TEXBEM | TEXBEML | TEXREG2AR | TEXREG2GB
  | TEXM3x2PAD | TEXM3x2TEX | TEXM3x3PAD | TEXM3x3TEX | TEXM3x3SPEC | TEXM3x3VSPEC
  | TEXREG2RGB | TEXDP3TEX | TEXM3x2DEPTH | TEXDP3 | TEXM3x3 | TEXDEPTH | BEM
  | TEXLDD | SETP | TEXLDL | BREAKP | PHASE | COMMENT
deriving DecidableEq, Repr

structure version_range where
  min : Nat
  max : Nat
deriving DecidableEq, Repr

/-- The C structure `sm1_op_info`; `handler` is NULL (`none`) or a special handler. -/
structure sm1_op_info where
  opcode : tgsi_opcode
  vert_version : version_range
  frag_version : version_range
  ndst : Nat
  nsrc : Nat
  handler : Option handler_id
deriving DecidableEq, Repr

/-- The C structure `sm1_instruction`.  The arrays `src[4]` and `dst[1]` are the fields
`src0 .. src3` and `dst0`; the arrays `src_rel` and `dst_rel` are held inside the
parameters (see `sm1_src_param`). -/
structure sm1_instruction where
  opcode : Nat
  flags : Nat
  coissue : Bool
  predicated : Bool
  ndst : Nat
  nsrc : Nat
  src0 : sm1_src_param
  src1 : sm1_src_param
  src2 : sm1_src_param
  src3 : sm1_src_param
  pred : sm1_src_param
  dst0 : sm1_dst_param
  info : Option sm1_op_info
deriving DecidableEq, Repr

def sm1_instruction.zero : sm1_instruction :=
  { opcode := 0, flags := 0, coissue := false, predicated := false, ndst := 0, nsrc := 0,
    src0 := .zero, src1 := .zero, src2 := .zero, src3 := .zero, pred := .zero,
    dst0 := .zero, info := none }

/-- Element `i` of `insn->src`; `none` outside the array. -/
def sm1_instruction.src (insn : sm1_instruction) (i : Nat) : Option sm1_src_param :=
  match i with
  | 0 => some insn.src0
  | 1 => some insn.src1
  | 2 => some insn.src2
  | 3 => some insn.src3
  | _ => none

/-- Store into element `i` of `insn->src`; `none` outside the array. -/
def sm1_instruction.set_src (insn : sm1_instruction) (i : Nat) (p : sm1_src_param) :
    Option sm1_instruction :=
  match i with
  | 0 => some { insn with src0 := p }
  | 1 => some { insn with src1 := p }
  | 2 => some { insn with src2 := p }
  | 3 => some { insn with src3 := p }
  | _ => none

/-- Store into element `i` of `insn->dst`; `none` outside the array. -/
def sm1_instruction.set_dst (insn : sm1_instruction) (i : Nat) (p : sm1_dst_param) :
    Option sm1_instruction :=
  match i with
  | 0 => some { insn with dst0 := p }
  | _ => none

/-- The C structure `sm1_local_const`; `imm` holds the four words of `imm.f`. -/
structure sm1_local_const where
  idx : Int
  reg : ureg_src
  imm : List Nat
deriving DecidableEq, Repr

def sm1_local_const.zero : sm1_local_const :=
  { idx := 0, reg := ureg_src_undef, imm := [0, 0, 0, 0] }

/-! ## Translator state -/

/-- What the build and the headers that are not part of the sources fix for a run:
whether `assert` is compiled in, the limits of nine_state.h, and the contents of the
uninitialised locals `src` and `dst` of `tx_src_param` and `tx_dst_param`.
(`NINE_TGSI_LAZY_DEVS` is not defined: with it the REP handler passes a `ureg_dst` where a
`ureg_src` is required and the file does not compile.) -/
structure build_env where
  asserts : Bool
  NINE_MAX_CONST_F : Nat
  NINE_MAX_CONST_I : Nat
  NINE_MAX_CONST_B : Nat
  NINE_MAX_SAMPLERS : Nat
  NINE_CONST_I_BASE_IDX : Nat
  NINE_CONST_B_BASE_IDX : Nat
  indeterminate_src : ureg_src
  indeterminate_dst : ureg_dst
  /-- whether plain `char` is a signed type on the target -/
  char_signed : Bool
deriving DecidableEq, Repr

/-- The member `regs` of `struct shader_translator`.  `r` is the heap block of
`num_temp` temporaries; the fixed arrays are lists of their declared length. -/
structure tx_regs where
  r : List ureg_dst
  o : ureg_dst
  oCol : List ureg_dst
  oDepth : ureg_dst
  v : ureg_src
  vPos : ureg_src
  vFace : ureg_src
  s : ureg_src
  p : ureg_dst
  a : ureg_dst
  t : List ureg_dst
  vC : List ureg_src
  vT : List ureg_src
  aL : List ureg_dst
deriving DecidableEq, Repr

/-- The C structure `shader_translator`, with the build environment `env` added.
`parse` and `parse_next` are positions in `byte_code`; `parse_next = none` is NULL.
`lconstf` and `inst_labels` are the heap blocks behind the pointers, with as many
elements as were allocated.  `input_map` is the caller's array behind the pointer; an
entry holds the arguments of `nine_d3d9_to_nine_declusage` (see `sm1_to_nine_declusage`). -/
structure shader_translator where
  env : build_env
  byte_code : List Nat
  parse : Nat
  parse_next : Option Nat
  ureg : ureg_program
  version_major : Nat
  version_minor : Nat
  processor : tgsi_processor
  native_integers : Bool
  inline_subroutines : Bool
  lower_preds : Bool
  want_texcoord : Bool
  insn : sm1_instruction
  input_map : List (Nat × Nat)
  regs : tx_regs
  num_temp : Nat
  num_scratch : Nat
  loop_depth : Nat
  loop_depth_max : Nat
  cond_depth : Nat
  loop_labels : List Nat
  cond_labels : List Nat
  inst_labels : List Nat
  num_inst_labels : Nat
  sampler_targets : List tgsi_texture
  lconstf : List sm1_local_const
  num_lconstf : Nat
  lconsti : List sm1_local_const
  lconstb : List sm1_local_const
  indirect_const_access : Bool
deriving DecidableEq, Repr

/-- The C macro `assert`: checked only in a build with assertions. -/
def tx_assert (tx : shader_translator) (c : Bool) : Except Fault Unit :=
  if tx.env.asserts && !c then .error .assertion else .ok ()

/-- Arithmetic of `unsigned`: increment and decrement modulo 2^32. -/
def u32_inc (n : Nat) : Nat := (n + 1) % 2 ^ 32
def u32_dec (n : Nat) : Nat := (n + (2 ^ 32 - 1)) % 2 ^ 32

def IS_VS (tx : shader_translator) : Bool := tx.processor == .VERTEX
def IS_PS (tx : shader_translator) : Bool := tx.processor == .FRAGMENT

/-- Apply an emitter call that only extends the program. -/
def tx_emit (tx : shader_translator) (f : ureg_program → ureg_program) :
    shader_translator :=
  { tx with ureg := f tx.ureg }

/-- Apply an emitter call that also yields a value. -/
def tx_emit_get {α : Type} (tx : shader_translator) (f : ureg_program → α × ureg_program) :
    α × shader_translator :=
  ((f tx.ureg).1, { tx with ureg := (f tx.ureg).2 })

/-- Element `i` of a C array or heap block; outside it the access is undefined. -/
def arr_get {α : Type} (l : List α) (i : Int) : Except Fault α :=
  if i < 0 then .error .undefined
  else match l[i.toNat]? with
    | some x => .ok x
    | none => .error .undefined

/-- Store into element `i` of a C array or heap block; outside it the access is
undefined. -/
def arr_set {α : Type} (l : List α) (i : Int) (x : α) : Except Fault (List α) :=
  if i < 0 then .error .undefined
  else if i.toNat < l.length then .ok (l.set i.toNat x)
  else .error .undefined

/-- The macro `REALLOC(ptr, old, new)` for a block of `new_len` elements: the old
contents are kept, fresh elements hold `fill` (they are written before they are read). -/
def realloc_block {α : Type} (l : List α) (new_len : Nat) (fill : α) : List α :=
  l.take new_len ++ List.replicate (new_len - l.length) fill

/-- The signed view of a 32-bit word (`int` member of a union with `DWORD`). -/
def to_i32 (w : Nat) : Int :=
  if w % 2 ^ 32 < 2 ^ 31 then (w % 2 ^ 32 : Nat) else (w % 2 ^ 32 : Nat) - 2 ^ 32

/-- Conversion of an `int` to plain `char`. -/
def to_char (env : build_env) (n : Int) : Int :=
  if env.char_signed then (n + 128) % 256 - 128 else n % 256

/-- Position of the lowest set bit among the low `fuel` bits, counted from `pos`. -/
def ffs_from : Nat → Nat → Nat → Nat
  | 0, _, _ => 0
  | fuel + 1, n, pos => if n % 2 = 1 then pos else ffs_from fuel (n / 2) (pos + 1)

/-- The C library function `ffs` on a 32-bit value: one plus the index of the lowest set
bit, 0 for 0. -/
def ffs (n : Nat) : Nat := ffs_from 32 n 1

/-! ## Local constants -/

/-- The search loop shared by `tx_lconstf` and `tx_set_lconstf`: the first `n < num` with
`lconstf[n].idx == index`, or `num`.  Reading behind the block is undefined. -/
def lconstf_search (lconstf : List sm1_local_const) (index : Int) (num : Nat) :
    Nat → Nat → Except Fault Nat
  | 0, n => .ok n
  | todo + 1, n =>
    if n < num then
      match lconstf[n]? with
      | none => .error .undefined
      | some c => if c.idx = index then .ok n else lconstf_search lconstf index num todo (n + 1)
    else .ok n

def tx_lconstf (tx : shader_translator) (index : Int) : Except Fault (Option ureg_src) := do
  tx_assert tx (decide (0 ≤ index ∧ index < tx.env.NINE_MAX_CONST_F))
  let i ← lconstf_search tx.lconstf index tx.num_lconstf tx.num_lconstf 0
  if i < tx.num_lconstf then
    let c ← arr_get tx.lconstf i
    pure (some c.reg)
  else pure none

def tx_lconsti (tx : shader_translator) (index : Int) : Except Fault (Option ureg_src) := do
  tx_assert tx (decide (0 ≤ index ∧ index < tx.env.NINE_MAX_CONST_I))
  let c ← arr_get tx.lconsti index
  if c.idx = index then pure (some c.reg) else pure none

def tx_lconstb (tx : shader_translator) (index : Int) : Except Fault (Option ureg_src) := do
  tx_assert tx (decide (0 ≤ index ∧ index < tx.env.NINE_MAX_CONST_B))
  let c ← arr_get tx.lconstb index
  if c.idx = index then pure (some c.reg) else pure none

def tx_set_lconstf (tx : shader_translator) (index : Int) (f : List Nat) :
    Except Fault shader_translator := do
  tx_assert tx (decide (0 ≤ index ∧ index < tx.env.NINE_MAX_CONST_F))
  let n ← lconstf_search tx.lconstf index tx.num_lconstf tx.num_lconstf 0
  let tx :=
    if n = tx.num_lconstf then
      let tx :=
        if n % 8 = 0 then
          { tx with lconstf := realloc_block tx.lconstf (n + 8) sm1_local_const.zero }
        else tx
      { tx with num_lconstf := u32_inc tx.num_lconstf }
    else tx
  let (reg, tx) := tx_emit_get tx (fun u =>
    ureg_imm4f u (.f32 (f.getD 0 0)) (.f32 (f.getD 1 0)) (.f32 (f.getD 2 0)) (.f32 (f.getD 3 0)))
  let lconstf ← arr_set tx.lconstf n
    { idx := index, reg := reg, imm := [f.getD 0 0, f.getD 1 0, f.getD 2 0, f.getD 3 0] }
  pure { tx with lconstf := lconstf }

def tx_set_lconsti (tx : shader_translator) (index : Int) (i : List Nat) :
    Except Fault shader_translator := do
  tx_assert tx (decide (0 ≤ index ∧ index < tx.env.NINE_MAX_CONST_I))
  let old ← arr_get tx.lconsti index
  let i0 := to_i32 (i.getD 0 0)
  let i1 := to_i32 (i.getD 1 0)
  let i2 := to_i32 (i.getD 2 0)
  let i3 := to_i32 (i.getD 3 0)
  let (reg, tx) := tx_emit_get tx (fun u =>
    if tx.native_integers then ureg_imm4i u i0 i1 i2 i3
    else ureg_imm4f u (.f32_of_int i0) (.f32_of_int i1) (.f32_of_int i2) (.f32_of_int i3))
  let lconsti ← arr_set tx.lconsti index { old with idx := index, reg := reg }
  pure { tx with lconsti := lconsti }

def tx_set_lconstb (tx : shader_translator) (index : Int) (b : Nat) :
    Except Fault shader_translator := do
  tx_assert tx (decide (0 ≤ index ∧ index < tx.env.NINE_MAX_CONST_B))
  let old ← arr_get tx.lconstb index
  let (reg, tx) := tx_emit_get tx (fun u =>
    if tx.native_integers then ureg_imm1u u (if b ≠ 0 then 0xffffffff else 0)
    else ureg_imm1f u (.f32 (if b ≠ 0 then 0x3f800000 else 0)))
  let lconstb ← arr_set tx.lconstb index { old with idx := index, reg := reg }
  pure { tx with lconstb := lconstb }

/-! ## Register environment -/

def tx_scratch (tx : shader_translator) : Except Fault (ureg_dst × shader_translator) := do
  tx_assert tx (decide (tx.num_scratch < tx.regs.t.length))
  let t ← arr_get tx.regs.t tx.num_scratch
  pure (t, { tx with num_scratch := u32_inc tx.num_scratch })

def tx_scratch_scalar (tx : shader_translator) : Except Fault (ureg_dst × shader_translator) := do
  let (t, tx) ← tx_scratch tx
  pure (ureg_writemask t TGSI_WRITEMASK_X, tx)

/-- The C function `tx_src_scalar`.  For an empty writemask `ffs` yields 0 and the shift
`1 << -1` is undefined. -/
def tx_src_scalar (dst : ureg_dst) : Except Fault ureg_src :=
  let src := ureg_src_of dst
  if ffs dst.WriteMask = 0 then .error .undefined
  else
    let c := ffs dst.WriteMask - 1
    if dst.WriteMask = 1 <<< c then .ok (ureg_scalar src c) else .ok src

/-- The three loops of `tx_decl_constants`, as one count-up from `n`. -/
def decl_constants_from (ureg : ureg_program) : Nat → Nat → ureg_program
  | 0, _ => ureg
  | count + 1, n => decl_constants_from (ureg_DECL_constant ureg n) count (n + 1)

def tx_decl_constants (tx : shader_translator) : shader_translator :=
  let n := 0
  let tx := tx_emit tx (fun u => decl_constants_from u tx.env.NINE_MAX_CONST_F n)
  let n := n + tx.env.NINE_MAX_CONST_F
  let tx := tx_emit tx (fun u => decl_constants_from u tx.env.NINE_MAX_CONST_I n)
  let n := n + tx.env.NINE_MAX_CONST_I
  tx_emit tx (fun u => decl_constants_from u (tx.env.NINE_MAX_CONST_B / 4) n)

/-- The C function `tx_temp_alloc`.  A negative `idx` passes the unsigned comparison and
ends in an access outside the block. -/
def tx_temp_alloc (tx : shader_translator) (idx : Int) : Except Fault shader_translator := do
  tx_assert tx (decide (0 ≤ idx))
  if idx < 0 then throw .undefined
  let tx :=
    if idx.toNat ≥ tx.num_temp then
      let n := idx.toNat + 1
      { tx with regs := { tx.regs with r := realloc_block tx.regs.r n ureg_dst_undef },
                num_temp := n }
    else tx
  let r ← arr_get tx.regs.r idx
  if ureg_dst_is_undef r then
    let (d, tx) := tx_emit_get tx ureg_DECL_temporary
    let rs ← arr_set tx.regs.r idx d
    pure { tx with regs := { tx.regs with r := rs } }
  else pure tx

def tx_addr_alloc (tx : shader_translator) (idx : Int) : Except Fault shader_translator := do
  tx_assert tx (decide (idx = 0))
  if ureg_dst_is_undef tx.regs.a then
    let (d, tx) := tx_emit_get tx ureg_DECL_address
    pure { tx with regs := { tx.regs with a := d } }
  else pure tx

def tx_pred_alloc (tx : shader_translator) (idx : Int) : Except Fault shader_translator := do
  tx_assert tx (decide (idx = 0))
  if ureg_dst_is_undef tx.regs.p then
    let (d, tx) := tx_emit_get tx ureg_DECL_predicate
    pure { tx with regs := { tx.regs with p := d } }
  else pure tx

def tx_texcoord_alloc (tx : shader_translator) (idx : Int) :
    Except Fault shader_translator := do
  let sn := if tx.want_texcoord then tgsi_semantic.TEXCOORD else tgsi_semantic.GENERIC
  tx_assert tx (IS_PS tx)
  tx_assert tx (decide (0 ≤ idx ∧ idx < tx.regs.vT.length))
  let v ← arr_get tx.regs.vT idx
  if ureg_src_is_undef v then
    let (s, tx) := tx_emit_get tx (fun u => ureg_DECL_fs_input u sn idx.toNat .PERSPECTIVE)
    let vT ← arr_set tx.regs.vT idx s
    pure { tx with regs := { tx.regs with vT := vT } }
  else pure tx

/-- The C function `tx_bgnloop`; the result is the index of the returned element of
`loop_labels`. -/
def tx_bgnloop (tx : shader_translator) : Except Fault (Nat × shader_translator) := do
  let tx := { tx with loop_depth := u32_inc tx.loop_depth }
  let tx :=
    if tx.loop_depth_max < tx.loop_depth then { tx with loop_depth_max := tx.loop_depth }
    else tx
  tx_assert tx (decide (tx.loop_depth < NINE_MAX_LOOP_DEPTH))
  pure (u32_dec tx.loop_depth, tx)

/-- The C function `tx_endloop`; the result is the index of the returned element of
`loop_labels`. -/
def tx_endloop (tx : shader_translator) : Except Fault (Nat × shader_translator) := do
  tx_assert tx (decide (tx.loop_depth ≠ 0))
  let tx := { tx with loop_depth := u32_dec tx.loop_depth }
  let label ← arr_get tx.loop_labels tx.loop_depth
  let tx := tx_emit tx (fun u => ureg_fixup_label u label (ureg_get_instruction_number u))
  pure (tx.loop_depth, tx)

/-- The loop of `tx_get_loopctr` that hands lane `c & 3` of `reg` to the levels
`c = l, l+1, ..` below `l + 4` and inside the array. -/
def loopctr_fill (reg : ureg_dst) (l : Nat) (aL : List ureg_dst) : Nat → Nat → List ureg_dst
  | 0, _ => aL
  | todo + 1, c =>
    if c < l + 4 ∧ c < aL.length then
      loopctr_fill reg l (aL.set c (ureg_writemask reg (c &&& 3))) todo (c + 1)
    else aL

def tx_get_loopctr (tx : shader_translator) : Except Fault (ureg_dst × shader_translator) := do
  let l := u32_dec tx.loop_depth
  if tx.loop_depth = 0 then
    pure (ureg_dst_undef, tx)
  else
    let cur ← arr_get tx.regs.aL l
    if ureg_dst_is_undef cur then
      let (reg, tx) := tx_emit_get tx ureg_DECL_local_temporary
      tx_assert tx (decide (l % 4 = 0))
      let tx := { tx with regs := { tx.regs with aL := loopctr_fill reg l tx.regs.aL 4 l } }
      let cur ← arr_get tx.regs.aL l
      pure (cur, tx)
    else pure (cur, tx)

/-- The C function `tx_cond`; the result is the index of the returned element of
`cond_labels`. -/
def tx_cond (tx : shader_translator) : Except Fault (Nat × shader_translator) := do
  tx_assert tx (decide (tx.cond_depth ≤ NINE_MAX_COND_DEPTH))
  let tx := { tx with cond_depth := u32_inc tx.cond_depth }
  pure (u32_dec tx.cond_depth, tx)

def tx_elsecond (tx : shader_translator) : Except Fault (Nat × shader_translator) := do
  tx_assert tx (decide (tx.cond_depth ≠ 0))
  pure (u32_dec tx.cond_depth, tx)

def tx_endcond (tx : shader_translator) : Except Fault shader_translator := do
  tx_assert tx (decide (tx.cond_depth ≠ 0))
  let tx := { tx with cond_depth := u32_dec tx.cond_depth }
  let label ← arr_get tx.cond_labels tx.cond_depth
  pure (tx_emit tx (fun u => ureg_fixup_label u label (ureg_get_instruction_number u)))

def nine_ureg_dst_register (file : tgsi_file) (index : Int) : ureg_dst :=
  ureg_dst_of (ureg_src_register file index)

/-! ## Source and destination lowering -/

/-- One-operand-count helpers for the `ureg_XXX` instruction calls. -/
def tx_insn (tx : shader_translator) (opcode : tgsi_opcode) (dst : List ureg_dst)
    (src : List ureg_src) : shader_translator :=
  tx_emit tx (fun u => ureg_insn u opcode dst src)

/-- A float immediate `ureg_imm1f(ureg, x)`, `x` given by its bit pattern. -/
def tx_imm1f (tx : shader_translator) (bits : Nat) : ureg_src × shader_translator :=
  tx_emit_get tx (fun u => ureg_imm1f u (.f32 bits))

/-- Bit patterns of the float literals of the source. -/
def F32_0_5 : Nat := 0x3f000000
def F32_1_0 : Nat := 0x3f800000
def F32_2_0 : Nat := 0x40000000
def F32_NEG_1_0 : Nat := 0xbf800000
def F32_NEG_2_0 : Nat := 0xc0000000
def F32_0_0 : Nat := 0x00000000

/-! The first `switch` of `tx_src_param` (on `param->file`) yields the base operand.  Each
`case` is a function of its own; `src` is the local variable of `tx_src_param`, which is
uninitialised when the `switch` is entered. -/

/-- The case `D3DSPR_TEMP` of `tx_src_param`. -/
def tx_src_param_TEMP (tx : shader_translator) (param : sm1_src_param) :
    Except Fault (ureg_src × shader_translator) := do
  tx_assert tx param.rel.isNone
  let tx ← tx_temp_alloc tx param.idx
  let r ← arr_get tx.regs.r param.idx
  pure (ureg_src_of r, tx)

/-- The case `D3DSPR_ADDR` (`D3DSPR_TEXTURE`) of `tx_src_param`. -/
def tx_src_param_ADDR (tx : shader_translator) (param : sm1_src_param) :
    Except Fault (ureg_src × shader_translator) := do
  tx_assert tx param.rel.isNone
  if IS_VS tx then
    let tx ← tx_addr_alloc tx param.idx
    pure (ureg_src_of tx.regs.a, tx)
  else
    let tx ← tx_texcoord_alloc tx param.idx
    let v ← arr_get tx.regs.vT param.idx
    pure (v, tx)

/-- The case `D3DSPR_PREDICATE` of `tx_src_param`. -/
def tx_src_param_PREDICATE (tx : shader_translator) (param : sm1_src_param) :
    Except Fault (ureg_src × shader_translator) := do
  tx_assert tx param.rel.isNone
  let tx ← tx_pred_alloc tx param.idx
  pure (ureg_src_of tx.regs.p, tx)

/-- The case `D3DSPR_SAMPLER` of `tx_src_param`. -/
def tx_src_param_SAMPLER (tx : shader_translator) (param : sm1_src_param) :
    Except Fault (ureg_src × shader_translator) := do
  tx_assert tx (decide (param.mod = NINED3DSPSM_NONE))
  tx_assert tx (decide (param.swizzle = NINED3DSP_NOSWIZZLE))
  tx_assert tx param.rel.isNone
  pure (ureg_src_register .SAMPLER param.idx, tx)

/-- The case `D3DSPR_CONST` of `tx_src_param`: a relative parameter sets
`indirect_const_access` and addresses the constant file; otherwise a local constant is
used if there is one. -/
def tx_src_param_CONST (tx : shader_translator) (param : sm1_src_param) :
    Except Fault (ureg_src × shader_translator) :=
  if param.rel.isSome then
    .ok (ureg_src_register .CONSTANT param.idx, { tx with indirect_const_access := true })
  else
    (tx_lconstf tx param.idx).bind fun found =>
      match found with
      | some reg => .ok (reg, tx)
      | none => .ok (ureg_src_register .CONSTANT param.idx, tx)

/-- The cases `D3DSPR_CONST2`, `D3DSPR_CONST3`, `D3DSPR_CONST4` of `tx_src_param`. -/
def tx_src_param_CONST234 (tx : shader_translator) :
    Except Fault (ureg_src × shader_translator) := do
  tx_assert tx false
  pure (tx_imm1f tx F32_0_0)

/-- The case `D3DSPR_CONSTINT` of `tx_src_param`. -/
def tx_src_param_CONSTINT (tx : shader_translator) (param : sm1_src_param) :
    Except Fault (ureg_src × shader_translator) :=
  if param.rel.isSome then
    .ok (ureg_src_register .CONSTANT (tx.env.NINE_CONST_I_BASE_IDX + param.idx), tx)
  else
    (tx_lconsti tx param.idx).bind fun found =>
      match found with
      | some reg => .ok (reg, tx)
      | none =>
        .ok (ureg_src_register .CONSTANT (tx.env.NINE_CONST_I_BASE_IDX + param.idx), tx)

/-- The operand that the case `D3DSPR_CONSTBOOL` forms in the constant file:
`char r = idx / 4; char s = idx & 3;` register `NINE_CONST_B_BASE_IDX + r`, all four
selectors `s`. -/
def constbool_via_file (env : build_env) (idx : Int) : ureg_src :=
  let r := to_char env (idx.tdiv 4)
  let s := to_char env (idx % 4)
  ureg_swizzle (ureg_src_register .CONSTANT (env.NINE_CONST_B_BASE_IDX + r))
    s.toNat s.toNat s.toNat s.toNat

/-- The case `D3DSPR_CONSTBOOL` of `tx_src_param`. -/
def tx_src_param_CONSTBOOL (tx : shader_translator) (param : sm1_src_param) :
    Except Fault (ureg_src × shader_translator) :=
  if param.rel.isSome then .ok (constbool_via_file tx.env param.idx, tx)
  else
    (tx_lconstb tx param.idx).bind fun found =>
      match found with
      | some reg => .ok (reg, tx)
      | none => .ok (constbool_via_file tx.env param.idx, tx)

/-- The case `D3DSPR_LOOP` of `tx_src_param`. -/
def tx_src_param_LOOP (tx : shader_translator) :
    Except Fault (ureg_src × shader_translator) := do
  let (ctr, tx) ← tx_get_loopctr tx
  pure (ureg_src_of ctr, tx)

/-- The inner `switch (param->idx)` of the case `D3DSPR_MISCTYPE`. -/
def tx_src_param_MISCTYPE_idx (tx : shader_translator) (param : sm1_src_param)
    (src : ureg_src) : Except Fault (ureg_src × shader_translator) :=
  if param.idx = D3DSMO_POSITION then
    if ureg_src_is_undef tx.regs.vPos then
      let r := tx_emit_get tx (fun u => ureg_DECL_fs_input u .POSITION 0 .LINEAR)
      .ok (r.1, { r.2 with regs := { r.2.regs with vPos := r.1 } })
    else .ok (tx.regs.vPos, tx)
  else if param.idx = D3DSMO_FACE then
    if ureg_src_is_undef tx.regs.vFace then
      let r := tx_emit_get tx (fun u => ureg_DECL_fs_input u .FACE 0 .CONSTANT)
      .ok (ureg_scalar r.1 TGSI_SWIZZLE_X,
           { r.2 with regs := { r.2.regs with vFace := ureg_scalar r.1 TGSI_SWIZZLE_X } })
    else .ok (tx.regs.vFace, tx)
  else
    (tx_assert tx false).bind fun _ => .ok (src, tx)

/-- The case `D3DSPR_MISCTYPE` of `tx_src_param`. -/
def tx_src_param_MISCTYPE (tx : shader_translator) (param : sm1_src_param)
    (src : ureg_src) : Except Fault (ureg_src × shader_translator) := do
  let (src, tx) ← tx_src_param_MISCTYPE_idx tx param src
  tx_assert tx param.rel.isNone
  pure (src, tx)

/-- The `default` case of the first `switch` of `tx_src_param`. -/
def tx_src_param_default (tx : shader_translator) (src : ureg_src) :
    Except Fault (ureg_src × shader_translator) := do
  tx_assert tx false
  pure (src, tx)

/-- The first `switch` of `tx_src_param` (on `param->file`): the base operand. -/
def tx_src_param_file (tx : shader_translator) (param : sm1_src_param) :
    Except Fault (ureg_src × shader_translator) :=
  if param.file = D3DSPR_TEMP then tx_src_param_TEMP tx param
  else if param.file = D3DSPR_ADDR then tx_src_param_ADDR tx param
  else if param.file = D3DSPR_INPUT then .ok (ureg_src_register .INPUT param.idx, tx)
  else if param.file = D3DSPR_PREDICATE then tx_src_param_PREDICATE tx param
  else if param.file = D3DSPR_SAMPLER then tx_src_param_SAMPLER tx param
  else if param.file = D3DSPR_CONST then tx_src_param_CONST tx param
  else if param.file = D3DSPR_CONST2 ∨ param.file = D3DSPR_CONST3
      ∨ param.file = D3DSPR_CONST4 then tx_src_param_CONST234 tx
  else if param.file = D3DSPR_CONSTINT then tx_src_param_CONSTINT tx param
  else if param.file = D3DSPR_CONSTBOOL then tx_src_param_CONSTBOOL tx param
  else if param.file = D3DSPR_LOOP then tx_src_param_LOOP tx
  else if param.file = D3DSPR_MISCTYPE then
    tx_src_param_MISCTYPE tx param tx.env.indeterminate_src
  else if param.file = D3DSPR_TEMPFLOAT16 then .ok (tx.env.indeterminate_src, tx)
  else tx_src_param_default tx tx.env.indeterminate_src

/-! The second `switch` of `tx_src_param` (on `param->mod`) applies the source modifier.
The immediates that are arguments of one call are registered from left to right. -/

/-- The modifier cases that emit `op tmp, a, b` into a fresh scratch register, one of the
operands being a float immediate: `imm_first` tells whether the immediate is the first
source (BIASNEG, COMP) or the second (BIAS). -/
def tx_src_mod_sub (tx : shader_translator) (src : ureg_src) (bits : Nat) (imm_first : Bool) :
    Except Fault (ureg_src × shader_translator) := do
  let (tmp, tx) ← tx_scratch tx
  let (imm, tx) := tx_imm1f tx bits
  pure (ureg_src_of tmp, tx_insn tx .SUB [tmp] (if imm_first then [imm, src] else [src, imm]))

/-- The modifier cases SIGN and SIGNNEG: `MAD tmp, src, a, b`. -/
def tx_src_mod_mad (tx : shader_translator) (src : ureg_src) (a b : Nat) :
    Except Fault (ureg_src × shader_translator) := do
  let (tmp, tx) ← tx_scratch tx
  let (ia, tx) := tx_imm1f tx a
  let (ib, tx) := tx_imm1f tx b
  pure (ureg_src_of tmp, tx_insn tx .MAD [tmp] [src, ia, ib])

/-- The modifier cases X2 and X2NEG: `ADD tmp, src, src`. -/
def tx_src_mod_x2 (tx : shader_translator) (src : ureg_src) (neg : Bool) :
    Except Fault (ureg_src × shader_translator) := do
  let (tmp, tx) ← tx_scratch tx
  pure (if neg then ureg_negate (ureg_src_of tmp) else ureg_src_of tmp,
        tx_insn tx .ADD [tmp] [src, src])

/-- The modifier case NOT with native integers: `NOT tmp, src`. -/
def tx_src_mod_not (tx : shader_translator) (src : ureg_src) :
    Except Fault (ureg_src × shader_translator) := do
  let (tmp, tx) ← tx_scratch tx
  pure (ureg_src_of tmp, tx_insn tx .NOT [tmp] [src])

/-- The `default` case of the second `switch` of `tx_src_param`. -/
def tx_src_mod_default (tx : shader_translator) (mod : Nat) (src : ureg_src) :
    Except Fault (ureg_src × shader_translator) := do
  tx_assert tx (decide (mod = NINED3DSPSM_NONE))
  pure (src, tx)

/-- The second `switch` of `tx_src_param` (on `param->mod`): the source modifier. -/
def tx_src_param_mod (tx : shader_translator) (mod : Nat) (src : ureg_src) :
    Except Fault (ureg_src × shader_translator) :=
  if mod = NINED3DSPSM_ABS then .ok (ureg_abs src, tx)
  else if mod = NINED3DSPSM_ABSNEG then .ok (ureg_negate (ureg_abs src), tx)
  else if mod = NINED3DSPSM_NEG then .ok (ureg_negate src, tx)
  else if mod = NINED3DSPSM_BIAS then tx_src_mod_sub tx src F32_0_5 false
  else if mod = NINED3DSPSM_BIASNEG then tx_src_mod_sub tx src F32_0_5 true
  else if mod = NINED3DSPSM_NOT then
    if tx.native_integers then tx_src_mod_not tx src
    else tx_src_mod_sub tx src F32_1_0 true
  else if mod = NINED3DSPSM_COMP then tx_src_mod_sub tx src F32_1_0 true
  else if mod = NINED3DSPSM_DZ ∨ mod = NINED3DSPSM_DW then .ok (src, tx)
  else if mod = NINED3DSPSM_SIGN then tx_src_mod_mad tx src F32_2_0 F32_NEG_1_0
  else if mod = NINED3DSPSM_SIGNNEG then tx_src_mod_mad tx src F32_NEG_2_0 F32_1_0
  else if mod = NINED3DSPSM_X2 then tx_src_mod_x2 tx src false
  else if mod = NINED3DSPSM_X2NEG then tx_src_mod_x2 tx src true
  else tx_src_mod_default tx mod src

/-- The swizzle step of `tx_src_param`. -/
def tx_src_param_swizzle (swizzle : Nat) (src : ureg_src) : ureg_src :=
  if swizzle ≠ NINED3DSP_NOSWIZZLE then
    ureg_swizzle src ((swizzle >>> 0) &&& 0x3) ((swizzle >>> 2) &&& 0x3)
      ((swizzle >>> 4) &&& 0x3) ((swizzle >>> 6) &&& 0x3)
  else src

/-- The C function `tx_src_param`: base operand by register file, indirect addressing by
the lowered sub-parameter, swizzle, modifier. -/
def tx_src_param (tx : shader_translator) :
    sm1_src_param → Except Fault (ureg_src × shader_translator)
  | ⟨idx, rel, file, swizzle, mod, type, imm⟩ => do
    let (src, tx) ← tx_src_param_file tx ⟨idx, rel, file, swizzle, mod, type, imm⟩
    let (src, tx) ←
      match rel with
      | some r => do
        let (addr, tx) ← tx_src_param tx r
        pure (f := Except Fault) (ureg_src_indirect src addr, tx)
      | none => pure (src, tx)
    let src := tx_src_param_swizzle swizzle src
    tx_src_param_mod tx mod src

/-- The case `D3DSPR_TEMP` of `tx_dst_param`. -/
def tx_dst_param_TEMP (tx : shader_translator) (param : sm1_dst_param) :
    Except Fault (ureg_dst × shader_translator) := do
  tx_assert tx param.rel.isNone
  let tx ← tx_temp_alloc tx param.idx
  let r ← arr_get tx.regs.r param.idx
  pure (r, tx)

/-- The case `D3DSPR_ADDR` of `tx_dst_param`. -/
def tx_dst_param_ADDR (tx : shader_translator) (param : sm1_dst_param) :
    Except Fault (ureg_dst × shader_translator) := do
  tx_assert tx param.rel.isNone
  let tx ← tx_addr_alloc tx param.idx
  pure (tx.regs.a, tx)

/-- The case `D3DSPR_COLOROUT` of `tx_dst_param`. -/
def tx_dst_param_COLOROUT (tx : shader_translator) (param : sm1_dst_param) :
    Except Fault (ureg_dst × shader_translator) := do
  tx_assert tx (decide (0 ≤ param.idx ∧ param.idx < 4))
  tx_assert tx param.rel.isNone
  let c ← arr_get tx.regs.oCol param.idx
  if ureg_dst_is_undef c then
    let (d, tx) := tx_emit_get tx (fun u => ureg_DECL_output u .COLOR param.idx.toNat)
    let oCol ← arr_set tx.regs.oCol param.idx d
    pure (d, { tx with regs := { tx.regs with oCol := oCol } })
  else pure (c, tx)

/-- The case `D3DSPR_DEPTHOUT` of `tx_dst_param`. -/
def tx_dst_param_DEPTHOUT (tx : shader_translator) (param : sm1_dst_param) :
    Except Fault (ureg_dst × shader_translator) := do
  tx_assert tx param.rel.isNone
  if ureg_dst_is_undef tx.regs.oDepth then
    let (d, tx) := tx_emit_get tx (fun u =>
      ureg_DECL_output_masked u .POSITION 0 TGSI_WRITEMASK_Z)
    pure (d, { tx with regs := { tx.regs with oDepth := d } })
  else pure (tx.regs.oDepth, tx)

/-- The case `D3DSPR_PREDICATE` of `tx_dst_param`. -/
def tx_dst_param_PREDICATE (tx : shader_translator) (param : sm1_dst_param) :
    Except Fault (ureg_dst × shader_translator) := do
  tx_assert tx param.rel.isNone
  let tx ← tx_pred_alloc tx param.idx
  pure (tx.regs.p, tx)

/-- The `default` case of the `switch` of `tx_dst_param`. -/
def tx_dst_param_default (tx : shader_translator) (dst : ureg_dst) :
    Except Fault (ureg_dst × shader_translator) := do
  tx_assert tx false
  pure (dst, tx)

/-- The `switch` of `tx_dst_param` (on `param->file`): the base destination.  The local
variable `dst` is uninitialised when the `switch` is entered. -/
def tx_dst_param_file (tx : shader_translator) (param : sm1_dst_param) :
    Except Fault (ureg_dst × shader_translator) :=
  if param.file = D3DSPR_TEMP then tx_dst_param_TEMP tx param
  else if param.file = D3DSPR_ADDR then tx_dst_param_ADDR tx param
  else if param.file = D3DSPR_RASTOUT ∨ param.file = D3DSPR_ATTROUT then
    .ok (tx.env.indeterminate_dst, tx)
  else if param.file = D3DSPR_OUTPUT then
    .ok (nine_ureg_dst_register .OUTPUT param.idx, tx)
  else if param.file = D3DSPR_COLOROUT then tx_dst_param_COLOROUT tx param
  else if param.file = D3DSPR_DEPTHOUT then tx_dst_param_DEPTHOUT tx param
  else if param.file = D3DSPR_PREDICATE then tx_dst_param_PREDICATE tx param
  else if param.file = D3DSPR_TEMPFLOAT16 then .ok (tx.env.indeterminate_dst, tx)
  else tx_dst_param_default tx tx.env.indeterminate_dst

def tx_dst_param (tx : shader_translator) (param : sm1_dst_param) :
    Except Fault (ureg_dst × shader_translator) := do
  let (dst, tx) ← tx_dst_param_file tx param
  let (dst, tx) ←
    match param.rel with
    | some r => do
      let (addr, tx) ← tx_src_param tx r
      pure (f := Except Fault) (ureg_dst_indirect dst addr, tx)
    | none => pure (dst, tx)
  let dst := if param.mask ≠ NINED3DSP_WRITEMASK_ALL then ureg_writemask dst param.mask else dst
  let dst := if param.mod = NINED3DSPDM_SATURATE then ureg_saturate dst else dst
  tx_assert tx (decide (param.shift = 0))
  pure (dst, tx)

/-! ## Special handlers -/

/-- The `for` loop of `NineTranslateInstruction_Mkxn`, from row `i` for `todo` rows;
`src1` is `src[1]`, whose index advances with every row, emitted or not. -/
def Mkxn_rows (k : Nat) (dst : ureg_dst) (src0 : ureg_src) :
    Nat → Nat → ureg_src → ureg_program → ureg_program
  | 0, _, _, ureg => ureg
  | todo + 1, i, src1, ureg =>
    let m := 1 <<< i
    let ureg :=
      if dst.WriteMask &&& m = 0 then ureg
      else if k = 3 then ureg_insn ureg .DP3 [ureg_writemask dst m] [src0, src1]
      else if k = 4 then ureg_insn ureg .DP4 [ureg_writemask dst m] [src0, src1]
      else ureg
    Mkxn_rows k dst src0 todo (i + 1) { src1 with Index := src1.Index + 1 } ureg

def NineTranslateInstruction_Mkxn (tx : shader_translator) (k n : Nat) :
    Except Fault (HRESULT × shader_translator) := do
  let (dst, tx) ← tx_dst_param tx tx.insn.dst0
  let (src0, tx) ← tx_src_param tx tx.insn.src0
  let (src1, tx) ← tx_src_param tx tx.insn.src1
  pure (.D3D_OK, tx_emit tx (Mkxn_rows k dst src0 n 0 src1))

def V (maj min : Nat) : Nat := (maj <<< 8) ||| min

def NineTranslateInstruction_M4x4 (tx : shader_translator) :=
  NineTranslateInstruction_Mkxn tx 4 3

def NineTranslateInstruction_M4x3 (tx : shader_translator) :=
  NineTranslateInstruction_Mkxn tx 4 3

def NineTranslateInstruction_M3x4 (tx : shader_translator) :=
  NineTranslateInstruction_Mkxn tx 3 4

def NineTranslateInstruction_M3x3 (tx : shader_translator) :=
  NineTranslateInstruction_Mkxn tx 3 3

def NineTranslateInstruction_M3x2 (tx : shader_translator) :=
  NineTranslateInstruction_Mkxn tx 3 2

/-- Conversion of an `INT` to `unsigned`. -/
def to_u32 (i : Int) : Nat := (i % 2 ^ 32).toNat

/-- A control-flow instruction whose label pointer is `&tx->cond_labels[slot]`: the
emitter stores the label token through the pointer. -/
def tx_label_insn_cond (tx : shader_translator) (opcode : tgsi_opcode) (src : List ureg_src)
    (slot : Nat) : Except Fault shader_translator := do
  let (tok, tx) := tx_emit_get tx (fun u => ureg_label_insn u opcode src)
  let labels ← arr_set tx.cond_labels slot tok
  pure { tx with cond_labels := labels }

/-- A control-flow instruction whose label pointer is `&tx->loop_labels[slot]`. -/
def tx_label_insn_loop (tx : shader_translator) (opcode : tgsi_opcode) (src : List ureg_src)
    (slot : Nat) : Except Fault shader_translator := do
  let (tok, tx) := tx_emit_get tx (fun u => ureg_label_insn u opcode src)
  let labels ← arr_set tx.loop_labels slot tok
  pure { tx with loop_labels := labels }

/-- The call `ureg_CAL(ureg, &tx->inst_labels[idx])`. -/
def tx_label_insn_inst (tx : shader_translator) (opcode : tgsi_opcode) (src : List ureg_src)
    (idx : Int) : Except Fault shader_translator := do
  let (tok, tx) := tx_emit_get tx (fun u => ureg_label_insn u opcode src)
  let labels ← arr_set tx.inst_labels idx tok
  pure { tx with inst_labels := labels }

def NineTranslateInstruction_CALL (tx : shader_translator) :
    Except Fault (HRESULT × shader_translator) := do
  tx_assert tx (decide (to_u32 tx.insn.src0.idx < tx.num_inst_labels))
  let tx ← tx_label_insn_inst tx .CAL [] tx.insn.src0.idx
  pure (.D3DERR_INVALIDCALL, tx)

def NineTranslateInstruction_CALLNZ (tx : shader_translator) :
    Except Fault (HRESULT × shader_translator) := do
  let (tmp, tx) ← tx_scratch_scalar tx
  let (src, tx) ← tx_src_param tx tx.insn.src1
  let tx :=
    if tx.insn.flags = 0 then
      if tx.native_integers then tx_insn tx .NOT [tmp] [src]
      else
        let (one, tx) := tx_imm1f tx F32_1_0
        tx_insn tx .SUB [tmp] [one, src]
    else tx
  let cond ← if tx.insn.flags ≠ 0 then pure src else tx_src_scalar tmp
  let (slot, tx) ← tx_cond tx
  let tx ← tx_label_insn_cond tx .IF [cond] slot
  let tx ← tx_label_insn_inst tx .CAL [] tx.insn.src0.idx
  let tx ← tx_endcond tx
  pure (.D3D_OK, tx_insn tx .ENDIF [] [])

def NineTranslateInstruction_LOOP (tx : shader_translator) :
    Except Fault (HRESULT × shader_translator) := do
  let (src, tx) ← tx_src_param tx tx.insn.src1
  let iter := ureg_scalar src TGSI_SWIZZLE_X
  let init := ureg_scalar src TGSI_SWIZZLE_Y
  let step := ureg_scalar src TGSI_SWIZZLE_Z
  let (tmp, tx) ← tx_scratch_scalar tx
  let (label, tx) ← tx_bgnloop tx
  let (ctr, tx) ← tx_get_loopctr tx
  let tx := tx_insn tx .MOV [ctr] [init]
  let tx ← tx_label_insn_loop tx .BGNLOOP [] label
  let tx ←
    if tx.native_integers then do
      let tx := tx_insn tx .UMAD [tmp] [iter, step, init]
      let t ← tx_src_scalar tmp
      let tx := tx_insn tx .USGE [tmp] [ureg_src_of ctr, t]
      let c ← tx_src_scalar ctr
      let tx := tx_insn tx .UADD [ctr] [c, step]
      let t ← tx_src_scalar tmp
      let (slot, tx) ← tx_cond tx
      tx_label_insn_cond tx .UIF [t] slot
    else do
      let tx := tx_insn tx .MAD [tmp] [iter, step, init]
      let t ← tx_src_scalar tmp
      let tx := tx_insn tx .SGE [tmp] [ureg_src_of ctr, t]
      let c ← tx_src_scalar ctr
      let tx := tx_insn tx .ADD [ctr] [c, step]
      let t ← tx_src_scalar tmp
      let (slot, tx) ← tx_cond tx
      tx_label_insn_cond tx .IF [t] slot
  let tx := tx_insn tx .BRK [] []
  let tx ← tx_endcond tx
  pure (.D3D_OK, tx_insn tx .ENDIF [] [])

def NineTranslateInstruction_RET (tx : shader_translator) :
    Except Fault (HRESULT × shader_translator) :=
  pure (.D3D_OK, tx_insn tx .RET [] [])

def NineTranslateInstruction_ENDLOOP (tx : shader_translator) :
    Except Fault (HRESULT × shader_translator) := do
  let (label, tx) ← tx_endloop tx
  let tx ← tx_label_insn_loop tx .ENDLOOP [] label
  pure (.D3D_OK, tx)

/-- The C function `NineTranslateInstruction_LABEL`.  The block is reallocated to `n`
elements (not `n + 1`) and `num_inst_labels` is left as it is. -/
def NineTranslateInstruction_LABEL (tx : shader_translator) :
    Except Fault (HRESULT × shader_translator) := do
  let k := tx.num_inst_labels
  let n := to_u32 tx.insn.src0.idx
  tx_assert tx (decide (n < 2048))
  let tx :=
    if n ≥ k then { tx with inst_labels := realloc_block tx.inst_labels n 0 } else tx
  let labels ← arr_set tx.inst_labels n (ureg_get_instruction_number tx.ureg)
  pure (.D3D_OK, { tx with inst_labels := labels })

def NineTranslateInstruction_SINCOS (tx : shader_translator) :
    Except Fault (HRESULT × shader_translator) := do
  let (dst, tx) ← tx_dst_param tx tx.insn.dst0
  let (src, tx) ← tx_src_param tx tx.insn.src0
  if tx.version_major = 1 then
    pure (.D3DERR_INVALIDCALL, tx)
  else
    tx_assert tx (decide (dst.WriteMask &&& 0xc = 0))
    let dst := { dst with WriteMask := dst.WriteMask &&& TGSI_WRITEMASK_XY }
    pure (.D3D_OK, tx_insn tx .SCS [dst] [src])

def NineTranslateInstruction_REP (tx : shader_translator) :
    Except Fault (HRESULT × shader_translator) := do
  let (rep, tx) ← tx_src_param tx tx.insn.src0
  let (tmp, tx) ← tx_scratch_scalar tx
  let (imm, tx) :=
    if tx.native_integers then tx_emit_get tx (fun u => ureg_imm1u u 0)
    else tx_imm1f tx F32_0_0
  let (label, tx) ← tx_bgnloop tx
  let (ctr, tx) ← tx_get_loopctr tx
  tx_assert tx (decide (rep.File = .CONSTANT))
  let tx := tx_insn tx .MOV [ctr] [imm]
  let tx ← tx_label_insn_loop tx .BGNLOOP [] label
  let tx ←
    if tx.native_integers then do
      let c ← tx_src_scalar ctr
      let tx := tx_insn tx .USGE [tmp] [c, rep]
      let c ← tx_src_scalar ctr
      let (one, tx) := tx_emit_get tx (fun u => ureg_imm1u u 1)
      pure (f := Except Fault) (tx_insn tx .UADD [ctr] [c, one])
    else do
      let c ← tx_src_scalar ctr
      let tx := tx_insn tx .SGE [tmp] [c, rep]
      let c ← tx_src_scalar ctr
      let (one, tx) := tx_imm1f tx F32_1_0
      pure (tx_insn tx .ADD [ctr] [c, one])
  pure (.D3D_OK, tx_insn tx .BREAKC [] [ureg_src_of tmp])

def NineTranslateInstruction_ENDREP (tx : shader_translator) :
    Except Fault (HRESULT × shader_translator) := do
  let (label, tx) ← tx_endloop tx
  let tx ← tx_label_insn_loop tx .ENDLOOP [] label
  pure (.D3D_OK, tx)

def NineTranslateInstruction_ENDIF (tx : shader_translator) :
    Except Fault (HRESULT × shader_translator) := do
  let tx ← tx_endcond tx
  pure (.D3D_OK, tx_insn tx .ENDIF [] [])

def NineTranslateInstruction_IF (tx : shader_translator) :
    Except Fault (HRESULT × shader_translator) := do
  let (src, tx) ← tx_src_param tx tx.insn.src0
  let (slot, tx) ← tx_cond tx
  let tx ← tx_label_insn_cond tx .IF [src] slot
  pure (.D3D_OK, tx)

/-- The C function `sm1_insn_flags_to_tgsi_setop`; the `default` branch asserts and
yields `TGSI_OPCODE_SFL`. -/
def sm1_insn_flags_to_tgsi_setop (tx : shader_translator) (flags : Nat) :
    Except Fault tgsi_opcode := do
  if flags = NINED3DSHADER_REL_OP_GT then pure .SGT
  else if flags = NINED3DSHADER_REL_OP_EQ then pure .SEQ
  else if flags = NINED3DSHADER_REL_OP_GE then pure .SGE
  else if flags = NINED3DSHADER_REL_OP_LT then pure .SLT
  else if flags = NINED3DSHADER_REL_OP_NE then pure .SNE
  else if flags = NINED3DSHADER_REL_OP_LE then pure .SLE
  else
    tx_assert tx false
    pure .SFL

def NineTranslateInstruction_IFC (tx : shader_translator) :
    Except Fault (HRESULT × shader_translator) := do
  let cmp_op ← sm1_insn_flags_to_tgsi_setop tx tx.insn.flags
  let (t, tx) ← tx_scratch tx
  let tmp := ureg_writemask t TGSI_WRITEMASK_X
  let (src0, tx) ← tx_src_param tx tx.insn.src0
  let (src1, tx) ← tx_src_param tx tx.insn.src1
  let tx := tx_insn tx cmp_op [tmp] [src0, src1]
  let (slot, tx) ← tx_cond tx
  let tx ← tx_label_insn_cond tx .IF [ureg_scalar (ureg_src_of tmp) TGSI_SWIZZLE_X] slot
  pure (.D3D_OK, tx)

def NineTranslateInstruction_ELSE (tx : shader_translator) :
    Except Fault (HRESULT × shader_translator) := do
  let (slot, tx) ← tx_elsecond tx
  let tx ← tx_label_insn_cond tx .ELSE [] slot
  pure (.D3D_OK, tx)

def NineTranslateInstruction_BREAKC (tx : shader_translator) :
    Except Fault (HRESULT × shader_translator) := do
  let cmp_op ← sm1_insn_flags_to_tgsi_setop tx tx.insn.flags
  let (t, tx) ← tx_scratch tx
  let tmp := ureg_writemask t TGSI_WRITEMASK_X
  let (src0, tx) ← tx_src_param tx tx.insn.src0
  let (src1, tx) ← tx_src_param tx tx.insn.src1
  let tx := tx_insn tx cmp_op [tmp] [src0, src1]
  pure (.D3D_OK, tx_insn tx .BREAKC [] [ureg_scalar (ureg_src_of tmp) TGSI_SWIZZLE_X])

/-- The value `nine_d3d9_to_nine_declusage(usage, usage_idx)` (nine_shader.h), kept as its
two arguments because the function is not part of the sources. -/
def sm1_to_nine_declusage (dcl : sm1_semantic) : Nat × Nat :=
  (dcl.usage, dcl.usage_idx)

structure tgsi_declaration_semantic where
  Name : tgsi_semantic
  Index : Nat
deriving DecidableEq, Repr

def sm1_declusage_to_tgsi (tx : shader_translator) (tc : Bool) (dcl : sm1_semantic) :
    Except Fault tgsi_declaration_semantic := do
  let generic_base := if tc then 8 else 0
  let sem : tgsi_declaration_semantic := { Name := .GENERIC, Index := 0 }
  if dcl.usage = D3DDECLUSAGE_POSITION ∨ dcl.usage = D3DDECLUSAGE_POSITIONT
      ∨ dcl.usage = D3DDECLUSAGE_DEPTH then
    pure { sem with Name := .POSITION }
  else if dcl.usage = D3DDECLUSAGE_COLOR then
    pure { Name := .COLOR, Index := dcl.usage_idx }
  else if dcl.usage = D3DDECLUSAGE_FOG then
    pure { sem with Name := .FOG }
  else if dcl.usage = D3DDECLUSAGE_PSIZE then
    pure { sem with Name := .PSIZE }
  else if dcl.usage = D3DDECLUSAGE_TEXCOORD then
    let sem := if tc ∧ dcl.usage_idx < 8 then { sem with Name := .TEXCOORD } else sem
    pure { sem with Index := if !tc ∨ dcl.usage_idx < 8 then dcl.usage_idx
                             else dcl.usage_idx - 8 }
  else if dcl.usage = D3DDECLUSAGE_BLENDWEIGHT then
    pure { sem with Index := generic_base + 2 }
  else if dcl.usage = D3DDECLUSAGE_BLENDINDICES then
    pure { sem with Index := generic_base + 3 }
  else if dcl.usage = D3DDECLUSAGE_NORMAL then
    pure { sem with Index := generic_base + 4 }
  else if dcl.usage = D3DDECLUSAGE_TANGENT then
    pure { sem with Index := generic_base + 5 }
  else if dcl.usage = D3DDECLUSAGE_BINORMAL then
    pure { sem with Index := generic_base + 6 }
  else if dcl.usage = D3DDECLUSAGE_TESSFACTOR then
    pure { sem with Index := generic_base + 7 }
  else if dcl.usage = D3DDECLUSAGE_SAMPLE then
    pure { sem with Name := .COUNT }
  else
    tx_assert tx false
    pure sem

def d3dstt_to_tgsi_tex (tx : shader_translator) (sampler_type : Nat) :
    Except Fault tgsi_texture := do
  if sampler_type = NINED3DSTT_1D then pure .T1D
  else if sampler_type = NINED3DSTT_2D then pure .T2D
  else if sampler_type = NINED3DSTT_VOLUME then pure .T3D
  else if sampler_type = NINED3DSTT_CUBE then pure .CUBE
  else
    tx_assert tx false
    pure .UNKNOWN

def nine_tgsi_to_interp_mode (tx : shader_translator) (sem : tgsi_declaration_semantic) :
    Except Fault tgsi_interpolate := do
  match sem.Name with
  | .POSITION | .NORMAL => pure .LINEAR
  | .BCOLOR | .COLOR | .FOG | .GENERIC | .TEXCOORD | .CLIPDIST | .CLIPVERTEX =>
    pure .PERSPECTIVE
  | .EDGEFLAG | .FACE | .INSTANCEID | .PCOORD | .PRIMID | .PSIZE | .VERTEXID =>
    pure .CONSTANT
  | .COUNT =>
    tx_assert tx false
    pure .CONSTANT

/-! ## Token reader -/

/-- The C function `TOKEN_PEEK`; reading outside the token stream is undefined. -/
def TOKEN_PEEK (tx : shader_translator) : Except Fault Nat :=
  match tx.byte_code[tx.parse]? with
  | some tok => .ok tok
  | none => .error .undefined

def TOKEN_NEXT (tx : shader_translator) : Except Fault (Nat × shader_translator) := do
  let tok ← TOKEN_PEEK tx
  pure (tok, { tx with parse := tx.parse + 1 })

def TOKEN_JUMP (tx : shader_translator) : shader_translator :=
  match tx.parse_next with
  | some next => if tx.parse ≠ next then { tx with parse := next } else tx
  | none => tx

def sm1_parse_eof (tx : shader_translator) : Except Fault Bool := do
  let tok ← TOKEN_PEEK tx
  pure (tok == NINED3DSP_END)

def sm1_read_version (tx : shader_translator) : Except Fault shader_translator := do
  let (tok, tx) ← TOKEN_NEXT tx
  let tx := { tx with version_major := D3DSHADER_VERSION_MAJOR tok,
                      version_minor := D3DSHADER_VERSION_MINOR tok }
  if tok >>> 16 = NINED3D_SM1_VS then pure { tx with processor := .VERTEX }
  else if tok >>> 16 = NINED3D_SM1_PS then pure { tx with processor := .FRAGMENT }
  else pure { tx with processor := .INVALID }

def sm1_parse_get_skip (tx : shader_translator) : Except Fault shader_translator := do
  let tok ← TOKEN_PEEK tx
  if tx.version_major ≥ 2 then
    let next := tx.parse + 1 + ((tok &&& D3DSI_INSTLENGTH_MASK) >>> D3DSI_INSTLENGTH_SHIFT)
    pure { tx with parse_next := some next }
  else
    pure { tx with parse_next := none }

/-- The `while` loop of `sm1_parse_comments`, for at most `fuel` comment tokens. -/
def sm1_parse_comments_loop : Nat → shader_translator → Except Fault shader_translator
  | 0, _ => .error .fuel
  | fuel + 1, tx => do
    let tok ← TOKEN_PEEK tx
    if tok &&& D3DSI_OPCODE_MASK = D3DSIO_COMMENT then
      let size := (tok &&& D3DSI_COMMENTSIZE_MASK) >>> D3DSI_COMMENTSIZE_SHIFT
      sm1_parse_comments_loop fuel { tx with parse := tx.parse + (size + 1) }
    else pure tx

/-- The C function `sm1_parse_comments`.  Every comment token moves the cursor forward
and a read behind the stream is a fault, so the loop runs at most once per word that is
left, plus the final test. -/
def sm1_parse_comments (tx : shader_translator) : Except Fault shader_translator :=
  sm1_parse_comments_loop (tx.byte_code.length - tx.parse + 1) tx

/-- The C function `sm1_parse_get_param`: the parameter word and, when its relative bit
is set, the word of the sub-parameter (synthesised below version 2). -/
def sm1_parse_get_param (tx : shader_translator) :
    Except Fault ((Nat × Option Nat) × shader_translator) := do
  let (reg, tx) ← TOKEN_NEXT tx
  if reg &&& D3DSHADER_ADDRMODE_RELATIVE ≠ 0 then
    if tx.version_major < 2 then
      let rel := ((1 <<< 31) |||
        ((D3DSPR_ADDR <<< D3DSP_REGTYPE_SHIFT2) &&& D3DSP_REGTYPE_MASK2) |||
        ((D3DSPR_ADDR <<< D3DSP_REGTYPE_SHIFT) &&& D3DSP_REGTYPE_MASK) |||
        (D3DSP_NOSWIZZLE <<< D3DSP_SWIZZLE_SHIFT)) % 2 ^ 32
      pure ((reg, some rel), tx)
    else
      let (rel, tx) ← TOKEN_NEXT tx
      pure ((reg, some rel), tx)
  else pure ((reg, none), tx)

/-- The constant `PIPE_TYPE_FLOAT` (p_defines.h); the translator never reads it back. -/
def PIPE_TYPE_FLOAT : Nat := 4

def sm1_parse_dst_param (tok : Nat) : sm1_dst_param :=
  { file := ((tok &&& D3DSP_REGTYPE_MASK) >>> D3DSP_REGTYPE_SHIFT) |||
            ((tok &&& D3DSP_REGTYPE_MASK2) >>> D3DSP_REGTYPE_SHIFT2),
    type := PIPE_TYPE_FLOAT,
    idx := (tok &&& D3DSP_REGNUM_MASK : Nat),
    rel := none,
    mask := (tok &&& NINED3DSP_WRITEMASK_MASK) >>> NINED3DSP_WRITEMASK_SHIFT,
    mod := (tok &&& D3DSP_DSTMOD_MASK) >>> D3DSP_DSTMOD_SHIFT,
    shift := (tok &&& D3DSP_DSTSHIFT_MASK) >>> D3DSP_DSTSHIFT_SHIFT }

/-- The C function `sm1_parse_src_param`; `old` is the previous content of the parameter,
whose union `imm` is left as it was. -/
def sm1_parse_src_param (old : sm1_src_param) (tok : Nat) : sm1_src_param :=
  let src : sm1_src_param :=
    { file := ((tok &&& D3DSP_REGTYPE_MASK) >>> D3DSP_REGTYPE_SHIFT) |||
              ((tok &&& D3DSP_REGTYPE_MASK2) >>> D3DSP_REGTYPE_SHIFT2),
      type := PIPE_TYPE_FLOAT,
      idx := (tok &&& D3DSP_REGNUM_MASK : Nat),
      rel := none,
      swizzle := (tok &&& D3DSP_SWIZZLE_MASK) >>> D3DSP_SWIZZLE_SHIFT,
      mod := (tok &&& D3DSP_SRCMOD_MASK) >>> D3DSP_SRCMOD_SHIFT,
      imm := old.imm }
  if src.file = D3DSPR_CONST2 then { src with file := D3DSPR_CONST, idx := src.idx + 2048 }
  else if src.file = D3DSPR_CONST3 then { src with file := D3DSPR_CONST, idx := src.idx + 4096 }
  else if src.file = D3DSPR_CONST4 then { src with file := D3DSPR_CONST, idx := src.idx + 6144 }
  else src

def INT_MIN : Int := -2147483648

/-- The C function `sm1_parse_immediate`, applied to `tx->insn.src[0]`. -/
def sm1_parse_immediate (tx : shader_translator) : Except Fault shader_translator := do
  let imm : sm1_src_param :=
    { tx.insn.src0 with file := NINED3DSPR_IMMEDIATE, idx := INT_MIN, rel := none,
                        swizzle := NINED3DSP_NOSWIZZLE, mod := 0 }
  let word (k : Nat) : Except Fault Nat := arr_get tx.byte_code (tx.parse + k : Nat)
  if tx.insn.opcode = D3DSIO_DEF ∨ tx.insn.opcode = D3DSIO_DEFI then
    let d0 ← word 0
    let d1 ← word 1
    let d2 ← word 2
    let d3 ← word 3
    let imm := { imm with
      type := if tx.insn.opcode = D3DSIO_DEF then NINED3DSPTYPE_FLOAT4 else NINED3DSPTYPE_INT4,
      imm := [d0, d1, d2, d3] }
    pure { tx with insn := { tx.insn with src0 := imm }, parse := tx.parse + 4 }
  else if tx.insn.opcode = D3DSIO_DEFB then
    let d0 ← word 0
    let imm := { imm with type := NINED3DSPTYPE_BOOL, imm := d0 :: imm.imm.drop 1 }
    pure { tx with insn := { tx.insn with src0 := imm }, parse := tx.parse + 1 }
  else
    tx_assert tx false
    pure { tx with insn := { tx.insn with src0 := imm } }

/-- The C function `sm1_read_dst_param`; the result is the parameter to be stored. -/
def sm1_read_dst_param (tx : shader_translator) :
    Except Fault (sm1_dst_param × shader_translator) := do
  let ((tok_dst, tok_rel), tx) ← sm1_parse_get_param tx
  let dst := sm1_parse_dst_param tok_dst
  match tok_rel with
  | some tok_rel =>
    pure ({ dst with rel := some (sm1_parse_src_param sm1_src_param.zero tok_rel) }, tx)
  | none => pure (dst, tx)

/-- The C function `sm1_read_src_param` for the parameter whose previous content is `old`;
`has_rel` tells whether the pointer `rel` passed by the caller is non-NULL. -/
def sm1_read_src_param (tx : shader_translator) (old : sm1_src_param) (has_rel : Bool) :
    Except Fault (sm1_src_param × shader_translator) := do
  let ((tok_src, tok_rel), tx) ← sm1_parse_get_param tx
  let src := sm1_parse_src_param old tok_src
  match tok_rel with
  | some tok_rel =>
    tx_assert tx has_rel
    if !has_rel then throw .undefined
    pure ({ src with rel := some (sm1_parse_src_param sm1_src_param.zero tok_rel) }, tx)
  | none => pure (src, tx)

def sm1_read_semantic (tx : shader_translator) :
    Except Fault (sm1_semantic × shader_translator) := do
  let (tok_usg, tx) ← TOKEN_NEXT tx
  let (tok_dst, tx) ← TOKEN_NEXT tx
  pure ({ sampler_type := (tok_usg &&& D3DSP_TEXTURETYPE_MASK) >>> D3DSP_TEXTURETYPE_SHIFT,
          usage := (tok_usg &&& D3DSP_DCL_USAGE_MASK) >>> D3DSP_DCL_USAGE_SHIFT,
          usage_idx := (tok_usg &&& D3DSP_DCL_USAGEINDEX_MASK) >>> D3DSP_DCL_USAGEINDEX_SHIFT,
          reg := sm1_parse_dst_param tok_dst }, tx)

/-! ## Dumper

The dump functions print through `DUMP` and change nothing, but they index the name
tables `sm1_mod_str` (14 entries), `sm1_file_char` (20 entries) and
`sm1_declusage_names` (14 entries) with decoded fields and they assert; only that is
modelled. -/

def sm1_dump_reg (file : Nat) : Except Fault Unit :=
  if file = D3DSPR_LOOP ∨ file = D3DSPR_COLOROUT ∨ file = D3DSPR_DEPTHOUT
      ∨ file = D3DSPR_RASTOUT ∨ file = D3DSPR_CONSTINT ∨ file = D3DSPR_CONSTBOOL then .ok ()
  else if file < 20 then .ok ()
  else .error .undefined

def sm1_dump_immediate (tx : shader_translator) (param : sm1_src_param) : Except Fault Unit :=
  if param.type = NINED3DSPTYPE_FLOAT4 ∨ param.type = NINED3DSPTYPE_INT4
      ∨ param.type = NINED3DSPTYPE_BOOL then .ok ()
  else tx_assert tx false

def sm1_dump_src_param (tx : shader_translator) : sm1_src_param → Except Fault Unit
  | ⟨idx, rel, file, swizzle, mod, type, imm⟩ => do
    if file = NINED3DSPR_IMMEDIATE then
      tx_assert tx (decide (mod = 0 ∧ rel.isNone ∧ swizzle = NINED3DSP_NOSWIZZLE))
      sm1_dump_immediate tx ⟨idx, rel, file, swizzle, mod, type, imm⟩
    else
      if mod ≠ 0 ∧ ¬ mod < 14 then throw .undefined
      match rel with
      | some r =>
        if ¬ file < 20 then throw .undefined
        sm1_dump_src_param tx r
      | none => sm1_dump_reg file

def sm1_dump_dst_param (tx : shader_translator) (param : sm1_dst_param) :
    Except Fault Unit := do
  match param.rel with
  | some r =>
    if ¬ param.file < 20 then throw .undefined
    sm1_dump_src_param tx r
  | none => sm1_dump_reg param.file

/-! ## Special handlers, continued -/

def NineTranslateInstruction_DCL (tx : shader_translator) :
    Except Fault (HRESULT × shader_translator) := do
  let (sem, tx) ← sm1_read_semantic tx
  let is_input := sem.reg.file = D3DSPR_INPUT
  let is_sampler := sem.usage = D3DDECLUSAGE_SAMPLE
  sm1_dump_dst_param tx sem.reg
  if sem.usage ≥ 14 then throw .undefined
  if is_sampler then
    let tx := tx_emit tx (fun u => ureg_DECL_sampler u sem.reg.idx)
    let target ← d3dstt_to_tgsi_tex tx sem.sampler_type
    let targets ← arr_set tx.sampler_targets sem.reg.idx target
    pure (.D3D_OK, { tx with sampler_targets := targets })
  else
    let tgsi ← sm1_declusage_to_tgsi tx tx.want_texcoord sem
    if IS_VS tx then
      if is_input then
        let tx := tx_emit tx (fun u => ureg_DECL_vs_input u sem.reg.idx)
        let input_map ← arr_set tx.input_map sem.reg.idx (sm1_to_nine_declusage sem)
        pure (.D3D_OK, { tx with input_map := input_map })
      else
        tx_assert tx (decide (sem.reg.mask ≠ 0))
        let (_, tx) := tx_emit_get tx (fun u =>
          ureg_DECL_output_masked u tgsi.Name tgsi.Index sem.reg.mask)
        pure (.D3D_OK, tx)
    else
      if is_input then
        let interp ← nine_tgsi_to_interp_mode tx tgsi
        let (_, tx) := tx_emit_get tx (fun u =>
          ureg_DECL_fs_input_cyl_centroid u tgsi.Name tgsi.Index interp 0
            (sem.reg.mod = NINED3DSPDM_CENTROID))
        pure (.D3D_OK, tx)
      else
        tx_assert tx (decide (sem.reg.mask ≠ 0))
        let (_, tx) := tx_emit_get tx (fun u =>
          ureg_DECL_output_masked u tgsi.Name tgsi.Index sem.reg.mask)
        pure (.D3D_OK, tx)

def NineTranslateInstruction_DEF (tx : shader_translator) :
    Except Fault (HRESULT × shader_translator) := do
  let tx ← tx_set_lconstf tx tx.insn.dst0.idx tx.insn.src0.imm
  pure (.D3D_OK, tx)

def NineTranslateInstruction_DEFB (tx : shader_translator) :
    Except Fault (HRESULT × shader_translator) := do
  let tx ← tx_set_lconstb tx tx.insn.dst0.idx (tx.insn.src0.imm.getD 0 0)
  pure (.D3D_OK, tx)

def NineTranslateInstruction_DEFI (tx : shader_translator) :
    Except Fault (HRESULT × shader_translator) := do
  let tx ← tx_set_lconsti tx tx.insn.dst0.idx tx.insn.src0.imm
  pure (.D3D_OK, tx)

def NineTranslateInstruction_NRM (tx : shader_translator) :
    Except Fault (HRESULT × shader_translator) := do
  let (tmp, tx) ← tx_scratch_scalar tx
  let nrm ← tx_src_scalar tmp
  let (src, tx) ← tx_src_param tx tx.insn.src0
  let tx := tx_insn tx .DP3 [tmp] [src, src]
  let tx := tx_insn tx .RSQ [tmp] [nrm]
  let (dst, tx) ← tx_dst_param tx tx.insn.dst0
  pure (.D3D_OK, tx_insn tx .MUL [dst] [src, nrm])

def NineTranslateInstruction_TEXCOORD (tx : shader_translator) :
    Except Fault (HRESULT × shader_translator) :=
  if tx.version_major > 1 ∨ tx.version_minor > 3 then pure (.D3DERR_INVALIDCALL, tx)
  else pure (.D3DERR_INVALIDCALL, tx)

def NineTranslateInstruction_TEXKILL (tx : shader_translator) :
    Except Fault (HRESULT × shader_translator) := do
  if tx.version_major > 1 ∨ tx.version_minor > 3 then
    let (dst, tx) ← tx_dst_param tx tx.insn.dst0
    let reg := ureg_src_of dst
    pure (.D3D_OK, tx_insn tx .KIL []
      [ureg_swizzle reg TGSI_SWIZZLE_X TGSI_SWIZZLE_Y TGSI_SWIZZLE_Z TGSI_SWIZZLE_Z])
  else pure (.D3DERR_INVALIDCALL, tx)

/-- The handlers that only return `D3DERR_INVALIDCALL` (TEXBEM, TEXBEML, TEXREG2AR,
TEXREG2GB, TEXM3x2PAD, TEXM3x2TEX, TEXM3x3PAD, TEXM3x3TEX, TEXM3x3SPEC, TEXM3x3VSPEC,
TEXREG2RGB, TEXDP3TEX, TEXM3x2DEPTH, TEXDP3, TEXM3x3, TEXDEPTH, BEM, SETP, BREAKP). -/
def NineTranslateInstruction_unimplemented (tx : shader_translator) :
    Except Fault (HRESULT × shader_translator) :=
  pure (.D3DERR_INVALIDCALL, tx)

def NineTranslateInstruction_TEX (tx : shader_translator) :
    Except Fault (HRESULT × shader_translator) := do
  let (dst, tx) ← tx_dst_param tx tx.insn.dst0
  let (src0, tx) ← tx_src_param tx tx.insn.src0
  let (src1, tx) ← tx_src_param tx tx.insn.src1
  tx_assert tx (decide (0 ≤ tx.insn.src1.idx ∧ tx.insn.src1.idx < tx.sampler_targets.length))
  let target ← arr_get tx.sampler_targets tx.insn.src1.idx
  if tx.insn.flags = 0 then
    pure (.D3D_OK, tx_emit tx (fun u => ureg_tex_insn u .TEX dst target [src0, src1]))
  else if tx.insn.flags = NINED3DSI_TEXLD_PROJECT then
    pure (.D3D_OK, tx_emit tx (fun u => ureg_tex_insn u .TXP dst target [src0, src1]))
  else if tx.insn.flags = NINED3DSI_TEXLD_BIAS then
    pure (.D3D_OK, tx_emit tx (fun u => ureg_tex_insn u .TXB dst target [src0, src1]))
  else
    tx_assert tx false
    pure (.D3DERR_INVALIDCALL, tx)

def NineTranslateInstruction_TEXLDD (tx : shader_translator) :
    Except Fault (HRESULT × shader_translator) := do
  let (dst, tx) ← tx_dst_param tx tx.insn.dst0
  let (src0, tx) ← tx_src_param tx tx.insn.src0
  let (src1, tx) ← tx_src_param tx tx.insn.src1
  let (src2, tx) ← tx_src_param tx tx.insn.src2
  let (src3, tx) ← tx_src_param tx tx.insn.src3
  tx_assert tx (decide (0 ≤ tx.insn.src3.idx ∧ tx.insn.src3.idx < tx.sampler_targets.length))
  let target ← arr_get tx.sampler_targets tx.insn.src1.idx
  pure (.D3D_OK, tx_emit tx (fun u => ureg_tex_insn u .TXD dst target [src0, src1, src2, src3]))

def NineTranslateInstruction_TEXLDL (tx : shader_translator) :
    Except Fault (HRESULT × shader_translator) := do
  let (dst, tx) ← tx_dst_param tx tx.insn.dst0
  let (src0, tx) ← tx_src_param tx tx.insn.src0
  let (src1, tx) ← tx_src_param tx tx.insn.src1
  tx_assert tx (decide (0 ≤ tx.insn.src3.idx ∧ tx.insn.src3.idx < tx.sampler_targets.length))
  let target ← arr_get tx.sampler_targets tx.insn.src1.idx
  pure (.D3D_OK, tx_emit tx (fun u => ureg_tex_insn u .TXL dst target [src0, src1]))

def NineTranslateInstruction_PHASE (tx : shader_translator) :
    Except Fault (HRESULT × shader_translator) :=
  pure (.D3D_OK, tx)

def NineTranslateInstruction_COMMENT (tx : shader_translator) :
    Except Fault (HRESULT × shader_translator) :=
  pure (.D3D_OK, tx)

/-! ## Instruction table -/

def VNOTSUPPORTED : version_range := ⟨0, 0⟩
def V03 : version_range := ⟨V 0 0, V 3 0⟩

/-- A row of `inst_table` without special handler. -/
def op_generic (opcode : tgsi_opcode) (vert frag : version_range) (ndst nsrc : Nat) :
    sm1_op_info :=
  ⟨opcode, vert, frag, ndst, nsrc, none⟩

/-- A row of `inst_table` with a special handler. -/
def op_special (opcode : tgsi_opcode) (vert frag : version_range) (ndst nsrc : Nat)
    (h : handler_id) : sm1_op_info :=
  ⟨opcode, vert, frag, ndst, nsrc, some h⟩

def NULL_INSTRUCTION : sm1_op_info := ⟨.ZERO, ⟨0, 0⟩, ⟨0, 0⟩, 0, 0, none⟩

def IS_VALID_INSTRUCTION (inst : sm1_op_info) : Bool :=
  (inst.vert_version.min ||| inst.vert_version.max |||
   inst.frag_version.min ||| inst.frag_version.max) ≠ 0

def inst_table : List sm1_op_info :=
  [ op_generic .NOP V03 V03 0 0,
    op_generic .MOV V03 V03 1 1,
    op_generic .ADD V03 V03 1 2,
    op_generic .SUB V03 V03 1 2,
    op_generic .MAD V03 V03 1 3,
    op_generic .MUL V03 V03 1 2,
    op_generic .RCP V03 V03 1 1,
    op_generic .RSQ V03 V03 1 1,
    op_generic .DP3 V03 V03 1 2,
    op_generic .DP4 V03 V03 1 2,
    op_generic .MIN V03 V03 1 2,
    op_generic .MAX V03 V03 1 2,
    op_generic .SLT V03 V03 1 2,
    op_generic .SGE V03 V03 1 2,
    op_generic .EX2 V03 V03 1 1,
    op_generic .LG2 V03 V03 1 1,
    op_generic .LIT V03 VNOTSUPPORTED 1 1,
    op_generic .DST V03 V03 1 2,
    op_generic .LRP V03 V03 1 3,
    op_generic .FRC V03 V03 1 1,
    -- Matrix multiplication
    op_special .ZERO V03 V03 1 2 .M4x4,
    op_special .ZERO V03 V03 1 2 .M4x3,
    op_special .ZERO V03 V03 1 2 .M3x4,
    op_special .ZERO V03 V03 1 2 .M3x3,
    op_special .ZERO V03 V03 1 2 .M3x2,
    -- Functions and loops
    op_special .ZERO ⟨V 2 0, V 3 0⟩ ⟨V 2 1, V 3 0⟩ 0 0 .CALL,
    op_special .ZERO ⟨V 2 0, V 3 0⟩ ⟨V 2 1, V 3 0⟩ 0 0 .CALLNZ,
    op_special .ZERO ⟨V 3 0, V 3 0⟩ ⟨V 3 0, V 3 0⟩ 0 2 .LOOP,
    op_special .ZERO ⟨V 2 0, V 3 0⟩ ⟨V 2 1, V 3 0⟩ 0 0 .RET,
    op_special .ZERO ⟨V 3 0, V 3 0⟩ ⟨V 3 0, V 3 0⟩ 0 0 .ENDLOOP,
    op_special .ZERO ⟨V 2 0, V 3 0⟩ ⟨V 2 1, V 3 0⟩ 0 0 .LABEL,
    -- Input/output declaration
    op_special .ZERO V03 V03 0 0 .DCL,
    op_generic .POW V03 V03 1 2,
    op_generic .XPD V03 V03 1 2,
    op_generic .SSG ⟨V 2 0, V 3 0⟩ VNOTSUPPORTED 0 0,
    op_generic .ABS V03 V03 1 1,
    op_special .ZERO V03 V03 1 1 .NRM,
    op_special .ZERO ⟨V 2 0, V 3 0⟩ ⟨V 2 0, V 3 0⟩ 1 1 .SINCOS,
    -- More flow control
    op_special .ZERO ⟨V 2 0, V 3 0⟩ ⟨V 2 1, V 3 0⟩ 0 1 .REP,
    op_special .ZERO ⟨V 2 0, V 3 0⟩ ⟨V 2 1, V 3 0⟩ 0 0 .ENDREP,
    op_special .ZERO ⟨V 2 0, V 3 0⟩ ⟨V 2 1, V 3 0⟩ 0 1 .IF,
    op_special .ZERO ⟨V 2 1, V 3 0⟩ ⟨V 2 1, V 3 0⟩ 0 2 .IFC,
    op_special .ZERO ⟨V 2 0, V 3 0⟩ ⟨V 2 1, V 3 0⟩ 0 0 .ELSE,
    op_special .ENDIF ⟨V 2 0, V 3 0⟩ ⟨V 2 1, V 3 0⟩ 0 0 .ENDIF,
    op_generic .BRK ⟨V 2 1, V 3 0⟩ ⟨V 2 1, V 3 0⟩ 0 0,
    op_special .ZERO ⟨V 2 1, V 3 0⟩ ⟨V 2 1, V 3 0⟩ 0 1 .BREAKC,
    -- Special integer MOV to ADDRESS file
    op_generic .ARL ⟨V 2 0, V 3 0⟩ VNOTSUPPORTED 0 0,
    -- Non-float immediates
    op_special .ZERO V03 V03 1 0 .DEFB,
    op_special .ZERO V03 V03 1 0 .DEFI,
    NULL_INSTRUCTION, NULL_INSTRUCTION, NULL_INSTRUCTION, NULL_INSTRUCTION, NULL_INSTRUCTION,
    NULL_INSTRUCTION, NULL_INSTRUCTION, NULL_INSTRUCTION, NULL_INSTRUCTION, NULL_INSTRUCTION,
    NULL_INSTRUCTION, NULL_INSTRUCTION, NULL_INSTRUCTION, NULL_INSTRUCTION, NULL_INSTRUCTION,
    -- Tex stuff
    op_special .ZERO VNOTSUPPORTED ⟨V 0 0, V 1 4⟩ 0 0 .TEXCOORD,
    op_special .ZERO VNOTSUPPORTED V03 1 0 .TEXKILL,
    op_special .ZERO VNOTSUPPORTED V03 1 2 .TEX,
    op_special .ZERO VNOTSUPPORTED ⟨V 0 0, V 1 3⟩ 0 0 .TEXBEM,
    op_special .ZERO VNOTSUPPORTED ⟨V 0 0, V 1 3⟩ 0 0 .TEXBEML,
    op_special .ZERO VNOTSUPPORTED ⟨V 0 0, V 1 3⟩ 0 0 .TEXREG2AR,
    op_special .ZERO VNOTSUPPORTED ⟨V 0 0, V 1 3⟩ 0 0 .TEXREG2GB,
    op_special .ZERO VNOTSUPPORTED ⟨V 0 0, V 1 3⟩ 0 0 .TEXM3x2PAD,
    op_special .ZERO VNOTSUPPORTED ⟨V 0 0, V 1 3⟩ 0 0 .TEXM3x2TEX,
    op_special .ZERO VNOTSUPPORTED ⟨V 0 0, V 1 3⟩ 0 0 .TEXM3x3PAD,
    op_special .ZERO VNOTSUPPORTED ⟨V 0 0, V 1 3⟩ 0 0 .TEXM3x3TEX,
    NULL_INSTRUCTION,
    op_special .ZERO VNOTSUPPORTED ⟨V 0 0, V 1 3⟩ 0 0 .TEXM3x3SPEC,
    op_special .ZERO VNOTSUPPORTED ⟨V 0 0, V 1 3⟩ 0 0 .TEXM3x3VSPEC,
    op_generic .EXP V03 V03 1 1,
    op_generic .LOG V03 V03 1 1,
    op_generic .CND VNOTSUPPORTED ⟨V 0 0, V 1 4⟩ 1 1,
    -- Float immediates
    op_special .ZERO V03 V03 1 0 .DEF,
    -- More tex stuff
    op_special .ZERO VNOTSUPPORTED ⟨V 1 2, V 1 3⟩ 0 0 .TEXREG2RGB,
    op_special .ZERO VNOTSUPPORTED ⟨V 1 2, V 1 3⟩ 0 0 .TEXDP3TEX,
    op_special .ZERO VNOTSUPPORTED ⟨V 1 3, V 1 3⟩ 0 0 .TEXM3x2DEPTH,
    op_special .ZERO VNOTSUPPORTED ⟨V 1 2, V 1 3⟩ 0 0 .TEXDP3,
    op_special .ZERO VNOTSUPPORTED ⟨V 1 2, V 1 3⟩ 0 0 .TEXM3x3,
    op_special .ZERO VNOTSUPPORTED ⟨V 1 4, V 1 4⟩ 0 0 .TEXDEPTH,
    -- Misc
    op_generic .CMP VNOTSUPPORTED ⟨V 1 2, V 3 0⟩ 1 3,
    op_special .ZERO VNOTSUPPORTED ⟨V 1 4, V 1 4⟩ 0 0 .BEM,
    op_generic .DP2A VNOTSUPPORTED ⟨V 2 0, V 3 0⟩ 1 3,
    op_generic .DDX VNOTSUPPORTED ⟨V 2 1, V 3 0⟩ 1 1,
    op_generic .DDY VNOTSUPPORTED ⟨V 2 1, V 3 0⟩ 1 1,
    op_special .ZERO VNOTSUPPORTED ⟨V 2 1, V 3 0⟩ 1 4 .TEXLDD,
    op_special .ZERO V03 ⟨V 2 1, V 3 0⟩ 0 0 .SETP,
    op_special .ZERO ⟨V 3 0, V 3 0⟩ ⟨V 3 0, V 3 0⟩ 1 2 .TEXLDL,
    op_special .ZERO V03 ⟨V 2 1, V 3 0⟩ 0 0 .BREAKP ]

def inst_phase : sm1_op_info :=
  op_special .ZERO VNOTSUPPORTED ⟨V 1 4, V 1 4⟩ 0 0 .PHASE

def inst_comment : sm1_op_info :=
  op_special .ZERO V03 V03 0 0 .COMMENT

/-- The loops of `NineTranslateInstruction_Generic` that lower `dst[i]` for
`i < ndst && i < Elements(dst)` and `src[i]` for `i < nsrc && i < Elements(src)`. -/
def generic_lower_dst (tx : shader_translator) :
    Except Fault (List ureg_dst × shader_translator) := do
  if 0 < tx.insn.ndst then
    let (d, tx) ← tx_dst_param tx tx.insn.dst0
    pure ([d], tx)
  else pure ([], tx)

def generic_lower_src (tx : shader_translator) :
    Nat → Nat → Except Fault (List ureg_src × shader_translator)
  | 0, _ => pure ([], tx)
  | todo + 1, i =>
    if i < tx.insn.nsrc then
      match tx.insn.src i with
      | some p => do
        let (s, tx1) ← tx_src_param tx p
        let (rest, tx2) ← generic_lower_src tx1 todo (i + 1)
        pure (s :: rest, tx2)
      | none => pure ([], tx)
    else pure ([], tx)

/-- The C function `NineTranslateInstruction_Generic`.  `ureg_insn` reads `ndst`
destinations and `nsrc` sources from the local arrays of 1 and 4 elements; more is a
read outside them. -/
def NineTranslateInstruction_Generic (tx : shader_translator) :
    Except Fault (HRESULT × shader_translator) := do
  let (dst, tx) ← generic_lower_dst tx
  let (src, tx) ← generic_lower_src tx 4 0
  match tx.insn.info with
  | none => throw .undefined
  | some info =>
    if tx.insn.ndst > 1 ∨ tx.insn.nsrc > 4 then throw .undefined
    pure (.D3D_OK, tx_insn tx info.opcode dst src)

/-- The call `info->handler(tx)` through the function pointer. -/
def run_handler (tx : shader_translator) :
    handler_id → Except Fault (HRESULT × shader_translator)
  | .M4x4 => NineTranslateInstruction_M4x4 tx
  | .M4x3 => NineTranslateInstruction_M4x3 tx
  | .M3x4 => NineTranslateInstruction_M3x4 tx
  | .M3x3 => NineTranslateInstruction_M3x3 tx
  | .M3x2 => NineTranslateInstruction_M3x2 tx
  | .CALL => NineTranslateInstruction_CALL tx
  | .CALLNZ => NineTranslateInstruction_CALLNZ tx
  | .LOOP => NineTranslateInstruction_LOOP tx
  | .RET => NineTranslateInstruction_RET tx
  | .ENDLOOP => NineTranslateInstruction_ENDLOOP tx
  | .LABEL => NineTranslateInstruction_LABEL tx
  | .DCL => NineTranslateInstruction_DCL tx
  | .NRM => NineTranslateInstruction_NRM tx
  | .SINCOS => NineTranslateInstruction_SINCOS tx
  | .REP => NineTranslateInstruction_REP tx
  | .ENDREP => NineTranslateInstruction_ENDREP tx
  | .IF => NineTranslateInstruction_IF tx
  | .IFC => NineTranslateInstruction_IFC tx
  | .ELSE => NineTranslateInstruction_ELSE tx
  | .ENDIF => NineTranslateInstruction_ENDIF tx
  | .BREAKC => NineTranslateInstruction_BREAKC tx
  | .DEFB => NineTranslateInstruction_DEFB tx
  | .DEFI => NineTranslateInstruction_DEFI tx
  | .DEF => NineTranslateInstruction_DEF tx
  | .TEXCOORD => NineTranslateInstruction_TEXCOORD tx
  | .TEXKILL => NineTranslateInstruction_TEXKILL tx
  | .TEX => NineTranslateInstruction_TEX tx
  | .TEXLDD => NineTranslateInstruction_TEXLDD tx
  | .TEXLDL => NineTranslateInstruction_TEXLDL tx
  | .PHASE => NineTranslateInstruction_PHASE tx
  | .COMMENT => NineTranslateInstruction_COMMENT tx
  | .TEXBEM | .TEXBEML | .TEXREG2AR | .TEXREG2GB | .TEXM3x2PAD | .TEXM3x2TEX
  | .TEXM3x3PAD | .TEXM3x3TEX | .TEXM3x3SPEC | .TEXM3x3VSPEC | .TEXREG2RGB | .TEXDP3TEX
  | .TEXM3x2DEPTH | .TEXDP3 | .TEXM3x3 | .TEXDEPTH | .BEM | .SETP | .BREAKP =>
    NineTranslateInstruction_unimplemented tx

/-! ## Instruction decoding and dispatch -/

def sm1_dump_instruction (tx : shader_translator) : Except Fault Unit := do
  let insn := tx.insn
  if insn.opcode = D3DSIO_DCL then pure ()
  else
    if insn.predicated then sm1_dump_src_param tx insn.pred
    if 0 < insn.ndst then sm1_dump_dst_param tx insn.dst0
    if 0 < insn.nsrc then sm1_dump_src_param tx insn.src0
    if 1 < insn.nsrc then sm1_dump_src_param tx insn.src1
    if 2 < insn.nsrc then sm1_dump_src_param tx insn.src2
    if 3 < insn.nsrc then sm1_dump_src_param tx insn.src3
    if insn.opcode = D3DSIO_DEF ∨ insn.opcode = D3DSIO_DEFI ∨ insn.opcode = D3DSIO_DEFB then
      sm1_dump_immediate tx insn.src0

/-- The table lookup of `sm1_parse_instruction`: the row of a valid opcode, the singletons
for PHASE and COMMENT, NULL otherwise. -/
def sm1_lookup_info (opcode : Nat) : Option sm1_op_info :=
  if opcode < inst_table.length then
    match inst_table[opcode]? with
    | some info => if IS_VALID_INSTRUCTION info then some info else none
    | none => none
  else if opcode = D3DSIO_COMMENT then some inst_comment
  else if opcode = D3DSIO_PHASE then some inst_phase
  else none

/-- The loop `for (i = 0; i < insn->ndst; ++i) sm1_read_dst_param(..)`. -/
def sm1_read_dst_params : Nat → Nat → shader_translator → Except Fault shader_translator
  | 0, _, tx => pure tx
  | todo + 1, i, tx => do
    let (dst, tx) ← sm1_read_dst_param tx
    match tx.insn.set_dst i dst with
    | some insn => sm1_read_dst_params todo (i + 1) { tx with insn := insn }
    | none => throw .undefined

/-- The loop `for (i = 0; i < insn->nsrc; ++i) sm1_read_src_param(..)`. -/
def sm1_read_src_params : Nat → Nat → shader_translator → Except Fault shader_translator
  | 0, _, tx => pure tx
  | todo + 1, i, tx =>
    match tx.insn.src i with
    | none => throw .undefined
    | some old => do
      let (src, tx) ← sm1_read_src_param tx old true
      match tx.insn.set_src i src with
      | some insn => sm1_read_src_params todo (i + 1) { tx with insn := insn }
      | none => throw .undefined

/-- The part of `sm1_parse_instruction` up to the table lookup: comments, `parse_next`,
the opcode word and its fields.  The result is the row found, if any. -/
def sm1_parse_instruction_head (tx : shader_translator) :
    Except Fault (Option sm1_op_info × shader_translator) := do
  let tx ← sm1_parse_comments tx
  let tx ← sm1_parse_get_skip tx
  let (tok, tx) ← TOKEN_NEXT tx
  let insn := { tx.insn with
    opcode := tok &&& D3DSI_OPCODE_MASK,
    flags := (tok &&& NINED3DSIO_OPCODE_FLAGS_MASK) >>> NINED3DSIO_OPCODE_FLAGS_SHIFT,
    coissue := tok &&& D3DSI_COISSUE ≠ 0,
    predicated := tok &&& NINED3DSHADER_INST_PREDICATED ≠ 0 }
  pure (sm1_lookup_info insn.opcode, { tx with insn := insn })

/-- The version check of `sm1_parse_instruction`: whether the shader version lies outside
the range of the row for the active stage. -/
def sm1_version_rejected (tx : shader_translator) (info : sm1_op_info) : Bool :=
  let min := if IS_VS tx then info.vert_version.min else info.frag_version.min
  let max := if IS_VS tx then info.vert_version.max else info.frag_version.max
  let ver := (tx.version_major <<< 8) ||| tx.version_minor
  ver < min || ver > max

/-- The part of `sm1_parse_instruction` after the version check: parameters, immediate,
dump, handler (whose result is dropped) and the final `TOKEN_JUMP`. -/
def sm1_parse_instruction_body (tx : shader_translator) (info : sm1_op_info) :
    Except Fault shader_translator := do
  let tx ← sm1_read_dst_params tx.insn.ndst 0 tx
  let tx ←
    if tx.insn.predicated then do
      let (pred, tx) ← sm1_read_src_param tx tx.insn.pred false
      pure (f := Except Fault) { tx with insn := { tx.insn with pred := pred } }
    else pure tx
  let tx ← sm1_read_src_params tx.insn.nsrc 0 tx
  let tx ←
    if tx.insn.opcode = D3DSIO_DEF ∨ tx.insn.opcode = D3DSIO_DEFI
        ∨ tx.insn.opcode = D3DSIO_DEFB then
      sm1_parse_immediate tx
    else pure tx
  sm1_dump_instruction tx
  let (_, tx) ←
    match info.handler with
    | some h => run_handler tx h
    | none => NineTranslateInstruction_Generic tx
  pure (TOKEN_JUMP tx)

def sm1_parse_instruction (tx : shader_translator) : Except Fault shader_translator := do
  let (info, tx) ← sm1_parse_instruction_head tx
  match info with
  | none => pure (TOKEN_JUMP tx)
  | some info =>
    let tx := { tx with insn := { tx.insn with info := some info, ndst := info.ndst,
                                                nsrc := info.nsrc } }
    if sm1_version_rejected tx info then pure tx
    else sm1_parse_instruction_body tx info

/-! ## Driver -/

inductive pipe_shader_type where
  | VERTEX | FRAGMENT | OTHER
deriving DecidableEq, Repr

/-- The C structure `nine_shader_info`: `type`, `byte_code` and `input_map` are inputs,
the rest is output.  `cso` is the finalised program. -/
structure nine_shader_info where
  type : pipe_shader_type
  byte_code : List Nat
  input_map : List (Nat × Nat)
  cso : Option ureg_program
  byte_size : Nat
  lconstf_data : List Nat
  lconstf_locations : List Int
  lconstf_num : Nat
deriving DecidableEq, Repr

/-- What the translator sees of the device: the build (see `build_env`), the four
capabilities read through `GET_CAP` and `GET_SHADER_CAP`, and whether the allocations and
the driver's finalisation succeed. -/
structure NineDevice9 where
  env : build_env
  CAP_INTEGERS : Nat
  CAP_SUBROUTINES : Nat
  CAP_MAX_PREDS : Nat
  CAP_TGSI_TEXCOORD : Nat
  calloc_fails : Bool
  ureg_create_fails : Bool
  malloc_fails : Bool
  create_shader_fails : Bool
deriving DecidableEq, Repr

/-- The translator as `CALLOC_STRUCT` returns it: all members zero.  The fixed arrays
have their declared sizes. -/
def shader_translator.calloc (env : build_env) : shader_translator :=
  { env := env, byte_code := [], parse := 0, parse_next := none,
    ureg := ureg_create .FRAGMENT,
    version_major := 0, version_minor := 0, processor := .FRAGMENT,
    native_integers := false, inline_subroutines := false, lower_preds := false,
    want_texcoord := false, insn := .zero, input_map := [],
    regs := { r := [], o := ureg_dst_undef, oCol := List.replicate 4 ureg_dst_undef,
              oDepth := ureg_dst_undef, v := ureg_src_undef, vPos := ureg_src_undef,
              vFace := ureg_src_undef, s := ureg_src_undef, p := ureg_dst_undef,
              a := ureg_dst_undef, t := List.replicate 5 ureg_dst_undef,
              vC := List.replicate 2 ureg_src_undef, vT := List.replicate 8 ureg_src_undef,
              aL := List.replicate NINE_MAX_LOOP_DEPTH ureg_dst_undef },
    num_temp := 0, num_scratch := 0, loop_depth := 0, loop_depth_max := 0, cond_depth := 0,
    loop_labels := List.replicate NINE_MAX_LOOP_DEPTH 0,
    cond_labels := List.replicate NINE_MAX_COND_DEPTH 0,
    inst_labels := [], num_inst_labels := 0,
    sampler_targets := List.replicate env.NINE_MAX_SAMPLERS .BUFFER,
    lconstf := [], num_lconstf := 0,
    lconsti := List.replicate env.NINE_MAX_CONST_I .zero,
    lconstb := List.replicate env.NINE_MAX_CONST_B .zero,
    indirect_const_access := false }

def tx_ctor (tx : shader_translator) (info : nine_shader_info) :
    Except Fault shader_translator := do
  let tx := { tx with byte_code := info.byte_code, parse := 0, input_map := info.input_map }
  let tx := { tx with regs := { tx.regs with
    a := ureg_dst_undef, p := ureg_dst_undef, oDepth := ureg_dst_undef,
    vPos := ureg_src_undef, vFace := ureg_src_undef,
    oCol := tx.regs.oCol.map (fun _ => ureg_dst_undef),
    vC := tx.regs.vC.map (fun _ => ureg_src_undef),
    vT := tx.regs.vT.map (fun _ => ureg_src_undef) } }
  sm1_read_version tx

def tgsi_processor_from_type (shader_type : pipe_shader_type) : tgsi_processor :=
  match shader_type with
  | .VERTEX => .VERTEX
  | .FRAGMENT => .FRAGMENT
  | .OTHER => .INVALID

/-- The loop `while (!sm1_parse_eof(tx)) sm1_parse_instruction(tx);`, for at most `fuel`
instructions. -/
def nine_translate_shader_loop : Nat → shader_translator → Except Fault shader_translator
  | 0, _ => .error .fuel
  | fuel + 1, tx => do
    if ← sm1_parse_eof tx then pure tx
    else
      let tx ← sm1_parse_instruction tx
      nine_translate_shader_loop fuel tx

/-- The copy loop that records the local constants: locations and data of the first
`num` entries, from entry `i` on. -/
def record_lconstf (lconstf : List sm1_local_const) :
    Nat → Nat → Except Fault (List Int × List Nat)
  | 0, _ => pure ([], [])
  | todo + 1, i => do
    let c ← arr_get lconstf i
    let (locs, data) ← record_lconstf lconstf todo (i + 1)
    pure (c.idx :: locs,
          c.imm.getD 0 0 :: c.imm.getD 1 0 :: c.imm.getD 2 0 :: c.imm.getD 3 0 :: data)

/-- The part of `nine_translate_shader` between the creation of the emitter and the end
of the dispatch loop, including the step over the end token and `ureg_END`.  Every
instruction consumes at least one word and a read behind the stream is a fault, so one
round per word of the stream, plus the final test, is enough. -/
def nine_translate_shader_run (device : NineDevice9) (tx : shader_translator) :
    Except Fault shader_translator := do
  let tx := tx_decl_constants tx
  let tx := { tx with
    native_integers := device.CAP_INTEGERS % 256 ≠ 0,
    inline_subroutines := device.CAP_SUBROUTINES = 0,
    lower_preds := device.CAP_MAX_PREDS = 0,
    want_texcoord := device.CAP_TGSI_TEXCOORD % 256 ≠ 0 }
  let tx ← nine_translate_shader_loop (tx.byte_code.length + 1) tx
  let tx := { tx with parse := tx.parse + 1 }
  pure (tx_insn tx .END [] [])

/-- The C function `nine_translate_shader`: the result code and the updated `info`. -/
def nine_translate_shader (device : NineDevice9) (info : nine_shader_info) :
    Except Fault (HRESULT × nine_shader_info) := do
  let processor := tgsi_processor_from_type info.type
  if processor = .INVALID then pure (.D3DERR_INVALIDCALL, info)
  else if device.calloc_fails then pure (.E_OUTOFMEMORY, info)
  else
    let tx ← tx_ctor (shader_translator.calloc device.env) info
    if tx.version_major > 3 ∨ tx.version_minor > 0 then
      pure (.D3DERR_INVALIDCALL, info)
    else if tx.processor ≠ processor then
      pure (.D3DERR_INVALIDCALL, info)
    else if device.ureg_create_fails then
      pure (.E_OUTOFMEMORY, info)
    else
      let tx := { tx with ureg := ureg_create processor }
      let tx ← nine_translate_shader_run device tx
      let info := { info with input_map := tx.input_map }
      if tx.num_lconstf ≠ 0 ∧ tx.indirect_const_access then
        if device.malloc_fails then
          pure (.E_OUTOFMEMORY, info)
        else
          let (locs, data) ← record_lconstf tx.lconstf tx.num_lconstf 0
          let info := { info with lconstf_data := data, lconstf_locations := locs,
                                  lconstf_num := tx.num_lconstf }
          if device.create_shader_fails then
            pure (.D3DERR_DRIVERINTERNALERROR, info)
          else
            pure (.D3D_OK, { info with cso := some tx.ureg, byte_size := tx.parse * 4 })
      else
        let info := { info with lconstf_num := 0 }
        if device.create_shader_fails then
          pure (.D3DERR_DRIVERINTERNALERROR, info)
        else
          pure (.D3D_OK, { info with cso := some tx.ureg, byte_size := tx.parse * 4 })

/-! ## Concrete configurations and programs used in the evaluations below -/

/-- A build with assertions, the limits of nine_state.h set to 256 float, 16 integer and
16 boolean constants and 16 samplers, and zero-filled uninitialised locals. -/
def example_env : build_env :=
  { asserts := true, NINE_MAX_CONST_F := 256, NINE_MAX_CONST_I := 16,
    NINE_MAX_CONST_B := 16, NINE_MAX_SAMPLERS := 16, NINE_CONST_I_BASE_IDX := 256,
    NINE_CONST_B_BASE_IDX := 272, indeterminate_src := ureg_src_undef,
    indeterminate_dst := ureg_dst_undef, char_signed := true }

/-- The same build without assertions (`NDEBUG`). -/
def example_env_release : build_env :=
  { example_env with asserts := false }

/-- A device without native integers that prefers the texcoord semantic; nothing fails. -/
def example_device : NineDevice9 :=
  { env := example_env, CAP_INTEGERS := 0, CAP_SUBROUTINES := 0, CAP_MAX_PREDS := 0,
    CAP_TGSI_TEXCOORD := 1, calloc_fails := false, ureg_create_fails := false,
    malloc_fails := false, create_shader_fails := false }

/-- The caller's `nine_shader_info` for a program, with a 16-entry input map. -/
def example_info (type : pipe_shader_type) (byte_code : List Nat) : nine_shader_info :=
  { type := type, byte_code := byte_code, input_map := List.replicate 16 (0, 0),
    cso := none, byte_size := 0, lconstf_data := [], lconstf_locations := [],
    lconstf_num := 0 }

/-- The translator right after `tx_ctor` and `ureg_create`, before the first
instruction of `byte_code` (whose word 0 is the header). -/
def example_tx (type : pipe_shader_type) (byte_code : List Nat) :
    Except Fault shader_translator := do
  let tx ← tx_ctor (shader_translator.calloc example_env) (example_info type byte_code)
  pure { tx with ureg := ureg_create (tgsi_processor_from_type type) }

/-- The program `vs_2_0; LOOP aL, i0; END`: LOOP (opcode 27) needs version 3.0; its
opcode word carries the length 2. -/
def prog_gated_loop : List Nat :=
  [0xfffe0200, 0x0200001b, 0x70e40800, 0x70e40000, 0x0000ffff]

/-- The program `vs_2_0; M4x4 r0, v0, c0; END` with the full destination writemask. -/
def prog_m4x4 : List Nat :=
  [0xfffe0200, 0x03000014, 0x000f0000, 0x10e40000, 0x20e40000, 0x0000ffff]

/-- The program `vs_2_0; <comment of length 0>; END` followed by two further words
(a NOP and an end token) that are not part of it. -/
def prog_comment_end : List Nat :=
  [0xfffe0200, 0x0000fffe, 0x0000ffff, 0x00000000, 0x0000ffff]

/-- The program `ps_3_0; DCL_2D s0; DCL_CUBE s1; TEXLDD r0, r0, r1, r2, s0; END`, the
sampler being the fourth source.  The first DCL token carries usage 13
(`D3DDECLUSAGE_SAMPLE`) and the texture type. -/
def prog_texldd : List Nat :=
  [0xffff0300,
   0x0200001f, 0x1000000d, 0x200f0800,
   0x0200001f, 0x1800000d, 0x200f0801,
   0x0500005d, 0x000f0000, 0x00e40000, 0x00e40001, 0x00e40002, 0x20e40800,
   0x0000ffff]

/-- The instructions (not declarations, immediates or fix-ups) of a finished program. -/
def emitted_insns (info : nine_shader_info) : List ureg_item :=
  match info.cso with
  | some u => u.items.filter ureg_item.is_insn
  | none => []

/-- The value of a run that ended without fault. -/
def result_of {α : Type} (r : Except Fault α) : Option α :=
  match r with
  | .ok a => some a
  | .error _ => none

/-- The fault of a run that ended with one. -/
def fault_of {α : Type} (r : Except Fault α) : Option Fault :=
  match r with
  | .ok _ => none
  | .error e => some e

/-- Opcode of a logged instruction (`ZERO` for a call that is not an instruction). -/
def ureg_item.opcode : ureg_item → tgsi_opcode
  | .insn op _ _ => op
  | .tex_insn op _ _ _ => op
  | .label_insn op _ => op
  | _ => .ZERO

/-- Writemask of the single destination of a logged instruction (0 if there is none). -/
def ureg_item.dst_mask : ureg_item → Nat
  | .insn _ [d] _ => d.WriteMask
  | .tex_insn _ d _ _ => d.WriteMask
  | _ => 0

/-- Texture target of a logged texture instruction. -/
def ureg_item.tex_target : ureg_item → Option tgsi_texture
  | .tex_insn _ _ target _ => some target
  | _ => none

/-- File and index of the sources of a logged instruction. -/
def ureg_item.src_regs : ureg_item → List (tgsi_file × Int)
  | .insn _ _ src => src.map (fun s => (s.File, s.Index))
  | .tex_insn _ _ _ src => src.map (fun s => (s.File, s.Index))
  | .label_insn _ src => src.map (fun s => (s.File, s.Index))
  | _ => []

/-- Opening and closing of a loop, as the handlers of LOOP and REP and of ENDLOOP and
ENDREP do it. -/
inductive loop_op where
  | open_loop
  | close_loop
deriving DecidableEq, Repr

def apply_loop_op (tx : shader_translator) : loop_op → Except Fault shader_translator
  | .open_loop => (tx_bgnloop tx).map (fun r => r.2)
  | .close_loop => (tx_endloop tx).map (fun r => r.2)

def run_loop_ops : List loop_op → shader_translator → Except Fault shader_translator
  | [], tx => .ok tx
  | op :: ops, tx => (apply_loop_op tx op).bind (run_loop_ops ops)

/-- The invariant of the loop counters. -/
def loop_depth_inv (tx : shader_translator) : Prop :=
  tx.loop_depth ≤ tx.loop_depth_max ∧ tx.loop_depth_max < NINE_MAX_LOOP_DEPTH

def tx_depth63 : shader_translator :=
  { shader_translator.calloc example_env with loop_depth := 63, loop_depth_max := 63 }

/-- The dot product that the specification asks for row `j` of the matrix lowering: none
unless bit `j` of the destination writemask is set; otherwise a DP3 (k = 3) or DP4 that
writes only component `j` of the destination and reads `src0` and the register `j` places
after `src1`. -/
def Mkxn_row (k : Nat) (dst : ureg_dst) (src0 src1 : ureg_src) (j : Nat) : Option ureg_item :=
  if dst.WriteMask.testBit j then
    some (.insn (if k = 3 then .DP3 else .DP4) [{ dst with WriteMask := 2 ^ j }]
      [src0, { src1 with Index := src1.Index + j }])
  else none

/-- The program `ureg` with the instructions `l` appended. -/
def ureg_append_insns (ureg : ureg_program) (l : List ureg_item) : ureg_program :=
  { ureg with items := ureg.items ++ l, nr_instructions := ureg.nr_instructions + l.length }

/-- The translator `tx` with the instructions `l` appended to its program; nothing else
changes. -/
def tx_append_insns (tx : shader_translator) (l : List ureg_item) : shader_translator :=
  { tx with ureg := ureg_append_insns tx.ureg l }

/-- A translator for `M3x2 r0.xz, v0, c4` in a vertex shader. -/
def tx_m3x2 : shader_translator :=
  { shader_translator.calloc example_env with
    processor := .VERTEX, version_major := 2,
    insn := { sm1_instruction.zero with
      dst0 := { sm1_dst_param.zero with file := D3DSPR_TEMP, idx := 0, mask := 0x5 },
      src0 := { sm1_src_param.zero with file := D3DSPR_INPUT, idx := 0, swizzle := 0xe4 },
      src1 := { sm1_src_param.zero with file := D3DSPR_CONST, idx := 4, swizzle := 0xe4 } } }

/-- A run of consecutive comment tokens in `code` from position `p`, with the lengths
`Ns`: each token has 0xFFFE in its opcode field (bits 0..15) and its length `N` in bits
16..30, and the next token follows `N + 1` words later.  The result is the position
behind the run. -/
def comment_run_end (code : List Nat) : Nat → List Nat → Option Nat
  | p, [] => some p
  | p, N :: Ns =>
    match code[p]? with
    | some tok =>
      if tok % 2 ^ 16 = 0xfffe ∧ tok / 2 ^ 16 % 2 ^ 15 = N then
        comment_run_end code (p + (N + 1)) Ns
      else none
    | none => none

/-- A translator on the first of two comments (lengths 2 and 0) that precede a MOV. -/
def tx_two_comments : shader_translator :=
  { shader_translator.calloc example_env with
    byte_code := [0xfffe0200, 0x0002fffe, 0x11111111, 0x22222222, 0x0000fffe, 0x02000001],
    parse := 1 }

/-- What the lowering of a parameter may change in the translator: the program, the
register environment, the number of temporaries and of scratch registers in use, and the
indirect-access flag.  Every other member stays as it is. -/
def lowering_frame (tx tx' : shader_translator) : Prop :=
  tx' = { tx with ureg := tx'.ureg, regs := tx'.regs, num_temp := tx'.num_temp,
                  num_scratch := tx'.num_scratch,
                  indirect_const_access := tx'.indirect_const_access }

/-- Logged calls that are neither texture instructions nor label instructions nor label
fix-ups: declarations, immediates and plain instructions. -/
def ureg_item.is_plain : ureg_item → Bool
  | .tex_insn _ _ _ _ => false
  | .label_insn _ _ => false
  | .fixup_label _ _ => false
  | _ => true

/-- The program of `tx'` is the program of `tx` with plain calls appended. -/
def appends_plain (tx tx' : shader_translator) : Prop :=
  ∃ l : List ureg_item, tx'.ureg.items = tx.ureg.items ++ l ∧ ∀ it ∈ l, it.is_plain = true

/-- Effect of lowering a parameter: see `lowering_frame` and `appends_plain`. -/
def lowers (tx tx' : shader_translator) : Prop :=
  lowering_frame tx tx' ∧ appends_plain tx tx'

/-- Spec side: the kind of texture instruction that the spec assigns to the flags of
TEX: sampled for 0, projected for 1, biased for 2, none otherwise. -/
def spec_tex_kind (flags : Nat) : Option tgsi_opcode :=
  if flags = 0 then some .TEX
  else if flags = 1 then some .TXP
  else if flags = 2 then some .TXB
  else none

/-- The texture instructions of the program under construction. -/
def tex_insns (tx : shader_translator) : List ureg_item :=
  tx.ureg.items.filter ureg_item.is_tex

/-- A sampler operand as the assembler writes it: file SAMPLER, no modifier, no swizzle,
no relative addressing. -/
def sm1_src_param.is_plain_sampler (p : sm1_src_param) : Prop :=
  p.file = D3DSPR_SAMPLER ∧ p.mod = NINED3DSPSM_NONE ∧ p.swizzle = NINED3DSP_NOSWIZZLE
    ∧ p.rel = none

/-- A pixel-shader translator in a debug build in which sampler 0 has the target 2D
recorded and the current instruction is `TEX r0, t0, s0` with the given flags. -/
def tx_tex_s0 (flags : Nat) : shader_translator :=
  let tx := shader_translator.calloc example_env
  { tx with
    processor := .FRAGMENT, version_major := 2,
    sampler_targets := tx.sampler_targets.set 0 .T2D,
    insn := { tx.insn with
      opcode := D3DSIO_TEX, flags := flags, ndst := 1, nsrc := 2,
      dst0 := { sm1_dst_param.zero with file := D3DSPR_TEMP, mask := 0xf },
      src0 := { tx.insn.src0 with file := D3DSPR_ADDR, swizzle := NINED3DSP_NOSWIZZLE },
      src1 := { tx.insn.src1 with file := D3DSPR_SAMPLER,
                                  swizzle := NINED3DSP_NOSWIZZLE } } }

/-- The DEF instructions of a program, in order: constant index (`dst[0].idx`) and payload
(`src[0].imm.f`).  Folding `tx_set_lconstf` over them is what the DEF handler does to the
table of local constants in the course of a translation. -/
def run_defs : List (Int × List Nat) → shader_translator → Except Fault shader_translator
  | [], tx => .ok tx
  | d :: rest, tx => (tx_set_lconstf tx d.1 d.2).bind (run_defs rest)

/-- Spec side: the distinct elements of a list in the order of their first occurrence. -/
def first_occurrences (l : List Int) : List Int :=
  l.foldl (fun acc i => if i ∈ acc then acc else acc ++ [i]) []

/-- The four payload words of a DEF. -/
def payload_words (f : List Nat) : List Nat :=
  [f.getD 0 0, f.getD 1 0, f.getD 2 0, f.getD 3 0]

/-- The shape of the table between two calls of `tx_set_lconstf`: the block grows in
steps of 8 entries and holds the entries in use. -/
def lconstf_shape (tx : shader_translator) : Prop :=
  tx.lconstf.length % 8 = 0 ∧ tx.num_lconstf ≤ tx.lconstf.length ∧
  tx.lconstf.length < tx.num_lconstf + 8

/-- The program `vs_2_0; DEF c0, 1, 2, 3, 4; MOV r0, c0[a0.x]; END` (payload words
1, 2, 3, 4). -/
def prog_def_mov_rel : List Nat :=
  [0xfffe0200,
   0x05000051, 0x200f0000, 1, 2, 3, 4,
   0x03000001, 0x000f0000, 0xa0e42000, 0x30000000,
   0x0000ffff]

/-- The program `vs_2_0; DEF c0, 1, 2, 3, 4; SGN r0, c0[a0.x], r1, r2; END`.  Word 9 is
the source `c0[a0.x]`: register file CONST with the relative-addressing bit, followed by
the token of `a0.x`. -/
def prog_def_sgn_rel : List Nat :=
  [0xfffe0200,
   0x05000051, 0x200f0000, 1, 2, 3, 4,
   0x05000022, 0x000f0000, 0xa0e42000, 0x30000000, 0x00e40001, 0x00e40002,
   0x0000ffff]

/-- The calls logged in a finished program that are not the pre-declarations of the
constant file. -/
def emitted_items (info : nine_shader_info) : List ureg_item :=
  match info.cso with
  | some u => u.items.filter (fun it => match it with
      | .DECL_constant _ => false
      | _ => true)
  | none => []

/-- Register number of a sampler declaration. -/
def ureg_item.decl_sampler : ureg_item → Option Int
  | .DECL_sampler nr => some nr
  | _ => none

/-- Semantic of a declaration of a fragment-shader input. -/
def ureg_item.decl_fs_input : ureg_item → Option (tgsi_semantic × Nat)
  | .DECL_fs_input name index _ _ _ => some (name, index)
  | _ => none

/-- Semantic of a declaration of an output. -/
def ureg_item.decl_output : ureg_item → Option (tgsi_semantic × Nat)
  | .DECL_output_masked name index _ => some (name, index)
  | _ => none

/-- Label token and instruction number of a label fix-up. -/
def ureg_item.fixup : ureg_item → Option (Nat × Nat)
  | .fixup_label token number => some (token, number)
  | _ => none

/-- Register file of the destinations of a logged instruction. -/
def ureg_item.dst_files : ureg_item → List tgsi_file
  | .insn _ dst _ => dst.map (fun d => d.File)
  | .tex_insn _ dst _ _ => [dst.File]
  | _ => []

/-- Position in the log of the label instructions (the label token the emitter hands out
for them). -/
def label_tokens (items : List ureg_item) : List (tgsi_opcode × Nat) :=
  ((List.range items.length).zip items).filterMap (fun p => match p.2 with
    | .label_insn op _ => some (op, p.1)
    | _ => none)

/-- The program of scenario S1: the header of vs_1_1 and the end token. -/
def prog_vs_1_1_end : List Nat := [0xfffe0101, 0x0000ffff]

/-- The program `vs_2_0; SETP_GT p0, r0, r1; END`. -/
def prog_setp : List Nat :=
  [0xfffe0200, 0x0301005e, 0x300f1000, 0x00e40000, 0x00e40001, 0x0000ffff]

/-- The program of scenario S3, `ps_2_0; DCL_2D s0; DCL_TEXCOORD0 t0; TEX r0, t0, s0; END`.
`usage` is the content of the usage field (bits 0..3) of the first token of the sampler
declaration; its sampler-type field (bits 27..30) holds 2D. -/
def prog_tex_2d (usage : Nat) : List Nat :=
  [0xffff0200,
   0x0200001f, 0x10000000 + usage, 0x200f0800,
   0x0200001f, 0x00000005, 0x300f0000,
   0x03000042, 0x000f0000, 0x30e40000, 0x20e40800,
   0x0000ffff]

/-- The program of scenario S6 for the pixel-shader version `ver` (0x200 for 2.0):
`IFC_GT r0.x, c0.x; MOV oC0, c1; ELSE; MOV oC0, c2; ENDIF; END`. -/
def prog_ifc (ver : Nat) : List Nat :=
  [0xffff0000 + ver,
   0x02010029, 0x00000000, 0x20000000,
   0x02000001, 0x000f0800, 0x20e40001,
   0x0000002a,
   0x02000001, 0x000f0800, 0x20e40002,
   0x0000002b,
   0x0000ffff]

/-- The translator at the end of the dispatch loop of a pixel shader, after `ureg_END`. -/
def final_tx (type : pipe_shader_type) (byte_code : List Nat) :
    Except Fault shader_translator :=
  (example_tx type byte_code).bind (nine_translate_shader_run example_device)

/-- Spec side: the number of constant slots that the spec states,
max-F + max-I + ceil(max-B / 4). -/
def spec_constant_slots (env : build_env) : Nat :=
  env.NINE_MAX_CONST_F + env.NINE_MAX_CONST_I + (env.NINE_MAX_CONST_B + 3) / 4

/-- The number of constant declarations of `tx_decl_constants`: the bounds of its three
loops. -/
def decl_constants_count (env : build_env) : Nat :=
  env.NINE_MAX_CONST_F + env.NINE_MAX_CONST_I + env.NINE_MAX_CONST_B / 4

/-- The constant declarations in a program under construction. -/
def constant_decls (tx : shader_translator) : List ureg_item :=
  tx.ureg.items.filter (fun it => match it with
    | .DECL_constant _ => true
    | _ => false)

/-- The translator as `nine_translate_shader` passes it to the dispatch loop: constants
declared, capabilities read. -/
def tx_before_loop (device : NineDevice9) (tx : shader_translator) : shader_translator :=
  { tx_decl_constants tx with
    native_integers := device.CAP_INTEGERS % 256 ≠ 0,
    inline_subroutines := device.CAP_SUBROUTINES = 0,
    lower_preds := device.CAP_MAX_PREDS = 0,
    want_texcoord := device.CAP_TGSI_TEXCOORD % 256 ≠ 0 }

/-- The stage that a header word names, if any (its high 16 bits). -/
def header_stage (tok : Nat) : Option pipe_shader_type :=
  if tok >>> 16 = 0xfffe then some .VERTEX
  else if tok >>> 16 = 0xffff then some .FRAGMENT
  else none

/-- A vertex-shader translator of version 2.0 on an instruction word with the unassigned
opcode 49 and the length field 2, followed by two words and the end token. -/
def tx_unknown_opcode : shader_translator :=
  { shader_translator.calloc example_env with
    byte_code := [0xfffe0200, 0x02000031, 0x800f0000, 0x80e40000, 0x0000ffff],
    parse := 1, version_major := 2, processor := .VERTEX,
    ureg := ureg_create .VERTEX }

/-- Spec side: the destination shift as the spec states it, the 4-bit field in bits
24..27 of the word read as a signed number. -/
def spec_dst_shift (tok : Nat) : Int :=
  if tok / 2 ^ 24 % 16 < 8 then (tok / 2 ^ 24 % 16 : Nat) else (tok / 2 ^ 24 % 16 : Nat) - 16

/-- The register-file tag of a parameter word, as `sm1_parse_dst_param` and
`sm1_parse_src_param` put it together from its two parts. -/
def sm1_param_file_field (tok : Nat) : Nat :=
  ((tok &&& D3DSP_REGTYPE_MASK) >>> D3DSP_REGTYPE_SHIFT) |||
  ((tok &&& D3DSP_REGTYPE_MASK2) >>> D3DSP_REGTYPE_SHIFT2)

/-- Spec side: the writemask that selects exactly lane `l mod 4`. -/
def spec_loopctr_mask (l : Nat) : Nat := 1 <<< (l % 4)

/-- The loop counter that `tx_get_loopctr` returns at nesting depth `depth` (level
`depth - 1`). -/
def loopctr_at (tx : shader_translator) (depth : Nat) :
    Except Fault (ureg_dst × shader_translator) :=
  tx_get_loopctr { tx with loop_depth := depth }

/-- The writemasks of the loop counters of the levels 0, 1, 2, 3, requested in this order
on a fresh translator, and the number of calls logged by the emitter. -/
def loopctr_masks_of_first_group : Except Fault (List Nat × Nat) := do
  let tx := shader_translator.calloc example_env
  let (c0, tx) ← loopctr_at tx 1
  let (c1, tx) ← loopctr_at tx 2
  let (c2, tx) ← loopctr_at tx 3
  let (c3, tx) ← loopctr_at tx 4
  pure ([c0.WriteMask, c1.WriteMask, c2.WriteMask, c3.WriteMask], tx.ureg.items.length)

/-- The word that `sm1_parse_get_param` synthesises for the relative sub-parameter below
version 2.0 (a 32-bit `DWORD`). -/
def synthesised_rel_token : Nat :=
  ((1 <<< 31) |||
    ((D3DSPR_ADDR <<< D3DSP_REGTYPE_SHIFT2) &&& D3DSP_REGTYPE_MASK2) |||
    ((D3DSPR_ADDR <<< D3DSP_REGTYPE_SHIFT) &&& D3DSP_REGTYPE_MASK) |||
    (D3DSP_NOSWIZZLE <<< D3DSP_SWIZZLE_SHIFT)) % 2 ^ 32

/-- A sequence of references to temporaries: `tx_temp_alloc` for each index in turn. -/
def run_temp_allocs : List Int → shader_translator → Except Fault shader_translator
  | [], tx => .ok tx
  | i :: rest, tx => (tx_temp_alloc tx i).bind (run_temp_allocs rest)

/-- One step of `first_occurrences`. -/
def note_first (seen : List Int) (i : Int) : List Int :=
  if i ∈ seen then seen else seen ++ [i]

/-- The state of the temporaries after the indices `seen` (distinct, in the order of
their first reference) were referenced, starting with `n0` temporaries and the log
`items0`: the table is as long as `num_temp` says, one declaration was logged for each
index of `seen`, and slot `j` holds the register declared for `j` or is undefined. -/
def temps_after (items0 : List ureg_item) (n0 : Nat) (seen : List Int)
    (tx : shader_translator) : Prop :=
  tx.regs.r.length = tx.num_temp ∧
  tx.ureg.items =
    items0 ++ (List.range seen.length).map (fun j => ureg_item.DECL_temporary (n0 + j)) ∧
  tx.ureg.nr_temps = n0 + seen.length ∧
  (∀ i ∈ seen, 0 ≤ i ∧ i.toNat < tx.regs.r.length) ∧
  (∀ j : Nat, j < tx.regs.r.length → tx.regs.r[j]? = some
    (if (j : Int) ∈ seen then
      ureg_dst_register .TEMPORARY ((n0 + seen.indexOf (j : Int) : Nat) : Int)
     else ureg_dst_undef))

/-- Spec side: the lowering of a source modifier as the spec states it, for the operand
`x`, the scratch register `tmp` and the handles `i0`, `i1` of the first and second float
immediate registered.  The result is the instruction to emit, if any, as opcode, sources
and the bit patterns of the immediates it registers, and the operand that is returned. -/
def spec_src_modifier (mod : Nat) (native_integers : Bool) (x : ureg_src) (tmp : ureg_dst)
    (i0 i1 : ureg_src) : Option (tgsi_opcode × List ureg_src × List Nat) × ureg_src :=
  if mod = NINED3DSPSM_NEG then (none, ureg_negate x)
  else if mod = NINED3DSPSM_ABS then (none, ureg_abs x)
  else if mod = NINED3DSPSM_ABSNEG then (none, ureg_negate (ureg_abs x))
  else if mod = NINED3DSPSM_BIAS then (some (.SUB, [x, i0], [F32_0_5]), ureg_src_of tmp)
  else if mod = NINED3DSPSM_BIASNEG then (some (.SUB, [i0, x], [F32_0_5]), ureg_src_of tmp)
  else if mod = NINED3DSPSM_SIGN then
    (some (.MAD, [x, i0, i1], [F32_2_0, F32_NEG_1_0]), ureg_src_of tmp)
  else if mod = NINED3DSPSM_SIGNNEG then
    (some (.MAD, [x, i0, i1], [F32_NEG_2_0, F32_1_0]), ureg_src_of tmp)
  else if mod = NINED3DSPSM_COMP then (some (.SUB, [i0, x], [F32_1_0]), ureg_src_of tmp)
  else if mod = NINED3DSPSM_X2 then (some (.ADD, [x, x], []), ureg_src_of tmp)
  else if mod = NINED3DSPSM_X2NEG then
    (some (.ADD, [x, x], []), ureg_negate (ureg_src_of tmp))
  else if mod = NINED3DSPSM_NOT then
    if native_integers then (some (.NOT, [x], []), ureg_src_of tmp)
    else (some (.SUB, [i0, x], [F32_1_0]), ureg_src_of tmp)
  else (none, x)

/-- Limits of a small build, for evaluations of whole programs. -/
def small_env : build_env :=
  { example_env with NINE_MAX_CONST_F := 8, NINE_MAX_CONST_I := 4, NINE_MAX_CONST_B := 4,
                     NINE_CONST_I_BASE_IDX := 8, NINE_CONST_B_BASE_IDX := 12 }

/-- The device of `example_device` with the limits of `small_env`. -/
def small_device : NineDevice9 := { example_device with env := small_env }

/-- The program `vs_2_0; ADD r0, r1_bias, r2_x2; END`. -/
def prog_add_bias_x2 : List Nat :=
  [0xfffe0200, 0x03000002, 0x000f0000, 0x02e40001, 0x07e40002, 0x0000ffff]

/-- Register file and writemask of the destinations of a logged instruction. -/
def ureg_item.dst_regs : ureg_item → List (tgsi_file × Int × Nat)
  | .insn _ dst _ => dst.map (fun d => (d.File, d.Index, d.WriteMask))
  | .tex_insn _ dst _ _ => [(dst.File, dst.Index, dst.WriteMask)]
  | _ => []

/-- The program `vs_3_0; IFC_GT r0, r1; ENDIF; END`. -/
def prog_ifc_gt : List Nat :=
  [0xfffe0300, 0x02010029, 0x00e40000, 0x00e40001, 0x0000002b, 0x0000ffff]

/-- The program of scenario S5, `vs_3_0; LOOP aL, i0; MOV r0, aL; ENDLOOP; END`. -/
def prog_loop_s5 : List Nat :=
  [0xfffe0300, 0x0200001b, 0x70e40800, 0x70e40000, 0x02000001, 0x000f0000, 0x70e40800,
   0x0000001d, 0x0000ffff]

/-- A state that the translator never reaches: the five scratch registers and the loop
counter of level 0 hold declared temporaries. -/
def tx_with_scratch (native : Bool) (tx : shader_translator) : shader_translator :=
  { tx with
    native_integers := native,
    regs := { tx.regs with
      t := (List.range 5).map (fun k => ureg_dst_register .TEMPORARY (100 + (k : Int))),
      aL := tx.regs.aL.set 0
        (ureg_writemask (ureg_dst_register .TEMPORARY 99) TGSI_WRITEMASK_X) } }

/-- Effect of a lowering step on the translator: only the program, the register
environment, `num_temp` and `num_scratch` may differ, `indirect_const_access` is raised
when `flag` holds, and the program grows by declarations, immediates and, if `insn`
holds, plain instructions. -/
def steps (insn flag : Bool) (tx tx' : shader_translator) : Prop :=
  tx' = { tx with ureg := tx'.ureg, regs := tx'.regs, num_temp := tx'.num_temp,
                  num_scratch := tx'.num_scratch,
                  indirect_const_access := tx.indirect_const_access || flag } ∧
  ∃ l : List ureg_item, tx'.ureg.items = tx.ureg.items ++ l ∧
    ∀ it ∈ l, it.is_plain = true ∧ (insn = false → it.is_insn = false)

/-- Whether a source modifier is lowered to an instruction. -/
def sm1_mod_emits (m : Nat) : Bool :=
  m == NINED3DSPSM_BIAS || m == NINED3DSPSM_BIASNEG || m == NINED3DSPSM_SIGN ||
  m == NINED3DSPSM_SIGNNEG || m == NINED3DSPSM_COMP || m == NINED3DSPSM_X2 ||
  m == NINED3DSPSM_X2NEG || m == NINED3DSPSM_NOT

/-- Whether the parameter or the sub-parameter of its relative addressing carries a
modifier that is lowered to an instruction. -/
def sm1_src_param.emits : sm1_src_param → Bool
  | ⟨_, rel, _, _, mod, _, _⟩ =>
    (match rel with
     | some r => r.emits
     | none => false) || sm1_mod_emits mod

/-- Whether the parameter, or the sub-parameter of its relative addressing, is a
relatively addressed register of the file CONST. -/
def sm1_src_param.rel_const : sm1_src_param → Bool
  | ⟨_, rel, file, _, _, _, _⟩ =>
    (decide (file = D3DSPR_CONST) && rel.isSome) ||
    (match rel with
     | some r => r.rel_const
     | none => false)

/-- What no handler changes: the build, the token stream and its cursor, the version and
stage, the capabilities, the decoded instruction and `num_inst_labels`. -/
def handler_frame (tx tx' : shader_translator) : Prop :=
  tx' = { tx with ureg := tx'.ureg, regs := tx'.regs, num_temp := tx'.num_temp,
                  num_scratch := tx'.num_scratch,
                  indirect_const_access := tx'.indirect_const_access,
                  loop_depth := tx'.loop_depth, loop_depth_max := tx'.loop_depth_max,
                  cond_depth := tx'.cond_depth, loop_labels := tx'.loop_labels,
                  cond_labels := tx'.cond_labels, inst_labels := tx'.inst_labels,
                  sampler_targets := tx'.sampler_targets, lconstf := tx'.lconstf,
                  num_lconstf := tx'.num_lconstf, lconsti := tx'.lconsti,
                  lconstb := tx'.lconstb, input_map := tx'.input_map }

/-- Whether an operand of the instruction is a relatively addressed CONST register. -/
def sm1_instruction.rel_const (insn : sm1_instruction) : Bool :=
  insn.src0.rel_const || insn.src1.rel_const || insn.src2.rel_const || insn.src3.rel_const ||
  (match insn.dst0.rel with
   | some p => p.rel_const
   | none => false)

/-- Effect of a handler on the translator: see `handler_frame`; `indirect_const_access`
is not raised unless an operand is a relatively addressed CONST register. -/
def eff (tx tx' : shader_translator) : Prop :=
  handler_frame tx tx' ∧
  (tx'.indirect_const_access = true →
    tx.indirect_const_access = true ∨ tx.insn.rel_const = true)

/-- The fields of the decoded instruction that the opcode word and the table row fix. -/
def insn_head (insn : sm1_instruction) :
    Nat × Nat × Bool × Bool × Nat × Nat × Option sm1_op_info :=
  (insn.opcode, insn.flags, insn.coissue, insn.predicated, insn.ndst, insn.nsrc, insn.info)

/-- Effect of reading parameter words: only the cursor and the operands of the decoded
instruction change; the cursor moves forward by at least `n` words, and by exactly `n`
below version 2. -/
def reads (n : Nat) (tx tx' : shader_translator) : Prop :=
  tx' = { tx with parse := tx'.parse, insn := tx'.insn } ∧
  insn_head tx'.insn = insn_head tx.insn ∧
  tx.parse + n ≤ tx'.parse ∧
  (tx.version_major < 2 → tx'.parse = tx.parse + n)

/-- The number of immediate words that follow the parameters of an instruction. -/
def imm_words (opcode : Nat) : Nat :=
  if opcode = D3DSIO_DEF ∨ opcode = D3DSIO_DEFI then 4
  else if opcode = D3DSIO_DEFB then 1
  else 0

/-- The translator after the opcode word `tok` at the cursor is decoded and the row `info`
of the table is found for it. -/
def tx_decoded (tx : shader_translator) (tok : Nat) (info : sm1_op_info) : shader_translator :=
  { tx with
    parse := tx.parse + 1,
    parse_next :=
      if tx.version_major ≥ 2 then
        some (tx.parse + 1 + ((tok &&& D3DSI_INSTLENGTH_MASK) >>> D3DSI_INSTLENGTH_SHIFT))
      else none,
    insn := { tx.insn with
      opcode := tok &&& D3DSI_OPCODE_MASK,
      flags := (tok &&& NINED3DSIO_OPCODE_FLAGS_MASK) >>> NINED3DSIO_OPCODE_FLAGS_SHIFT,
      coissue := tok &&& D3DSI_COISSUE ≠ 0,
      predicated := tok &&& NINED3DSHADER_INST_PREDICATED ≠ 0,
      info := some info, ndst := info.ndst, nsrc := info.nsrc } }

/-- Spec side: the words that follow the parameters of an instruction, as the spec states
them: 4 for DEF and DEFI, 1 for DEFB, 2 for DCL and 0 otherwise. -/
def spec_payload (opcode : Nat) : Nat :=
  if opcode = D3DSIO_DEF ∨ opcode = D3DSIO_DEFI then 4
  else if opcode = D3DSIO_DEFB then 1
  else if opcode = D3DSIO_DCL then 2
  else 0

/-- A vertex-shader translator of version 1.1 on `MOV r0, c[a0.x + 5]; END`: the source
word has the relative bit. -/
def tx_mov_rel_v1 : shader_translator :=
  { shader_translator.calloc example_env with
    byte_code := [0xfffe0101, 0x00000001, 0x000f0000, 0xa0e40005, 0x0000ffff],
    parse := 1, version_major := 1, version_minor := 1, processor := .VERTEX,
    ureg := ureg_create .VERTEX }

/-- A vertex-shader translator of version 2.0 on `MOV r0, c0; END`, the opcode word
carrying the length 5 instead of 2. -/
def tx_mov_len5 : shader_translator :=
  { shader_translator.calloc example_env with
    byte_code := [0xfffe0200, 0x05000001, 0x000f0000, 0x20e40000, 0x0000ffff],
    parse := 1, version_major := 2, version_minor := 0, processor := .VERTEX,
    ureg := ureg_create .VERTEX }

/-- The entries in use of the table of local constants. -/
def lconstf_entries (tx : shader_translator) : List sm1_local_const :=
  tx.lconstf.take tx.num_lconstf

/-- One DEF on the entries in use: the first entry with the index is overwritten, or a
new entry is appended. -/
def entries_step (tab : List sm1_local_const) (e : sm1_local_const) : List sm1_local_const :=
  let n := tab.findIdx (fun c => decide (c.idx = e.idx))
  if n = tab.length then tab ++ [e] else tab.set n e

/-- Spec side: the immediate registered by the most recent DEF of constant `i` in a
sequence of DEF instructions, the first of which registers immediate number `n`. -/
def last_def_reg : Nat → List (Int × List Nat) → Int → Option ureg_src
  | _, [], _ => none
  | n, d :: rest, i =>
    match last_def_reg (n + 1) rest i with
    | some r => some r
    | none => if d.1 = i then some (ureg_src_register .IMMEDIATE n) else none

/-- The program `vs_2_0; DEF c0, 1, 2, 3, 4; MOV r0, c0; END` of the spec. -/
def prog_def_mov : List Nat :=
  [0xfffe0200,
   0x05000051, 0x200f0000, 0x3f800000, 0x40000000, 0x40400000, 0x40800000,
   0x02000001, 0x000f0000, 0x20e40000,
   0x0000ffff]

/-- The program `vs_2_0; DEF c0, ..; DEF c0, ..; MOV r0, c0; MOV r1, c1; END`. -/
def prog_def_def_mov : List Nat :=
  [0xfffe0200,
   0x05000051, 0x200f0000, 1, 2, 3, 4,
   0x05000051, 0x200f0000, 5, 6, 7, 8,
   0x02000001, 0x000f0000, 0x20e40000,
   0x02000001, 0x000f0001, 0x20e40001,
   0x0000ffff]

/-- What decoding an instruction changes: the cursor, `parse_next` and the decoded
instruction. -/
def decode_frame (tx tx' : shader_translator) : Prop :=
  tx' = { tx with parse := tx'.parse, parse_next := tx'.parse_next, insn := tx'.insn }

/-- The rounds of the dispatch loop that return: the translator before and after each
`sm1_parse_instruction`, for at most `fuel` rounds. -/
def loop_rounds : Nat → shader_translator → List (shader_translator × shader_translator)
  | 0, _ => []
  | fuel + 1, tx =>
    match sm1_parse_eof tx with
    | .ok false =>
      match sm1_parse_instruction tx with
      | .ok tx' => (tx, tx') :: loop_rounds fuel tx'
      | .error _ => []
    | _ => []

/-- Whether an operand that the generic handler lowers, or the sub-parameter of its
relative addressing, carries a modifier that is lowered to an instruction. -/
def sm1_instruction.emits (insn : sm1_instruction) : Bool :=
  (decide (0 < insn.ndst) &&
    (match insn.dst0.rel with
     | some p => p.emits
     | none => false)) ||
  (decide (0 < insn.nsrc) && insn.src0.emits) || (decide (1 < insn.nsrc) && insn.src1.emits) ||
  (decide (2 < insn.nsrc) && insn.src2.emits) || (decide (3 < insn.nsrc) && insn.src3.emits)

/-- The source parameters `src[0 .. nsrc-1]` of the decoded instruction. -/
def sm1_instruction.sources (insn : sm1_instruction) : List sm1_src_param :=
  [insn.src0, insn.src1, insn.src2, insn.src3].take insn.nsrc

/-- The instructions of the program under construction. -/
def tx_insns (tx : shader_translator) : List ureg_item :=
  tx.ureg.items.filter ureg_item.is_insn

/-- The row of the table that `sm1_parse_instruction` finds for the instruction at the
cursor, if any. -/
def round_row (tx : shader_translator) : Option sm1_op_info :=
  match sm1_parse_instruction_head tx with
  | .ok (info, _) => info
  | .error _ => none

/-- A round of the dispatch loop on an instruction that passes the version check, has no
special handler and whose operands carry no modifier that is lowered to an instruction. -/
def generic_round (r : shader_translator × shader_translator) : Bool :=
  match round_row r.1 with
  | some info => info.handler.isNone && !(sm1_version_rejected r.1 info) && !(r.2.insn.emits)
  | none => false

/-- Opcode and numbers of destinations and sources of a logged instruction. -/
def ureg_item.signature : ureg_item → tgsi_opcode × Nat × Nat
  | .insn op d s => (op, d.length, s.length)
  | .tex_insn op _ _ s => (op, 1, s.length)
  | .label_insn op s => (op, 0, s.length)
  | _ => (.ZERO, 0, 0)

/-- Spec side: the target opcode and the operand counts that the table gives for the
instruction of a round. -/
def round_signature (r : shader_translator × shader_translator) : tgsi_opcode × Nat × Nat :=
  match round_row r.1 with
  | some info => (info.opcode, info.ndst, info.nsrc)
  | none => (.ZERO, 0, 0)

/-- Spec side: lowering a list of source parameters one after the other. -/
def lower_in_order :
    shader_translator → List sm1_src_param → Except Fault (List ureg_src × shader_translator)
  | tx, [] => .ok ([], tx)
  | tx, p :: ps =>
    (tx_src_param tx p).bind (fun a =>
      (lower_in_order a.2 ps).bind (fun b => .ok (a.1 :: b.1, b.2)))

/-- The program `vs_2_0; comment; ADD r0, r1, r2; MOV r3, -r0; MAD r4, |r0|, r1, c7; END`. -/
def prog_generic : List Nat :=
  [0xfffe0200,
   0x0001fffe, 0x12345678,
   0x03000002, 0x000f0000, 0x00e40001, 0x00e40002,
   0x02000001, 0x000f0003, 0x01e40000,
   0x04000004, 0x000f0004, 0x0be40000, 0x00e40001, 0x20e40007,
   0x0000ffff]

/-- The translator on the first instruction of `prog_generic`, as `nine_translate_shader`
passes it on after `tx_ctor` and the creation of the program. -/
def tx_generic : shader_translator :=
  { shader_translator.calloc small_env with
    byte_code := prog_generic, parse := 1, version_major := 2, version_minor := 0,
    processor := .VERTEX, input_map := List.replicate 16 (0, 0),
    ureg := ureg_create .VERTEX }

/-- The run does not end with `Fault.fuel`, the outcome of the model that no run of the C
code has: it returns or it ends in a fault of the C code. -/
def no_fuel {α : Type} (x : Except Fault α) : Prop := x ≠ .error .fuel

/-- Semantic and usage mask of a declaration of an output. -/
def ureg_item.decl_output_mask : ureg_item → Option (tgsi_semantic × Nat × Nat)
  | .DECL_output_masked name index mask => some (name, index, mask)
  | _ => none

/-- The program `DCL_<usage> <reg>; END` behind the given header word; `usage` is the
first and `reg` the second word of the declaration. -/
def prog_dcl (header usage reg : Nat) : List Nat :=
  [header, 0x0200001f, usage, reg, 0x0000ffff]

/-- The program `vs_2_0; MOV r0, i<i>; END`. -/
def prog_mov_i (i : Nat) : List Nat :=
  [0xfffe0200, 0x02000001, 0x000f0000, 0x70e40000 + i, 0x0000ffff]

/-- The program `vs_2_0; IF b<i>; ENDIF; END`. -/
def prog_if_b (i : Nat) : List Nat :=
  [0xfffe0200, 0x01000028, 0x60e40800 + i, 0x0000002b, 0x0000ffff]

/-- The program `vs_2_0; ADD r0, r1_bias, r2_x2; ...; END` with `n` such instructions,
each with two source modifiers that are lowered to an instruction. -/
def prog_adds (n : Nat) : List Nat :=
  [0xfffe0200] ++
    (List.replicate n [0x03000002, 0x000f0000, 0x02e40001, 0x07e40002]).flatten ++
    [0x0000ffff]

/-- The translator on the first instruction of `prog_adds n`, as `nine_translate_shader`
passes it on after `tx_ctor` and the creation of the program. -/
def tx_adds (n : Nat) : shader_translator :=
  { shader_translator.calloc small_env with
    byte_code := prog_adds n, parse := 1, version_major := 2, version_minor := 0,
    processor := .VERTEX, input_map := List.replicate 16 (0, 0),
    ureg := ureg_create .VERTEX }

/-- The program `vs_3_0; ADD r0, r1, c<k>; BREAKC_GT r3, r4; END`. -/
def prog_breakc (k : Nat) : List Nat :=
  [0xfffe0300, 0x03000002, 0x000f0000, 0x00e40001, 0x20e40000 + k,
   0x0201002d, 0x00e40003, 0x00e40004, 0x0000ffff]

/-- The program `vs_2_0; MOV r0, r<k>; LABEL l5; END`. -/
def prog_mov_label (k : Nat) : List Nat :=
  [0xfffe0200, 0x02000001, 0x000f0000, 0x00e40000 + k, 0x0100001e, 0x20e41005, 0x0000ffff]

/-- The program `vs_2_0; LABEL l0; END`. -/
def prog_label0 : List Nat := [0xfffe0200, 0x0100001e, 0x20e41000, 0x0000ffff]

/-- The program `vs_2_0; CALL l0; END`. -/
def prog_call0 : List Nat := [0xfffe0200, 0x01000019, 0x20e41000, 0x0000ffff]

/-- A state that the translator never reaches: on the first instruction of a vertex
shader of version 2.0, with a label table of `n` entries and `num_inst_labels = n`. -/
def tx_with_labels (n : Nat) (byte_code : List Nat) : shader_translator :=
  { shader_translator.calloc small_env with
    byte_code := byte_code, parse := 1, version_major := 2, version_minor := 0,
    processor := .VERTEX, input_map := List.replicate 16 (0, 0),
    ureg := ureg_create .VERTEX,
    inst_labels := List.replicate n 0, num_inst_labels := n }

/-- The program `vs_2_0; IF b0; ELSE; ENDIF; END`. -/
def prog_if_else : List Nat :=
  [0xfffe0200, 0x01000028, 0x60e40800, 0x0000002a, 0x0000002b, 0x0000ffff]

/-- The translator on the first instruction of a vertex shader of version 2.0, as
`nine_translate_shader` passes it on after `tx_ctor` and the creation of the program. -/
def tx_vs_2_0 (byte_code : List Nat) : shader_translator :=
  { shader_translator.calloc small_env with
    byte_code := byte_code, parse := 1, version_major := 2, version_minor := 0,
    processor := .VERTEX, input_map := List.replicate 16 (0, 0),
    ureg := ureg_create .VERTEX }

/-- The program `vs_2_0; IF b0; ...; IF b0; END` with `n` nested IF and no ENDIF. -/
def prog_ifs (n : Nat) : List Nat :=
  [0xfffe0200] ++ (List.replicate n [0x01000028, 0x60e40800]).flatten ++ [0x0000ffff]

/-- The program `ps_3_0; DCL_2D s0; DCL_CUBE s1; TEXLDD r0, r0, s1, r1, r2; END`: the
sampler operand is the second source of TEXLDD. -/
def prog_texldd_s1 : List Nat :=
  [0xffff0300,
   0x0200001f, 0x1000000d, 0x200f0800,
   0x0200001f, 0x1800000d, 0x200f0801,
   0x0500005d, 0x000f0000, 0x00e40000, 0x20e40801, 0x00e40001, 0x00e40002,
   0x0000ffff]

/-- A pixel-shader translator in a debug build in which sampler 0 has the target 2D and
sampler 1 the target CUBE recorded and the current instruction is
`TEXLDD r0, r0, s1, r1, r2`. -/
def tx_texldd_s1 : shader_translator :=
  let tx := shader_translator.calloc example_env
  { tx with
    processor := .FRAGMENT, version_major := 3,
    sampler_targets := (tx.sampler_targets.set 0 .T2D).set 1 .CUBE,
    insn := { tx.insn with
      opcode := D3DSIO_TEXLDD, ndst := 1, nsrc := 4,
      dst0 := { sm1_dst_param.zero with file := D3DSPR_TEMP, mask := 0xf },
      src0 := { tx.insn.src0 with file := D3DSPR_TEMP, swizzle := NINED3DSP_NOSWIZZLE },
      src1 := { tx.insn.src1 with file := D3DSPR_SAMPLER, idx := 1,
                                  swizzle := NINED3DSP_NOSWIZZLE },
      src2 := { tx.insn.src2 with file := D3DSPR_TEMP, idx := 1,
                                  swizzle := NINED3DSP_NOSWIZZLE },
      src3 := { tx.insn.src3 with file := D3DSPR_TEMP, idx := 2,
                                  swizzle := NINED3DSP_NOSWIZZLE } } }

/-- The destination parameters `dst[0 .. ndst-1]` of the decoded instruction. -/
def sm1_instruction.dests (insn : sm1_instruction) : List sm1_dst_param :=
  [insn.dst0].take insn.ndst

/-- Spec side: lowering a list of destination parameters one after the other. -/
def lower_dsts_in_order :
    shader_translator → List sm1_dst_param → Except Fault (List ureg_dst × shader_translator)
  | tx, [] => .ok ([], tx)
  | tx, p :: ps =>
    (tx_dst_param tx p).bind (fun a =>
      (lower_dsts_in_order a.2 ps).bind (fun b => .ok (a.1 :: b.1, b.2)))

/-- Spec side: `it` is the instruction that the spec has the round `r` emit.  The row of
the table is found for the instruction at the cursor; on the translator `ta` that differs
from the one before the round only by the cursor and the decoded instruction, the
destinations and then the sources of the decoded instruction are lowered in operand order;
`it` is the target opcode of the row applied to the results. -/
def round_emits (r : shader_translator × shader_translator) (it : ureg_item) : Prop :=
  ∃ (info : sm1_op_info) (ta t1 t2 : shader_translator) (dsts : List ureg_dst)
    (srcs : List ureg_src),
    round_row r.1 = some info ∧ decode_frame r.1 ta ∧ ta.insn = r.2.insn ∧
    r.2.insn.ndst = info.ndst ∧ r.2.insn.nsrc = info.nsrc ∧
    lower_dsts_in_order ta r.2.insn.dests = .ok (dsts, t1) ∧
    lower_in_order t1 r.2.insn.sources = .ok (srcs, t2) ∧
    dsts.length = info.ndst ∧ srcs.length = info.nsrc ∧
    it = .insn info.opcode dsts srcs

/-- Negation and absolute value of the sources of a logged instruction. -/
def ureg_item.src_mods : ureg_item → List (Bool × Bool)
  | .insn _ _ src => src.map (fun s => (s.Negate, s.Absolute))
  | .tex_insn _ _ _ src => src.map (fun s => (s.Negate, s.Absolute))
  | .label_insn _ src => src.map (fun s => (s.Negate, s.Absolute))
  | _ => []

/-- Effect of a step on the program under construction: calls are only appended to the
log. -/
def grows (tx tx' : shader_translator) : Prop :=
  ∃ l : List ureg_item, tx'.ureg.items = tx.ureg.items ++ l

/-- The vertex-shader translator of version 2.0 for `prog_generic` in the build of
`example_env`, as `nine_translate_shader` passes it to `tx_decl_constants`: nothing is in
the program yet. -/
def tx_generic_full : shader_translator :=
  { shader_translator.calloc example_env with
    byte_code := prog_generic, parse := 1, version_major := 2, version_minor := 0,
    processor := .VERTEX, input_map := List.replicate 16 (0, 0),
    ureg := ureg_create .VERTEX }

/-- Index of a declaration of a constant. -/
def ureg_item.decl_constant : ureg_item → Option Nat
  | .DECL_constant index => some index
  | _ => none

/-! # Theorems -/

/-- One evaluation of a run settles two tests of its result. -/
theorem result_of_and {α : Type} {x : Except Fault α} {p q : α → Bool}
    (h : result_of (x.map (fun r => p r && q r)) = some true) :
    result_of (x.map p) = some true ∧ result_of (x.map q) = some true := by
  cases x with
  | error e => cases h
  | ok a =>
    simp only [Except.map, result_of, Option.some.injEq, Bool.and_eq_true] at h ⊢
    exact h

/-- A test of the result of a run for a value gives the value. -/
theorem result_of_decide {α β : Type} {x : Except Fault α} {f : α → β} {v : β}
    {d : ∀ r, Decidable (f r = v)}
    (h : result_of (x.map (fun r => @decide (f r = v) (d r))) = some true) :
    result_of (x.map f) = some v := by
  cases x with
  | error e => cases h
  | ok a =>
    simp only [Except.map, result_of, Option.some.injEq, decide_eq_true_eq] at h ⊢
    exact h

/-- The values of two functions of the result of a run, as a pair. -/
theorem result_of_pair {α β γ : Type} {x : Except Fault α} {f : α → β} {g : α → γ}
    {b : β} {c : γ} (h1 : result_of (x.map f) = some b) (h2 : result_of (x.map g) = some c) :
    result_of (x.map (fun r => (f r, g r))) = some (b, c) := by
  cases x with
  | error e => cases h1
  | ok a =>
    simp only [Except.map, result_of, Option.some.injEq, Prod.mk.injEq] at h1 h2 ⊢
    exact ⟨h1, h2⟩

/-- C1 (version gating), evaluated at `vs_2_0; LOOP aL, i0; END`: the LOOP instruction is
outside its version range, nothing is emitted, `parse_next` is instruction start + 1 + 2
= 4, but the cursor is left at 2, one word behind the opcode word and not at
`parse_next`. -/
theorem C1_version_gate_leaves_cursor_behind_opcode :
    result_of (((example_tx .VERTEX prog_gated_loop).bind sm1_parse_instruction).map
        (fun tx => (tx.parse, tx.parse_next, tx.ureg.items.length)))
      = some (2, some 4, 0) := by
  decide!

/-- C3 (matrix dimensions), evaluated at `vs_2_0; M4x4 r0, v0, c0; END` with the full
writemask: the handler of M4x4 runs the lowering with (k, n) = (4, 3) and the program
gets three DP4 instructions, writing x, y and z, and none for w. -/
theorem C3_M4x4_emits_three_rows :
    NineTranslateInstruction_M4x4 = (fun tx => NineTranslateInstruction_Mkxn tx 4 3) ∧
    result_of ((nine_translate_shader example_device (example_info .VERTEX prog_m4x4)).map
        (fun r => (r.1, (emitted_insns r.2).map (fun it => (it.opcode, it.dst_mask)))))
      = some (.D3D_OK, [(.DP4, 1), (.DP4, 2), (.DP4, 4), (.END, 0)]) := by
  refine ⟨rfl, ?_⟩
  decide!

/-- C5 (byte-size accounting), evaluated at `vs_2_0; comment; END` followed by two more
words: the end token that follows the comment is taken as an opcode word, the loop runs
on to the next end token and the byte size is 20 instead of the 12 bytes of header,
comment and end token. -/
theorem C5_end_after_comment_is_overrun :
    result_of ((nine_translate_shader example_device
        (example_info .VERTEX prog_comment_end)).map
        (fun r => (r.1, r.2.byte_size, (emitted_insns r.2).map ureg_item.opcode)))
      = some (.D3D_OK, 20, [.NOP, .END]) := by
  decide!

/-- C9, counterexample: in `ps_3_0; DCL_2D s0; DCL_CUBE s1; TEXLDD r0, r0, r1, r2, s0; END`
the fourth source src3 is s0, declared 2D, but the TXD instruction is tagged CUBE, the
target recorded for index 1, the index of src1: the handler takes the sampler from the
second source, not from the fourth. -/
theorem C9_TEXLDD_target_follows_src1 :
    result_of ((nine_translate_shader example_device
        (example_info .FRAGMENT prog_texldd)).map
        (fun r => (r.1, (emitted_insns r.2).map ureg_item.opcode,
                   (emitted_insns r.2).map ureg_item.tex_target)))
      = some (.D3D_OK, [.TXD, .END], [some .CUBE, none]) ∧
    result_of ((nine_translate_shader example_device
        (example_info .FRAGMENT prog_texldd)).map
        (fun r => (emitted_insns r.2).map ureg_item.src_regs))
      = some [[(.TEMPORARY, 0), (.TEMPORARY, 1), (.TEMPORARY, 2), (.SAMPLER, 0)], []] := by
  have h : result_of ((nine_translate_shader example_device
        (example_info .FRAGMENT prog_texldd)).map
        (fun r =>
          decide (r.1 = .D3D_OK) &&
          decide ((emitted_insns r.2).map ureg_item.opcode = [.TXD, .END]) &&
          decide ((emitted_insns r.2).map ureg_item.tex_target = [some .CUBE, none]) &&
          decide ((emitted_insns r.2).map ureg_item.src_regs =
            [[(.TEMPORARY, 0), (.TEMPORARY, 1), (.TEMPORARY, 2), (.SAMPLER, 0)], []])))
      = some true := by decide!
  obtain ⟨h, h4⟩ := result_of_and h
  obtain ⟨h, h3⟩ := result_of_and h
  obtain ⟨h1, h2⟩ := result_of_and h
  exact ⟨result_of_pair (result_of_decide h1)
      (result_of_pair (result_of_decide h2) (result_of_decide h3)),
    result_of_decide h4⟩

theorem tx_assert_ok_iff (tx : shader_translator) (c : Bool) :
    tx_assert tx c = .ok () ↔ (tx.env.asserts = true → c = true) := by
  unfold tx_assert
  cases tx.env.asserts <;> cases c <;> simp

theorem tx_assert_of_asserts (tx : shader_translator) (c : Bool) (h : tx.env.asserts = true) :
    tx_assert tx c = if c then .ok () else .error .assertion := by
  unfold tx_assert
  cases c <;> simp [h]

theorem tx_bgnloop_asserts (tx : shader_translator) (h : tx.env.asserts = true) :
    tx_bgnloop tx =
      if u32_inc tx.loop_depth < NINE_MAX_LOOP_DEPTH then
        .ok (u32_dec (u32_inc tx.loop_depth),
             { tx with loop_depth := u32_inc tx.loop_depth,
                       loop_depth_max := max tx.loop_depth_max (u32_inc tx.loop_depth) })
      else .error .assertion := by
  unfold tx_bgnloop
  by_cases hm : tx.loop_depth_max < u32_inc tx.loop_depth
  · by_cases hd : u32_inc tx.loop_depth < NINE_MAX_LOOP_DEPTH
    · simp [hm, hd, tx_assert, h, bind, Except.bind, pure, Except.pure, Nat.max_eq_right (Nat.le_of_lt hm)]
    · simp [hm, hd, tx_assert, h, bind, Except.bind, pure, Except.pure]
  · by_cases hd : u32_inc tx.loop_depth < NINE_MAX_LOOP_DEPTH
    · simp [hm, hd, tx_assert, h, bind, Except.bind, pure, Except.pure, Nat.max_eq_left (Nat.le_of_not_lt hm)]
    · simp [hm, hd, tx_assert, h, bind, Except.bind, pure, Except.pure]

theorem apply_loop_op_inv (tx tx' : shader_translator) (op : loop_op)
    (h : tx.env.asserts = true) (hi : loop_depth_inv tx)
    (hr : apply_loop_op tx op = .ok tx') :
    tx'.env.asserts = true ∧ loop_depth_inv tx' := by
  cases op with
  | open_loop =>
    simp only [apply_loop_op, tx_bgnloop_asserts tx h] at hr
    split at hr
    · rename_i hd
      simp [Except.map] at hr
      subst hr
      refine ⟨h, ?_⟩
      simp only [loop_depth_inv, NINE_MAX_LOOP_DEPTH] at *
      omega
    · simp [Except.map] at hr
  | close_loop =>
    simp only [apply_loop_op, tx_endloop, tx_assert_of_asserts _ _ h] at hr
    by_cases hz : tx.loop_depth = 0
    · simp [hz, bind, Except.bind, Except.map] at hr
    · simp only [hz, bind, Except.bind, Except.map, ne_eq, not_false_eq_true, decide_True, ite_true] at hr
      cases hg : arr_get tx.loop_labels (u32_dec tx.loop_depth : Nat) with
      | error e => simp [hg] at hr
      | ok label =>
        simp [hg, pure, Except.pure, tx_emit] at hr
        subst hr
        refine ⟨h, ?_⟩
        simp only [loop_depth_inv, NINE_MAX_LOOP_DEPTH, u32_dec] at *
        omega


theorem run_loop_ops_inv (ops : List loop_op) :
    ∀ tx : shader_translator, tx.env.asserts = true → loop_depth_inv tx →
      match run_loop_ops ops tx with
      | .ok tx' => loop_depth_inv tx'
      | .error _ => True := by
  induction ops with
  | nil => intro tx _ hi; simpa [run_loop_ops] using hi
  | cons op ops ih =>
    intro tx h hi
    simp only [run_loop_ops]
    cases hr : apply_loop_op tx op with
    | error e => simp [Except.bind]
    | ok tx1 =>
      have := apply_loop_op_inv tx tx1 op h hi hr
      simpa [Except.bind] using ih tx1 this.1 this.2

/-- C10 (loop depth limit), the claim as stated fails: from nesting depth 63 the
resulting depth 64 does not exceed 64, yet `tx_bgnloop` rejects the open (its assertion
demands a depth below 64). -/
theorem C10_depth_64_is_rejected :
    u32_inc tx_depth63.loop_depth ≤ 64 ∧ tx_depth63.env.asserts = true ∧
    fault_of (tx_bgnloop tx_depth63) = some .assertion := by
  decide!

/-- C10 (loop depth limit), amended: in a build with assertions `tx_bgnloop` accepts an
open exactly when the resulting nesting depth is below 64, and for every sequence of
opens and closes that starts with `loop_depth ≤ loop_depth_max < 64` every accepted
operation leaves `loop_depth ≤ loop_depth_max < 64`. -/
theorem C10_loop_depth_limit (tx : shader_translator) (h : tx.env.asserts = true) :
    ((∃ r, tx_bgnloop tx = .ok r) ↔ u32_inc tx.loop_depth < 64) ∧
    (loop_depth_inv tx → ∀ ops : List loop_op,
      match run_loop_ops ops tx with
      | .ok tx' => tx'.loop_depth ≤ tx'.loop_depth_max ∧ tx'.loop_depth_max < 64
      | .error _ => True) := by
  constructor
  · rw [tx_bgnloop_asserts tx h]
    by_cases hd : u32_inc tx.loop_depth < NINE_MAX_LOOP_DEPTH
    · simp [hd]; simpa [NINE_MAX_LOOP_DEPTH] using hd
    · simp [hd]; simpa [NINE_MAX_LOOP_DEPTH] using hd
  · intro hi ops
    exact run_loop_ops_inv ops tx h hi

/-- Witness for C10: the freshly allocated translator in a build with assertions, with
two opens and one close. -/
theorem C10_loop_depth_limit_witness :
    (shader_translator.calloc example_env).env.asserts = true ∧
    loop_depth_inv (shader_translator.calloc example_env) ∧
    result_of ((run_loop_ops [.open_loop, .open_loop, .close_loop]
      (shader_translator.calloc example_env)).map
        (fun tx => (tx.loop_depth, tx.loop_depth_max))) = some (1, 2) ∧
    (((∃ r, tx_bgnloop (shader_translator.calloc example_env) = .ok r) ↔
        u32_inc (shader_translator.calloc example_env).loop_depth < 64) ∧
     (loop_depth_inv (shader_translator.calloc example_env) → ∀ ops : List loop_op,
      match run_loop_ops ops (shader_translator.calloc example_env) with
      | .ok tx' => tx'.loop_depth ≤ tx'.loop_depth_max ∧ tx'.loop_depth_max < 64
      | .error _ => True)) :=
  ⟨rfl, by unfold loop_depth_inv; decide, by decide!, C10_loop_depth_limit (shader_translator.calloc example_env) rfl⟩

theorem and_one_shiftLeft (w i : Nat) :
    w &&& 1 <<< i = if w.testBit i then 2 ^ i else 0 := by
  rw [Nat.one_shiftLeft, Nat.and_two_pow]
  cases w.testBit i <;> simp

theorem ureg_append_insns_nil (ureg : ureg_program) : ureg_append_insns ureg [] = ureg := by
  simp [ureg_append_insns]

theorem ureg_append_insns_append (ureg : ureg_program) (l1 l2 : List ureg_item) :
    ureg_append_insns (ureg_append_insns ureg l1) l2 = ureg_append_insns ureg (l1 ++ l2) := by
  simp [ureg_append_insns, Nat.add_assoc]

theorem ureg_insn_eq_append (ureg : ureg_program) (op : tgsi_opcode) (d : List ureg_dst)
    (s : List ureg_src) : ureg_insn ureg op d s = ureg_append_insns ureg [.insn op d s] := by
  simp [ureg_insn, ureg_append_insns, ureg_program.log]

theorem Mkxn_rows_eq (k : Nat) (hk : k = 3 ∨ k = 4) (dst : ureg_dst) (src0 s : ureg_src) :
    ∀ (todo i : Nat) (ureg : ureg_program),
      Mkxn_rows k dst src0 todo i { s with Index := s.Index + i } ureg =
        ureg_append_insns ureg ((List.range' i todo).filterMap (Mkxn_row k dst src0 s)) := by
  intro todo
  induction todo with
  | zero => intro i ureg; simp [Mkxn_rows, ureg_append_insns_nil]
  | succ todo ih =>
    intro i ureg
    have hidx : ({ s with Index := s.Index + (i : Int) + 1 } : ureg_src)
        = { s with Index := s.Index + ((i + 1 : Nat) : Int) } := by
      congr 1; push_cast; ring
    simp only [Mkxn_rows, List.range'_succ, hidx, ih]
    rw [and_one_shiftLeft]
    by_cases hb : dst.WriteMask.testBit i
    · have h2 : (2 : Nat) ^ i ≠ 0 := by positivity
      rcases hk with hk | hk
      · subst hk
        simp [hb, h2, Mkxn_row, ureg_insn_eq_append, ureg_append_insns_append,
          ureg_writemask, and_one_shiftLeft]
      · subst hk
        simp [hb, h2, Mkxn_row, ureg_insn_eq_append, ureg_append_insns_append,
          ureg_writemask, and_one_shiftLeft]
    · simp [hb, Mkxn_row]


/-- C2 (writemask projection in the matrix lowering): for k = 3 or 4 and n ≤ 4,
`NineTranslateInstruction_Mkxn(k, n)` lowers its destination and its two sources and then
appends to the program, in increasing row order, exactly the rows of `Mkxn_row` for
i = 0 .. n-1: one DP3 or DP4 for each row whose bit is set in the writemask of the lowered
destination, writing only component i and reading src0 and register src1.index + i, and
nothing for the other rows.  It faults only where the lowering of an operand faults. -/
theorem C2_Mkxn_writemask_projection (tx : shader_translator) (k n : Nat)
    (hk : k = 3 ∨ k = 4) (hn : n ≤ 4) :
    NineTranslateInstruction_Mkxn tx k n =
      (tx_dst_param tx tx.insn.dst0).bind fun d =>
      (tx_src_param d.2 d.2.insn.src0).bind fun s0 =>
      (tx_src_param s0.2 s0.2.insn.src1).bind fun s1 =>
        .ok (.D3D_OK,
          tx_append_insns s1.2 ((List.range n).filterMap (Mkxn_row k d.1 s0.1 s1.1))) := by
  have _ := hn
  unfold NineTranslateInstruction_Mkxn
  cases hd : tx_dst_param tx tx.insn.dst0 with
  | error e => rfl
  | ok d =>
    obtain ⟨dst, tx1⟩ := d
    cases h0 : tx_src_param tx1 tx1.insn.src0 with
    | error e => simp [bind, Except.bind, h0]
    | ok s0 =>
      obtain ⟨src0, tx2⟩ := s0
      cases h1 : tx_src_param tx2 tx2.insn.src1 with
      | error e => simp [bind, Except.bind, h0, h1]
      | ok s1 =>
        obtain ⟨src1, tx3⟩ := s1
        have hrows := Mkxn_rows_eq k hk dst src0 src1 n 0 tx3.ureg
        simp only [Nat.cast_zero, add_zero] at hrows
        simp [bind, Except.bind, h0, h1, pure, Except.pure, tx_emit, hrows, List.range_eq_range',
          tx_append_insns]

/-- Witness for C2: `M3x2 r0.xz, v0, c4` emits one DP3 for row 0 (writing x, reading c4)
and none for row 1, whose bit is clear. -/
theorem C2_Mkxn_writemask_projection_witness :
    ((3 : Nat) = 3 ∨ (3 : Nat) = 4) ∧ (2 : Nat) ≤ 4 ∧
    result_of ((NineTranslateInstruction_Mkxn tx_m3x2 3 2).map (fun r =>
      (r.1, (r.2.ureg.items.filter ureg_item.is_insn).map
        (fun it => (it.opcode, it.dst_mask)))))
      = some (.D3D_OK, [(.DP3, 1)]) ∧
    result_of ((NineTranslateInstruction_Mkxn tx_m3x2 3 2).map (fun r =>
      (r.2.ureg.items.filter ureg_item.is_insn).map ureg_item.src_regs))
      = some [[(.INPUT, 0), (.CONSTANT, 4)]] ∧
    NineTranslateInstruction_Mkxn tx_m3x2 3 2 =
      (tx_dst_param tx_m3x2 tx_m3x2.insn.dst0).bind fun d =>
      (tx_src_param d.2 d.2.insn.src0).bind fun s0 =>
      (tx_src_param s0.2 s0.2.insn.src1).bind fun s1 =>
        .ok (.D3D_OK,
          tx_append_insns s1.2 ((List.range 2).filterMap (Mkxn_row 3 d.1 s0.1 s1.1))) :=
  ⟨Or.inl rfl, by decide, by decide!, by decide!,
   C2_Mkxn_writemask_projection tx_m3x2 3 2 (Or.inl rfl) (by decide)⟩

theorem opcode_field_eq (tok : Nat) : tok &&& D3DSI_OPCODE_MASK = tok % 2 ^ 16 := by
  have : D3DSI_OPCODE_MASK = 2 ^ 16 - 1 := by decide
  rw [this, Nat.and_pow_two_sub_one_eq_mod]

/-- A field of `k` bits at bit `s` of a word, in terms of division and remainder. -/
theorem field_extract (tok s k : Nat) :
    (tok &&& ((2 ^ k - 1) <<< s)) >>> s = tok / 2 ^ s % 2 ^ k := by
  apply Nat.eq_of_testBit_eq
  intro j
  rw [← Nat.shiftRight_eq_div_pow]
  simp only [Nat.testBit_shiftRight, Nat.testBit_and, Nat.testBit_shiftLeft,
    Nat.testBit_mod_two_pow, Nat.testBit_two_pow_sub_one]
  by_cases h : j < k <;> simp [h]

theorem comment_size_field_eq (tok : Nat) :
    (tok &&& D3DSI_COMMENTSIZE_MASK) >>> D3DSI_COMMENTSIZE_SHIFT = tok / 2 ^ 16 % 2 ^ 15 := by
  have h1 : D3DSI_COMMENTSIZE_MASK = (2 ^ 15 - 1) <<< 16 := by decide
  rw [h1, D3DSI_COMMENTSIZE_SHIFT, field_extract]

theorem comment_run_end_ge (code : List Nat) (Ns : List Nat) :
    ∀ p q, comment_run_end code p Ns = some q → p + Ns.length ≤ q := by
  induction Ns with
  | nil => intro p q h; simp [comment_run_end] at h; simp [h]
  | cons N Ns ih =>
    intro p q h
    simp only [comment_run_end] at h
    split at h
    · split at h
      · have := ih _ _ h
        simp only [List.length_cons]
        omega
      · cases h
    · cases h

theorem sm1_parse_comments_loop_run (tx : shader_translator) (w : Nat) (Ns : List Nat) :
    ∀ (p q fuel : Nat), comment_run_end tx.byte_code p Ns = some q →
      tx.byte_code[q]? = some w → w &&& D3DSI_OPCODE_MASK ≠ D3DSIO_COMMENT →
      Ns.length < fuel →
      sm1_parse_comments_loop fuel { tx with parse := p } = .ok { tx with parse := q } := by
  induction Ns with
  | nil =>
    intro p q fuel h hw hnc hf
    simp [comment_run_end] at h
    subst h
    obtain ⟨fuel, rfl⟩ : ∃ f, fuel = f + 1 := ⟨fuel - 1, by simp at hf; omega⟩
    simp [sm1_parse_comments_loop, TOKEN_PEEK, hw, bind, Except.bind, hnc, pure, Except.pure]
  | cons N Ns ih =>
    intro p q fuel h hw hnc hf
    obtain ⟨fuel, rfl⟩ : ∃ f, fuel = f + 1 := ⟨fuel - 1, by simp at hf; omega⟩
    simp only [comment_run_end] at h
    split at h
    · rename_i tok htok
      split at h
      · rename_i hc
        have hrec := ih _ _ fuel h hw hnc (by simp at hf; omega)
        have hop : tok &&& D3DSI_OPCODE_MASK = D3DSIO_COMMENT := by
          rw [opcode_field_eq]; exact hc.1
        simp only [sm1_parse_comments_loop, TOKEN_PEEK, htok, bind, Except.bind, hop,
          if_true, comment_size_field_eq, hc.2]
        exact hrec
      · cases h
    · cases h

theorem comment_run_end_sum (code : List Nat) (Ns : List Nat) :
    ∀ p q, comment_run_end code p Ns = some q → q = p + (Ns.map (· + 1)).sum := by
  induction Ns with
  | nil => intro p q h; simp [comment_run_end] at h; simp [h]
  | cons N Ns ih =>
    intro p q h
    simp only [comment_run_end] at h
    split at h
    · split at h
      · have := ih _ _ h
        simp only [List.map_cons, List.sum_cons]
        omega
      · cases h
    · cases h

/-- C4 (comment skipping): when the cursor stands on a run of consecutive comment
tokens with length fields `Ns` and a word that is not a comment token follows the run,
`sm1_parse_comments` returns with the cursor on that word, `N + 1` words further for each
comment of length `N`, and changes nothing else; in particular it emits no IR.  One
comment token of length `N` (`Ns = [N]`) moves the cursor by exactly `N + 1` words. -/
theorem C4_comment_skipping (tx : shader_translator) (Ns : List Nat) (q w : Nat)
    (hrun : comment_run_end tx.byte_code tx.parse Ns = some q)
    (hw : tx.byte_code[q]? = some w) (hnc : w % 2 ^ 16 ≠ 0xfffe) :
    sm1_parse_comments tx = .ok { tx with parse := q } ∧
    q = tx.parse + (Ns.map (· + 1)).sum := by
  refine ⟨?_, comment_run_end_sum _ _ _ _ hrun⟩
  have hge := comment_run_end_ge _ _ _ _ hrun
  have hq : q < tx.byte_code.length := by
    by_contra hcon
    rw [List.getElem?_eq_none (by omega)] at hw
    cases hw
  have hnc' : w &&& D3DSI_OPCODE_MASK ≠ D3DSIO_COMMENT := by
    rw [opcode_field_eq]; exact hnc
  have := sm1_parse_comments_loop_run tx w Ns tx.parse q (tx.byte_code.length - tx.parse + 1)
    hrun hw hnc' (by omega)
  simpa [sm1_parse_comments] using this

/-- Witness for C4: two comments of lengths 2 and 0 at word 1 are skipped and the cursor
ends on word 5, the MOV. -/
theorem C4_comment_skipping_witness :
    comment_run_end tx_two_comments.byte_code tx_two_comments.parse [2, 0] = some 5 ∧
    tx_two_comments.byte_code[5]? = some 0x02000001 ∧ 0x02000001 % 2 ^ 16 ≠ 0xfffe ∧
    (sm1_parse_comments tx_two_comments = .ok { tx_two_comments with parse := 5 } ∧
     5 = tx_two_comments.parse + (([2, 0] : List Nat).map (· + 1)).sum) :=
  ⟨by decide, by decide, by decide,
   C4_comment_skipping tx_two_comments [2, 0] 5 0x02000001 (by decide) (by decide) (by decide)⟩

theorem bind_eq_ok {α β : Type} (x : Except Fault α) (f : α → Except Fault β) (b : β) :
    (x >>= f) = .ok b ↔ ∃ a, x = .ok a ∧ f a = .ok b := by
  cases x with
  | error e => simp [bind, Except.bind]
  | ok a => simp [bind, Except.bind]

theorem pure_eq_ok {α : Type} (a b : α) : (pure a : Except Fault α) = .ok b ↔ a = b := by
  simp [pure, Except.pure]

theorem throw_ne_ok {α : Type} (e : Fault) (b : α) : (throw e : Except Fault α) ≠ .ok b := by
  simp [throw, throwThe, MonadExceptOf.throw]

theorem lowering_frame_refl (tx : shader_translator) : lowering_frame tx tx := by
  unfold lowering_frame; rfl

theorem lowering_frame_trans {a b c : shader_translator} (h1 : lowering_frame a b)
    (h2 : lowering_frame b c) : lowering_frame a c := by
  unfold lowering_frame at *
  rw [h2, h1]

theorem appends_plain_refl (tx : shader_translator) : appends_plain tx tx :=
  ⟨[], by simp, by simp⟩

theorem appends_plain_trans {a b c : shader_translator} (h1 : appends_plain a b)
    (h2 : appends_plain b c) : appends_plain a c := by
  obtain ⟨l1, e1, p1⟩ := h1
  obtain ⟨l2, e2, p2⟩ := h2
  refine ⟨l1 ++ l2, by rw [e2, e1, List.append_assoc], ?_⟩
  intro it hit
  rcases List.mem_append.mp hit with h | h
  · exact p1 it h
  · exact p2 it h


theorem lowers_refl (tx : shader_translator) : lowers tx tx :=
  ⟨lowering_frame_refl tx, appends_plain_refl tx⟩

theorem lowers_trans {a b c : shader_translator} (h1 : lowers a b) (h2 : lowers b c) :
    lowers a c :=
  ⟨lowering_frame_trans h1.1 h2.1, appends_plain_trans h1.2 h2.2⟩

/-- A change of the register environment and one appended plain call. -/
theorem lowers_of_log (tx : shader_translator) (it : ureg_item) (hp : it.is_plain = true)
    (tx' : shader_translator)
    (hfr : lowering_frame tx tx') (hit : tx'.ureg.items = tx.ureg.items ++ [it]) :
    lowers tx tx' :=
  ⟨hfr, [it], hit, by simpa using hp⟩

theorem tx_assert_eq_ok (tx : shader_translator) (c : Bool) (u : Unit) :
    tx_assert tx c = .ok u ↔ (tx.env.asserts = true → c = true) := by
  cases u; exact tx_assert_ok_iff tx c

theorem lowers_log_regs (tx : shader_translator) (regs : tx_regs) (n : Nat) (u : ureg_program)
    (it : ureg_item) (hu : u.items = tx.ureg.items ++ [it]) (hp : it.is_plain = true) :
    lowers tx { tx with ureg := u, regs := regs, num_temp := n } :=
  ⟨rfl, [it], hu, by simpa using hp⟩

theorem lowers_regs (tx : shader_translator) (regs : tx_regs) (n : Nat) :
    lowers tx { tx with regs := regs, num_temp := n } :=
  ⟨rfl, [], by simp, by simp⟩

theorem tx_temp_alloc_lowers (tx tx' : shader_translator) (idx : Int)
    (h : tx_temp_alloc tx idx = .ok tx') : lowers tx tx' := by
  unfold tx_temp_alloc at h
  simp only [bind_eq_ok, pure_eq_ok] at h
  obtain ⟨_, _, h⟩ := h
  split at h
  · exact absurd h (throw_ne_ok _ _)
  · have h1 : lowers tx (if idx.toNat ≥ tx.num_temp then
        { tx with regs := { tx.regs with r := realloc_block tx.regs.r (idx.toNat + 1) ureg_dst_undef },
                  num_temp := idx.toNat + 1 } else tx) := by
      split
      · exact lowers_regs tx _ _
      · exact lowers_refl tx
    generalize (if idx.toNat ≥ tx.num_temp then
        { tx with regs := { tx.regs with r := realloc_block tx.regs.r (idx.toNat + 1) ureg_dst_undef },
                  num_temp := idx.toNat + 1 } else tx) = tx1 at h h1
    simp only [bind_eq_ok, pure_eq_ok] at h
    obtain ⟨_, _, r, hr, h⟩ := h
    split at h
    · simp only [bind_eq_ok, pure_eq_ok, tx_emit_get, ureg_DECL_temporary] at h
      obtain ⟨rs, hrs, h⟩ := h
      subst h
      exact lowers_trans h1 (lowers_log_regs tx1 _ tx1.num_temp _ (.DECL_temporary tx1.ureg.nr_temps)
        (by simp [ureg_program.log]) rfl)
    · simp only [pure_eq_ok] at h
      subst h
      exact h1


theorem lowers_log (tx : shader_translator) (regs : tx_regs) (u : ureg_program)
    (it : ureg_item) (hu : u.items = tx.ureg.items ++ [it]) (hp : it.is_plain = true) :
    lowers tx { tx with ureg := u, regs := regs } :=
  ⟨rfl, [it], hu, by simpa using hp⟩

theorem tx_addr_alloc_lowers (tx tx' : shader_translator) (idx : Int)
    (h : tx_addr_alloc tx idx = .ok tx') : lowers tx tx' := by
  unfold tx_addr_alloc at h
  simp only [bind_eq_ok, pure_eq_ok] at h
  obtain ⟨_, _, h⟩ := h
  split at h
  · simp only [pure_eq_ok, tx_emit_get, ureg_DECL_address] at h
    subst h
    exact lowers_log tx _ _ (.DECL_address tx.ureg.nr_addrs) (by simp [ureg_program.log]) rfl
  · simp only [pure_eq_ok] at h
    subst h
    exact lowers_refl tx

theorem tx_pred_alloc_lowers (tx tx' : shader_translator) (idx : Int)
    (h : tx_pred_alloc tx idx = .ok tx') : lowers tx tx' := by
  unfold tx_pred_alloc at h
  simp only [bind_eq_ok, pure_eq_ok] at h
  obtain ⟨_, _, h⟩ := h
  split at h
  · simp only [pure_eq_ok, tx_emit_get, ureg_DECL_predicate] at h
    subst h
    exact lowers_log tx _ _ (.DECL_predicate tx.ureg.nr_preds) (by simp [ureg_program.log]) rfl
  · simp only [pure_eq_ok] at h
    subst h
    exact lowers_refl tx

theorem tx_texcoord_alloc_lowers (tx tx' : shader_translator) (idx : Int)
    (h : tx_texcoord_alloc tx idx = .ok tx') : lowers tx tx' := by
  unfold tx_texcoord_alloc at h
  simp only [bind_eq_ok, pure_eq_ok] at h
  obtain ⟨_, _, _, _, v, hv, h⟩ := h
  split at h
  · simp only [bind_eq_ok, pure_eq_ok, tx_emit_get, ureg_DECL_fs_input,
      ureg_DECL_fs_input_cyl_centroid] at h
    obtain ⟨vT, hvT, h⟩ := h
    subst h
    exact lowers_log tx _ _
      (.DECL_fs_input (if tx.want_texcoord then .TEXCOORD else .GENERIC) idx.toNat .PERSPECTIVE 0 false)
      (by simp [ureg_program.log]) rfl
  · simp only [pure_eq_ok] at h
    subst h
    exact lowers_refl tx

theorem tx_get_loopctr_lowers (tx tx' : shader_translator) (r : ureg_dst)
    (h : tx_get_loopctr tx = .ok (r, tx')) : lowers tx tx' := by
  unfold tx_get_loopctr at h
  dsimp only at h
  split at h
  · cases h; exact lowers_refl tx
  · rw [bind_eq_ok] at h
    obtain ⟨cur, hcur, h⟩ := h
    split at h
    · simp only [tx_emit_get, ureg_DECL_local_temporary] at h
      rw [bind_eq_ok] at h
      obtain ⟨_, _, h⟩ := h
      rw [bind_eq_ok] at h
      obtain ⟨cur2, hc2, h⟩ := h
      cases h
      exact lowers_log tx _ _ (.DECL_local_temporary tx.ureg.nr_temps)
        (by simp [ureg_program.log]) rfl
    · cases h; exact lowers_refl tx

theorem lowers_scratch (tx : shader_translator) (n : Nat) :
    lowers tx { tx with num_scratch := n } :=
  ⟨rfl, [], by simp, by simp⟩

theorem tx_scratch_lowers (tx tx' : shader_translator) (r : ureg_dst)
    (h : tx_scratch tx = .ok (r, tx')) : lowers tx tx' := by
  unfold tx_scratch at h
  simp only [bind_eq_ok, pure_eq_ok, Prod.mk.injEq] at h
  obtain ⟨_, _, t, ht, h⟩ := h
  rw [← h.2]; exact lowers_scratch tx _


theorem lowers_indirect (tx : shader_translator) (b : Bool) :
    lowers tx { tx with indirect_const_access := b } :=
  ⟨rfl, [], by simp, by simp⟩

theorem tx_imm1f_lowers (tx : shader_translator) (bits : Nat) :
    lowers tx (tx_imm1f tx bits).2 :=
  ⟨rfl, [.immediate [.f32 bits]], by simp [tx_imm1f, tx_emit_get, ureg_imm1f,
    ureg_DECL_immediate, ureg_program.log], by simp [ureg_item.is_plain]⟩

theorem tx_insn_lowers (tx : shader_translator) (op : tgsi_opcode) (d : List ureg_dst)
    (s : List ureg_src) : lowers tx (tx_insn tx op d s) :=
  ⟨rfl, [.insn op d s], by simp [tx_insn, tx_emit, ureg_insn, ureg_program.log],
   by simp [ureg_item.is_plain]⟩

theorem tx_src_param_TEMP_lowers (tx tx' : shader_translator) (param : sm1_src_param)
    (r : ureg_src) (h : tx_src_param_TEMP tx param = .ok (r, tx')) : lowers tx tx' := by
  unfold tx_src_param_TEMP at h
  simp only [bind_eq_ok] at h
  obtain ⟨_, _, tx1, h1, r1, _, h⟩ := h
  cases h
  exact tx_temp_alloc_lowers _ _ _ h1

theorem tx_src_param_ADDR_lowers (tx tx' : shader_translator) (param : sm1_src_param)
    (r : ureg_src) (h : tx_src_param_ADDR tx param = .ok (r, tx')) : lowers tx tx' := by
  unfold tx_src_param_ADDR at h
  simp only [bind_eq_ok] at h
  obtain ⟨_, _, h⟩ := h
  split at h
  · simp only [bind_eq_ok] at h
    obtain ⟨tx1, h1, h⟩ := h
    cases h
    exact tx_addr_alloc_lowers _ _ _ h1
  · simp only [bind_eq_ok] at h
    obtain ⟨tx1, h1, v, _, h⟩ := h
    cases h
    exact tx_texcoord_alloc_lowers _ _ _ h1

theorem tx_src_param_PREDICATE_lowers (tx tx' : shader_translator) (param : sm1_src_param)
    (r : ureg_src) (h : tx_src_param_PREDICATE tx param = .ok (r, tx')) : lowers tx tx' := by
  unfold tx_src_param_PREDICATE at h
  simp only [bind_eq_ok] at h
  obtain ⟨_, _, tx1, h1, h⟩ := h
  cases h
  exact tx_pred_alloc_lowers _ _ _ h1

theorem tx_src_param_SAMPLER_lowers (tx tx' : shader_translator) (param : sm1_src_param)
    (r : ureg_src) (h : tx_src_param_SAMPLER tx param = .ok (r, tx')) : lowers tx tx' := by
  unfold tx_src_param_SAMPLER at h
  simp only [bind_eq_ok] at h
  obtain ⟨_, _, _, _, _, _, h⟩ := h
  cases h; exact lowers_refl tx

theorem except_bind_eq_ok {α β : Type} (x : Except Fault α) (f : α → Except Fault β) (b : β) :
    x.bind f = .ok b ↔ ∃ a, x = .ok a ∧ f a = .ok b := by
  cases x with
  | error e => simp [Except.bind]
  | ok a => simp [Except.bind]

theorem tx_src_param_CONST_lowers (tx tx' : shader_translator) (param : sm1_src_param)
    (r : ureg_src) (h : tx_src_param_CONST tx param = .ok (r, tx')) : lowers tx tx' := by
  unfold tx_src_param_CONST at h
  split at h
  · cases h; exact lowers_indirect tx true
  · rw [except_bind_eq_ok] at h
    obtain ⟨o, _, h⟩ := h
    split at h <;> (cases h; exact lowers_refl tx)

theorem tx_src_param_CONST234_lowers (tx tx' : shader_translator)
    (r : ureg_src) (h : tx_src_param_CONST234 tx = .ok (r, tx')) : lowers tx tx' := by
  unfold tx_src_param_CONST234 at h
  simp only [bind_eq_ok] at h
  obtain ⟨_, _, h⟩ := h
  cases h
  exact tx_imm1f_lowers tx _

theorem tx_src_param_CONSTINT_lowers (tx tx' : shader_translator) (param : sm1_src_param)
    (r : ureg_src) (h : tx_src_param_CONSTINT tx param = .ok (r, tx')) : lowers tx tx' := by
  unfold tx_src_param_CONSTINT at h
  split at h
  · cases h; exact lowers_refl tx
  · rw [except_bind_eq_ok] at h
    obtain ⟨o, _, h⟩ := h
    split at h <;> (cases h; exact lowers_refl tx)

theorem tx_src_param_CONSTBOOL_lowers (tx tx' : shader_translator) (param : sm1_src_param)
    (r : ureg_src) (h : tx_src_param_CONSTBOOL tx param = .ok (r, tx')) : lowers tx tx' := by
  unfold tx_src_param_CONSTBOOL at h
  split at h
  · cases h; exact lowers_refl tx
  · rw [except_bind_eq_ok] at h
    obtain ⟨o, _, h⟩ := h
    split at h <;> (cases h; exact lowers_refl tx)

theorem tx_src_param_LOOP_lowers (tx tx' : shader_translator)
    (r : ureg_src) (h : tx_src_param_LOOP tx = .ok (r, tx')) : lowers tx tx' := by
  unfold tx_src_param_LOOP at h
  simp only [bind_eq_ok] at h
  obtain ⟨⟨ctr, tx1⟩, h1, h⟩ := h
  cases h
  exact tx_get_loopctr_lowers _ _ _ h1

theorem tx_src_param_MISCTYPE_idx_lowers (tx tx' : shader_translator) (param : sm1_src_param)
    (src r : ureg_src) (h : tx_src_param_MISCTYPE_idx tx param src = .ok (r, tx')) :
    lowers tx tx' := by
  unfold tx_src_param_MISCTYPE_idx at h
  split at h
  · split at h
    · cases h
      exact lowers_log tx _ _ (.DECL_fs_input .POSITION 0 .LINEAR 0 false)
          (by simp [tx_emit_get, ureg_DECL_fs_input, ureg_DECL_fs_input_cyl_centroid,
            ureg_program.log]) rfl
    · cases h; exact lowers_refl tx
  · split at h
    · split at h
      · cases h
        exact lowers_log tx _ _ (.DECL_fs_input .FACE 0 .CONSTANT 0 false)
            (by simp [tx_emit_get, ureg_DECL_fs_input, ureg_DECL_fs_input_cyl_centroid,
              ureg_program.log]) rfl
      · cases h; exact lowers_refl tx
    · rw [except_bind_eq_ok] at h
      obtain ⟨_, _, h⟩ := h
      cases h; exact lowers_refl tx

theorem tx_src_param_MISCTYPE_lowers (tx tx' : shader_translator) (param : sm1_src_param)
    (src r : ureg_src) (h : tx_src_param_MISCTYPE tx param src = .ok (r, tx')) :
    lowers tx tx' := by
  unfold tx_src_param_MISCTYPE at h
  simp only [bind_eq_ok] at h
  obtain ⟨⟨s1, tx1⟩, h1, _, _, h⟩ := h
  cases h
  exact tx_src_param_MISCTYPE_idx_lowers _ _ _ _ _ h1

theorem tx_src_param_default_lowers (tx tx' : shader_translator)
    (src r : ureg_src) (h : tx_src_param_default tx src = .ok (r, tx')) : lowers tx tx' := by
  unfold tx_src_param_default at h
  simp only [bind_eq_ok] at h
  obtain ⟨_, _, h⟩ := h
  cases h; exact lowers_refl tx

theorem tx_src_param_file_lowers (tx tx' : shader_translator) (param : sm1_src_param)
    (r : ureg_src) (h : tx_src_param_file tx param = .ok (r, tx')) : lowers tx tx' := by
  unfold tx_src_param_file at h
  by_cases c1 : param.file = D3DSPR_TEMP
  · rw [if_pos c1] at h; exact tx_src_param_TEMP_lowers _ _ _ _ h
  rw [if_neg c1] at h
  by_cases c2 : param.file = D3DSPR_ADDR
  · rw [if_pos c2] at h; exact tx_src_param_ADDR_lowers _ _ _ _ h
  rw [if_neg c2] at h
  by_cases c3 : param.file = D3DSPR_INPUT
  · rw [if_pos c3] at h; cases h; exact lowers_refl tx
  rw [if_neg c3] at h
  by_cases c4 : param.file = D3DSPR_PREDICATE
  · rw [if_pos c4] at h; exact tx_src_param_PREDICATE_lowers _ _ _ _ h
  rw [if_neg c4] at h
  by_cases c5 : param.file = D3DSPR_SAMPLER
  · rw [if_pos c5] at h; exact tx_src_param_SAMPLER_lowers _ _ _ _ h
  rw [if_neg c5] at h
  by_cases c6 : param.file = D3DSPR_CONST
  · rw [if_pos c6] at h; exact tx_src_param_CONST_lowers _ _ _ _ h
  rw [if_neg c6] at h
  by_cases c7 : param.file = D3DSPR_CONST2 ∨ param.file = D3DSPR_CONST3
      ∨ param.file = D3DSPR_CONST4
  · rw [if_pos c7] at h; exact tx_src_param_CONST234_lowers _ _ _ h
  rw [if_neg c7] at h
  by_cases c8 : param.file = D3DSPR_CONSTINT
  · rw [if_pos c8] at h; exact tx_src_param_CONSTINT_lowers _ _ _ _ h
  rw [if_neg c8] at h
  by_cases c9 : param.file = D3DSPR_CONSTBOOL
  · rw [if_pos c9] at h; exact tx_src_param_CONSTBOOL_lowers _ _ _ _ h
  rw [if_neg c9] at h
  by_cases c10 : param.file = D3DSPR_LOOP
  · rw [if_pos c10] at h; exact tx_src_param_LOOP_lowers _ _ _ h
  rw [if_neg c10] at h
  by_cases c11 : param.file = D3DSPR_MISCTYPE
  · rw [if_pos c11] at h; exact tx_src_param_MISCTYPE_lowers _ _ _ _ _ h
  rw [if_neg c11] at h
  by_cases c12 : param.file = D3DSPR_TEMPFLOAT16
  · rw [if_pos c12] at h; cases h; exact lowers_refl tx
  rw [if_neg c12] at h
  exact tx_src_param_default_lowers _ _ _ _ h

theorem tx_src_mod_sub_lowers (tx tx' : shader_translator) (src r : ureg_src) (bits : Nat)
    (b : Bool) (h : tx_src_mod_sub tx src bits b = .ok (r, tx')) : lowers tx tx' := by
  unfold tx_src_mod_sub at h
  simp only [bind_eq_ok] at h
  obtain ⟨⟨tmp, tx1⟩, h1, h⟩ := h
  cases h
  exact lowers_trans (tx_scratch_lowers _ _ _ h1)
    (lowers_trans (tx_imm1f_lowers _ _) (tx_insn_lowers _ _ _ _))

theorem tx_src_mod_mad_lowers (tx tx' : shader_translator) (src r : ureg_src) (a b : Nat)
    (h : tx_src_mod_mad tx src a b = .ok (r, tx')) : lowers tx tx' := by
  unfold tx_src_mod_mad at h
  simp only [bind_eq_ok] at h
  obtain ⟨⟨tmp, tx1⟩, h1, h⟩ := h
  cases h
  exact lowers_trans (tx_scratch_lowers _ _ _ h1)
    (lowers_trans (tx_imm1f_lowers _ _)
      (lowers_trans (tx_imm1f_lowers _ _) (tx_insn_lowers _ _ _ _)))

theorem tx_src_mod_x2_lowers (tx tx' : shader_translator) (src r : ureg_src) (b : Bool)
    (h : tx_src_mod_x2 tx src b = .ok (r, tx')) : lowers tx tx' := by
  unfold tx_src_mod_x2 at h
  simp only [bind_eq_ok] at h
  obtain ⟨⟨tmp, tx1⟩, h1, h⟩ := h
  cases h
  exact lowers_trans (tx_scratch_lowers _ _ _ h1) (tx_insn_lowers _ _ _ _)

theorem tx_src_mod_not_lowers (tx tx' : shader_translator) (src r : ureg_src)
    (h : tx_src_mod_not tx src = .ok (r, tx')) : lowers tx tx' := by
  unfold tx_src_mod_not at h
  simp only [bind_eq_ok] at h
  obtain ⟨⟨tmp, tx1⟩, h1, h⟩ := h
  cases h
  exact lowers_trans (tx_scratch_lowers _ _ _ h1) (tx_insn_lowers _ _ _ _)

theorem tx_src_mod_default_lowers (tx tx' : shader_translator) (m : Nat) (src r : ureg_src)
    (h : tx_src_mod_default tx m src = .ok (r, tx')) : lowers tx tx' := by
  unfold tx_src_mod_default at h
  simp only [bind_eq_ok] at h
  obtain ⟨_, _, h⟩ := h
  cases h; exact lowers_refl tx

theorem tx_src_param_mod_lowers (tx tx' : shader_translator) (m : Nat) (src r : ureg_src)
    (h : tx_src_param_mod tx m src = .ok (r, tx')) : lowers tx tx' := by
  unfold tx_src_param_mod at h
  by_cases c1 : m = NINED3DSPSM_ABS
  · rw [if_pos c1] at h; cases h; exact lowers_refl tx
  rw [if_neg c1] at h
  by_cases c2 : m = NINED3DSPSM_ABSNEG
  · rw [if_pos c2] at h; cases h; exact lowers_refl tx
  rw [if_neg c2] at h
  by_cases c3 : m = NINED3DSPSM_NEG
  · rw [if_pos c3] at h; cases h; exact lowers_refl tx
  rw [if_neg c3] at h
  by_cases c4 : m = NINED3DSPSM_BIAS
  · rw [if_pos c4] at h; exact tx_src_mod_sub_lowers _ _ _ _ _ _ h
  rw [if_neg c4] at h
  by_cases c5 : m = NINED3DSPSM_BIASNEG
  · rw [if_pos c5] at h; exact tx_src_mod_sub_lowers _ _ _ _ _ _ h
  rw [if_neg c5] at h
  by_cases c6 : m = NINED3DSPSM_NOT
  · rw [if_pos c6] at h
    by_cases c : tx.native_integers = true
    · rw [if_pos c] at h; exact tx_src_mod_not_lowers _ _ _ _ h
    · rw [if_neg c] at h; exact tx_src_mod_sub_lowers _ _ _ _ _ _ h
  rw [if_neg c6] at h
  by_cases c7 : m = NINED3DSPSM_COMP
  · rw [if_pos c7] at h; exact tx_src_mod_sub_lowers _ _ _ _ _ _ h
  rw [if_neg c7] at h
  by_cases c8 : m = NINED3DSPSM_DZ ∨ m = NINED3DSPSM_DW
  · rw [if_pos c8] at h; cases h; exact lowers_refl tx
  rw [if_neg c8] at h
  by_cases c9 : m = NINED3DSPSM_SIGN
  · rw [if_pos c9] at h; exact tx_src_mod_mad_lowers _ _ _ _ _ _ h
  rw [if_neg c9] at h
  by_cases c10 : m = NINED3DSPSM_SIGNNEG
  · rw [if_pos c10] at h; exact tx_src_mod_mad_lowers _ _ _ _ _ _ h
  rw [if_neg c10] at h
  by_cases c11 : m = NINED3DSPSM_X2
  · rw [if_pos c11] at h; exact tx_src_mod_x2_lowers _ _ _ _ _ h
  rw [if_neg c11] at h
  by_cases c12 : m = NINED3DSPSM_X2NEG
  · rw [if_pos c12] at h; exact tx_src_mod_x2_lowers _ _ _ _ _ h
  rw [if_neg c12] at h
  exact tx_src_mod_default_lowers _ _ _ _ _ h

theorem tx_src_param_lowers (param : sm1_src_param) :
    ∀ (tx tx' : shader_translator) (r : ureg_src),
      tx_src_param tx param = .ok (r, tx') → lowers tx tx' := by
  refine @sm1_src_param.rec
    (fun p => ∀ (tx tx' : shader_translator) (r : ureg_src),
      tx_src_param tx p = .ok (r, tx') → lowers tx tx')
    (fun o => ∀ p, o = some p → ∀ (tx tx' : shader_translator) (r : ureg_src),
      tx_src_param tx p = .ok (r, tx') → lowers tx tx') ?_ ?_ ?_ param
  · intro idx rel file swizzle mod type imm ih tx tx' r h
    unfold tx_src_param at h
    rw [bind_eq_ok] at h
    obtain ⟨⟨s1, tx1⟩, h1, h⟩ := h
    have l1 := tx_src_param_file_lowers _ _ _ _ h1
    cases rel with
    | none =>
      simp only [bind_eq_ok, pure_eq_ok] at h
      obtain ⟨_, rfl, h3⟩ := h
      exact lowers_trans l1 (tx_src_param_mod_lowers _ _ _ _ _ h3)
    | some p =>
      simp only [bind_eq_ok, pure_eq_ok] at h
      obtain ⟨⟨a, txa⟩, ha, _, rfl, h3⟩ := h
      exact lowers_trans l1 (lowers_trans (ih p rfl _ _ _ ha)
        (tx_src_param_mod_lowers _ _ _ _ _ h3))
  · intro q hq; cases hq
  · intro p ih q hq tx tx' r h; cases hq; exact ih _ _ _ h

theorem tx_dst_param_TEMP_lowers (tx tx' : shader_translator) (param : sm1_dst_param)
    (r : ureg_dst) (h : tx_dst_param_TEMP tx param = .ok (r, tx')) : lowers tx tx' := by
  unfold tx_dst_param_TEMP at h
  simp only [bind_eq_ok] at h
  obtain ⟨_, _, tx1, h1, r1, _, h⟩ := h
  cases h
  exact tx_temp_alloc_lowers _ _ _ h1

theorem tx_dst_param_ADDR_lowers (tx tx' : shader_translator) (param : sm1_dst_param)
    (r : ureg_dst) (h : tx_dst_param_ADDR tx param = .ok (r, tx')) : lowers tx tx' := by
  unfold tx_dst_param_ADDR at h
  simp only [bind_eq_ok] at h
  obtain ⟨_, _, tx1, h1, h⟩ := h
  cases h
  exact tx_addr_alloc_lowers _ _ _ h1

theorem tx_dst_param_PREDICATE_lowers (tx tx' : shader_translator) (param : sm1_dst_param)
    (r : ureg_dst) (h : tx_dst_param_PREDICATE tx param = .ok (r, tx')) : lowers tx tx' := by
  unfold tx_dst_param_PREDICATE at h
  simp only [bind_eq_ok] at h
  obtain ⟨_, _, tx1, h1, h⟩ := h
  cases h
  exact tx_pred_alloc_lowers _ _ _ h1

theorem tx_dst_param_COLOROUT_lowers (tx tx' : shader_translator) (param : sm1_dst_param)
    (r : ureg_dst) (h : tx_dst_param_COLOROUT tx param = .ok (r, tx')) : lowers tx tx' := by
  unfold tx_dst_param_COLOROUT at h
  simp only [bind_eq_ok] at h
  obtain ⟨_, _, _, _, c, _, h⟩ := h
  split at h
  · simp only [bind_eq_ok, pure_eq_ok] at h
    obtain ⟨oCol, _, h⟩ := h
    cases h
    exact lowers_log tx _ _ (.DECL_output_masked .COLOR param.idx.toNat TGSI_WRITEMASK_XYZW)
      (by simp [tx_emit_get, ureg_DECL_output, ureg_DECL_output_masked, ureg_program.log]) rfl
  · cases h; exact lowers_refl tx

theorem tx_dst_param_DEPTHOUT_lowers (tx tx' : shader_translator) (param : sm1_dst_param)
    (r : ureg_dst) (h : tx_dst_param_DEPTHOUT tx param = .ok (r, tx')) : lowers tx tx' := by
  unfold tx_dst_param_DEPTHOUT at h
  simp only [bind_eq_ok] at h
  obtain ⟨_, _, h⟩ := h
  split at h
  · cases h
    exact lowers_log tx _ _ (.DECL_output_masked .POSITION 0 TGSI_WRITEMASK_Z)
      (by simp [tx_emit_get, ureg_DECL_output_masked, ureg_program.log]) rfl
  · cases h; exact lowers_refl tx

theorem tx_dst_param_default_lowers (tx tx' : shader_translator)
    (dst r : ureg_dst) (h : tx_dst_param_default tx dst = .ok (r, tx')) : lowers tx tx' := by
  unfold tx_dst_param_default at h
  simp only [bind_eq_ok] at h
  obtain ⟨_, _, h⟩ := h
  cases h; exact lowers_refl tx

theorem tx_dst_param_file_lowers (tx tx' : shader_translator) (param : sm1_dst_param)
    (r : ureg_dst) (h : tx_dst_param_file tx param = .ok (r, tx')) : lowers tx tx' := by
  unfold tx_dst_param_file at h
  by_cases c1 : param.file = D3DSPR_TEMP
  · rw [if_pos c1] at h; exact tx_dst_param_TEMP_lowers _ _ _ _ h
  rw [if_neg c1] at h
  by_cases c2 : param.file = D3DSPR_ADDR
  · rw [if_pos c2] at h; exact tx_dst_param_ADDR_lowers _ _ _ _ h
  rw [if_neg c2] at h
  by_cases c3 : param.file = D3DSPR_RASTOUT ∨ param.file = D3DSPR_ATTROUT
  · rw [if_pos c3] at h; cases h; exact lowers_refl tx
  rw [if_neg c3] at h
  by_cases c4 : param.file = D3DSPR_OUTPUT
  · rw [if_pos c4] at h; cases h; exact lowers_refl tx
  rw [if_neg c4] at h
  by_cases c5 : param.file = D3DSPR_COLOROUT
  · rw [if_pos c5] at h; exact tx_dst_param_COLOROUT_lowers _ _ _ _ h
  rw [if_neg c5] at h
  by_cases c6 : param.file = D3DSPR_DEPTHOUT
  · rw [if_pos c6] at h; exact tx_dst_param_DEPTHOUT_lowers _ _ _ _ h
  rw [if_neg c6] at h
  by_cases c7 : param.file = D3DSPR_PREDICATE
  · rw [if_pos c7] at h; exact tx_dst_param_PREDICATE_lowers _ _ _ _ h
  rw [if_neg c7] at h
  by_cases c8 : param.file = D3DSPR_TEMPFLOAT16
  · rw [if_pos c8] at h; cases h; exact lowers_refl tx
  rw [if_neg c8] at h
  exact tx_dst_param_default_lowers _ _ _ _ h

theorem tx_dst_param_lowers (tx tx' : shader_translator) (param : sm1_dst_param)
    (r : ureg_dst) (h : tx_dst_param tx param = .ok (r, tx')) : lowers tx tx' := by
  unfold tx_dst_param at h
  rw [bind_eq_ok] at h
  obtain ⟨⟨d1, tx1⟩, h1, h⟩ := h
  have l1 := tx_dst_param_file_lowers _ _ _ _ h1
  cases hrel : param.rel with
  | none =>
    rw [hrel] at h
    simp only [bind_eq_ok, pure_eq_ok] at h
    obtain ⟨_, rfl, _, _, h⟩ := h
    cases h
    exact l1
  | some p =>
    rw [hrel] at h
    simp only [bind_eq_ok, pure_eq_ok] at h
    obtain ⟨⟨a, txa⟩, ha, _, rfl, _, _, h⟩ := h
    cases h
    exact lowers_trans l1 (tx_src_param_lowers p _ _ _ ha)

theorem lowers_insn {tx tx' : shader_translator} (h : lowers tx tx') : tx'.insn = tx.insn := by
  rw [h.1]

theorem lowers_sampler_targets {tx tx' : shader_translator} (h : lowers tx tx') :
    tx'.sampler_targets = tx.sampler_targets := by
  rw [h.1]

theorem lowers_env {tx tx' : shader_translator} (h : lowers tx tx') : tx'.env = tx.env := by
  rw [h.1]

theorem lowers_tex_insns {tx tx' : shader_translator} (h : lowers tx tx') :
    tex_insns tx' = tex_insns tx := by
  obtain ⟨_, l, hl, hp⟩ := h
  unfold tex_insns
  rw [hl, List.filter_append]
  have : l.filter ureg_item.is_tex = [] := by
    rw [List.filter_eq_nil_iff]
    intro it hit
    have := hp it hit
    cases it <;> simp_all [ureg_item.is_plain, ureg_item.is_tex]
  rw [this, List.append_nil]

theorem arr_get_eq_ok {α : Type} (l : List α) (i : Int) (x : α) (h0 : 0 ≤ i)
    (h : l[i.toNat]? = some x) : arr_get l i = .ok x := by
  unfold arr_get
  rw [if_neg (by omega), h]

theorem tx_src_param_plain_sampler (tx tx' : shader_translator) (p : sm1_src_param)
    (r : ureg_src) (hp : p.is_plain_sampler) (h : tx_src_param tx p = .ok (r, tx')) :
    r = ureg_src_register .SAMPLER p.idx := by
  obtain ⟨idx, rel, file, swizzle, mod, type, imm⟩ := p
  obtain ⟨hf, hm, hs, hr⟩ := hp
  simp only at hf hm hs hr
  subst hf hm hs hr
  unfold tx_src_param at h
  simp only [bind_eq_ok, pure_eq_ok] at h
  obtain ⟨⟨s1, tx1⟩, h1, _, rfl, h3⟩ := h
  have e1 : s1 = ureg_src_register .SAMPLER idx := by
    have : tx_src_param_file tx ⟨idx, none, D3DSPR_SAMPLER, NINED3DSP_NOSWIZZLE,
        NINED3DSPSM_NONE, type, imm⟩ = tx_src_param_SAMPLER tx ⟨idx, none, D3DSPR_SAMPLER,
        NINED3DSP_NOSWIZZLE, NINED3DSPSM_NONE, type, imm⟩ := by
      simp [tx_src_param_file, D3DSPR_SAMPLER, D3DSPR_TEMP, D3DSPR_ADDR, D3DSPR_INPUT,
        D3DSPR_PREDICATE]
    rw [this] at h1
    unfold tx_src_param_SAMPLER at h1
    simp only [bind_eq_ok, pure_eq_ok] at h1
    obtain ⟨_, _, _, _, _, _, h1⟩ := h1
    cases h1; rfl
  have e3 : tx_src_param_mod tx1 NINED3DSPSM_NONE
      (tx_src_param_swizzle NINED3DSP_NOSWIZZLE s1) = .ok (s1, tx1) := by
    simp [tx_src_param_mod, tx_src_param_swizzle, tx_src_mod_default, NINED3DSPSM_NONE,
      NINED3DSPSM_ABS, NINED3DSPSM_ABSNEG, NINED3DSPSM_NEG, NINED3DSPSM_BIAS,
      NINED3DSPSM_BIASNEG, NINED3DSPSM_NOT, NINED3DSPSM_COMP, NINED3DSPSM_DZ, NINED3DSPSM_DW,
      NINED3DSPSM_SIGN, NINED3DSPSM_SIGNNEG, NINED3DSPSM_X2, NINED3DSPSM_X2NEG, tx_assert,
      bind, Except.bind, pure, Except.pure]
  simp only at h3
  rw [e3] at h3
  cases h3
  exact e1

theorem except_bind_ok {α β : Type} (a : α) (f : α → Except Fault β) :
    (Except.ok a : Except Fault α).bind f = f a := rfl

theorem except_bind_error {α β : Type} (e : Fault) (f : α → Except Fault β) :
    (Except.error e : Except Fault α).bind f = .error e := rfl

theorem bind_eq_except_bind {α β : Type} (x : Except Fault α) (f : α → Except Fault β) :
    (x >>= f) = x.bind f := rfl

/-- The tail of the TEX handler, after the three operands are lowered. -/
theorem TEX_tail (tx : shader_translator) (d : ureg_dst) (s0 s1 : ureg_src)
    (T : tgsi_texture) (h0 : 0 ≤ tx.insn.src1.idx)
    (hT : tx.sampler_targets[tx.insn.src1.idx.toNat]? = some T) :
    (do
      tx_assert tx (decide (0 ≤ tx.insn.src1.idx ∧
        tx.insn.src1.idx < tx.sampler_targets.length))
      let target ← arr_get tx.sampler_targets tx.insn.src1.idx
      if tx.insn.flags = 0 then
        pure (HRESULT.D3D_OK, tx_emit tx (fun u => ureg_tex_insn u .TEX d target [s0, s1]))
      else if tx.insn.flags = NINED3DSI_TEXLD_PROJECT then
        pure (HRESULT.D3D_OK, tx_emit tx (fun u => ureg_tex_insn u .TXP d target [s0, s1]))
      else if tx.insn.flags = NINED3DSI_TEXLD_BIAS then
        pure (HRESULT.D3D_OK, tx_emit tx (fun u => ureg_tex_insn u .TXB d target [s0, s1]))
      else do
        tx_assert tx false
        pure (HRESULT.D3DERR_INVALIDCALL, tx) : Except Fault (HRESULT × shader_translator)) =
    (match spec_tex_kind tx.insn.flags with
     | some op => .ok (.D3D_OK, tx_emit tx (fun u => ureg_tex_insn u op d T [s0, s1]))
     | none => if tx.env.asserts then .error .assertion
               else .ok (.D3DERR_INVALIDCALL, tx)) := by
  have hlt : tx.insn.src1.idx < tx.sampler_targets.length := by
    have := (List.getElem?_eq_some_iff.mp hT).1
    omega
  have ha : tx_assert tx (decide (0 ≤ tx.insn.src1.idx ∧
      tx.insn.src1.idx < tx.sampler_targets.length)) = .ok () := by
    rw [tx_assert_eq_ok]; intro _; simp [h0, hlt]
  rw [ha, arr_get_eq_ok _ _ _ h0 hT]
  unfold spec_tex_kind
  by_cases c0 : tx.insn.flags = 0
  · simp [c0, bind, Except.bind, pure, Except.pure]
  by_cases c1 : tx.insn.flags = 1
  · simp [c1, NINED3DSI_TEXLD_PROJECT, bind, Except.bind, pure, Except.pure]
  by_cases c2 : tx.insn.flags = 2
  · simp [c2, NINED3DSI_TEXLD_PROJECT, NINED3DSI_TEXLD_BIAS, bind, Except.bind, pure,
      Except.pure]
  simp only [c0, c1, c2, NINED3DSI_TEXLD_PROJECT, NINED3DSI_TEXLD_BIAS, if_false]
  cases ha2 : tx.env.asserts <;>
    simp [tx_assert, ha2, bind, Except.bind, pure, Except.pure]

/-- The TEX handler as a composition: the three operands are lowered in order, then the
texture instruction of the kind given by the flags is emitted with the recorded target. -/
theorem TEX_eq (tx : shader_translator) (T : tgsi_texture) (h0 : 0 ≤ tx.insn.src1.idx)
    (hT : tx.sampler_targets[tx.insn.src1.idx.toNat]? = some T) :
    NineTranslateInstruction_TEX tx =
      (tx_dst_param tx tx.insn.dst0).bind fun d =>
      (tx_src_param d.2 tx.insn.src0).bind fun s0 =>
      (tx_src_param s0.2 tx.insn.src1).bind fun s1 =>
        match spec_tex_kind tx.insn.flags with
        | some op =>
          .ok (.D3D_OK, tx_emit s1.2 (fun u => ureg_tex_insn u op d.1 T [s0.1, s1.1]))
        | none => if tx.env.asserts then .error .assertion
                  else .ok (.D3DERR_INVALIDCALL, s1.2) := by
  unfold NineTranslateInstruction_TEX
  cases h1 : tx_dst_param tx tx.insn.dst0 with
  | error e => rfl
  | ok r1 =>
    obtain ⟨d, tx1⟩ := r1
    have l1 := tx_dst_param_lowers _ _ _ _ h1
    rw [bind_eq_except_bind, except_bind_ok, except_bind_ok]
    simp only [lowers_insn l1]
    cases h2 : tx_src_param tx1 tx.insn.src0 with
    | error e => rfl
    | ok r2 =>
      obtain ⟨s0, tx2⟩ := r2
      have l2 := lowers_trans l1 (tx_src_param_lowers _ _ _ _ h2)
      rw [bind_eq_except_bind, except_bind_ok, except_bind_ok]
      simp only [lowers_insn l2]
      cases h3 : tx_src_param tx2 tx.insn.src1 with
      | error e => rfl
      | ok r3 =>
        obtain ⟨s1, tx3⟩ := r3
        have l3 := lowers_trans l2 (tx_src_param_lowers _ _ _ _ h3)
        rw [bind_eq_except_bind, except_bind_ok, except_bind_ok]
        have h0a : 0 ≤ tx3.insn.src1.idx := by rw [lowers_insn l3]; exact h0
        have hTa : tx3.sampler_targets[tx3.insn.src1.idx.toNat]? = some T := by
          rw [lowers_insn l3, lowers_sampler_targets l3]; exact hT
        have := TEX_tail tx3 d s0 s1 T h0a hTa
        rw [lowers_insn l3, lowers_env l3] at this
        simp only [lowers_insn l3] at this ⊢
        exact this

/-- The DCL handler on a sampler declaration stores the target of the declared texture
type in `sampler_targets` at the register index. -/
theorem DCL_records_target (tx0 tx1 tx2 : shader_translator) (sem : sm1_semantic)
    (hr : HRESULT) (h1 : sm1_read_semantic tx0 = .ok (sem, tx1))
    (hu : sem.usage = D3DDECLUSAGE_SAMPLE)
    (h : NineTranslateInstruction_DCL tx0 = .ok (hr, tx2)) :
    ∃ T, d3dstt_to_tgsi_tex tx1 sem.sampler_type = .ok T ∧ 0 ≤ sem.reg.idx ∧
      tx2.sampler_targets[sem.reg.idx.toNat]? = some T := by
  unfold NineTranslateInstruction_DCL at h
  rw [h1] at h
  rw [bind_eq_except_bind, except_bind_ok] at h
  simp only [bind_eq_ok] at h
  obtain ⟨_, _, h⟩ := h
  rw [if_neg (by rw [hu]; decide)] at h
  simp only [bind_eq_ok, pure_eq_ok] at h
  obtain ⟨_, _, h⟩ := h
  rw [if_pos hu] at h
  simp only [bind_eq_ok, pure_eq_ok] at h
  obtain ⟨T, hT, targets, hset, h⟩ := h
  cases h
  refine ⟨T, ?_, ?_⟩
  · simpa [d3dstt_to_tgsi_tex, tx_assert, tx_emit] using hT
  · unfold arr_set at hset
    split at hset
    · cases hset
    · split at hset
      · cases hset
        refine ⟨by omega, ?_⟩
        simp only [tx_emit] at *
        rw [List.getElem?_set_self (by assumption)]
      · cases hset

/-- C8: sampler target round-trip for TEX.  A DCL of a sampler stores the target of its
texture type at the sampler's index.  When target `T` is recorded for the index `s` of
src1, the TEX handler lowers dst, src0 and src1 in this order and then, for flags 0, 1, 2,
appends exactly one texture instruction (TEX, TXP, TXB) tagged `T` whose sampler operand
is the lowered src1: sampler register `s` for a plain sampler operand.  For any other
flags it appends no texture instruction and returns `D3DERR_INVALIDCALL`; a build with
assertions stops at the `assert(0)` in front of that `return`. -/
theorem C8_TEX_sampler_target_round_trip (tx : shader_translator) (s : Int)
    (T : tgsi_texture) (hs : tx.insn.src1.idx = s) (h0 : 0 ≤ s)
    (hT : tx.sampler_targets[s.toNat]? = some T) :
    (NineTranslateInstruction_TEX tx =
      (tx_dst_param tx tx.insn.dst0).bind fun d =>
      (tx_src_param d.2 tx.insn.src0).bind fun s0 =>
      (tx_src_param s0.2 tx.insn.src1).bind fun s1 =>
        match spec_tex_kind tx.insn.flags with
        | some op =>
          .ok (.D3D_OK, tx_emit s1.2 (fun u => ureg_tex_insn u op d.1 T [s0.1, s1.1]))
        | none => if tx.env.asserts then .error .assertion
                  else .ok (.D3DERR_INVALIDCALL, s1.2))
    ∧ (∀ hr tx', NineTranslateInstruction_TEX tx = .ok (hr, tx') →
        match spec_tex_kind tx.insn.flags with
        | some op => hr = .D3D_OK ∧ ∃ d s0 s1,
            tex_insns tx' = tex_insns tx ++ [.tex_insn op d T [s0, s1]] ∧
            (tx.insn.src1.is_plain_sampler → s1 = ureg_src_register .SAMPLER s)
        | none => hr = .D3DERR_INVALIDCALL ∧ tex_insns tx' = tex_insns tx ∧
            tx.env.asserts = false)
    ∧ (∀ tx0 tx1 tx2 sem hr, sm1_read_semantic tx0 = .ok (sem, tx1) →
        sem.usage = D3DDECLUSAGE_SAMPLE →
        NineTranslateInstruction_DCL tx0 = .ok (hr, tx2) →
        ∃ T0, d3dstt_to_tgsi_tex tx1 sem.sampler_type = .ok T0 ∧ 0 ≤ sem.reg.idx ∧
          tx2.sampler_targets[sem.reg.idx.toNat]? = some T0) := by
  subst hs
  have heq := TEX_eq tx T h0 hT
  refine ⟨heq, ?_, fun tx0 tx1 tx2 sem hr h1 hu h => DCL_records_target tx0 tx1 tx2 sem hr h1 hu h⟩
  intro hr tx' h
  rw [heq] at h
  simp only [except_bind_eq_ok] at h
  obtain ⟨⟨d, tx1⟩, h1, ⟨s0, tx2⟩, h2, ⟨s1, tx3⟩, h3, h⟩ := h
  have l3 : lowers tx tx3 :=
    lowers_trans (tx_dst_param_lowers _ _ _ _ h1)
      (lowers_trans (tx_src_param_lowers _ _ _ _ h2) (tx_src_param_lowers _ _ _ _ h3))
  cases hk : spec_tex_kind tx.insn.flags with
  | none =>
    rw [hk] at h
    simp only at h
    cases ha : tx.env.asserts with
    | true => rw [ha] at h; simp at h
    | false =>
      rw [ha] at h
      simp only [Bool.false_eq_true, if_false, Except.ok.injEq, Prod.mk.injEq] at h
      obtain ⟨rfl, rfl⟩ := h
      exact ⟨rfl, lowers_tex_insns l3, rfl⟩
  | some op =>
    rw [hk] at h
    simp only [Except.ok.injEq, Prod.mk.injEq] at h
    obtain ⟨rfl, rfl⟩ := h
    refine ⟨rfl, d, s0, s1, ?_, fun hp => tx_src_param_plain_sampler _ _ _ _ hp h3⟩
    have := lowers_tex_insns l3
    unfold tex_insns at this ⊢
    simp only [tx_emit, ureg_tex_insn, ureg_program.log, List.filter_append, this]
    simp [ureg_item.is_tex]

theorem C8_TEX_sampler_target_round_trip_witness :
    (tx_tex_s0 1).insn.src1.idx = 0 ∧ (0 : Int) ≤ 0 ∧
    (tx_tex_s0 1).sampler_targets[(0 : Int).toNat]? = some .T2D ∧
    result_of ((NineTranslateInstruction_TEX (tx_tex_s0 1)).map
      (fun r => (r.1, (tex_insns r.2).map ureg_item.opcode,
        (tex_insns r.2).map ureg_item.tex_target))) = some (.D3D_OK, [.TXP], [some .T2D]) ∧
    fault_of (NineTranslateInstruction_TEX (tx_tex_s0 3)) = some .assertion ∧
    ((NineTranslateInstruction_TEX (tx_tex_s0 1) =
      (tx_dst_param (tx_tex_s0 1) (tx_tex_s0 1).insn.dst0).bind fun d =>
      (tx_src_param d.2 (tx_tex_s0 1).insn.src0).bind fun s0 =>
      (tx_src_param s0.2 (tx_tex_s0 1).insn.src1).bind fun s1 =>
        match spec_tex_kind (tx_tex_s0 1).insn.flags with
        | some op =>
          .ok (.D3D_OK, tx_emit s1.2 (fun u => ureg_tex_insn u op d.1 .T2D [s0.1, s1.1]))
        | none => if (tx_tex_s0 1).env.asserts then .error .assertion
                  else .ok (.D3DERR_INVALIDCALL, s1.2))
    ∧ (∀ hr tx', NineTranslateInstruction_TEX (tx_tex_s0 1) = .ok (hr, tx') →
        match spec_tex_kind (tx_tex_s0 1).insn.flags with
        | some op => hr = .D3D_OK ∧ ∃ d s0 s1,
            tex_insns tx' = tex_insns (tx_tex_s0 1) ++ [.tex_insn op d .T2D [s0, s1]] ∧
            ((tx_tex_s0 1).insn.src1.is_plain_sampler → s1 = ureg_src_register .SAMPLER 0)
        | none => hr = .D3DERR_INVALIDCALL ∧ tex_insns tx' = tex_insns (tx_tex_s0 1) ∧
            (tx_tex_s0 1).env.asserts = false)
    ∧ (∀ tx0 tx1 tx2 sem hr, sm1_read_semantic tx0 = .ok (sem, tx1) →
        sem.usage = D3DDECLUSAGE_SAMPLE →
        NineTranslateInstruction_DCL tx0 = .ok (hr, tx2) →
        ∃ T0, d3dstt_to_tgsi_tex tx1 sem.sampler_type = .ok T0 ∧ 0 ≤ sem.reg.idx ∧
          tx2.sampler_targets[sem.reg.idx.toNat]? = some T0)) :=
  ⟨by decide!, by decide, by decide!, by decide!, by decide!,
   C8_TEX_sampler_target_round_trip (tx_tex_s0 1) 0 .T2D (by decide!) (by decide)
     (by decide!)⟩

theorem lconstf_search_eq (l : List sm1_local_const) (index : Int) (num : Nat)
    (h : num ≤ l.length) : ∀ todo n, n + todo = num →
    lconstf_search l index num todo n =
      .ok (n + ((l.take num).drop n).findIdx (fun c => decide (c.idx = index))) := by
  intro todo
  induction todo with
  | zero =>
    intro n hn
    have : (l.take num).drop n = [] := by
      apply List.drop_eq_nil_of_le
      rw [List.length_take]; omega
    simp [lconstf_search, this]
  | succ todo ih =>
    intro n hn
    have hlt : n < num := by omega
    have hl : n < l.length := by omega
    unfold lconstf_search
    rw [if_pos hlt, List.getElem?_eq_getElem hl]
    have hdrop : (l.take num).drop n = l[n] :: (l.take num).drop (n + 1) := by
      have hn2 : n < (l.take num).length := by rw [List.length_take]; omega
      rw [List.drop_eq_getElem_cons hn2, List.getElem_take]
    simp only
    rw [hdrop, List.findIdx_cons]
    by_cases c : l[n].idx = index
    · simp [c]
    · rw [if_neg c, ih (n + 1) (by omega)]
      simp [c]; omega

theorem take_set_comm {α : Type} (l : List α) (n m : Nat) (x : α) :
    (l.set n x).take m = (l.take m).set n x := by
  induction l generalizing n m with
  | nil => simp
  | cons a l ih =>
    cases m with
    | zero => simp
    | succ m =>
      cases n with
      | zero => simp
      | succ n => simp [ih]

theorem take_succ_set {α : Type} (l : List α) (n : Nat) (x : α) (h : n < l.length) :
    (l.set n x).take (n + 1) = l.take n ++ [x] := by
  induction l generalizing n with
  | nil => simp at h
  | cons a l ih =>
    cases n with
    | zero => simp
    | succ n => simp at h; simp [ih n h]

theorem first_occurrences_concat (l : List Int) (i : Int) :
    first_occurrences (l ++ [i]) =
      if i ∈ first_occurrences l then first_occurrences l else first_occurrences l ++ [i] := by
  unfold first_occurrences
  rw [List.foldl_append]
  rfl

theorem first_occurrences_mem (l : List Int) (i : Int) : i ∈ first_occurrences l ↔ i ∈ l := by
  induction l using List.reverseRecOn with
  | nil => simp [first_occurrences]
  | append_singleton l a ih =>
    rw [first_occurrences_concat]
    by_cases h : a ∈ first_occurrences l
    · rw [if_pos h, List.mem_append, List.mem_singleton, ih]
      constructor
      · intro h1; exact Or.inl h1
      · rintro (h1 | h1)
        · exact h1
        · subst h1; exact ih.mp h
    · rw [if_neg h]
      simp [ih]

theorem first_occurrences_nodup (l : List Int) : (first_occurrences l).Nodup := by
  induction l using List.reverseRecOn with
  | nil => simp [first_occurrences]
  | append_singleton l a ih =>
    rw [first_occurrences_concat]
    by_cases h : a ∈ first_occurrences l
    · rw [if_pos h]; exact ih
    · rw [if_neg h]
      rw [List.nodup_append]
      refine ⟨ih, by simp, ?_⟩
      intro x hx hy
      simp at hy
      subst hy
      exact h hx

/-- C6: a program with a DEF and a relatively addressed CONST source whose local constants
are not exported.  In `DEF c0; SGN r0, c0[a0.x], r1, r2` the source `c0[a0.x]` is a
CONST parameter with the relative bit, but the table row of SGN has no operands: the
operand words are skipped, SSG is emitted without operands, `indirect_const_access` stays
unset and `lconstf.num` is 0 after a successful translation.  With MOV in the place of SGN
the constant is exported. -/
theorem C6_rel_const_operand_of_SGN_not_exported :
    (sm1_parse_src_param sm1_src_param.zero (prog_def_sgn_rel.getD 9 0)).file = D3DSPR_CONST ∧
    prog_def_sgn_rel.getD 9 0 &&& D3DSHADER_ADDRMODE_RELATIVE ≠ 0 ∧
    prog_def_sgn_rel.getD 1 0 &&& D3DSI_OPCODE_MASK = D3DSIO_DEF ∧
    result_of ((nine_translate_shader example_device
        (example_info .VERTEX prog_def_sgn_rel)).map (fun r => r.1)) = some .D3D_OK ∧
    result_of ((nine_translate_shader example_device
        (example_info .VERTEX prog_def_sgn_rel)).map (fun r => r.2.lconstf_num)) = some 0 ∧
    result_of ((nine_translate_shader example_device
        (example_info .VERTEX prog_def_sgn_rel)).map
        (fun r => (emitted_insns r.2).map ureg_item.opcode)) = some [.SSG, .END] ∧
    result_of ((nine_translate_shader example_device
        (example_info .VERTEX prog_def_sgn_rel)).map
        (fun r => (emitted_insns r.2).map ureg_item.src_regs)) = some [[], []] ∧
    result_of ((nine_translate_shader example_device
        (example_info .VERTEX prog_def_mov_rel)).map (fun r => r.2.lconstf_num)) = some 1 := by
  have h : result_of ((nine_translate_shader example_device
        (example_info .VERTEX prog_def_sgn_rel)).map
        (fun r =>
          decide (r.1 = .D3D_OK) &&
          decide (r.2.lconstf_num = 0) &&
          decide ((emitted_insns r.2).map ureg_item.opcode = [.SSG, .END]) &&
          decide ((emitted_insns r.2).map ureg_item.src_regs = [[], []])))
      = some true := by decide!
  obtain ⟨h, h4⟩ := result_of_and h
  obtain ⟨h, h3⟩ := result_of_and h
  obtain ⟨h1, h2⟩ := result_of_and h
  exact ⟨by decide!, by decide!, by decide!, result_of_decide h1, result_of_decide h2,
    result_of_decide h3, result_of_decide h4, by decide!⟩

/-- C14: the program 0xFFFE0101, 0x0000FFFF (vs_1_1 and END) is rejected with
`D3DERR_INVALIDCALL` and no program is built: the version check of
`nine_translate_shader` refuses every header with a minor version above 0. -/
theorem C14_vs_1_1_is_rejected :
    result_of ((nine_translate_shader example_device
        (example_info .VERTEX prog_vs_1_1_end)).map (fun r => r.1))
      = some .D3DERR_INVALIDCALL ∧
    result_of ((nine_translate_shader example_device
        (example_info .VERTEX prog_vs_1_1_end)).map (fun r => r.2.cso.isSome))
      = some false ∧
    result_of ((tx_ctor (shader_translator.calloc example_env)
        (example_info .VERTEX prog_vs_1_1_end)).map
        (fun tx => (tx.version_major, tx.version_minor))) = some (1, 1) := by
  refine ⟨by decide!, by decide!, by decide!⟩

/-- C16: the handler of SETP returns `D3DERR_INVALIDCALL`, and the translation of
`vs_2_0; SETP_GT p0, r0, r1; END` goes on to the end token and returns `D3D_OK` with a
program that consists of END: `sm1_parse_instruction` drops the result of the handler. -/
theorem C16_handler_failure_is_dropped :
    (sm1_lookup_info (prog_setp.getD 1 0 &&& D3DSI_OPCODE_MASK)).map (fun i => i.handler)
      = some (some .SETP) ∧
    (∀ tx, run_handler tx .SETP = .ok (.D3DERR_INVALIDCALL, tx)) ∧
    result_of ((nine_translate_shader example_device
        (example_info .VERTEX prog_setp)).map (fun r => r.1)) = some .D3D_OK ∧
    result_of ((nine_translate_shader example_device
        (example_info .VERTEX prog_setp)).map
        (fun r => (emitted_insns r.2).map ureg_item.opcode)) = some [.END] ∧
    result_of ((nine_translate_shader example_device
        (example_info .VERTEX prog_setp)).map (fun r => r.2.byte_size)) = some 24 := by
  refine ⟨by decide!, fun tx => rfl, by decide!, by decide!, by decide!⟩

/-- C17: scenario S3 with the sampler declaration in the layout of the spec (sampler type
2D, usage field 0, register s0).  The DCL handler takes a declaration for a sampler only
when the usage field holds `D3DDECLUSAGE_SAMPLE` (13): here it declares an output with
the position semantic instead, no sampler is declared, no target is recorded, and the TEX
instruction is tagged with the initial target BUFFER.  (With 13 in the usage field the
sampler is declared and the tag is 2D.)  The declaration of t0 declares an output as
well; fragment input 0 is declared by the lowering of the TEX operand. -/
theorem C17_S3_sampler_declaration_not_recognised :
    result_of ((nine_translate_shader example_device
        (example_info .FRAGMENT (prog_tex_2d 0))).map (fun r => r.1)) = some .D3D_OK ∧
    result_of ((nine_translate_shader example_device
        (example_info .FRAGMENT (prog_tex_2d 0))).map
        (fun r => (emitted_items r.2).filterMap ureg_item.decl_sampler)) = some [] ∧
    result_of ((nine_translate_shader example_device
        (example_info .FRAGMENT (prog_tex_2d 0))).map
        (fun r => (emitted_items r.2).filterMap ureg_item.tex_target)) = some [.BUFFER] ∧
    result_of ((nine_translate_shader example_device
        (example_info .FRAGMENT (prog_tex_2d 0))).map
        (fun r => (emitted_insns r.2).map ureg_item.opcode)) = some [.TEX, .END] ∧
    result_of ((nine_translate_shader example_device
        (example_info .FRAGMENT (prog_tex_2d 0))).map
        (fun r => (emitted_items r.2).filterMap ureg_item.decl_output))
      = some [(.POSITION, 0), (.TEXCOORD, 0)] ∧
    result_of ((nine_translate_shader example_device
        (example_info .FRAGMENT (prog_tex_2d 0))).map
        (fun r => (emitted_items r.2).filterMap ureg_item.decl_fs_input))
      = some [(.TEXCOORD, 0)] ∧
    result_of ((nine_translate_shader example_device
        (example_info .FRAGMENT (prog_tex_2d 13))).map
        (fun r => (emitted_items r.2).filterMap ureg_item.decl_sampler)) = some [0] ∧
    result_of ((nine_translate_shader example_device
        (example_info .FRAGMENT (prog_tex_2d 13))).map
        (fun r => (emitted_items r.2).filterMap ureg_item.tex_target)) = some [.T2D] := by
  have h : result_of ((nine_translate_shader example_device
        (example_info .FRAGMENT (prog_tex_2d 0))).map
        (fun r =>
          decide (r.1 = .D3D_OK) &&
          decide ((emitted_items r.2).filterMap ureg_item.decl_sampler = []) &&
          decide ((emitted_items r.2).filterMap ureg_item.tex_target = [.BUFFER]) &&
          decide ((emitted_insns r.2).map ureg_item.opcode = [.TEX, .END]) &&
          decide ((emitted_items r.2).filterMap ureg_item.decl_output =
            [(.POSITION, 0), (.TEXCOORD, 0)]) &&
          decide ((emitted_items r.2).filterMap ureg_item.decl_fs_input =
            [(.TEXCOORD, 0)]))) = some true := by decide!
  have g : result_of ((nine_translate_shader example_device
        (example_info .FRAGMENT (prog_tex_2d 13))).map
        (fun r =>
          decide ((emitted_items r.2).filterMap ureg_item.decl_sampler = [0]) &&
          decide ((emitted_items r.2).filterMap ureg_item.tex_target = [.T2D])))
      = some true := by decide!
  obtain ⟨h, h6⟩ := result_of_and h
  obtain ⟨h, h5⟩ := result_of_and h
  obtain ⟨h, h4⟩ := result_of_and h
  obtain ⟨h, h3⟩ := result_of_and h
  obtain ⟨h1, h2⟩ := result_of_and h
  obtain ⟨g1, g2⟩ := result_of_and g
  exact ⟨result_of_decide h1, result_of_decide h2, result_of_decide h3, result_of_decide h4,
    result_of_decide h5, result_of_decide h6, result_of_decide g1, result_of_decide g2⟩

/-- C18, counterexample: in a pixel shader of version 2.0 the instructions IFC, ELSE and
ENDIF of scenario S6 are outside their version range (2.1 to 3.0) and are not dispatched:
no compare and no IF is emitted, and the two operand words of IFC are decoded as
instructions (NOP). -/
theorem C18_S6_in_ps_2_0_is_version_gated :
    (sm1_lookup_info D3DSIO_IFC).map (fun i => (i.frag_version.min, i.frag_version.max))
      = some (0x201, 0x300) ∧
    result_of ((nine_translate_shader example_device
        (example_info .FRAGMENT (prog_ifc 0x200))).map (fun r => r.1)) = some .D3D_OK ∧
    result_of ((nine_translate_shader example_device
        (example_info .FRAGMENT (prog_ifc 0x200))).map
        (fun r => (emitted_insns r.2).map ureg_item.opcode))
      = some [.NOP, .NOP, .MOV, .MOV, .END] := by
  refine ⟨by decide!, by decide!, by decide!⟩

theorem decl_constants_from_items (count : Nat) : ∀ (u : ureg_program) (n : Nat),
    (decl_constants_from u count n).items =
      u.items ++ (List.range count).map (fun i => ureg_item.DECL_constant (n + i)) := by
  induction count with
  | zero => intro u n; simp [decl_constants_from]
  | succ count ih =>
    intro u n
    rw [decl_constants_from, ih, List.range_succ_eq_map]
    simp [ureg_DECL_constant, ureg_program.log, Function.comp_def]
    intro a _
    omega

theorem tx_decl_constants_items (tx : shader_translator) :
    (tx_decl_constants tx).ureg.items =
      tx.ureg.items ++ (List.range (decl_constants_count tx.env)).map ureg_item.DECL_constant := by
  unfold tx_decl_constants decl_constants_count
  simp only [tx_emit, decl_constants_from_items, Nat.zero_add, List.append_assoc]
  congr 1
  rw [List.range_add, List.range_add]
  simp [List.map_append, Function.comp_def, Nat.add_assoc]

theorem tx_ctor_header (env : build_env) (info : nine_shader_info) (tok : Nat)
    (rest : List Nat) (hcode : info.byte_code = tok :: rest) :
    ∃ tx, tx_ctor (shader_translator.calloc env) info = .ok tx ∧
      tx.version_major = D3DSHADER_VERSION_MAJOR tok ∧
      tx.version_minor = D3DSHADER_VERSION_MINOR tok ∧
      tx.processor = (match header_stage tok with
        | some t => tgsi_processor_from_type t
        | none => .INVALID) := by
  unfold tx_ctor sm1_read_version TOKEN_NEXT TOKEN_PEEK header_stage
  simp only [hcode, shader_translator.calloc, List.getElem?_cons_zero, bind, Except.bind,
    pure, Except.pure, NINED3D_SM1_VS, NINED3D_SM1_PS]
  by_cases h1 : tok >>> 16 = 0xfffe
  · rw [if_pos h1, if_pos h1]; exact ⟨_, rfl, rfl, rfl, rfl⟩
  · rw [if_neg h1, if_neg h1]
    by_cases h2 : tok >>> 16 = 0xffff
    · rw [if_pos h2, if_pos h2]; exact ⟨_, rfl, rfl, rfl, rfl⟩
    · rw [if_neg h2, if_neg h2]; exact ⟨_, rfl, rfl, rfl, rfl⟩

/-- C13: an invalid header is fatal.  When the header word has a major version above 3,
or names no stage (its high 16 bits are neither 0xFFFE nor 0xFFFF), or names a stage other
than the one the caller asks for, `nine_translate_shader` returns `D3DERR_INVALIDCALL`
and leaves `info` as it was: no emitter is created and nothing is dispatched. -/
theorem C13_invalid_header_is_fatal (device : NineDevice9) (info : nine_shader_info)
    (tok : Nat) (rest : List Nat) (hcode : info.byte_code = tok :: rest)
    (hcalloc : device.calloc_fails = false)
    (hbad : D3DSHADER_VERSION_MAJOR tok > 3 ∨ header_stage tok ≠ some info.type) :
    nine_translate_shader device info = .ok (.D3DERR_INVALIDCALL, info) := by
  obtain ⟨tx, hctor, hmaj, _, hproc⟩ := tx_ctor_header device.env info tok rest hcode
  unfold nine_translate_shader
  by_cases hinv : tgsi_processor_from_type info.type = .INVALID
  · simp [hinv, pure, Except.pure]
  · simp only [hinv, if_false, hcalloc, hctor, bind, Except.bind, pure, Except.pure]
    by_cases hver : tx.version_major > 3 ∨ tx.version_minor > 0
    · simp [hver]
    · have hmaj2 : ¬ D3DSHADER_VERSION_MAJOR tok > 3 := by
        intro h; exact hver (Or.inl (hmaj ▸ h))
      have hst : header_stage tok ≠ some info.type := by
        rcases hbad with h | h
        · exact absurd h hmaj2
        · exact h
      have hne : tx.processor ≠ tgsi_processor_from_type info.type := by
        rw [hproc]
        cases hh : header_stage tok with
        | none => simp only; exact fun h => hinv h.symm
        | some t =>
          simp only
          intro heq
          apply hst
          rw [hh]
          cases t <;> cases hi : info.type <;>
            simp_all [tgsi_processor_from_type]
      simp [hver, hne]

theorem C13_invalid_header_is_fatal_witness :
    (example_info .VERTEX [0xffff0200, 0x0000ffff]).byte_code = 0xffff0200 :: [0x0000ffff] ∧
    example_device.calloc_fails = false ∧
    (D3DSHADER_VERSION_MAJOR 0xffff0200 > 3 ∨
      header_stage 0xffff0200 ≠ some (example_info .VERTEX [0xffff0200, 0x0000ffff]).type) ∧
    nine_translate_shader example_device (example_info .VERTEX [0xffff0200, 0x0000ffff]) =
      .ok (.D3DERR_INVALIDCALL, example_info .VERTEX [0xffff0200, 0x0000ffff]) :=
  ⟨rfl, rfl, Or.inr (by decide),
   C13_invalid_header_is_fatal example_device (example_info .VERTEX [0xffff0200, 0x0000ffff])
     0xffff0200 [0x0000ffff] rfl rfl (Or.inr (by decide))⟩

theorem sm1_parse_comments_not_comment (tx : shader_translator) (tok : Nat)
    (htok : tx.byte_code[tx.parse]? = some tok)
    (hnc : tok &&& D3DSI_OPCODE_MASK ≠ D3DSIO_COMMENT) :
    sm1_parse_comments tx = .ok tx := by
  unfold sm1_parse_comments
  simp [sm1_parse_comments_loop, TOKEN_PEEK, htok, bind, Except.bind, hnc, pure, Except.pure]

theorem sm1_lookup_info_comment : sm1_lookup_info D3DSIO_COMMENT = some inst_comment := by
  decide

/-- C15: an unknown opcode is skipped.  In a shader of major version 2 or 3, on an
instruction word whose opcode has no valid table entry, `sm1_parse_instruction` returns
with the program unchanged and the cursor at the start of the instruction + 1 + its
length field; only the opcode word is read (its fields are stored in `insn`). -/
theorem C15_unknown_opcode_is_skipped (tx : shader_translator) (tok : Nat)
    (hmaj : 2 ≤ tx.version_major) (htok : tx.byte_code[tx.parse]? = some tok)
    (hunk : sm1_lookup_info (tok &&& D3DSI_OPCODE_MASK) = none) :
    sm1_parse_instruction tx = .ok
      { tx with
        parse := tx.parse + 1 + ((tok &&& D3DSI_INSTLENGTH_MASK) >>> D3DSI_INSTLENGTH_SHIFT),
        parse_next :=
          some (tx.parse + 1 + ((tok &&& D3DSI_INSTLENGTH_MASK) >>> D3DSI_INSTLENGTH_SHIFT)),
        insn := { tx.insn with
          opcode := tok &&& D3DSI_OPCODE_MASK,
          flags := (tok &&& NINED3DSIO_OPCODE_FLAGS_MASK) >>> NINED3DSIO_OPCODE_FLAGS_SHIFT,
          coissue := tok &&& D3DSI_COISSUE ≠ 0,
          predicated := tok &&& NINED3DSHADER_INST_PREDICATED ≠ 0 } } := by
  have hnc : tok &&& D3DSI_OPCODE_MASK ≠ D3DSIO_COMMENT := by
    intro h
    rw [h, sm1_lookup_info_comment] at hunk
    cases hunk
  unfold sm1_parse_instruction sm1_parse_instruction_head
  rw [sm1_parse_comments_not_comment tx tok htok hnc]
  simp only [sm1_parse_get_skip, TOKEN_NEXT, TOKEN_PEEK, htok, bind, Except.bind, pure,
    Except.pure, ge_iff_le, hmaj, if_true, hunk, TOKEN_JUMP]
  by_cases hL : (tok &&& D3DSI_INSTLENGTH_MASK) >>> D3DSI_INSTLENGTH_SHIFT = 0
  · simp [hL]
  · have : tx.parse + 1 ≠
        tx.parse + 1 + ((tok &&& D3DSI_INSTLENGTH_MASK) >>> D3DSI_INSTLENGTH_SHIFT) := by
      omega
    simp [this]

theorem C15_unknown_opcode_is_skipped_witness :
    2 ≤ tx_unknown_opcode.version_major ∧
    tx_unknown_opcode.byte_code[tx_unknown_opcode.parse]? = some 0x02000031 ∧
    sm1_lookup_info (0x02000031 &&& D3DSI_OPCODE_MASK) = none ∧
    (result_of (sm1_parse_instruction tx_unknown_opcode)).map
      (fun tx => (tx.parse, tx.ureg.items.length)) = some (4, 0) ∧
    sm1_parse_instruction tx_unknown_opcode = .ok
      { tx_unknown_opcode with
        parse := tx_unknown_opcode.parse + 1 +
          ((0x02000031 &&& D3DSI_INSTLENGTH_MASK) >>> D3DSI_INSTLENGTH_SHIFT),
        parse_next := some (tx_unknown_opcode.parse + 1 +
          ((0x02000031 &&& D3DSI_INSTLENGTH_MASK) >>> D3DSI_INSTLENGTH_SHIFT)),
        insn := { tx_unknown_opcode.insn with
          opcode := 0x02000031 &&& D3DSI_OPCODE_MASK,
          flags := (0x02000031 &&& NINED3DSIO_OPCODE_FLAGS_MASK) >>>
            NINED3DSIO_OPCODE_FLAGS_SHIFT,
          coissue := 0x02000031 &&& D3DSI_COISSUE ≠ 0,
          predicated := 0x02000031 &&& NINED3DSHADER_INST_PREDICATED ≠ 0 } } :=
  ⟨by decide, by decide, by decide, by decide!,
   C15_unknown_opcode_is_skipped tx_unknown_opcode 0x02000031 (by decide) (by decide)
     (by decide)⟩

theorem arr_get_ok_iff {α : Type} (l : List α) (i : Int) (x : α) :
    arr_get l i = .ok x ↔ 0 ≤ i ∧ l[i.toNat]? = some x := by
  unfold arr_get
  by_cases h : i < 0
  · simp [h]
  · rw [if_neg h]
    cases hl : l[i.toNat]? with
    | none => simp
    | some y => simp; intro _; omega

theorem arr_set_ok_iff {α : Type} (l l' : List α) (i : Int) (x : α) :
    arr_set l i x = .ok l' ↔ 0 ≤ i ∧ i.toNat < l.length ∧ l' = l.set i.toNat x := by
  unfold arr_set
  by_cases h : i < 0
  · simp [h]
  · rw [if_neg h]
    by_cases h2 : i.toNat < l.length
    · rw [if_pos h2]; simp [h2, eq_comm]; omega
    · rw [if_neg h2]; simp [h2]

theorem dst_shift_field_eq (tok : Nat) :
    (tok &&& D3DSP_DSTSHIFT_MASK) >>> D3DSP_DSTSHIFT_SHIFT = tok / 2 ^ 24 % 16 := by
  have h1 : D3DSP_DSTSHIFT_MASK = (2 ^ 4 - 1) <<< 24 := by decide
  rw [h1, D3DSP_DSTSHIFT_SHIFT, field_extract]
  norm_num

/-- C25: the destination shift is not sign-extended.  `sm1_parse_dst_param` stores the
4-bit field of bits 24..27 as it is in a `BYTE`, so the decoded value lies in 0..15: the
field 0xF decodes to 15 and 0x8 to 8, where the spec states -1 and -8. -/
theorem C25_dst_shift_is_not_sign_extended :
    (∀ tok, (sm1_parse_dst_param tok).shift = tok / 2 ^ 24 % 16) ∧
    (∀ tok, (sm1_parse_dst_param tok).shift < 16) ∧
    (sm1_parse_dst_param 0x0f000000).shift = 15 ∧ spec_dst_shift 0x0f000000 = -1 ∧
    (sm1_parse_dst_param 0x08000000).shift = 8 ∧ spec_dst_shift 0x08000000 = -8 ∧
    (sm1_parse_dst_param 0x07000000).shift = 7 ∧ spec_dst_shift 0x07000000 = 7 := by
  refine ⟨fun tok => dst_shift_field_eq tok, fun tok => ?_, by decide, by decide, by decide,
    by decide, by decide, by decide⟩
  have := dst_shift_field_eq tok
  simp only [sm1_parse_dst_param]
  omega

/-- C26: legacy constant files are canonicalised.  A source word whose file tag decodes to
CONST2, CONST3 or CONST4 is parsed to file CONST with the index field raised by 2048, 4096
or 6144; every other word keeps the decoded file and index; so the file of a parsed source
parameter is never CONST2, CONST3 or CONST4, and `tx_src_param` never takes the branch of
these files for it. -/
theorem C26_legacy_constant_files_are_canonicalised (old : sm1_src_param) (tok : Nat) :
    (sm1_param_file_field tok = D3DSPR_CONST2 →
      (sm1_parse_src_param old tok).file = D3DSPR_CONST ∧
      (sm1_parse_src_param old tok).idx = ((tok &&& D3DSP_REGNUM_MASK : Nat) : Int) + 2048) ∧
    (sm1_param_file_field tok = D3DSPR_CONST3 →
      (sm1_parse_src_param old tok).file = D3DSPR_CONST ∧
      (sm1_parse_src_param old tok).idx = ((tok &&& D3DSP_REGNUM_MASK : Nat) : Int) + 4096) ∧
    (sm1_param_file_field tok = D3DSPR_CONST4 →
      (sm1_parse_src_param old tok).file = D3DSPR_CONST ∧
      (sm1_parse_src_param old tok).idx = ((tok &&& D3DSP_REGNUM_MASK : Nat) : Int) + 6144) ∧
    (sm1_param_file_field tok ≠ D3DSPR_CONST2 → sm1_param_file_field tok ≠ D3DSPR_CONST3 →
      sm1_param_file_field tok ≠ D3DSPR_CONST4 →
      (sm1_parse_src_param old tok).file = sm1_param_file_field tok ∧
      (sm1_parse_src_param old tok).idx = ((tok &&& D3DSP_REGNUM_MASK : Nat) : Int)) ∧
    ¬ ((sm1_parse_src_param old tok).file = D3DSPR_CONST2 ∨
       (sm1_parse_src_param old tok).file = D3DSPR_CONST3 ∨
       (sm1_parse_src_param old tok).file = D3DSPR_CONST4) := by
  unfold sm1_parse_src_param sm1_param_file_field
  simp only
  generalize ((tok &&& D3DSP_REGTYPE_MASK) >>> D3DSP_REGTYPE_SHIFT) |||
    ((tok &&& D3DSP_REGTYPE_MASK2) >>> D3DSP_REGTYPE_SHIFT2) = f
  simp only [D3DSPR_CONST2, D3DSPR_CONST3, D3DSPR_CONST4, D3DSPR_CONST]
  by_cases h2 : f = 11
  · subst h2; simp
  by_cases h3 : f = 12
  · subst h3; simp
  by_cases h4 : f = 13
  · subst h4; simp
  simp [h2, h3, h4]

theorem tx_src_param_file_CONSTBOOL (tx : shader_translator) (p : sm1_src_param)
    (h : p.file = D3DSPR_CONSTBOOL) :
    tx_src_param_file tx p = tx_src_param_CONSTBOOL tx p := by
  simp [tx_src_param_file, h, D3DSPR_CONSTBOOL, D3DSPR_SAMPLER, D3DSPR_PREDICATE,
    D3DSPR_INPUT, D3DSPR_ADDR, D3DSPR_TEMP, D3DSPR_CONST, D3DSPR_CONST2, D3DSPR_CONST3,
    D3DSPR_CONST4, D3DSPR_CONSTINT]

theorem constbool_via_file_small (env : build_env) (i : Int) (h0 : 0 ≤ i)
    (hs : env.char_signed = true → i < 512) (hu : env.char_signed = false → i < 1024) :
    constbool_via_file env i =
      ureg_swizzle (ureg_src_register .CONSTANT (env.NINE_CONST_B_BASE_IDX + i / 4))
        (i % 4).toNat (i % 4).toNat (i % 4).toNat (i % 4).toNat := by
  have hdiv : i.tdiv 4 = i / 4 := Int.tdiv_eq_ediv h0 (by decide)
  unfold constbool_via_file to_char
  rw [hdiv]
  cases hc : env.char_signed with
  | true =>
    have := hs hc
    simp only [if_true]
    have h1 : (i / 4 + 128) % 256 - 128 = i / 4 := by omega
    have h2 : (i % 4 + 128) % 256 - 128 = i % 4 := by omega
    rw [h1, h2]
  | false =>
    have := hu hc
    simp only [Bool.false_eq_true, if_false]
    have h1 : i / 4 % 256 = i / 4 := by omega
    have h2 : i % 4 % 256 = i % 4 := by omega
    rw [h1, h2]

/-- C23: boolean-constant addressing.  A CONSTBOOL source that is relative, or for which
no local boolean constant is found, is lowered to `constbool_via_file`.  That operand is
constant-file register NINE_CONST_B_BASE_IDX + floor(i / 4) with all four selectors
i mod 4 only for i < 512 where `char` is signed (i < 1024 where it is unsigned): the
register offset is held in a `char`, so for i = 512 the register is
NINE_CONST_B_BASE_IDX - 128 where the spec states NINE_CONST_B_BASE_IDX + 128. -/
theorem C23_constbool_register_offset_is_a_char :
    (∀ (tx : shader_translator) (p : sm1_src_param), p.file = D3DSPR_CONSTBOOL →
      p.rel.isSome = true →
      tx_src_param_file tx p = .ok (constbool_via_file tx.env p.idx, tx)) ∧
    (∀ (tx : shader_translator) (p : sm1_src_param), p.file = D3DSPR_CONSTBOOL →
      p.rel.isSome = false → tx_lconstb tx p.idx = .ok none →
      tx_src_param_file tx p = .ok (constbool_via_file tx.env p.idx, tx)) ∧
    (∀ (env : build_env) (i : Int), 0 ≤ i → (env.char_signed = true → i < 512) →
      (env.char_signed = false → i < 1024) →
      constbool_via_file env i =
        ureg_swizzle (ureg_src_register .CONSTANT (env.NINE_CONST_B_BASE_IDX + i / 4))
          (i % 4).toNat (i % 4).toNat (i % 4).toNat (i % 4).toNat) ∧
    (constbool_via_file example_env 512).Index = (example_env.NINE_CONST_B_BASE_IDX : Int) - 128 ∧
    (constbool_via_file example_env 515).Index = (example_env.NINE_CONST_B_BASE_IDX : Int) - 128 ∧
    (constbool_via_file example_env 515).SwizzleX = 3 ∧
    (constbool_via_file { example_env with char_signed := false } 1024).Index
      = (example_env.NINE_CONST_B_BASE_IDX : Int) := by
  refine ⟨?_, ?_, constbool_via_file_small, by decide, by decide, by decide, by decide⟩
  · intro tx p hf hr
    rw [tx_src_param_file_CONSTBOOL tx p hf]
    unfold tx_src_param_CONSTBOOL
    rw [if_pos hr]
  · intro tx p hf hr hl
    rw [tx_src_param_file_CONSTBOOL tx p hf]
    unfold tx_src_param_CONSTBOOL
    rw [if_neg (by simp [hr]), hl]
    rfl

theorem loopctr_fill_get (reg : ureg_dst) (l : Nat) :
    ∀ (todo c : Nat) (aL : List ureg_dst), l ≤ c → c + todo = l + 4 → l + 4 ≤ aL.length →
      ∀ k, k < 4 →
        (loopctr_fill reg l aL todo c)[l + k]? =
          if c ≤ l + k then some (ureg_writemask reg ((l + k) &&& 3)) else aL[l + k]? := by
  intro todo
  induction todo with
  | zero =>
    intro c aL hlc hc hlen k hk
    simp only [loopctr_fill]
    rw [if_neg (by omega)]
  | succ todo ih =>
    intro c aL hlc hc hlen k hk
    simp only [loopctr_fill]
    rw [if_pos ⟨by omega, by omega⟩]
    rw [ih (c + 1) _ (by omega) (by omega) (by simpa using hlen) k hk]
    by_cases h1 : c + 1 ≤ l + k
    · rw [if_pos h1, if_pos (by omega)]
    · rw [if_neg h1]
      by_cases h2 : c ≤ l + k
      · have : c = l + k := by omega
        subst this
        rw [if_pos h2, List.getElem?_set_self (by omega)]
      · rw [if_neg h2, List.getElem?_set_ne (by omega)]

/-- C28: loop-counter lanes.  `tx_get_loopctr` hands level `c` of a group of four levels
the register with the writemask `c & 3`, a mask value and not a lane number: the levels
0, 1, 2, 3 get the writemasks 0 (no lane), 1 (x), 2 (y) and 3 (x and y) of the one
temporary declared for the group, where the spec states the single lanes 1, 2, 4, 8. -/
theorem C28_loopctr_writemask_is_level_and_3 :
    (∀ (reg : ureg_dst) (l k : Nat) (aL : List ureg_dst), l % 4 = 0 → l + 4 ≤ aL.length →
      k < 4 → (loopctr_fill reg l aL 4 l)[l + k]? = some (ureg_writemask reg k)) ∧
    (∀ k, (ureg_writemask (ureg_dst_register .TEMPORARY 0) k).WriteMask = 15 &&& k) ∧
    result_of loopctr_masks_of_first_group = some ([0, 1, 2, 3], 1) ∧
    [0, 1, 2, 3].map spec_loopctr_mask = [1, 2, 4, 8] := by
  refine ⟨?_, fun k => rfl, by decide!, by decide⟩
  intro reg l k aL hl hlen hk
  rw [loopctr_fill_get reg l 4 l aL (Nat.le_refl _) rfl hlen k hk, if_pos (by omega)]
  have : (l + k) &&& 3 = k := by
    have h3 : (3 : Nat) = 2 ^ 2 - 1 := by norm_num
    rw [h3, Nat.and_pow_two_sub_one_eq_mod]
    omega
  rw [this]

theorem sm1_parse_get_param_rel2 (tx : shader_translator) (tok tok2 : Nat)
    (hmaj : 2 ≤ tx.version_major) (h1 : tx.byte_code[tx.parse]? = some tok)
    (hrel : tok &&& D3DSHADER_ADDRMODE_RELATIVE ≠ 0)
    (h2 : tx.byte_code[tx.parse + 1]? = some tok2) :
    sm1_parse_get_param tx = .ok ((tok, some tok2), { tx with parse := tx.parse + 2 }) := by
  unfold sm1_parse_get_param
  simp only [TOKEN_NEXT, TOKEN_PEEK, h1, h2, bind, Except.bind, pure, Except.pure, hrel,
    ne_eq, not_false_eq_true, if_true]
  rw [if_neg (by omega)]

theorem sm1_parse_get_param_rel1 (tx : shader_translator) (tok : Nat)
    (hmaj : tx.version_major < 2) (h1 : tx.byte_code[tx.parse]? = some tok)
    (hrel : tok &&& D3DSHADER_ADDRMODE_RELATIVE ≠ 0) :
    sm1_parse_get_param tx =
      .ok ((tok, some synthesised_rel_token), { tx with parse := tx.parse + 1 }) := by
  unfold sm1_parse_get_param
  simp only [TOKEN_NEXT, TOKEN_PEEK, h1, bind, Except.bind, pure, Except.pure, hrel,
    ne_eq, not_false_eq_true, if_true]
  rw [if_pos hmaj]
  rfl

/-- C27: the relative sub-parameter.  For a destination or source word with the relative
bit, from version 2.0 on exactly one further word is consumed and parsed as the
sub-parameter; below version 2.0 no further word is consumed and the sub-parameter is
parsed from a synthesised word.  A parsed sub-parameter carries no further relative.  The
synthesised word decodes to the address file, index 0 and no modifier, but its swizzle
field is 0 (xxxx), not the identity swizzle 0xE4: `D3DSP_NOSWIZZLE` already sits at the
swizzle position and the code shifts it by `D3DSP_SWIZZLE_SHIFT` once more, out of the
32-bit word. -/
theorem C27_synthesised_relative_swizzle :
    (∀ (tx : shader_translator) (old : sm1_src_param) (tok tok2 : Nat),
      2 ≤ tx.version_major → tx.byte_code[tx.parse]? = some tok →
      tok &&& D3DSHADER_ADDRMODE_RELATIVE ≠ 0 → tx.byte_code[tx.parse + 1]? = some tok2 →
      sm1_read_src_param tx old true =
        .ok ({ sm1_parse_src_param old tok with
                 rel := some (sm1_parse_src_param sm1_src_param.zero tok2) },
             { tx with parse := tx.parse + 2 })) ∧
    (∀ (tx : shader_translator) (tok tok2 : Nat),
      2 ≤ tx.version_major → tx.byte_code[tx.parse]? = some tok →
      tok &&& D3DSHADER_ADDRMODE_RELATIVE ≠ 0 → tx.byte_code[tx.parse + 1]? = some tok2 →
      sm1_read_dst_param tx =
        .ok ({ sm1_parse_dst_param tok with
                 rel := some (sm1_parse_src_param sm1_src_param.zero tok2) },
             { tx with parse := tx.parse + 2 })) ∧
    (∀ (tx : shader_translator) (old : sm1_src_param) (tok : Nat),
      tx.version_major < 2 → tx.byte_code[tx.parse]? = some tok →
      tok &&& D3DSHADER_ADDRMODE_RELATIVE ≠ 0 →
      sm1_read_src_param tx old true =
        .ok ({ sm1_parse_src_param old tok with
                 rel := some (sm1_parse_src_param sm1_src_param.zero synthesised_rel_token) },
             { tx with parse := tx.parse + 1 })) ∧
    (∀ (tx : shader_translator) (tok : Nat),
      tx.version_major < 2 → tx.byte_code[tx.parse]? = some tok →
      tok &&& D3DSHADER_ADDRMODE_RELATIVE ≠ 0 →
      sm1_read_dst_param tx =
        .ok ({ sm1_parse_dst_param tok with
                 rel := some (sm1_parse_src_param sm1_src_param.zero synthesised_rel_token) },
             { tx with parse := tx.parse + 1 })) ∧
    (∀ (old : sm1_src_param) (tok : Nat), (sm1_parse_src_param old tok).rel = none) ∧
    (sm1_parse_src_param sm1_src_param.zero synthesised_rel_token).file = D3DSPR_ADDR ∧
    (sm1_parse_src_param sm1_src_param.zero synthesised_rel_token).idx = 0 ∧
    (sm1_parse_src_param sm1_src_param.zero synthesised_rel_token).mod = NINED3DSPSM_NONE ∧
    (sm1_parse_src_param sm1_src_param.zero synthesised_rel_token).swizzle = 0 ∧
    NINED3DSP_NOSWIZZLE = 0xe4 ∧
    D3DSP_NOSWIZZLE <<< D3DSP_SWIZZLE_SHIFT = 0xe4 * 2 ^ 32 := by
  refine ⟨?_, ?_, ?_, ?_, ?_, by decide, by decide, by decide, by decide, by decide,
    by decide⟩
  · intro tx old tok tok2 hmaj h1 hrel h2
    unfold sm1_read_src_param
    rw [sm1_parse_get_param_rel2 tx tok tok2 hmaj h1 hrel h2]
    simp [bind, Except.bind, pure, Except.pure, tx_assert]
  · intro tx tok tok2 hmaj h1 hrel h2
    unfold sm1_read_dst_param
    rw [sm1_parse_get_param_rel2 tx tok tok2 hmaj h1 hrel h2]
    rfl
  · intro tx old tok hmaj h1 hrel
    unfold sm1_read_src_param
    rw [sm1_parse_get_param_rel1 tx tok hmaj h1 hrel]
    simp [bind, Except.bind, pure, Except.pure, tx_assert]
  · intro tx tok hmaj h1 hrel
    unfold sm1_read_dst_param
    rw [sm1_parse_get_param_rel1 tx tok hmaj h1 hrel]
    rfl
  · intro old tok
    unfold sm1_parse_src_param
    simp only
    split <;> [rfl; split <;> [rfl; split <;> rfl]]

theorem first_occurrences_eq_foldl (l : List Int) :
    first_occurrences l = l.foldl note_first [] := rfl

theorem temps_after_step (items0 : List ureg_item) (n0 : Nat) (seen : List Int)
    (tx : shader_translator) (i : Int) (hi : 0 ≤ i) (h : temps_after items0 n0 seen tx) :
    ∃ tx', tx_temp_alloc tx i = .ok tx' ∧ temps_after items0 n0 (note_first seen i) tx' := by
  obtain ⟨hlen, hitems, hnr, hseen, hslot⟩ := h
  obtain ⟨k, rfl⟩ : ∃ k : Nat, i = (k : Int) := ⟨i.toNat, by omega⟩
  have hassert : tx_assert tx (decide (0 ≤ (k : Int))) = .ok () := by
    rw [tx_assert_ok_iff]; intro _; simp
  unfold tx_temp_alloc
  rw [hassert]
  simp only [bind, Except.bind, pure, Except.pure, Int.toNat_ofNat]
  rw [if_neg (by omega)]
  by_cases hge : k ≥ tx.num_temp
  · -- the table grows to cover `k`
    have hnot : (k : Int) ∉ seen := by
      intro hm
      have := (hseen _ hm).2
      simp at this; omega
    rw [if_pos hge]
    have hgrow : realloc_block tx.regs.r (k + 1) ureg_dst_undef =
        tx.regs.r ++ List.replicate (k + 1 - tx.regs.r.length) ureg_dst_undef := by
      unfold realloc_block
      rw [List.take_of_length_le (by omega)]
    have hget : arr_get (realloc_block tx.regs.r (k + 1) ureg_dst_undef) (k : Int) =
        .ok ureg_dst_undef := by
      apply arr_get_eq_ok _ _ _ (by omega)
      rw [hgrow, Int.toNat_ofNat, List.getElem?_append_right (by omega),
        List.getElem?_replicate]
      rw [if_pos (by omega)]
    simp only [hget]
    have hu : ureg_dst_is_undef ureg_dst_undef = true := rfl
    simp only [hu, if_true, tx_emit_get, ureg_DECL_temporary, arr_set, Int.toNat_ofNat]
    rw [if_neg (by omega), if_pos (by rw [hgrow]; simp; omega)]
    refine ⟨_, rfl, ?_⟩
    unfold note_first
    rw [if_neg hnot]
    refine ⟨?_, ?_, ?_, ?_, ?_⟩
    · simp [hgrow]; omega
    · simp [ureg_program.log, hitems, List.range_succ, hnr]
    · simp [hnr]; omega
    · intro j hj
      simp only [List.length_set, hgrow, List.length_append, List.length_replicate]
      rcases List.mem_append.mp hj with h1 | h1
      · have := hseen j h1
        exact ⟨this.1, by omega⟩
      · simp at h1; subst h1
        exact ⟨by omega, by simp; omega⟩
    · intro j hj
      simp only [List.length_set] at hj
      by_cases hjk : j = k
      · subst hjk
        rw [List.getElem?_set_self (by simpa using hj)]
        simp [List.indexOf_append_of_not_mem hnot, hnr]
      · rw [List.getElem?_set_ne (by omega)]
        have hmem : ((j : Int) ∈ seen ++ [(k : Int)]) ↔ (j : Int) ∈ seen := by
          simp; omega
        by_cases hjl : j < tx.regs.r.length
        · rw [hgrow, List.getElem?_append_left hjl, hslot j hjl]
          by_cases hm : (j : Int) ∈ seen
          · rw [if_pos hm, if_pos (hmem.mpr hm), List.indexOf_append_of_mem hm]
          · rw [if_neg hm, if_neg (fun h => hm (hmem.mp h))]
        · have hm : (j : Int) ∉ seen := by
            intro hm
            have := (hseen _ hm).2
            simp at this; omega
          rw [hgrow, List.getElem?_append_right (by omega), List.getElem?_replicate]
          rw [hgrow] at hj
          simp at hj
          rw [if_pos (by omega), if_neg (fun h => hm (hmem.mp h))]
  · -- the slot is inside the table
    have hk : k < tx.regs.r.length := by omega
    rw [if_neg hge]
    have hs := hslot k hk
    by_cases hm : (k : Int) ∈ seen
    · rw [if_pos hm] at hs
      have hget : arr_get tx.regs.r (k : Int) = .ok
          (ureg_dst_register .TEMPORARY ((n0 + seen.indexOf (k : Int) : Nat) : Int)) :=
        arr_get_eq_ok _ _ _ (by omega) (by simpa using hs)
      simp only [hget]
      have hu : ureg_dst_is_undef
          (ureg_dst_register .TEMPORARY ((n0 + seen.indexOf (k : Int) : Nat) : Int)) = false :=
        rfl
      simp only [hu, Bool.false_eq_true, if_false]
      refine ⟨_, rfl, ?_⟩
      unfold note_first
      rw [if_pos hm]
      exact ⟨hlen, hitems, hnr, hseen, hslot⟩
    · rw [if_neg hm] at hs
      have hget : arr_get tx.regs.r (k : Int) = .ok ureg_dst_undef :=
        arr_get_eq_ok _ _ _ (by omega) (by simpa using hs)
      simp only [hget]
      have hu : ureg_dst_is_undef ureg_dst_undef = true := rfl
      simp only [hu, if_true, tx_emit_get, ureg_DECL_temporary, arr_set, Int.toNat_ofNat]
      rw [if_neg (by omega), if_pos hk]
      refine ⟨_, rfl, ?_⟩
      unfold note_first
      rw [if_neg hm]
      refine ⟨?_, ?_, ?_, ?_, ?_⟩
      · simpa using hlen
      · simp [ureg_program.log, hitems, List.range_succ, hnr]
      · simp [hnr]; omega
      · intro j hj
        simp only [List.length_set]
        rcases List.mem_append.mp hj with h1 | h1
        · exact hseen j h1
        · simp at h1; subst h1
          exact ⟨by omega, by simpa using hk⟩
      · intro j hj
        simp only [List.length_set] at hj
        by_cases hjk : j = k
        · subst hjk
          rw [List.getElem?_set_self hj]
          simp [List.indexOf_append_of_not_mem hm, hnr]
        · rw [List.getElem?_set_ne (by omega), hslot j hj]
          have hmem : ((j : Int) ∈ seen ++ [(k : Int)]) ↔ (j : Int) ∈ seen := by
            simp; omega
          by_cases hm2 : (j : Int) ∈ seen
          · rw [if_pos hm2, if_pos (hmem.mpr hm2), List.indexOf_append_of_mem hm2]
          · rw [if_neg hm2, if_neg (fun h => hm2 (hmem.mp h))]

theorem run_temp_allocs_temps_after (items0 : List ureg_item) (n0 : Nat) (idxs : List Int) :
    ∀ (seen : List Int) (tx : shader_translator), (∀ i ∈ idxs, 0 ≤ i) →
      temps_after items0 n0 seen tx →
      ∃ tx', run_temp_allocs idxs tx = .ok tx' ∧
        temps_after items0 n0 (idxs.foldl note_first seen) tx' := by
  induction idxs with
  | nil => intro seen tx _ h; exact ⟨tx, rfl, h⟩
  | cons i rest ih =>
    intro seen tx hi h
    obtain ⟨tx1, h1, ht1⟩ := temps_after_step items0 n0 seen tx i
      (hi i (List.mem_cons_self _ _)) h
    obtain ⟨tx2, h2, ht2⟩ := ih (note_first seen i) tx1
      (fun j hj => hi j (List.mem_cons_of_mem _ hj)) ht1
    refine ⟨tx2, ?_, ht2⟩
    unfold run_temp_allocs
    rw [h1]; exact h2

theorem foldl_note_first_indexOf (more : List Int) :
    ∀ (seen : List Int) (i : Int), i ∈ seen →
      i ∈ more.foldl note_first seen ∧
      (more.foldl note_first seen).indexOf i = seen.indexOf i := by
  induction more with
  | nil => intro seen i hi; exact ⟨hi, rfl⟩
  | cons m more ih =>
    intro seen i hi
    simp only [List.foldl_cons]
    have hmem : i ∈ note_first seen m := by
      unfold note_first
      split
      · exact hi
      · exact List.mem_append_left _ hi
    have hidx : (note_first seen m).indexOf i = seen.indexOf i := by
      unfold note_first
      split
      · rfl
      · exact List.indexOf_append_of_mem hi
    have := ih (note_first seen m) i hmem
    exact ⟨this.1, by rw [this.2, hidx]⟩

/-- C21: temp declarations are lazy and idempotent.  On a translator whose temporaries
are all undeclared, a sequence of references `tx_temp_alloc` with indices >= 0 succeeds
and logs exactly one declaration of a temporary for each distinct index, in the order of
the first references; the slot of a referenced index holds the register declared at its
first reference, the slots of unreferenced indices inside the table stay undefined, and
further references leave the registers of the indices referenced so far as they are. -/
theorem C21_temp_declarations_lazy_idempotent (tx : shader_translator) (idxs : List Int)
    (hfresh : tx.regs.r = List.replicate tx.num_temp ureg_dst_undef)
    (hidx : ∀ i ∈ idxs, 0 ≤ i) :
    ∃ tx', run_temp_allocs idxs tx = .ok tx' ∧
      tx'.ureg.items = tx.ureg.items ++
        (List.range (first_occurrences idxs).length).map
          (fun j => ureg_item.DECL_temporary (tx.ureg.nr_temps + j)) ∧
      (first_occurrences idxs).length = idxs.toFinset.card ∧
      (∀ i ∈ idxs, i.toNat < tx'.regs.r.length ∧ tx'.regs.r[i.toNat]? = some
        (ureg_dst_register .TEMPORARY
          ((tx.ureg.nr_temps + (first_occurrences idxs).indexOf i : Nat) : Int))) ∧
      (∀ j : Nat, (j : Int) ∉ idxs → j < tx'.regs.r.length →
        tx'.regs.r[j]? = some ureg_dst_undef) ∧
      (∀ more : List Int, (∀ i ∈ more, 0 ≤ i) →
        ∃ tx'', run_temp_allocs (idxs ++ more) tx = .ok tx'' ∧
          ∀ i ∈ idxs, tx''.regs.r[i.toNat]? = tx'.regs.r[i.toNat]?) := by
  have h0 : temps_after tx.ureg.items tx.ureg.nr_temps [] tx := by
    refine ⟨by rw [hfresh]; simp, by simp, by simp, by simp, ?_⟩
    intro j hj
    rw [hfresh] at hj ⊢
    simp at hj
    simp [List.getElem?_replicate, hj]
  have hslots : ∀ (l : List Int) (t : shader_translator),
      temps_after tx.ureg.items tx.ureg.nr_temps (first_occurrences l) t →
      ∀ i ∈ l, 0 ≤ i → i.toNat < t.regs.r.length ∧ t.regs.r[i.toNat]? = some
        (ureg_dst_register .TEMPORARY
          ((tx.ureg.nr_temps + (first_occurrences l).indexOf i : Nat) : Int)) := by
    intro l t ht i hi h0i
    obtain ⟨_, _, _, hseen, hslot⟩ := ht
    have hm : i ∈ first_occurrences l := (first_occurrences_mem l i).mpr hi
    have hlt := (hseen i hm).2
    have hcast : ((i.toNat : Nat) : Int) = i := Int.toNat_of_nonneg h0i
    have := hslot i.toNat hlt
    rw [hcast, if_pos hm] at this
    exact ⟨hlt, this⟩
  obtain ⟨tx', hrun, ht⟩ := run_temp_allocs_temps_after tx.ureg.items tx.ureg.nr_temps idxs
    [] tx hidx h0
  rw [← first_occurrences_eq_foldl] at ht
  refine ⟨tx', hrun, ht.2.1, ?_, fun i hi => hslots idxs tx' ht i hi (hidx i hi), ?_, ?_⟩
  · rw [← List.toFinset_card_of_nodup (first_occurrences_nodup idxs)]
    congr 1
    ext i
    simp [first_occurrences_mem]
  · intro j hj hlt
    have := ht.2.2.2.2 j hlt
    rw [if_neg (fun h => hj ((first_occurrences_mem idxs _).mp h))] at this
    exact this
  · intro more hmore
    have hall : ∀ i ∈ idxs ++ more, 0 ≤ i := by
      intro i hi
      rcases List.mem_append.mp hi with h | h
      · exact hidx i h
      · exact hmore i h
    obtain ⟨tx'', hrun2, ht2⟩ := run_temp_allocs_temps_after tx.ureg.items tx.ureg.nr_temps
      (idxs ++ more) [] tx hall h0
    rw [← first_occurrences_eq_foldl] at ht2
    refine ⟨tx'', hrun2, ?_⟩
    intro i hi
    rw [(hslots (idxs ++ more) tx'' ht2 i (List.mem_append_left _ hi) (hidx i hi)).2,
      (hslots idxs tx' ht i hi (hidx i hi)).2]
    have hfo : first_occurrences (idxs ++ more) =
        more.foldl note_first (first_occurrences idxs) := by
      rw [first_occurrences_eq_foldl, first_occurrences_eq_foldl, List.foldl_append]
    rw [hfo, (foldl_note_first_indexOf more (first_occurrences idxs) i
      ((first_occurrences_mem idxs i).mpr hi)).2]

theorem C21_temp_declarations_lazy_idempotent_witness :
    (shader_translator.calloc example_env).regs.r =
      List.replicate (shader_translator.calloc example_env).num_temp ureg_dst_undef ∧
    (∀ i ∈ ([2, 0, 2] : List Int), 0 ≤ i) ∧
    first_occurrences [2, 0, 2] = [2, 0] ∧
    result_of ((run_temp_allocs [2, 0, 2] (shader_translator.calloc example_env)).map
      (fun t => (t.ureg.items.length, t.regs.r.map (fun d => (d.File, d.Index)))))
      = some (2, [(.TEMPORARY, 1), (.NULL, 0), (.TEMPORARY, 0)]) ∧
    ∃ tx', run_temp_allocs [2, 0, 2] (shader_translator.calloc example_env) = .ok tx' ∧
      tx'.ureg.items = (shader_translator.calloc example_env).ureg.items ++
        (List.range (first_occurrences [2, 0, 2]).length).map
          (fun j => ureg_item.DECL_temporary
            ((shader_translator.calloc example_env).ureg.nr_temps + j)) ∧
      (first_occurrences [2, 0, 2]).length = ([2, 0, 2] : List Int).toFinset.card ∧
      (∀ i ∈ ([2, 0, 2] : List Int), i.toNat < tx'.regs.r.length ∧
        tx'.regs.r[i.toNat]? = some
        (ureg_dst_register .TEMPORARY
          (((shader_translator.calloc example_env).ureg.nr_temps +
            (first_occurrences [2, 0, 2]).indexOf i : Nat) : Int))) ∧
      (∀ j : Nat, (j : Int) ∉ ([2, 0, 2] : List Int) → j < tx'.regs.r.length →
        tx'.regs.r[j]? = some ureg_dst_undef) ∧
      (∀ more : List Int, (∀ i ∈ more, 0 ≤ i) →
        ∃ tx'', run_temp_allocs ([2, 0, 2] ++ more) (shader_translator.calloc example_env)
            = .ok tx'' ∧
          ∀ i ∈ ([2, 0, 2] : List Int), tx''.regs.r[i.toNat]? = tx'.regs.r[i.toNat]?) :=
  ⟨rfl, by decide, by decide, by decide!,
   C21_temp_declarations_lazy_idempotent (shader_translator.calloc example_env) [2, 0, 2]
     rfl (by decide)⟩

theorem tx_scratch_ok (tx : shader_translator) (tmp : ureg_dst)
    (h : tx.regs.t[tx.num_scratch]? = some tmp) :
    tx_scratch tx = .ok (tmp, { tx with num_scratch := u32_inc tx.num_scratch }) := by
  have hlt : tx.num_scratch < tx.regs.t.length := (List.getElem?_eq_some_iff.mp h).1
  unfold tx_scratch
  have ha : tx_assert tx (decide (tx.num_scratch < tx.regs.t.length)) = .ok () := by
    rw [tx_assert_ok_iff]; intro _; simpa using hlt
  rw [ha, arr_get_eq_ok _ _ tmp (by omega) (by simpa using h)]
  rfl

/-- The modifiers that emit nothing. -/
theorem modifier_without_instruction (tx : shader_translator) (mod : Nat) (x : ureg_src)
    (tmp : ureg_dst) (i0 i1 : ureg_src)
    (hmod : mod = NINED3DSPSM_NONE ∨ mod = NINED3DSPSM_NEG ∨ mod = NINED3DSPSM_ABS ∨
      mod = NINED3DSPSM_ABSNEG ∨ mod = NINED3DSPSM_DZ ∨ mod = NINED3DSPSM_DW) :
    tx_src_param_mod tx mod x =
      .ok ((spec_src_modifier mod tx.native_integers x tmp i0 i1).2, tx) ∧
    (spec_src_modifier mod tx.native_integers x tmp i0 i1).1 = none := by
  rcases hmod with h | h | h | h | h | h <;> subst h <;>
    simp [tx_src_param_mod, spec_src_modifier, tx_src_mod_default, tx_assert, NINED3DSPSM_NONE,
      NINED3DSPSM_ABS, NINED3DSPSM_ABSNEG, NINED3DSPSM_NEG, NINED3DSPSM_BIAS,
      NINED3DSPSM_BIASNEG, NINED3DSPSM_NOT, NINED3DSPSM_COMP, NINED3DSPSM_DZ, NINED3DSPSM_DW,
      NINED3DSPSM_SIGN, NINED3DSPSM_SIGNNEG, NINED3DSPSM_X2, NINED3DSPSM_X2NEG,
      bind, Except.bind, pure, Except.pure]

/-- The modifiers that emit one instruction into the next scratch slot. -/
theorem modifier_with_instruction (tx : shader_translator) (mod : Nat) (x : ureg_src)
    (tmp : ureg_dst) (h : tx.regs.t[tx.num_scratch]? = some tmp)
    (hmod : mod = NINED3DSPSM_BIAS ∨ mod = NINED3DSPSM_BIASNEG ∨ mod = NINED3DSPSM_SIGN ∨
      mod = NINED3DSPSM_SIGNNEG ∨ mod = NINED3DSPSM_COMP ∨ mod = NINED3DSPSM_X2 ∨
      mod = NINED3DSPSM_X2NEG ∨ mod = NINED3DSPSM_NOT) :
    match (spec_src_modifier mod tx.native_integers x tmp
        (ureg_scalar (ureg_src_register .IMMEDIATE tx.ureg.nr_immediates) TGSI_SWIZZLE_X)
        (ureg_scalar (ureg_src_register .IMMEDIATE (tx.ureg.nr_immediates + 1 : Nat))
          TGSI_SWIZZLE_X)).1 with
    | none => False
    | some (op, srcs, imms) =>
      ∃ tx', tx_src_param_mod tx mod x =
        .ok ((spec_src_modifier mod tx.native_integers x tmp
          (ureg_scalar (ureg_src_register .IMMEDIATE tx.ureg.nr_immediates) TGSI_SWIZZLE_X)
          (ureg_scalar (ureg_src_register .IMMEDIATE (tx.ureg.nr_immediates + 1 : Nat))
            TGSI_SWIZZLE_X)).2, tx') ∧
        tx'.ureg.items = tx.ureg.items ++
          imms.map (fun b => ureg_item.immediate [.f32 b]) ++ [.insn op [tmp] srcs] ∧
        tx'.num_scratch = u32_inc tx.num_scratch := by
  have hs := tx_scratch_ok tx tmp h
  rcases hmod with h | h | h | h | h | h | h | h <;> subst h
  all_goals
    simp only [spec_src_modifier, NINED3DSPSM_BIAS, NINED3DSPSM_NEG, NINED3DSPSM_ABS,
      NINED3DSPSM_ABSNEG, NINED3DSPSM_BIASNEG, NINED3DSPSM_NOT, NINED3DSPSM_COMP,
      NINED3DSPSM_DZ, NINED3DSPSM_DW, NINED3DSPSM_SIGN, NINED3DSPSM_SIGNNEG, NINED3DSPSM_X2,
      NINED3DSPSM_X2NEG, tx_src_param_mod]
  all_goals
    first
    | (simp [tx_src_mod_sub, tx_src_mod_mad, tx_src_mod_x2, tx_src_mod_not, hs, tx_imm1f,
        tx_emit_get, bind, Except.bind, pure, Except.pure,
        ureg_imm1f, ureg_DECL_immediate, tx_insn, tx_emit, ureg_insn, ureg_program.log]; done)
    | (cases hn : tx.native_integers <;>
       simp [tx_src_mod_sub, tx_src_mod_mad, tx_src_mod_x2, tx_src_mod_not, hs, tx_imm1f,
        tx_emit_get, bind, Except.bind, pure, Except.pure, hn,
        ureg_imm1f, ureg_DECL_immediate, tx_insn, tx_emit, ureg_insn, ureg_program.log])

/-- C24 (source modifier lowering).  The order is operand, indirect addressing, swizzle,
modifier; the modifiers none, dz, dw, neg, abs and abs_neg emit nothing and the eight
others emit the instruction of the spec and return its destination (x2_neg negated).
That destination is the next element of `regs.t`, which no function assigns: after
`calloc` all five are the undefined register, so
`vs_2_0; ADD r0, r1_bias, r2_x2; END` has its SUB and its first ADD write the NULL file
with an empty writemask and its last ADD read the NULL file twice, where the spec has
each write one fresh scratch temporary. -/
theorem C24_modifier_scratch_is_the_undefined_register :
    (∀ (tx : shader_translator) (p : sm1_src_param), p.rel = none →
      tx_src_param tx p = (tx_src_param_file tx p).bind (fun r =>
        tx_src_param_mod r.2 p.mod (tx_src_param_swizzle p.swizzle r.1))) ∧
    (∀ (tx : shader_translator) (p r : sm1_src_param), p.rel = some r →
      tx_src_param tx p = (tx_src_param_file tx p).bind (fun b =>
        (tx_src_param b.2 r).bind (fun a =>
          tx_src_param_mod a.2 p.mod
            (tx_src_param_swizzle p.swizzle (ureg_src_indirect b.1 a.1))))) ∧
    (∀ (tx : shader_translator) (mod : Nat) (x : ureg_src) (tmp : ureg_dst) (i0 i1 : ureg_src),
      mod = NINED3DSPSM_NONE ∨ mod = NINED3DSPSM_NEG ∨ mod = NINED3DSPSM_ABS ∨
        mod = NINED3DSPSM_ABSNEG ∨ mod = NINED3DSPSM_DZ ∨ mod = NINED3DSPSM_DW →
      tx_src_param_mod tx mod x =
          .ok ((spec_src_modifier mod tx.native_integers x tmp i0 i1).2, tx) ∧
        (spec_src_modifier mod tx.native_integers x tmp i0 i1).1 = none) ∧
    (∀ (tx : shader_translator) (mod : Nat) (x : ureg_src) (tmp : ureg_dst),
      tx.regs.t[tx.num_scratch]? = some tmp →
      mod = NINED3DSPSM_BIAS ∨ mod = NINED3DSPSM_BIASNEG ∨ mod = NINED3DSPSM_SIGN ∨
        mod = NINED3DSPSM_SIGNNEG ∨ mod = NINED3DSPSM_COMP ∨ mod = NINED3DSPSM_X2 ∨
        mod = NINED3DSPSM_X2NEG ∨ mod = NINED3DSPSM_NOT →
      match (spec_src_modifier mod tx.native_integers x tmp
          (ureg_scalar (ureg_src_register .IMMEDIATE tx.ureg.nr_immediates) TGSI_SWIZZLE_X)
          (ureg_scalar (ureg_src_register .IMMEDIATE (tx.ureg.nr_immediates + 1 : Nat))
            TGSI_SWIZZLE_X)).1 with
      | none => False
      | some (op, srcs, imms) =>
        ∃ tx', tx_src_param_mod tx mod x =
          .ok ((spec_src_modifier mod tx.native_integers x tmp
            (ureg_scalar (ureg_src_register .IMMEDIATE tx.ureg.nr_immediates) TGSI_SWIZZLE_X)
            (ureg_scalar (ureg_src_register .IMMEDIATE (tx.ureg.nr_immediates + 1 : Nat))
              TGSI_SWIZZLE_X)).2, tx') ∧
          tx'.ureg.items = tx.ureg.items ++
            imms.map (fun b => ureg_item.immediate [.f32 b]) ++ [.insn op [tmp] srcs] ∧
          tx'.num_scratch = u32_inc tx.num_scratch) ∧
    (∀ env : build_env,
      (shader_translator.calloc env).regs.t = List.replicate 5 ureg_dst_undef) ∧
    result_of ((nine_translate_shader small_device
        (example_info .VERTEX prog_add_bias_x2)).map
        (fun r => (r.1, (emitted_insns r.2).map ureg_item.opcode)))
      = some (.D3D_OK, [.SUB, .ADD, .ADD, .END]) ∧
    result_of ((nine_translate_shader small_device
        (example_info .VERTEX prog_add_bias_x2)).map
        (fun r => (emitted_insns r.2).map ureg_item.dst_regs))
      = some [[(.NULL, 0, 0)], [(.NULL, 0, 0)], [(.TEMPORARY, 0, 15)], []] ∧
    result_of ((nine_translate_shader small_device
        (example_info .VERTEX prog_add_bias_x2)).map
        (fun r => (emitted_insns r.2).map ureg_item.src_regs))
      = some [[(.TEMPORARY, 1), (.IMMEDIATE, 0)], [(.TEMPORARY, 2), (.TEMPORARY, 2)],
              [(.NULL, 0), (.NULL, 0)], []] := by
  refine ⟨?_, ?_, ?_, ?_, ?_, ?_, ?_, ?_⟩
  · intro tx p hp
    obtain ⟨idx, rel, file, swizzle, mod, type, imm⟩ := p
    simp only at hp
    subst hp
    rw [tx_src_param]
    rfl
  · intro tx p r hp
    obtain ⟨idx, rel, file, swizzle, mod, type, imm⟩ := p
    simp only at hp
    subst hp
    rw [tx_src_param]
    simp only [bind, Except.bind, pure, Except.pure]
  · intro tx mod x tmp i0 i1 hmod
    exact modifier_without_instruction tx mod x tmp i0 i1 hmod
  · intro tx mod x tmp h hmod
    exact modifier_with_instruction tx mod x tmp h hmod
  · intro env; rfl
  · decide!
  · decide!
  · decide!

theorem lowers_cond {tx tx' : shader_translator} (h : lowers tx tx') :
    tx'.cond_depth = tx.cond_depth ∧ tx'.cond_labels = tx.cond_labels := by
  rw [h.1]
  exact ⟨rfl, rfl⟩

theorem tx_cond_ok (tx : shader_translator) (h : tx.cond_depth < NINE_MAX_COND_DEPTH) :
    tx_cond tx = .ok (tx.cond_depth, { tx with cond_depth := tx.cond_depth + 1 }) := by
  unfold NINE_MAX_COND_DEPTH at h
  unfold tx_cond
  have ha : tx_assert tx (decide (tx.cond_depth ≤ NINE_MAX_COND_DEPTH)) = .ok () := by
    rw [tx_assert_ok_iff]; intro _; simp [NINE_MAX_COND_DEPTH]; omega
  rw [ha]
  have h1 : u32_inc tx.cond_depth = tx.cond_depth + 1 := by unfold u32_inc; omega
  have h2 : u32_dec (tx.cond_depth + 1) = tx.cond_depth := by unfold u32_dec; omega
  simp only [bind, Except.bind, pure, Except.pure, h1, h2]

theorem IFC_eq (tx tx1 tx2 : shader_translator) (t : ureg_dst) (op : tgsi_opcode)
    (s0 s1 : ureg_src)
    (hop : sm1_insn_flags_to_tgsi_setop tx tx.insn.flags = .ok op)
    (ht : tx.regs.t[tx.num_scratch]? = some t)
    (h0 : tx_src_param { tx with num_scratch := u32_inc tx.num_scratch } tx.insn.src0
      = .ok (s0, tx1))
    (h1 : tx_src_param tx1 tx.insn.src1 = .ok (s1, tx2))
    (hd : tx.cond_depth < tx.cond_labels.length)
    (hl : tx.cond_labels.length ≤ NINE_MAX_COND_DEPTH) :
    ∃ tx', NineTranslateInstruction_IFC tx = .ok (.D3D_OK, tx') ∧
      tx'.ureg.items = tx2.ureg.items ++
        [.insn op [ureg_writemask t TGSI_WRITEMASK_X] [s0, s1],
         .label_insn .IF
           [ureg_scalar (ureg_src_of (ureg_writemask t TGSI_WRITEMASK_X)) TGSI_SWIZZLE_X]] ∧
      tx'.cond_depth = tx.cond_depth + 1 := by
  have hs := tx_scratch_ok tx t ht
  have l0 := tx_src_param_lowers _ _ _ _ h0
  have l1 := tx_src_param_lowers _ _ _ _ h1
  have hi1 : tx1.insn = tx.insn := lowers_insn l0
  have hc := lowers_cond (lowers_trans l0 l1)
  have hcd : tx2.cond_depth = tx.cond_depth := hc.1
  have hcl : tx2.cond_labels = tx.cond_labels := hc.2
  unfold NineTranslateInstruction_IFC
  rw [hop]
  simp only [bind, Except.bind, pure, Except.pure, hs, h0, hi1, h1]
  have hc2 := tx_cond_ok (tx_insn tx2 op [ureg_writemask t TGSI_WRITEMASK_X] [s0, s1])
    (by show tx2.cond_depth < _; rw [hcd]; omega)
  rw [hc2]
  simp only [tx_label_insn_cond, tx_emit_get, bind, Except.bind, pure, Except.pure, arr_set,
    tx_insn, tx_emit, hcd, hcl]
  have : ¬ ((tx.cond_depth : Int) < 0) := by omega
  simp [this, hd, ureg_label_insn, ureg_insn, ureg_program.log]

theorem tx_src_scalar_empty (d : ureg_dst) (h : d.WriteMask = 0) :
    tx_src_scalar d = .error .undefined := by
  unfold tx_src_scalar
  rw [h]
  rfl

/-- The handler of LOOP does not return when the scratch register it takes has no x
lane. -/
theorem LOOP_faults (tx tx1 : shader_translator) (src : ureg_src) (t : ureg_dst)
    (h1 : tx_src_param tx tx.insn.src1 = .ok (src, tx1))
    (ht : tx1.regs.t[tx1.num_scratch]? = some t)
    (hm : t.WriteMask &&& TGSI_WRITEMASK_X = 0) :
    result_of (NineTranslateInstruction_LOOP tx) = none := by
  have hs := tx_scratch_ok tx1 t ht
  have he := tx_src_scalar_empty (ureg_writemask t TGSI_WRITEMASK_X) hm
  unfold NineTranslateInstruction_LOOP
  simp only [bind, Except.bind, pure, Except.pure, h1, tx_scratch_scalar, hs]
  cases tx_bgnloop { tx1 with num_scratch := u32_inc tx1.num_scratch } with
  | error e => rfl
  | ok a =>
    simp only
    cases tx_get_loopctr a.2 with
    | error e => rfl
    | ok b =>
      simp only
      cases tx_label_insn_loop (tx_insn b.2 .MOV [b.1] [ureg_scalar src TGSI_SWIZZLE_Y])
        .BGNLOOP [] a.1 with
      | error e => rfl
      | ok c =>
        simp only
        cases c.native_integers <;> simp [he, tx_insn, tx_emit, result_of]

/-- C29 (LOOP lowering).  The handler of LOOP takes `regs.t[num_scratch]` restricted to x
as its scratch scalar and reads it back through `tx_src_scalar`, which shifts by
`ffs(mask) - 1`: whenever that register has no x lane the handler does not return, and the
scratch registers are assigned nowhere, so scenario S5
(`vs_3_0; LOOP aL, i0; MOV r0, aL; ENDLOOP; END`) ends in the undefined shift, with and
without assertions.  On a state with declared scratch and counter registers the handler
emits MOV, BGNLOOP, MAD, SGE, ADD, IF, BRK, ENDIF (UMAD, USGE, UADD, UIF with native
integers): the increment of the counter comes before the conditional break, not after it
as in the spec; the loop depth goes from 0 to 1 and the conditional depth stays 0.  (The
operand i0 reads the NULL file there: entry 0 of the zeroed `lconsti` has `idx == 0`.) -/
theorem C29_LOOP_faults_and_increments_before_break :
    (∀ (tx tx1 : shader_translator) (src : ureg_src) (t : ureg_dst),
      tx_src_param tx tx.insn.src1 = .ok (src, tx1) →
      tx1.regs.t[tx1.num_scratch]? = some t →
      t.WriteMask &&& TGSI_WRITEMASK_X = 0 →
      result_of (NineTranslateInstruction_LOOP tx) = none) ∧
    (∀ env : build_env,
      (shader_translator.calloc env).regs.t = List.replicate 5 ureg_dst_undef) ∧
    fault_of (nine_translate_shader small_device (example_info .VERTEX prog_loop_s5))
      = some .undefined ∧
    fault_of (nine_translate_shader
        { small_device with env := { small_env with asserts := false } }
        (example_info .VERTEX prog_loop_s5))
      = some .undefined ∧
    result_of ((((example_tx .VERTEX prog_loop_s5).map (tx_with_scratch false)).bind
        sm1_parse_instruction).map
        (fun tx => (tx.ureg.items.filter ureg_item.is_insn).map ureg_item.opcode))
      = some [.MOV, .BGNLOOP, .MAD, .SGE, .ADD, .IF, .BRK, .ENDIF] ∧
    result_of ((((example_tx .VERTEX prog_loop_s5).map (tx_with_scratch true)).bind
        sm1_parse_instruction).map
        (fun tx => (tx.ureg.items.filter ureg_item.is_insn).map ureg_item.opcode))
      = some [.MOV, .BGNLOOP, .UMAD, .USGE, .UADD, .UIF, .BRK, .ENDIF] ∧
    result_of ((((example_tx .VERTEX prog_loop_s5).map (tx_with_scratch false)).bind
        sm1_parse_instruction).map
        (fun tx => (tx.ureg.items.filter ureg_item.is_insn).map ureg_item.dst_regs))
      = some [[(.TEMPORARY, 99, 1)], [], [(.TEMPORARY, 100, 1)], [(.TEMPORARY, 100, 1)],
              [(.TEMPORARY, 99, 1)], [], [], []] ∧
    result_of ((((example_tx .VERTEX prog_loop_s5).map (tx_with_scratch false)).bind
        sm1_parse_instruction).map
        (fun tx => (tx.ureg.items.filter ureg_item.is_insn).map ureg_item.src_regs))
      = some [[(.NULL, 0)], [], [(.NULL, 0), (.NULL, 0), (.NULL, 0)],
              [(.TEMPORARY, 99), (.TEMPORARY, 100)],
              [(.TEMPORARY, 99), (.NULL, 0)], [(.TEMPORARY, 100)], [], []] ∧
    result_of ((example_tx .VERTEX prog_loop_s5).map
        (fun tx => (tx.loop_depth, tx.cond_depth))) = some (0, 0) ∧
    result_of ((((example_tx .VERTEX prog_loop_s5).map (tx_with_scratch false)).bind
        sm1_parse_instruction).map (fun tx => (tx.loop_depth, tx.cond_depth)))
      = some (1, 0) := by
  refine ⟨?_, ?_, ?_, ?_, ?_, ?_, ?_, ?_, ?_, ?_⟩
  · intro tx tx1 src t h1 ht hm
    exact LOOP_faults tx tx1 src t h1 ht hm
  · intro env; rfl
  · decide!
  · decide!
  · decide!
  · decide!
  · decide!
  · decide!
  · decide!
  · decide!

/-- C30 (relational lowering of IFC).  The flags 1..6 select SGT, SEQ, SGE, SLT, SNE and
SLE, distinct for distinct flags; any other value fails the assertion of a debug build and
selects SFL in a release build.  The handler of IFC emits that compare of the lowered src0
and src1 and one IF on the x lane of its destination, and raises the conditional depth by
one.  The destination is the next element of `regs.t` restricted to x; no function assigns
these, so it is the undefined register with an empty writemask: in
`vs_3_0; IFC_GT r0, r1; ENDIF; END` the SGT writes the NULL file, where the spec has it
write the x component of a scratch temporary. -/
theorem C30_IFC_compares_into_the_undefined_register :
    (∀ tx : shader_translator,
      sm1_insn_flags_to_tgsi_setop tx 1 = .ok .SGT ∧
      sm1_insn_flags_to_tgsi_setop tx 2 = .ok .SEQ ∧
      sm1_insn_flags_to_tgsi_setop tx 3 = .ok .SGE ∧
      sm1_insn_flags_to_tgsi_setop tx 4 = .ok .SLT ∧
      sm1_insn_flags_to_tgsi_setop tx 5 = .ok .SNE ∧
      sm1_insn_flags_to_tgsi_setop tx 6 = .ok .SLE) ∧
    (∀ (tx : shader_translator) (f g : Nat), 1 ≤ f → f ≤ 6 → 1 ≤ g → g ≤ 6 →
      sm1_insn_flags_to_tgsi_setop tx f = sm1_insn_flags_to_tgsi_setop tx g → f = g) ∧
    (∀ (tx : shader_translator) (f : Nat), f = 0 ∨ 6 < f →
      sm1_insn_flags_to_tgsi_setop tx f =
        if tx.env.asserts then .error .assertion else .ok .SFL) ∧
    (∀ (tx tx1 tx2 : shader_translator) (t : ureg_dst) (op : tgsi_opcode) (s0 s1 : ureg_src),
      sm1_insn_flags_to_tgsi_setop tx tx.insn.flags = .ok op →
      tx.regs.t[tx.num_scratch]? = some t →
      tx_src_param { tx with num_scratch := u32_inc tx.num_scratch } tx.insn.src0
        = .ok (s0, tx1) →
      tx_src_param tx1 tx.insn.src1 = .ok (s1, tx2) →
      tx.cond_depth < tx.cond_labels.length →
      tx.cond_labels.length ≤ NINE_MAX_COND_DEPTH →
      ∃ tx', NineTranslateInstruction_IFC tx = .ok (.D3D_OK, tx') ∧
        tx'.ureg.items = tx2.ureg.items ++
          [.insn op [ureg_writemask t TGSI_WRITEMASK_X] [s0, s1],
           .label_insn .IF
             [ureg_scalar (ureg_src_of (ureg_writemask t TGSI_WRITEMASK_X))
               TGSI_SWIZZLE_X]] ∧
        tx'.cond_depth = tx.cond_depth + 1) ∧
    (∀ env : build_env,
      (shader_translator.calloc env).regs.t = List.replicate 5 ureg_dst_undef) ∧
    result_of ((nine_translate_shader small_device (example_info .VERTEX prog_ifc_gt)).map
        (fun r => (r.1, (emitted_insns r.2).map ureg_item.opcode)))
      = some (.D3D_OK, [.SGT, .IF, .ENDIF, .END]) ∧
    result_of ((nine_translate_shader small_device (example_info .VERTEX prog_ifc_gt)).map
        (fun r => (emitted_insns r.2).map ureg_item.dst_regs))
      = some [[(.NULL, 0, 0)], [], [], []] ∧
    result_of ((nine_translate_shader small_device (example_info .VERTEX prog_ifc_gt)).map
        (fun r => (emitted_insns r.2).map ureg_item.src_regs))
      = some [[(.TEMPORARY, 0), (.TEMPORARY, 1)], [(.NULL, 0)], [], []] := by
  refine ⟨?_, ?_, ?_, ?_, ?_, ?_, ?_, ?_⟩
  · intro tx
    refine ⟨rfl, rfl, rfl, rfl, rfl, rfl⟩
  · intro tx f g hf1 hf6 hg1 hg6 h
    have hf : f = 1 ∨ f = 2 ∨ f = 3 ∨ f = 4 ∨ f = 5 ∨ f = 6 := by omega
    have hg : g = 1 ∨ g = 2 ∨ g = 3 ∨ g = 4 ∨ g = 5 ∨ g = 6 := by omega
    rcases hf with hf | hf | hf | hf | hf | hf <;>
      rcases hg with hg | hg | hg | hg | hg | hg <;> subst hf <;> subst hg <;>
      first
      | rfl
      | (exfalso
         simp [sm1_insn_flags_to_tgsi_setop, NINED3DSHADER_REL_OP_GT, NINED3DSHADER_REL_OP_EQ,
           NINED3DSHADER_REL_OP_GE, NINED3DSHADER_REL_OP_LT, NINED3DSHADER_REL_OP_NE,
           NINED3DSHADER_REL_OP_LE, pure, Except.pure] at h)
  · intro tx f hf
    have h1 : f ≠ 1 := by omega
    have h2 : f ≠ 2 := by omega
    have h3 : f ≠ 3 := by omega
    have h4 : f ≠ 4 := by omega
    have h5 : f ≠ 5 := by omega
    have h6 : f ≠ 6 := by omega
    cases ha : tx.env.asserts <;>
      simp [sm1_insn_flags_to_tgsi_setop, NINED3DSHADER_REL_OP_GT, NINED3DSHADER_REL_OP_EQ,
        NINED3DSHADER_REL_OP_GE, NINED3DSHADER_REL_OP_LT, NINED3DSHADER_REL_OP_NE,
        NINED3DSHADER_REL_OP_LE, h1, h2, h3, h4, h5, h6, tx_assert, ha, bind, Except.bind,
        pure, Except.pure]
  · intro tx tx1 tx2 t op s0 s1 hop ht h0 h1 hd hl
    exact IFC_eq tx tx1 tx2 t op s0 s1 hop ht h0 h1 hd hl
  · intro env; rfl
  · decide!
  · decide!
  · decide!

theorem steps_refl (tx : shader_translator) : steps false false tx tx :=
  ⟨by simp, [], by simp, by simp⟩

theorem steps_trans {i1 i2 b1 b2 : Bool} {a b c : shader_translator}
    (h1 : steps i1 b1 a b) (h2 : steps i2 b2 b c) : steps (i1 || i2) (b1 || b2) a c := by
  obtain ⟨f1, l1, e1, p1⟩ := h1
  obtain ⟨f2, l2, e2, p2⟩ := h2
  refine ⟨?_, l1 ++ l2, by rw [e2, e1, List.append_assoc], ?_⟩
  · rw [f2, f1]
    simp [Bool.or_assoc]
  · intro it hit
    rcases List.mem_append.mp hit with h | h
    · exact ⟨(p1 it h).1, fun hi => (p1 it h).2 (Bool.or_eq_false_iff.mp hi).1⟩
    · exact ⟨(p2 it h).1, fun hi => (p2 it h).2 (Bool.or_eq_false_iff.mp hi).2⟩

theorem steps_mono {i b : Bool} {tx tx' : shader_translator} (h : steps i b tx tx') :
    steps true b tx tx' :=
  ⟨h.1, by
    obtain ⟨l, e, p⟩ := h.2
    exact ⟨l, e, fun it hit => ⟨(p it hit).1, fun hi => by cases hi⟩⟩⟩

theorem steps_congr {i b i' b' : Bool} {tx tx' : shader_translator} (h : steps i b tx tx')
    (hi : i = i') (hb : b = b') : steps i' b' tx tx' := by
  subst hi; subst hb; exact h

theorem steps_log_regs (tx : shader_translator) (regs : tx_regs) (n : Nat) (u : ureg_program)
    (it : ureg_item) (hu : u.items = tx.ureg.items ++ [it])
    (hp : (it.is_plain && !it.is_insn) = true) :
    steps false false tx { tx with ureg := u, regs := regs, num_temp := n } :=
  ⟨by simp, [it], hu, by simpa using hp⟩

theorem steps_regs (tx : shader_translator) (regs : tx_regs) (n : Nat) :
    steps false false tx { tx with regs := regs, num_temp := n } :=
  ⟨by simp, [], by simp, by simp⟩

theorem steps_log (tx : shader_translator) (regs : tx_regs) (u : ureg_program)
    (it : ureg_item) (hu : u.items = tx.ureg.items ++ [it])
    (hp : (it.is_plain && !it.is_insn) = true) :
    steps false false tx { tx with ureg := u, regs := regs } :=
  ⟨by simp, [it], hu, by simpa using hp⟩

theorem steps_scratch (tx : shader_translator) (n : Nat) :
    steps false false tx { tx with num_scratch := n } :=
  ⟨by simp, [], by simp, by simp⟩

theorem steps_indirect (tx : shader_translator) :
    steps false true tx { tx with indirect_const_access := true } :=
  ⟨by simp, [], by simp, by simp⟩

theorem tx_imm1f_steps (tx : shader_translator) (bits : Nat) :
    steps false false tx (tx_imm1f tx bits).2 :=
  ⟨by simp [tx_imm1f, tx_emit_get], [.immediate [.f32 bits]], by simp [tx_imm1f, tx_emit_get,
    ureg_imm1f, ureg_DECL_immediate, ureg_program.log],
    by simp [ureg_item.is_plain, ureg_item.is_insn]⟩

theorem tx_insn_steps (tx : shader_translator) (op : tgsi_opcode) (d : List ureg_dst)
    (s : List ureg_src) : steps true false tx (tx_insn tx op d s) :=
  ⟨by simp [tx_insn, tx_emit], [.insn op d s],
   by simp [tx_insn, tx_emit, ureg_insn, ureg_program.log],
   by simp [ureg_item.is_plain]⟩

theorem tx_temp_alloc_steps (tx tx' : shader_translator) (idx : Int)
    (h : tx_temp_alloc tx idx = .ok tx') : steps false false tx tx' := by
  unfold tx_temp_alloc at h
  simp only [bind_eq_ok, pure_eq_ok] at h
  obtain ⟨_, _, h⟩ := h
  split at h
  · exact absurd h (throw_ne_ok _ _)
  · have h1 : steps false false tx (if idx.toNat ≥ tx.num_temp then
        { tx with regs := { tx.regs with r := realloc_block tx.regs.r (idx.toNat + 1) ureg_dst_undef },
                  num_temp := idx.toNat + 1 } else tx) := by
      split
      · exact steps_regs tx _ _
      · exact steps_refl tx
    generalize (if idx.toNat ≥ tx.num_temp then
        { tx with regs := { tx.regs with r := realloc_block tx.regs.r (idx.toNat + 1) ureg_dst_undef },
                  num_temp := idx.toNat + 1 } else tx) = tx1 at h h1
    simp only [bind_eq_ok, pure_eq_ok] at h
    obtain ⟨_, _, r, hr, h⟩ := h
    split at h
    · simp only [bind_eq_ok, pure_eq_ok, tx_emit_get, ureg_DECL_temporary] at h
      obtain ⟨rs, hrs, h⟩ := h
      subst h
      exact steps_trans h1 (steps_log_regs tx1 _ tx1.num_temp _ (.DECL_temporary tx1.ureg.nr_temps)
        (by simp [ureg_program.log]) rfl)
    · simp only [pure_eq_ok] at h
      subst h
      exact h1

theorem tx_addr_alloc_steps (tx tx' : shader_translator) (idx : Int)
    (h : tx_addr_alloc tx idx = .ok tx') : steps false false tx tx' := by
  unfold tx_addr_alloc at h
  simp only [bind_eq_ok, pure_eq_ok] at h
  obtain ⟨_, _, h⟩ := h
  split at h
  · simp only [pure_eq_ok, tx_emit_get, ureg_DECL_address] at h
    subst h
    exact steps_log tx _ _ (.DECL_address tx.ureg.nr_addrs) (by simp [ureg_program.log]) rfl
  · simp only [pure_eq_ok] at h
    subst h
    exact steps_refl tx

theorem tx_pred_alloc_steps (tx tx' : shader_translator) (idx : Int)
    (h : tx_pred_alloc tx idx = .ok tx') : steps false false tx tx' := by
  unfold tx_pred_alloc at h
  simp only [bind_eq_ok, pure_eq_ok] at h
  obtain ⟨_, _, h⟩ := h
  split at h
  · simp only [pure_eq_ok, tx_emit_get, ureg_DECL_predicate] at h
    subst h
    exact steps_log tx _ _ (.DECL_predicate tx.ureg.nr_preds) (by simp [ureg_program.log]) rfl
  · simp only [pure_eq_ok] at h
    subst h
    exact steps_refl tx

theorem tx_texcoord_alloc_steps (tx tx' : shader_translator) (idx : Int)
    (h : tx_texcoord_alloc tx idx = .ok tx') : steps false false tx tx' := by
  unfold tx_texcoord_alloc at h
  simp only [bind_eq_ok, pure_eq_ok] at h
  obtain ⟨_, _, _, _, v, hv, h⟩ := h
  split at h
  · simp only [bind_eq_ok, pure_eq_ok, tx_emit_get, ureg_DECL_fs_input,
      ureg_DECL_fs_input_cyl_centroid] at h
    obtain ⟨vT, hvT, h⟩ := h
    subst h
    exact steps_log tx _ _
      (.DECL_fs_input (if tx.want_texcoord then .TEXCOORD else .GENERIC) idx.toNat .PERSPECTIVE 0 false)
      (by simp [ureg_program.log]) rfl
  · simp only [pure_eq_ok] at h
    subst h
    exact steps_refl tx

theorem tx_get_loopctr_steps (tx tx' : shader_translator) (r : ureg_dst)
    (h : tx_get_loopctr tx = .ok (r, tx')) : steps false false tx tx' := by
  unfold tx_get_loopctr at h
  dsimp only at h
  split at h
  · cases h; exact steps_refl tx
  · rw [bind_eq_ok] at h
    obtain ⟨cur, hcur, h⟩ := h
    split at h
    · simp only [tx_emit_get, ureg_DECL_local_temporary] at h
      rw [bind_eq_ok] at h
      obtain ⟨_, _, h⟩ := h
      rw [bind_eq_ok] at h
      obtain ⟨cur2, hc2, h⟩ := h
      cases h
      exact steps_log tx _ _ (.DECL_local_temporary tx.ureg.nr_temps)
        (by simp [ureg_program.log]) rfl
    · cases h; exact steps_refl tx

theorem tx_scratch_steps (tx tx' : shader_translator) (r : ureg_dst)
    (h : tx_scratch tx = .ok (r, tx')) : steps false false tx tx' := by
  unfold tx_scratch at h
  simp only [bind_eq_ok, pure_eq_ok, Prod.mk.injEq] at h
  obtain ⟨_, _, t, ht, h⟩ := h
  rw [← h.2]; exact steps_scratch tx _

theorem tx_src_param_TEMP_steps (tx tx' : shader_translator) (param : sm1_src_param)
    (r : ureg_src) (h : tx_src_param_TEMP tx param = .ok (r, tx')) : steps false false tx tx' := by
  unfold tx_src_param_TEMP at h
  simp only [bind_eq_ok] at h
  obtain ⟨_, _, tx1, h1, r1, _, h⟩ := h
  cases h
  exact tx_temp_alloc_steps _ _ _ h1

theorem tx_src_param_ADDR_steps (tx tx' : shader_translator) (param : sm1_src_param)
    (r : ureg_src) (h : tx_src_param_ADDR tx param = .ok (r, tx')) : steps false false tx tx' := by
  unfold tx_src_param_ADDR at h
  simp only [bind_eq_ok] at h
  obtain ⟨_, _, h⟩ := h
  split at h
  · simp only [bind_eq_ok] at h
    obtain ⟨tx1, h1, h⟩ := h
    cases h
    exact tx_addr_alloc_steps _ _ _ h1
  · simp only [bind_eq_ok] at h
    obtain ⟨tx1, h1, v, _, h⟩ := h
    cases h
    exact tx_texcoord_alloc_steps _ _ _ h1

theorem tx_src_param_PREDICATE_steps (tx tx' : shader_translator) (param : sm1_src_param)
    (r : ureg_src) (h : tx_src_param_PREDICATE tx param = .ok (r, tx')) : steps false false tx tx' := by
  unfold tx_src_param_PREDICATE at h
  simp only [bind_eq_ok] at h
  obtain ⟨_, _, tx1, h1, h⟩ := h
  cases h
  exact tx_pred_alloc_steps _ _ _ h1

theorem tx_src_param_SAMPLER_steps (tx tx' : shader_translator) (param : sm1_src_param)
    (r : ureg_src) (h : tx_src_param_SAMPLER tx param = .ok (r, tx')) : steps false false tx tx' := by
  unfold tx_src_param_SAMPLER at h
  simp only [bind_eq_ok] at h
  obtain ⟨_, _, _, _, _, _, h⟩ := h
  cases h; exact steps_refl tx

theorem tx_src_param_CONST234_steps (tx tx' : shader_translator)
    (r : ureg_src) (h : tx_src_param_CONST234 tx = .ok (r, tx')) : steps false false tx tx' := by
  unfold tx_src_param_CONST234 at h
  simp only [bind_eq_ok] at h
  obtain ⟨_, _, h⟩ := h
  cases h
  exact tx_imm1f_steps tx _

theorem tx_src_param_CONSTINT_steps (tx tx' : shader_translator) (param : sm1_src_param)
    (r : ureg_src) (h : tx_src_param_CONSTINT tx param = .ok (r, tx')) : steps false false tx tx' := by
  unfold tx_src_param_CONSTINT at h
  split at h
  · cases h; exact steps_refl tx
  · rw [except_bind_eq_ok] at h
    obtain ⟨o, _, h⟩ := h
    split at h <;> (cases h; exact steps_refl tx)

theorem tx_src_param_CONSTBOOL_steps (tx tx' : shader_translator) (param : sm1_src_param)
    (r : ureg_src) (h : tx_src_param_CONSTBOOL tx param = .ok (r, tx')) : steps false false tx tx' := by
  unfold tx_src_param_CONSTBOOL at h
  split at h
  · cases h; exact steps_refl tx
  · rw [except_bind_eq_ok] at h
    obtain ⟨o, _, h⟩ := h
    split at h <;> (cases h; exact steps_refl tx)

theorem tx_src_param_LOOP_steps (tx tx' : shader_translator)
    (r : ureg_src) (h : tx_src_param_LOOP tx = .ok (r, tx')) : steps false false tx tx' := by
  unfold tx_src_param_LOOP at h
  simp only [bind_eq_ok] at h
  obtain ⟨⟨ctr, tx1⟩, h1, h⟩ := h
  cases h
  exact tx_get_loopctr_steps _ _ _ h1

theorem tx_src_param_MISCTYPE_idx_steps (tx tx' : shader_translator) (param : sm1_src_param)
    (src r : ureg_src) (h : tx_src_param_MISCTYPE_idx tx param src = .ok (r, tx')) :
    steps false false tx tx' := by
  unfold tx_src_param_MISCTYPE_idx at h
  split at h
  · split at h
    · cases h
      exact steps_log tx _ _ (.DECL_fs_input .POSITION 0 .LINEAR 0 false)
          (by simp [tx_emit_get, ureg_DECL_fs_input, ureg_DECL_fs_input_cyl_centroid,
            ureg_program.log]) rfl
    · cases h; exact steps_refl tx
  · split at h
    · split at h
      · cases h
        exact steps_log tx _ _ (.DECL_fs_input .FACE 0 .CONSTANT 0 false)
            (by simp [tx_emit_get, ureg_DECL_fs_input, ureg_DECL_fs_input_cyl_centroid,
              ureg_program.log]) rfl
      · cases h; exact steps_refl tx
    · rw [except_bind_eq_ok] at h
      obtain ⟨_, _, h⟩ := h
      cases h; exact steps_refl tx

theorem tx_src_param_MISCTYPE_steps (tx tx' : shader_translator) (param : sm1_src_param)
    (src r : ureg_src) (h : tx_src_param_MISCTYPE tx param src = .ok (r, tx')) :
    steps false false tx tx' := by
  unfold tx_src_param_MISCTYPE at h
  simp only [bind_eq_ok] at h
  obtain ⟨⟨s1, tx1⟩, h1, _, _, h⟩ := h
  cases h
  exact tx_src_param_MISCTYPE_idx_steps _ _ _ _ _ h1

theorem tx_src_param_default_steps (tx tx' : shader_translator)
    (src r : ureg_src) (h : tx_src_param_default tx src = .ok (r, tx')) : steps false false tx tx' := by
  unfold tx_src_param_default at h
  simp only [bind_eq_ok] at h
  obtain ⟨_, _, h⟩ := h
  cases h; exact steps_refl tx

theorem tx_src_mod_sub_steps (tx tx' : shader_translator) (src r : ureg_src) (bits : Nat)
    (b : Bool) (h : tx_src_mod_sub tx src bits b = .ok (r, tx')) : steps true false tx tx' := by
  unfold tx_src_mod_sub at h
  simp only [bind_eq_ok] at h
  obtain ⟨⟨tmp, tx1⟩, h1, h⟩ := h
  cases h
  exact steps_trans (tx_scratch_steps _ _ _ h1)
    (steps_trans (tx_imm1f_steps _ _) (tx_insn_steps _ _ _ _))

theorem tx_src_mod_mad_steps (tx tx' : shader_translator) (src r : ureg_src) (a b : Nat)
    (h : tx_src_mod_mad tx src a b = .ok (r, tx')) : steps true false tx tx' := by
  unfold tx_src_mod_mad at h
  simp only [bind_eq_ok] at h
  obtain ⟨⟨tmp, tx1⟩, h1, h⟩ := h
  cases h
  exact steps_trans (tx_scratch_steps _ _ _ h1)
    (steps_trans (tx_imm1f_steps _ _)
      (steps_trans (tx_imm1f_steps _ _) (tx_insn_steps _ _ _ _)))

theorem tx_src_mod_x2_steps (tx tx' : shader_translator) (src r : ureg_src) (b : Bool)
    (h : tx_src_mod_x2 tx src b = .ok (r, tx')) : steps true false tx tx' := by
  unfold tx_src_mod_x2 at h
  simp only [bind_eq_ok] at h
  obtain ⟨⟨tmp, tx1⟩, h1, h⟩ := h
  cases h
  exact steps_trans (tx_scratch_steps _ _ _ h1) (tx_insn_steps _ _ _ _)

theorem tx_src_mod_not_steps (tx tx' : shader_translator) (src r : ureg_src)
    (h : tx_src_mod_not tx src = .ok (r, tx')) : steps true false tx tx' := by
  unfold tx_src_mod_not at h
  simp only [bind_eq_ok] at h
  obtain ⟨⟨tmp, tx1⟩, h1, h⟩ := h
  cases h
  exact steps_trans (tx_scratch_steps _ _ _ h1) (tx_insn_steps _ _ _ _)

theorem tx_src_mod_default_steps (tx tx' : shader_translator) (m : Nat) (src r : ureg_src)
    (h : tx_src_mod_default tx m src = .ok (r, tx')) : steps false false tx tx' := by
  unfold tx_src_mod_default at h
  simp only [bind_eq_ok] at h
  obtain ⟨_, _, h⟩ := h
  cases h; exact steps_refl tx

theorem tx_src_param_mod_steps (tx tx' : shader_translator) (m : Nat) (src r : ureg_src)
    (h : tx_src_param_mod tx m src = .ok (r, tx')) : steps true false tx tx' := by
  unfold tx_src_param_mod at h
  by_cases c1 : m = NINED3DSPSM_ABS
  · rw [if_pos c1] at h; cases h; exact steps_mono (steps_refl tx)
  rw [if_neg c1] at h
  by_cases c2 : m = NINED3DSPSM_ABSNEG
  · rw [if_pos c2] at h; cases h; exact steps_mono (steps_refl tx)
  rw [if_neg c2] at h
  by_cases c3 : m = NINED3DSPSM_NEG
  · rw [if_pos c3] at h; cases h; exact steps_mono (steps_refl tx)
  rw [if_neg c3] at h
  by_cases c4 : m = NINED3DSPSM_BIAS
  · rw [if_pos c4] at h; exact tx_src_mod_sub_steps _ _ _ _ _ _ h
  rw [if_neg c4] at h
  by_cases c5 : m = NINED3DSPSM_BIASNEG
  · rw [if_pos c5] at h; exact tx_src_mod_sub_steps _ _ _ _ _ _ h
  rw [if_neg c5] at h
  by_cases c6 : m = NINED3DSPSM_NOT
  · rw [if_pos c6] at h
    by_cases c : tx.native_integers = true
    · rw [if_pos c] at h; exact tx_src_mod_not_steps _ _ _ _ h
    · rw [if_neg c] at h; exact tx_src_mod_sub_steps _ _ _ _ _ _ h
  rw [if_neg c6] at h
  by_cases c7 : m = NINED3DSPSM_COMP
  · rw [if_pos c7] at h; exact tx_src_mod_sub_steps _ _ _ _ _ _ h
  rw [if_neg c7] at h
  by_cases c8 : m = NINED3DSPSM_DZ ∨ m = NINED3DSPSM_DW
  · rw [if_pos c8] at h; cases h; exact steps_mono (steps_refl tx)
  rw [if_neg c8] at h
  by_cases c9 : m = NINED3DSPSM_SIGN
  · rw [if_pos c9] at h; exact tx_src_mod_mad_steps _ _ _ _ _ _ h
  rw [if_neg c9] at h
  by_cases c10 : m = NINED3DSPSM_SIGNNEG
  · rw [if_pos c10] at h; exact tx_src_mod_mad_steps _ _ _ _ _ _ h
  rw [if_neg c10] at h
  by_cases c11 : m = NINED3DSPSM_X2
  · rw [if_pos c11] at h; exact tx_src_mod_x2_steps _ _ _ _ _ h
  rw [if_neg c11] at h
  by_cases c12 : m = NINED3DSPSM_X2NEG
  · rw [if_pos c12] at h; exact tx_src_mod_x2_steps _ _ _ _ _ h
  rw [if_neg c12] at h
  exact steps_mono (tx_src_mod_default_steps _ _ _ _ _ h)

theorem tx_dst_param_TEMP_steps (tx tx' : shader_translator) (param : sm1_dst_param)
    (r : ureg_dst) (h : tx_dst_param_TEMP tx param = .ok (r, tx')) : steps false false tx tx' := by
  unfold tx_dst_param_TEMP at h
  simp only [bind_eq_ok] at h
  obtain ⟨_, _, tx1, h1, r1, _, h⟩ := h
  cases h
  exact tx_temp_alloc_steps _ _ _ h1

theorem tx_dst_param_ADDR_steps (tx tx' : shader_translator) (param : sm1_dst_param)
    (r : ureg_dst) (h : tx_dst_param_ADDR tx param = .ok (r, tx')) : steps false false tx tx' := by
  unfold tx_dst_param_ADDR at h
  simp only [bind_eq_ok] at h
  obtain ⟨_, _, tx1, h1, h⟩ := h
  cases h
  exact tx_addr_alloc_steps _ _ _ h1

theorem tx_dst_param_PREDICATE_steps (tx tx' : shader_translator) (param : sm1_dst_param)
    (r : ureg_dst) (h : tx_dst_param_PREDICATE tx param = .ok (r, tx')) : steps false false tx tx' := by
  unfold tx_dst_param_PREDICATE at h
  simp only [bind_eq_ok] at h
  obtain ⟨_, _, tx1, h1, h⟩ := h
  cases h
  exact tx_pred_alloc_steps _ _ _ h1

theorem tx_dst_param_COLOROUT_steps (tx tx' : shader_translator) (param : sm1_dst_param)
    (r : ureg_dst) (h : tx_dst_param_COLOROUT tx param = .ok (r, tx')) : steps false false tx tx' := by
  unfold tx_dst_param_COLOROUT at h
  simp only [bind_eq_ok] at h
  obtain ⟨_, _, _, _, c, _, h⟩ := h
  split at h
  · simp only [bind_eq_ok, pure_eq_ok] at h
    obtain ⟨oCol, _, h⟩ := h
    cases h
    exact steps_log tx _ _ (.DECL_output_masked .COLOR param.idx.toNat TGSI_WRITEMASK_XYZW)
      (by simp [tx_emit_get, ureg_DECL_output, ureg_DECL_output_masked, ureg_program.log]) rfl
  · cases h; exact steps_refl tx

theorem tx_dst_param_DEPTHOUT_steps (tx tx' : shader_translator) (param : sm1_dst_param)
    (r : ureg_dst) (h : tx_dst_param_DEPTHOUT tx param = .ok (r, tx')) : steps false false tx tx' := by
  unfold tx_dst_param_DEPTHOUT at h
  simp only [bind_eq_ok] at h
  obtain ⟨_, _, h⟩ := h
  split at h
  · cases h
    exact steps_log tx _ _ (.DECL_output_masked .POSITION 0 TGSI_WRITEMASK_Z)
      (by simp [tx_emit_get, ureg_DECL_output_masked, ureg_program.log]) rfl
  · cases h; exact steps_refl tx

theorem tx_dst_param_default_steps (tx tx' : shader_translator)
    (dst r : ureg_dst) (h : tx_dst_param_default tx dst = .ok (r, tx')) : steps false false tx tx' := by
  unfold tx_dst_param_default at h
  simp only [bind_eq_ok] at h
  obtain ⟨_, _, h⟩ := h
  cases h; exact steps_refl tx

theorem tx_dst_param_file_steps (tx tx' : shader_translator) (param : sm1_dst_param)
    (r : ureg_dst) (h : tx_dst_param_file tx param = .ok (r, tx')) : steps false false tx tx' := by
  unfold tx_dst_param_file at h
  by_cases c1 : param.file = D3DSPR_TEMP
  · rw [if_pos c1] at h; exact tx_dst_param_TEMP_steps _ _ _ _ h
  rw [if_neg c1] at h
  by_cases c2 : param.file = D3DSPR_ADDR
  · rw [if_pos c2] at h; exact tx_dst_param_ADDR_steps _ _ _ _ h
  rw [if_neg c2] at h
  by_cases c3 : param.file = D3DSPR_RASTOUT ∨ param.file = D3DSPR_ATTROUT
  · rw [if_pos c3] at h; cases h; exact steps_refl tx
  rw [if_neg c3] at h
  by_cases c4 : param.file = D3DSPR_OUTPUT
  · rw [if_pos c4] at h; cases h; exact steps_refl tx
  rw [if_neg c4] at h
  by_cases c5 : param.file = D3DSPR_COLOROUT
  · rw [if_pos c5] at h; exact tx_dst_param_COLOROUT_steps _ _ _ _ h
  rw [if_neg c5] at h
  by_cases c6 : param.file = D3DSPR_DEPTHOUT
  · rw [if_pos c6] at h; exact tx_dst_param_DEPTHOUT_steps _ _ _ _ h
  rw [if_neg c6] at h
  by_cases c7 : param.file = D3DSPR_PREDICATE
  · rw [if_pos c7] at h; exact tx_dst_param_PREDICATE_steps _ _ _ _ h
  rw [if_neg c7] at h
  by_cases c8 : param.file = D3DSPR_TEMPFLOAT16
  · rw [if_pos c8] at h; cases h; exact steps_refl tx
  rw [if_neg c8] at h
  exact tx_dst_param_default_steps _ _ _ _ h

theorem tx_src_param_CONST_steps (tx tx' : shader_translator) (param : sm1_src_param)
    (r : ureg_src) (h : tx_src_param_CONST tx param = .ok (r, tx')) :
    steps false param.rel.isSome tx tx' := by
  unfold tx_src_param_CONST at h
  split at h
  · rename_i hrel
    cases h
    rw [hrel]
    exact steps_indirect tx
  · rename_i hrel
    rw [except_bind_eq_ok] at h
    obtain ⟨o, _, h⟩ := h
    have hb : param.rel.isSome = false := by simpa using hrel
    rw [hb]
    split at h <;> (cases h; exact steps_refl tx)

theorem tx_src_param_file_steps (tx tx' : shader_translator) (param : sm1_src_param)
    (r : ureg_src) (h : tx_src_param_file tx param = .ok (r, tx')) :
    steps false (decide (param.file = D3DSPR_CONST) && param.rel.isSome) tx tx' := by
  unfold tx_src_param_file at h
  by_cases c6 : param.file = D3DSPR_CONST
  · rw [if_neg (by rw [c6]; decide), if_neg (by rw [c6]; decide), if_neg (by rw [c6]; decide),
      if_neg (by rw [c6]; decide), if_neg (by rw [c6]; decide), if_pos c6] at h
    exact steps_congr (tx_src_param_CONST_steps _ _ _ _ h) rfl (by simp [c6])
  have hb : (decide (param.file = D3DSPR_CONST) && param.rel.isSome) = false := by simp [c6]
  rw [hb]
  by_cases c1 : param.file = D3DSPR_TEMP
  · rw [if_pos c1] at h; exact tx_src_param_TEMP_steps _ _ _ _ h
  rw [if_neg c1] at h
  by_cases c2 : param.file = D3DSPR_ADDR
  · rw [if_pos c2] at h; exact tx_src_param_ADDR_steps _ _ _ _ h
  rw [if_neg c2] at h
  by_cases c3 : param.file = D3DSPR_INPUT
  · rw [if_pos c3] at h; cases h; exact steps_refl tx
  rw [if_neg c3] at h
  by_cases c4 : param.file = D3DSPR_PREDICATE
  · rw [if_pos c4] at h; exact tx_src_param_PREDICATE_steps _ _ _ _ h
  rw [if_neg c4] at h
  by_cases c5 : param.file = D3DSPR_SAMPLER
  · rw [if_pos c5] at h; exact tx_src_param_SAMPLER_steps _ _ _ _ h
  rw [if_neg c5] at h
  rw [if_neg c6] at h
  by_cases c7 : param.file = D3DSPR_CONST2 ∨ param.file = D3DSPR_CONST3
      ∨ param.file = D3DSPR_CONST4
  · rw [if_pos c7] at h; exact tx_src_param_CONST234_steps _ _ _ h
  rw [if_neg c7] at h
  by_cases c8 : param.file = D3DSPR_CONSTINT
  · rw [if_pos c8] at h; exact tx_src_param_CONSTINT_steps _ _ _ _ h
  rw [if_neg c8] at h
  by_cases c9 : param.file = D3DSPR_CONSTBOOL
  · rw [if_pos c9] at h; exact tx_src_param_CONSTBOOL_steps _ _ _ _ h
  rw [if_neg c9] at h
  by_cases c10 : param.file = D3DSPR_LOOP
  · rw [if_pos c10] at h; exact tx_src_param_LOOP_steps _ _ _ h
  rw [if_neg c10] at h
  by_cases c11 : param.file = D3DSPR_MISCTYPE
  · rw [if_pos c11] at h; exact tx_src_param_MISCTYPE_steps _ _ _ _ _ h
  rw [if_neg c11] at h
  by_cases c12 : param.file = D3DSPR_TEMPFLOAT16
  · rw [if_pos c12] at h; cases h; exact steps_refl tx
  rw [if_neg c12] at h
  exact tx_src_param_default_steps _ _ _ _ h

/-- A modifier that is not lowered to an instruction leaves the translator as it is. -/
theorem tx_src_param_mod_quiet (tx tx' : shader_translator) (m : Nat) (src r : ureg_src)
    (hm : sm1_mod_emits m = false) (h : tx_src_param_mod tx m src = .ok (r, tx')) :
    tx' = tx := by
  simp only [sm1_mod_emits, Bool.or_eq_false_iff, beq_eq_false_iff_ne, ne_eq] at hm
  obtain ⟨⟨⟨⟨⟨⟨⟨c4, c5⟩, c9⟩, c10⟩, c7⟩, c11⟩, c12⟩, c6⟩ := hm
  unfold tx_src_param_mod at h
  by_cases c1 : m = NINED3DSPSM_ABS
  · rw [if_pos c1] at h; cases h; rfl
  rw [if_neg c1] at h
  by_cases c2 : m = NINED3DSPSM_ABSNEG
  · rw [if_pos c2] at h; cases h; rfl
  rw [if_neg c2] at h
  by_cases c3 : m = NINED3DSPSM_NEG
  · rw [if_pos c3] at h; cases h; rfl
  rw [if_neg c3, if_neg c4, if_neg c5, if_neg c6, if_neg c7] at h
  by_cases c8 : m = NINED3DSPSM_DZ ∨ m = NINED3DSPSM_DW
  · rw [if_pos c8] at h; cases h; rfl
  rw [if_neg c8, if_neg c9, if_neg c10, if_neg c11, if_neg c12] at h
  unfold tx_src_mod_default at h
  simp only [bind_eq_ok] at h
  obtain ⟨_, _, h⟩ := h
  cases h; rfl

theorem sm1_src_param.emits_eq (idx : Int) (rel : Option sm1_src_param)
    (file swizzle mod type : Nat) (imm : List Nat) :
    (sm1_src_param.mk idx rel file swizzle mod type imm).emits =
      ((match rel with
        | some r => r.emits
        | none => false) || sm1_mod_emits mod) := by
  rw [sm1_src_param.emits.eq_def]

theorem sm1_src_param.rel_const_eq (idx : Int) (rel : Option sm1_src_param)
    (file swizzle mod type : Nat) (imm : List Nat) :
    (sm1_src_param.mk idx rel file swizzle mod type imm).rel_const =
      ((decide (file = D3DSPR_CONST) && rel.isSome) ||
       (match rel with
        | some r => r.rel_const
        | none => false)) := by
  rw [sm1_src_param.rel_const.eq_def]

/-- Lowering a source parameter: the flag of indirect constant access is raised exactly
for a relatively addressed CONST register, and instructions are emitted only for a
modifier that is lowered to one. -/
theorem tx_src_param_steps (param : sm1_src_param) :
    ∀ (tx tx' : shader_translator) (r : ureg_src),
      tx_src_param tx param = .ok (r, tx') → steps param.emits param.rel_const tx tx' := by
  refine @sm1_src_param.rec
    (fun p => ∀ (tx tx' : shader_translator) (r : ureg_src),
      tx_src_param tx p = .ok (r, tx') → steps p.emits p.rel_const tx tx')
    (fun o => ∀ p, o = some p → ∀ (tx tx' : shader_translator) (r : ureg_src),
      tx_src_param tx p = .ok (r, tx') → steps p.emits p.rel_const tx tx') ?_ ?_ ?_ param
  · intro idx rel file swizzle mod type imm ih tx tx' r h
    unfold tx_src_param at h
    rw [bind_eq_ok] at h
    obtain ⟨⟨s1, tx1⟩, h1, h⟩ := h
    have l1 := tx_src_param_file_steps _ _ _ _ h1
    rw [sm1_src_param.emits_eq, sm1_src_param.rel_const_eq]
    have hmod : ∀ (ta tb : shader_translator) (x y : ureg_src),
        tx_src_param_mod ta mod x = .ok (y, tb) → steps (sm1_mod_emits mod) false ta tb := by
      intro ta tb x y hm
      cases he : sm1_mod_emits mod with
      | true => exact tx_src_param_mod_steps _ _ _ _ _ hm
      | false =>
        rw [tx_src_param_mod_quiet _ _ _ _ _ he hm]
        exact steps_refl ta
    cases rel with
    | none =>
      simp only [bind_eq_ok, pure_eq_ok] at h
      obtain ⟨_, rfl, h3⟩ := h
      exact steps_congr (steps_trans l1 (hmod _ _ _ _ h3)) (by simp) (by simp)
    | some p =>
      simp only [bind_eq_ok, pure_eq_ok] at h
      obtain ⟨⟨a, txa⟩, ha, _, rfl, h3⟩ := h
      exact steps_congr (steps_trans l1 (steps_trans (ih p rfl _ _ _ ha) (hmod _ _ _ _ h3)))
        (by simp) (by simp)
  · intro q hq; cases hq
  · intro p ih q hq tx tx' r h; cases hq; exact ih _ _ _ h

/-- Lowering a destination parameter: as for the sub-parameter of its relative
addressing, if it has one. -/
theorem tx_dst_param_steps (tx tx' : shader_translator) (param : sm1_dst_param)
    (r : ureg_dst) (h : tx_dst_param tx param = .ok (r, tx')) :
    steps (match param.rel with
           | some p => p.emits
           | none => false)
          (match param.rel with
           | some p => p.rel_const
           | none => false) tx tx' := by
  unfold tx_dst_param at h
  rw [bind_eq_ok] at h
  obtain ⟨⟨d1, tx1⟩, h1, h⟩ := h
  have l1 := tx_dst_param_file_steps _ _ _ _ h1
  cases hrel : param.rel with
  | none =>
    rw [hrel] at h
    simp only [bind_eq_ok, pure_eq_ok] at h
    obtain ⟨_, rfl, _, _, h⟩ := h
    cases h
    exact l1
  | some p =>
    rw [hrel] at h
    simp only [bind_eq_ok, pure_eq_ok] at h
    obtain ⟨⟨a, txa⟩, ha, _, rfl, _, _, h⟩ := h
    cases h
    exact steps_congr (steps_trans l1 (tx_src_param_steps p _ _ _ ha)) (by simp) (by simp)


theorem handler_frame_refl (tx : shader_translator) : handler_frame tx tx := by
  unfold handler_frame; rfl

theorem handler_frame_trans {a b c : shader_translator} (h1 : handler_frame a b)
    (h2 : handler_frame b c) : handler_frame a c := by
  unfold handler_frame at *
  rw [h2, h1]

theorem eff_refl (tx : shader_translator) : eff tx tx :=
  ⟨handler_frame_refl tx, fun h => Or.inl h⟩

theorem eff_insn {tx tx' : shader_translator} (h : eff tx tx') : tx'.insn = tx.insn := by
  rw [h.1]

theorem eff_trans {a b c : shader_translator} (h1 : eff a b) (h2 : eff b c) : eff a c := by
  refine ⟨handler_frame_trans h1.1 h2.1, fun hc => ?_⟩
  rcases h2.2 hc with hb | hb
  · exact h1.2 hb
  · rw [eff_insn h1] at hb
    exact Or.inr hb

theorem eff_of_eq {tx tx' : shader_translator} (h : handler_frame tx tx')
    (hf : tx'.indirect_const_access = tx.indirect_const_access) : eff tx tx' :=
  ⟨h, fun hc => Or.inl (by rw [← hf]; exact hc)⟩

theorem steps_frame {i b : Bool} {tx tx' : shader_translator} (h : steps i b tx tx') :
    handler_frame tx tx' := by
  unfold handler_frame
  rw [h.1]

theorem steps_flag {i b : Bool} {tx tx' : shader_translator} (h : steps i b tx tx') :
    tx'.indirect_const_access = (tx.indirect_const_access || b) := by
  rw [h.1]

theorem steps_eff {i : Bool} {tx tx' : shader_translator} (h : steps i false tx tx') :
    eff tx tx' :=
  eff_of_eq (steps_frame h) (by rw [steps_flag h]; simp)

theorem steps_eff_of {i b : Bool} {tx tx' : shader_translator} (h : steps i b tx tx')
    (hb : b = true → tx.insn.rel_const = true) : eff tx tx' := by
  refine ⟨steps_frame h, fun hc => ?_⟩
  rw [steps_flag h] at hc
  cases b with
  | false => exact Or.inl (by simpa using hc)
  | true => exact Or.inr (hb rfl)

theorem src0_eff {tx tx' : shader_translator} {r : ureg_src}
    (h : tx_src_param tx tx.insn.src0 = .ok (r, tx')) : eff tx tx' :=
  steps_eff_of (tx_src_param_steps _ _ _ _ h) (fun hb => by
    simp [sm1_instruction.rel_const, hb])

theorem src1_eff {tx tx' : shader_translator} {r : ureg_src}
    (h : tx_src_param tx tx.insn.src1 = .ok (r, tx')) : eff tx tx' :=
  steps_eff_of (tx_src_param_steps _ _ _ _ h) (fun hb => by
    simp [sm1_instruction.rel_const, hb])

theorem src2_eff {tx tx' : shader_translator} {r : ureg_src}
    (h : tx_src_param tx tx.insn.src2 = .ok (r, tx')) : eff tx tx' :=
  steps_eff_of (tx_src_param_steps _ _ _ _ h) (fun hb => by
    simp [sm1_instruction.rel_const, hb])

theorem src3_eff {tx tx' : shader_translator} {r : ureg_src}
    (h : tx_src_param tx tx.insn.src3 = .ok (r, tx')) : eff tx tx' :=
  steps_eff_of (tx_src_param_steps _ _ _ _ h) (fun hb => by
    simp [sm1_instruction.rel_const, hb])

theorem dst0_eff {tx tx' : shader_translator} {r : ureg_dst}
    (h : tx_dst_param tx tx.insn.dst0 = .ok (r, tx')) : eff tx tx' :=
  steps_eff_of (tx_dst_param_steps _ _ _ _ h) (fun hb => by
    simp [sm1_instruction.rel_const, hb])

theorem tx_insn_eff (tx : shader_translator) (op : tgsi_opcode) (d : List ureg_dst)
    (s : List ureg_src) : eff tx (tx_insn tx op d s) :=
  steps_eff (tx_insn_steps tx op d s)

theorem tx_emit_eff (tx : shader_translator) (f : ureg_program → ureg_program) :
    eff tx (tx_emit tx f) :=
  eff_of_eq rfl rfl

theorem tx_emit_get_eff {α : Type} (tx : shader_translator)
    (f : ureg_program → α × ureg_program) : eff tx (tx_emit_get tx f).2 :=
  eff_of_eq rfl rfl

theorem tx_imm1f_eff (tx : shader_translator) (bits : Nat) : eff tx (tx_imm1f tx bits).2 :=
  eff_of_eq rfl rfl

theorem tx_scratch_eff {tx tx' : shader_translator} {r : ureg_dst}
    (h : tx_scratch tx = .ok (r, tx')) : eff tx tx' :=
  steps_eff (tx_scratch_steps _ _ _ h)

theorem tx_scratch_scalar_eff {tx tx' : shader_translator} {r : ureg_dst}
    (h : tx_scratch_scalar tx = .ok (r, tx')) : eff tx tx' := by
  unfold tx_scratch_scalar at h
  simp only [bind_eq_ok, pure_eq_ok] at h
  obtain ⟨⟨t, tx1⟩, h1, h⟩ := h
  cases h
  exact tx_scratch_eff h1

theorem tx_get_loopctr_eff {tx tx' : shader_translator} {r : ureg_dst}
    (h : tx_get_loopctr tx = .ok (r, tx')) : eff tx tx' :=
  steps_eff (tx_get_loopctr_steps _ _ _ h)

theorem tx_cond_eff {tx tx' : shader_translator} {s : Nat}
    (h : tx_cond tx = .ok (s, tx')) : eff tx tx' := by
  unfold tx_cond at h
  simp only [bind_eq_ok, pure_eq_ok] at h
  obtain ⟨_, _, h⟩ := h
  rw [Prod.mk.injEq] at h
  obtain ⟨_, h⟩ := h
  subst h
  exact eff_of_eq rfl rfl

theorem tx_elsecond_eff {tx tx' : shader_translator} {s : Nat}
    (h : tx_elsecond tx = .ok (s, tx')) : eff tx tx' := by
  unfold tx_elsecond at h
  simp only [bind_eq_ok, pure_eq_ok] at h
  obtain ⟨_, _, h⟩ := h
  rw [Prod.mk.injEq] at h
  obtain ⟨_, h⟩ := h
  subst h
  exact eff_refl tx

theorem tx_endcond_eff {tx tx' : shader_translator}
    (h : tx_endcond tx = .ok tx') : eff tx tx' := by
  unfold tx_endcond at h
  simp only [bind_eq_ok, pure_eq_ok] at h
  obtain ⟨_, _, l, _, h⟩ := h
  cases h
  exact eff_of_eq rfl rfl

theorem tx_bgnloop_eff {tx tx' : shader_translator} {s : Nat}
    (h : tx_bgnloop tx = .ok (s, tx')) : eff tx tx' := by
  unfold tx_bgnloop at h
  simp only [bind_eq_ok, pure_eq_ok] at h
  obtain ⟨_, _, h⟩ := h
  rw [Prod.mk.injEq] at h
  obtain ⟨_, h⟩ := h
  subst h
  split
  · exact eff_of_eq rfl rfl
  · exact eff_of_eq rfl rfl

theorem tx_endloop_eff {tx tx' : shader_translator} {s : Nat}
    (h : tx_endloop tx = .ok (s, tx')) : eff tx tx' := by
  unfold tx_endloop at h
  simp only [bind_eq_ok, pure_eq_ok] at h
  obtain ⟨_, _, l, _, h⟩ := h
  rw [Prod.mk.injEq] at h
  obtain ⟨_, h⟩ := h
  subst h
  exact eff_of_eq rfl rfl

theorem tx_label_insn_cond_eff {tx tx' : shader_translator} {op : tgsi_opcode}
    {src : List ureg_src} {slot : Nat}
    (h : tx_label_insn_cond tx op src slot = .ok tx') : eff tx tx' := by
  unfold tx_label_insn_cond at h
  simp only [bind_eq_ok, pure_eq_ok] at h
  obtain ⟨l, _, h⟩ := h
  cases h
  exact eff_of_eq rfl rfl

theorem tx_label_insn_loop_eff {tx tx' : shader_translator} {op : tgsi_opcode}
    {src : List ureg_src} {slot : Nat}
    (h : tx_label_insn_loop tx op src slot = .ok tx') : eff tx tx' := by
  unfold tx_label_insn_loop at h
  simp only [bind_eq_ok, pure_eq_ok] at h
  obtain ⟨l, _, h⟩ := h
  cases h
  exact eff_of_eq rfl rfl

theorem tx_label_insn_inst_eff {tx tx' : shader_translator} {op : tgsi_opcode}
    {src : List ureg_src} {idx : Int}
    (h : tx_label_insn_inst tx op src idx = .ok tx') : eff tx tx' := by
  unfold tx_label_insn_inst at h
  simp only [bind_eq_ok, pure_eq_ok] at h
  obtain ⟨l, _, h⟩ := h
  cases h
  exact eff_of_eq rfl rfl

theorem tx_set_lconstf_eff {tx tx' : shader_translator} {index : Int} {f : List Nat}
    (h : tx_set_lconstf tx index f = .ok tx') : eff tx tx' := by
  unfold tx_set_lconstf at h
  simp only [bind_eq_ok, pure_eq_ok] at h
  obtain ⟨_, _, n, _, l, _, h⟩ := h
  cases h
  split
  · split
    · exact eff_of_eq rfl rfl
    · exact eff_of_eq rfl rfl
  · exact eff_of_eq rfl rfl

theorem tx_set_lconsti_eff {tx tx' : shader_translator} {index : Int} {f : List Nat}
    (h : tx_set_lconsti tx index f = .ok tx') : eff tx tx' := by
  unfold tx_set_lconsti at h
  simp only [bind_eq_ok, pure_eq_ok] at h
  obtain ⟨_, _, o, _, l, _, h⟩ := h
  cases h
  exact eff_of_eq rfl rfl

theorem tx_set_lconstb_eff {tx tx' : shader_translator} {index : Int} {b : Nat}
    (h : tx_set_lconstb tx index b = .ok tx') : eff tx tx' := by
  unfold tx_set_lconstb at h
  simp only [bind_eq_ok, pure_eq_ok] at h
  obtain ⟨_, _, o, _, l, _, h⟩ := h
  cases h
  exact eff_of_eq rfl rfl


theorem Mkxn_eff {tx tx' : shader_translator} {hr : HRESULT} {k n : Nat}
    (h : NineTranslateInstruction_Mkxn tx k n = .ok (hr, tx')) : eff tx tx' := by
  unfold NineTranslateInstruction_Mkxn at h
  simp only [bind_eq_ok, pure_eq_ok] at h
  obtain ⟨⟨d, t1⟩, h1, ⟨s0, t2⟩, h2, ⟨s1, t3⟩, h3, h⟩ := h
  rw [Prod.mk.injEq] at h
  obtain ⟨_, h⟩ := h
  subst h
  exact eff_trans (dst0_eff h1) (eff_trans (src0_eff h2) (eff_trans (src1_eff h3)
    (tx_emit_eff _ _)))

theorem CALL_eff {tx tx' : shader_translator} {hr : HRESULT}
    (h : NineTranslateInstruction_CALL tx = .ok (hr, tx')) : eff tx tx' := by
  unfold NineTranslateInstruction_CALL at h
  simp only [bind_eq_ok, pure_eq_ok] at h
  obtain ⟨_, _, t1, h1, h⟩ := h
  rw [Prod.mk.injEq] at h
  obtain ⟨_, h⟩ := h
  subst h
  exact tx_label_insn_inst_eff h1

theorem CALLNZ_eff {tx tx' : shader_translator} {hr : HRESULT}
    (h : NineTranslateInstruction_CALLNZ tx = .ok (hr, tx')) : eff tx tx' := by
  unfold NineTranslateInstruction_CALLNZ at h
  rw [bind_eq_ok] at h
  obtain ⟨⟨tmp, t1⟩, h1, h⟩ := h
  rw [bind_eq_ok] at h
  obtain ⟨⟨src, t2⟩, h2, h⟩ := h
  have e2 : eff t2 (if t2.insn.flags = 0 then
      if t2.native_integers then tx_insn t2 .NOT [tmp] [src]
      else tx_insn (tx_imm1f t2 F32_1_0).2 .SUB [tmp] [(tx_imm1f t2 F32_1_0).1, src]
    else t2) := by
    split
    · split
      · exact tx_insn_eff _ _ _ _
      · exact eff_trans (tx_imm1f_eff _ _) (tx_insn_eff _ _ _ _)
    · exact eff_refl _
  simp only [] at h
  generalize (if t2.insn.flags = 0 then
      if t2.native_integers then tx_insn t2 .NOT [tmp] [src]
      else tx_insn (tx_imm1f t2 F32_1_0).2 .SUB [tmp] [(tx_imm1f t2 F32_1_0).1, src]
    else t2) = tX at h e2
  have e := eff_trans (tx_scratch_scalar_eff h1) (eff_trans (src1_eff h2) e2)
  split at h <;>
  · simp only [bind_eq_ok, pure_eq_ok] at h
    obtain ⟨c, _, ⟨slot, t3⟩, h3, t4, h4, t5, h5, t6, h6, h⟩ := h
    rw [Prod.mk.injEq] at h
    obtain ⟨_, h⟩ := h
    subst h
    exact eff_trans e
      (eff_trans (tx_cond_eff h3) (eff_trans (tx_label_insn_cond_eff h4)
        (eff_trans (tx_label_insn_inst_eff h5) (eff_trans (tx_endcond_eff h6)
          (tx_insn_eff _ _ _ _)))))

theorem RET_eff {tx tx' : shader_translator} {hr : HRESULT}
    (h : NineTranslateInstruction_RET tx = .ok (hr, tx')) : eff tx tx' := by
  unfold NineTranslateInstruction_RET at h
  simp only [pure_eq_ok] at h
  rw [Prod.mk.injEq] at h
  obtain ⟨_, h⟩ := h
  subst h
  exact tx_insn_eff _ _ _ _

theorem ENDLOOP_eff {tx tx' : shader_translator} {hr : HRESULT}
    (h : NineTranslateInstruction_ENDLOOP tx = .ok (hr, tx')) : eff tx tx' := by
  unfold NineTranslateInstruction_ENDLOOP at h
  simp only [bind_eq_ok, pure_eq_ok] at h
  obtain ⟨⟨l, t1⟩, h1, t2, h2, h⟩ := h
  rw [Prod.mk.injEq] at h
  obtain ⟨_, h⟩ := h
  subst h
  exact eff_trans (tx_endloop_eff h1) (tx_label_insn_loop_eff h2)

theorem ENDREP_eff {tx tx' : shader_translator} {hr : HRESULT}
    (h : NineTranslateInstruction_ENDREP tx = .ok (hr, tx')) : eff tx tx' := by
  unfold NineTranslateInstruction_ENDREP at h
  simp only [bind_eq_ok, pure_eq_ok] at h
  obtain ⟨⟨l, t1⟩, h1, t2, h2, h⟩ := h
  rw [Prod.mk.injEq] at h
  obtain ⟨_, h⟩ := h
  subst h
  exact eff_trans (tx_endloop_eff h1) (tx_label_insn_loop_eff h2)

theorem LABEL_eff {tx tx' : shader_translator} {hr : HRESULT}
    (h : NineTranslateInstruction_LABEL tx = .ok (hr, tx')) : eff tx tx' := by
  unfold NineTranslateInstruction_LABEL at h
  simp only [bind_eq_ok, pure_eq_ok] at h
  obtain ⟨_, _, l, _, h⟩ := h
  rw [Prod.mk.injEq] at h
  obtain ⟨_, h⟩ := h
  subst h
  split
  · exact eff_of_eq rfl rfl
  · exact eff_of_eq rfl rfl

theorem SINCOS_eff {tx tx' : shader_translator} {hr : HRESULT}
    (h : NineTranslateInstruction_SINCOS tx = .ok (hr, tx')) : eff tx tx' := by
  unfold NineTranslateInstruction_SINCOS at h
  simp only [bind_eq_ok, pure_eq_ok] at h
  obtain ⟨⟨d, t1⟩, h1, ⟨s, t2⟩, h2, h⟩ := h
  have e := eff_trans (dst0_eff h1) (src0_eff h2)
  split at h
  · rw [pure_eq_ok, Prod.mk.injEq] at h
    obtain ⟨_, h⟩ := h
    subst h
    exact e
  · simp only [bind_eq_ok, pure_eq_ok] at h
    obtain ⟨_, _, h⟩ := h
    rw [Prod.mk.injEq] at h
    obtain ⟨_, h⟩ := h
    subst h
    exact eff_trans e (tx_insn_eff _ _ _ _)

theorem ENDIF_eff {tx tx' : shader_translator} {hr : HRESULT}
    (h : NineTranslateInstruction_ENDIF tx = .ok (hr, tx')) : eff tx tx' := by
  unfold NineTranslateInstruction_ENDIF at h
  simp only [bind_eq_ok, pure_eq_ok] at h
  obtain ⟨t1, h1, h⟩ := h
  rw [Prod.mk.injEq] at h
  obtain ⟨_, h⟩ := h
  subst h
  exact eff_trans (tx_endcond_eff h1) (tx_insn_eff _ _ _ _)

theorem IF_eff {tx tx' : shader_translator} {hr : HRESULT}
    (h : NineTranslateInstruction_IF tx = .ok (hr, tx')) : eff tx tx' := by
  unfold NineTranslateInstruction_IF at h
  simp only [bind_eq_ok, pure_eq_ok] at h
  obtain ⟨⟨s, t1⟩, h1, ⟨slot, t2⟩, h2, t3, h3, h⟩ := h
  rw [Prod.mk.injEq] at h
  obtain ⟨_, h⟩ := h
  subst h
  exact eff_trans (src0_eff h1) (eff_trans (tx_cond_eff h2) (tx_label_insn_cond_eff h3))

theorem IFC_eff {tx tx' : shader_translator} {hr : HRESULT}
    (h : NineTranslateInstruction_IFC tx = .ok (hr, tx')) : eff tx tx' := by
  unfold NineTranslateInstruction_IFC at h
  simp only [bind_eq_ok, pure_eq_ok] at h
  obtain ⟨op, _, ⟨t, t1⟩, h1, ⟨s0, t2⟩, h2, ⟨s1, t3⟩, h3, ⟨slot, t4⟩, h4, t5, h5, h⟩ := h
  rw [Prod.mk.injEq] at h
  obtain ⟨_, h⟩ := h
  subst h
  exact eff_trans (tx_scratch_eff h1) (eff_trans (src0_eff h2) (eff_trans (src1_eff h3)
    (eff_trans (tx_insn_eff _ _ _ _) (eff_trans (tx_cond_eff h4)
      (tx_label_insn_cond_eff h5)))))

theorem ELSE_eff {tx tx' : shader_translator} {hr : HRESULT}
    (h : NineTranslateInstruction_ELSE tx = .ok (hr, tx')) : eff tx tx' := by
  unfold NineTranslateInstruction_ELSE at h
  simp only [bind_eq_ok, pure_eq_ok] at h
  obtain ⟨⟨slot, t1⟩, h1, t2, h2, h⟩ := h
  rw [Prod.mk.injEq] at h
  obtain ⟨_, h⟩ := h
  subst h
  exact eff_trans (tx_elsecond_eff h1) (tx_label_insn_cond_eff h2)

theorem BREAKC_eff {tx tx' : shader_translator} {hr : HRESULT}
    (h : NineTranslateInstruction_BREAKC tx = .ok (hr, tx')) : eff tx tx' := by
  unfold NineTranslateInstruction_BREAKC at h
  simp only [bind_eq_ok, pure_eq_ok] at h
  obtain ⟨op, _, ⟨t, t1⟩, h1, ⟨s0, t2⟩, h2, ⟨s1, t3⟩, h3, h⟩ := h
  rw [Prod.mk.injEq] at h
  obtain ⟨_, h⟩ := h
  subst h
  exact eff_trans (tx_scratch_eff h1) (eff_trans (src0_eff h2) (eff_trans (src1_eff h3)
    (eff_trans (tx_insn_eff _ _ _ _) (tx_insn_eff _ _ _ _))))

theorem DEF_eff {tx tx' : shader_translator} {hr : HRESULT}
    (h : NineTranslateInstruction_DEF tx = .ok (hr, tx')) : eff tx tx' := by
  unfold NineTranslateInstruction_DEF at h
  simp only [bind_eq_ok, pure_eq_ok] at h
  obtain ⟨t1, h1, h⟩ := h
  rw [Prod.mk.injEq] at h
  obtain ⟨_, h⟩ := h
  subst h
  exact tx_set_lconstf_eff h1

theorem DEFB_eff {tx tx' : shader_translator} {hr : HRESULT}
    (h : NineTranslateInstruction_DEFB tx = .ok (hr, tx')) : eff tx tx' := by
  unfold NineTranslateInstruction_DEFB at h
  simp only [bind_eq_ok, pure_eq_ok] at h
  obtain ⟨t1, h1, h⟩ := h
  rw [Prod.mk.injEq] at h
  obtain ⟨_, h⟩ := h
  subst h
  exact tx_set_lconstb_eff h1

theorem DEFI_eff {tx tx' : shader_translator} {hr : HRESULT}
    (h : NineTranslateInstruction_DEFI tx = .ok (hr, tx')) : eff tx tx' := by
  unfold NineTranslateInstruction_DEFI at h
  simp only [bind_eq_ok, pure_eq_ok] at h
  obtain ⟨t1, h1, h⟩ := h
  rw [Prod.mk.injEq] at h
  obtain ⟨_, h⟩ := h
  subst h
  exact tx_set_lconsti_eff h1

theorem NRM_eff {tx tx' : shader_translator} {hr : HRESULT}
    (h : NineTranslateInstruction_NRM tx = .ok (hr, tx')) : eff tx tx' := by
  unfold NineTranslateInstruction_NRM at h
  simp only [bind_eq_ok, pure_eq_ok] at h
  obtain ⟨⟨tmp, t1⟩, h1, nrm, _, ⟨s, t2⟩, h2, ⟨d, t3⟩, h3, h⟩ := h
  rw [Prod.mk.injEq] at h
  obtain ⟨_, h⟩ := h
  subst h
  have e3 : eff (tx_insn (tx_insn t2 .DP3 [tmp] [s, s]) .RSQ [tmp] [nrm]) t3 := dst0_eff h3
  exact eff_trans (tx_scratch_scalar_eff h1) (eff_trans (src0_eff h2)
    (eff_trans (tx_insn_eff _ _ _ _) (eff_trans (tx_insn_eff _ _ _ _)
      (eff_trans e3 (tx_insn_eff _ _ _ _)))))

theorem TEXCOORD_eff {tx tx' : shader_translator} {hr : HRESULT}
    (h : NineTranslateInstruction_TEXCOORD tx = .ok (hr, tx')) : eff tx tx' := by
  unfold NineTranslateInstruction_TEXCOORD at h
  split at h <;>
  · rw [pure_eq_ok, Prod.mk.injEq] at h
    obtain ⟨_, h⟩ := h
    subst h
    exact eff_refl _

theorem TEXKILL_eff {tx tx' : shader_translator} {hr : HRESULT}
    (h : NineTranslateInstruction_TEXKILL tx = .ok (hr, tx')) : eff tx tx' := by
  unfold NineTranslateInstruction_TEXKILL at h
  split at h
  · simp only [bind_eq_ok, pure_eq_ok] at h
    obtain ⟨⟨d, t1⟩, h1, h⟩ := h
    rw [Prod.mk.injEq] at h
    obtain ⟨_, h⟩ := h
    subst h
    exact eff_trans (dst0_eff h1) (tx_insn_eff _ _ _ _)
  · rw [pure_eq_ok, Prod.mk.injEq] at h
    obtain ⟨_, h⟩ := h
    subst h
    exact eff_refl _

theorem unimplemented_eff {tx tx' : shader_translator} {hr : HRESULT}
    (h : NineTranslateInstruction_unimplemented tx = .ok (hr, tx')) : eff tx tx' := by
  unfold NineTranslateInstruction_unimplemented at h
  rw [pure_eq_ok, Prod.mk.injEq] at h
  obtain ⟨_, h⟩ := h
  subst h
  exact eff_refl _

theorem PHASE_eff {tx tx' : shader_translator} {hr : HRESULT}
    (h : NineTranslateInstruction_PHASE tx = .ok (hr, tx')) : eff tx tx' := by
  unfold NineTranslateInstruction_PHASE at h
  rw [pure_eq_ok, Prod.mk.injEq] at h
  obtain ⟨_, h⟩ := h
  subst h
  exact eff_refl _

theorem COMMENT_eff {tx tx' : shader_translator} {hr : HRESULT}
    (h : NineTranslateInstruction_COMMENT tx = .ok (hr, tx')) : eff tx tx' := by
  unfold NineTranslateInstruction_COMMENT at h
  rw [pure_eq_ok, Prod.mk.injEq] at h
  obtain ⟨_, h⟩ := h
  subst h
  exact eff_refl _


theorem LOOP_eff {tx tx' : shader_translator} {hr : HRESULT}
    (h : NineTranslateInstruction_LOOP tx = .ok (hr, tx')) : eff tx tx' := by
  unfold NineTranslateInstruction_LOOP at h
  simp only [bind_eq_ok, pure_eq_ok] at h
  obtain ⟨⟨src, t1⟩, h1, ⟨tmp, t2⟩, h2, ⟨label, t3⟩, h3, ⟨ctr, t4⟩, h4, t5, h5, h⟩ := h
  have e5 := eff_trans (src1_eff h1) (eff_trans (tx_scratch_scalar_eff h2)
    (eff_trans (tx_bgnloop_eff h3) (eff_trans (tx_get_loopctr_eff h4)
      (eff_trans (tx_insn_eff _ _ _ _) (tx_label_insn_loop_eff h5)))))
  split at h <;>
  · simp only [bind_eq_ok, pure_eq_ok] at h
    obtain ⟨_, _, _, _, _, _, ⟨slot, t8⟩, h8, t9, h9, t10, h10, h⟩ := h
    rw [Prod.mk.injEq] at h
    obtain ⟨_, h⟩ := h
    subst h
    exact eff_trans e5 (eff_trans (tx_insn_eff _ _ _ _) (eff_trans (tx_insn_eff _ _ _ _)
      (eff_trans (tx_insn_eff _ _ _ _) (eff_trans (tx_cond_eff h8)
        (eff_trans (tx_label_insn_cond_eff h9) (eff_trans (tx_insn_eff _ _ _ _)
          (eff_trans (tx_endcond_eff h10) (tx_insn_eff _ _ _ _))))))))

theorem REP_eff {tx tx' : shader_translator} {hr : HRESULT}
    (h : NineTranslateInstruction_REP tx = .ok (hr, tx')) : eff tx tx' := by
  unfold NineTranslateInstruction_REP at h
  simp only [bind_eq_ok, pure_eq_ok] at h
  obtain ⟨⟨src, t1⟩, h1, ⟨tmp, t2⟩, h2, ⟨label, t3⟩, h3, ⟨ctr, t4⟩, h4, _, _, t5, h5, h⟩ := h
  have e2 : eff t2 (if t2.native_integers = true then tx_emit_get t2 fun u => ureg_imm1u u 0
      else tx_imm1f t2 F32_0_0).2 := by
    split
    · exact tx_emit_get_eff _ _
    · exact tx_imm1f_eff _ _
  have e5 := eff_trans (src0_eff h1) (eff_trans (tx_scratch_scalar_eff h2) (eff_trans e2
    (eff_trans (tx_bgnloop_eff h3) (eff_trans (tx_get_loopctr_eff h4)
      (eff_trans (tx_insn_eff _ _ _ _) (tx_label_insn_loop_eff h5))))))
  split at h
  · simp only [bind_eq_ok, pure_eq_ok] at h
    obtain ⟨_, _, _, _, _, rfl, h⟩ := h
    rw [Prod.mk.injEq] at h
    obtain ⟨_, h⟩ := h
    subst h
    exact eff_trans e5 (eff_trans (tx_insn_eff _ _ _ _) (eff_trans (tx_emit_get_eff _ _)
      (eff_trans (tx_insn_eff _ _ _ _) (tx_insn_eff _ _ _ _))))
  · simp only [bind_eq_ok, pure_eq_ok] at h
    obtain ⟨_, _, _, _, _, rfl, h⟩ := h
    rw [Prod.mk.injEq] at h
    obtain ⟨_, h⟩ := h
    subst h
    exact eff_trans e5 (eff_trans (tx_insn_eff _ _ _ _) (eff_trans (tx_imm1f_eff _ _)
      (eff_trans (tx_insn_eff _ _ _ _) (tx_insn_eff _ _ _ _))))

theorem sm1_read_semantic_parse {tx tx' : shader_translator} {sem : sm1_semantic}
    (h : sm1_read_semantic tx = .ok (sem, tx')) :
    tx' = { tx with parse := tx.parse + 2 } := by
  unfold sm1_read_semantic TOKEN_NEXT at h
  simp only [bind_eq_ok, pure_eq_ok] at h
  obtain ⟨_, ⟨_, _, rfl⟩, _, ⟨_, _, rfl⟩, h⟩ := h
  rw [Prod.mk.injEq] at h
  obtain ⟨_, h⟩ := h
  subst h
  rfl

/-- The handler of DCL reads two words and otherwise acts like the other handlers. -/
theorem DCL_eff {tx tx' : shader_translator} {hr : HRESULT}
    (h : NineTranslateInstruction_DCL tx = .ok (hr, tx')) :
    eff { tx with parse := tx.parse + 2 } tx' := by
  unfold NineTranslateInstruction_DCL at h
  rw [bind_eq_ok] at h
  obtain ⟨⟨sem, t1⟩, h1, h⟩ := h
  rw [← sm1_read_semantic_parse h1]
  rw [bind_eq_ok] at h
  obtain ⟨_, _, h⟩ := h
  simp only [] at h
  split at h
  · simp only [bind_eq_ok] at h
    obtain ⟨_, ht, _⟩ := h
    exact absurd ht (throw_ne_ok _ _)
  · rw [bind_eq_ok] at h
    obtain ⟨_, _, h⟩ := h
    split at h
    · simp only [bind_eq_ok, pure_eq_ok] at h
      obtain ⟨target, _, targets, _, h⟩ := h
      rw [Prod.mk.injEq] at h
      obtain ⟨_, h⟩ := h
      subst h
      exact eff_of_eq rfl rfl
    · rw [bind_eq_ok] at h
      obtain ⟨tgsi, _, h⟩ := h
      split at h
      · split at h
        · simp only [bind_eq_ok, pure_eq_ok] at h
          obtain ⟨m, _, h⟩ := h
          rw [Prod.mk.injEq] at h
          obtain ⟨_, h⟩ := h
          subst h
          exact eff_of_eq rfl rfl
        · simp only [bind_eq_ok, pure_eq_ok] at h
          obtain ⟨_, _, h⟩ := h
          rw [Prod.mk.injEq] at h
          obtain ⟨_, h⟩ := h
          subst h
          exact eff_of_eq rfl rfl
      · split at h
        · simp only [bind_eq_ok, pure_eq_ok] at h
          obtain ⟨m, _, h⟩ := h
          rw [Prod.mk.injEq] at h
          obtain ⟨_, h⟩ := h
          subst h
          exact eff_of_eq rfl rfl
        · simp only [bind_eq_ok, pure_eq_ok] at h
          obtain ⟨_, _, h⟩ := h
          rw [Prod.mk.injEq] at h
          obtain ⟨_, h⟩ := h
          subst h
          exact eff_of_eq rfl rfl

theorem TEX_eff {tx tx' : shader_translator} {hr : HRESULT}
    (h : NineTranslateInstruction_TEX tx = .ok (hr, tx')) : eff tx tx' := by
  unfold NineTranslateInstruction_TEX at h
  simp only [bind_eq_ok, pure_eq_ok] at h
  obtain ⟨⟨d, t1⟩, h1, ⟨s0, t2⟩, h2, ⟨s1, t3⟩, h3, _, _, target, _, h⟩ := h
  have e := eff_trans (dst0_eff h1) (eff_trans (src0_eff h2) (src1_eff h3))
  split at h
  · rw [pure_eq_ok, Prod.mk.injEq] at h
    obtain ⟨_, h⟩ := h
    subst h
    exact eff_trans e (tx_emit_eff _ _)
  · split at h
    · rw [pure_eq_ok, Prod.mk.injEq] at h
      obtain ⟨_, h⟩ := h
      subst h
      exact eff_trans e (tx_emit_eff _ _)
    · split at h
      · rw [pure_eq_ok, Prod.mk.injEq] at h
        obtain ⟨_, h⟩ := h
        subst h
        exact eff_trans e (tx_emit_eff _ _)
      · simp only [bind_eq_ok, pure_eq_ok] at h
        obtain ⟨_, _, h⟩ := h
        rw [Prod.mk.injEq] at h
        obtain ⟨_, h⟩ := h
        subst h
        exact e

theorem TEXLDD_eff {tx tx' : shader_translator} {hr : HRESULT}
    (h : NineTranslateInstruction_TEXLDD tx = .ok (hr, tx')) : eff tx tx' := by
  unfold NineTranslateInstruction_TEXLDD at h
  simp only [bind_eq_ok, pure_eq_ok] at h
  obtain ⟨⟨d, t1⟩, h1, ⟨s0, t2⟩, h2, ⟨s1, t3⟩, h3, ⟨s2, t4⟩, h4, ⟨s3, t5⟩, h5, _, _,
    target, _, h⟩ := h
  rw [Prod.mk.injEq] at h
  obtain ⟨_, h⟩ := h
  subst h
  exact eff_trans (dst0_eff h1) (eff_trans (src0_eff h2) (eff_trans (src1_eff h3)
    (eff_trans (src2_eff h4) (eff_trans (src3_eff h5) (tx_emit_eff _ _)))))

theorem TEXLDL_eff {tx tx' : shader_translator} {hr : HRESULT}
    (h : NineTranslateInstruction_TEXLDL tx = .ok (hr, tx')) : eff tx tx' := by
  unfold NineTranslateInstruction_TEXLDL at h
  simp only [bind_eq_ok, pure_eq_ok] at h
  obtain ⟨⟨d, t1⟩, h1, ⟨s0, t2⟩, h2, ⟨s1, t3⟩, h3, _, _, target, _, h⟩ := h
  rw [Prod.mk.injEq] at h
  obtain ⟨_, h⟩ := h
  subst h
  exact eff_trans (dst0_eff h1) (eff_trans (src0_eff h2) (eff_trans (src1_eff h3)
    (tx_emit_eff _ _)))

theorem generic_lower_dst_eff {tx tx' : shader_translator} {d : List ureg_dst}
    (h : generic_lower_dst tx = .ok (d, tx')) : eff tx tx' := by
  unfold generic_lower_dst at h
  split at h
  · simp only [bind_eq_ok, pure_eq_ok] at h
    obtain ⟨⟨d0, t1⟩, h1, h⟩ := h
    rw [Prod.mk.injEq] at h
    obtain ⟨_, h⟩ := h
    subst h
    exact dst0_eff h1
  · rw [pure_eq_ok, Prod.mk.injEq] at h
    obtain ⟨_, h⟩ := h
    subst h
    exact eff_refl _

theorem srci_eff {tx tx' : shader_translator} {r : ureg_src} {i : Nat} {p : sm1_src_param}
    (hp : tx.insn.src i = some p) (h : tx_src_param tx p = .ok (r, tx')) : eff tx tx' := by
  unfold sm1_instruction.src at hp
  split at hp
  · cases hp; exact src0_eff h
  · cases hp; exact src1_eff h
  · cases hp; exact src2_eff h
  · cases hp; exact src3_eff h
  · cases hp

theorem generic_lower_src_eff (todo : Nat) : ∀ (i : Nat) (tx tx' : shader_translator)
    (s : List ureg_src), generic_lower_src tx todo i = .ok (s, tx') → eff tx tx' := by
  induction todo with
  | zero =>
    intro i tx tx' s h
    unfold generic_lower_src at h
    rw [pure_eq_ok, Prod.mk.injEq] at h
    obtain ⟨_, h⟩ := h
    subst h
    exact eff_refl _
  | succ n ih =>
    intro i tx tx' s h
    unfold generic_lower_src at h
    split at h
    · split at h
      · rename_i p hp
        simp only [bind_eq_ok, pure_eq_ok] at h
        obtain ⟨⟨s1, t1⟩, h1, ⟨rest, t2⟩, h2, h⟩ := h
        rw [Prod.mk.injEq] at h
        obtain ⟨_, h⟩ := h
        subst h
        exact eff_trans (srci_eff hp h1) (ih _ _ _ _ h2)
      · rw [pure_eq_ok, Prod.mk.injEq] at h
        obtain ⟨_, h⟩ := h
        subst h
        exact eff_refl _
    · rw [pure_eq_ok, Prod.mk.injEq] at h
      obtain ⟨_, h⟩ := h
      subst h
      exact eff_refl _

theorem Generic_eff {tx tx' : shader_translator} {hr : HRESULT}
    (h : NineTranslateInstruction_Generic tx = .ok (hr, tx')) : eff tx tx' := by
  unfold NineTranslateInstruction_Generic at h
  simp only [bind_eq_ok, pure_eq_ok] at h
  obtain ⟨⟨d, t1⟩, h1, ⟨s, t2⟩, h2, h⟩ := h
  have e := eff_trans (generic_lower_dst_eff h1) (generic_lower_src_eff _ _ _ _ _ h2)
  split at h
  · exact absurd h (throw_ne_ok _ _)
  · split at h
    · simp only [bind_eq_ok] at h
      obtain ⟨_, ht, _⟩ := h
      exact absurd ht (throw_ne_ok _ _)
    · simp only [bind_eq_ok, pure_eq_ok] at h
      obtain ⟨_, _, h⟩ := h
      rw [Prod.mk.injEq] at h
      obtain ⟨_, h⟩ := h
      subst h
      exact eff_trans e (tx_insn_eff _ _ _ _)

/-- Every special handler but the one of DCL leaves the cursor where it is; the handler
of DCL moves it by two words. -/
theorem run_handler_eff {tx tx' : shader_translator} {hr : HRESULT} {id : handler_id}
    (h : run_handler tx id = .ok (hr, tx')) :
    eff { tx with parse := tx.parse + (if id = .DCL then 2 else 0) } tx' := by
  cases id with
  | M4x4 => exact Mkxn_eff h
  | M4x3 => exact Mkxn_eff h
  | M3x4 => exact Mkxn_eff h
  | M3x3 => exact Mkxn_eff h
  | M3x2 => exact Mkxn_eff h
  | CALL => exact CALL_eff h
  | CALLNZ => exact CALLNZ_eff h
  | LOOP => exact LOOP_eff h
  | RET => exact RET_eff h
  | ENDLOOP => exact ENDLOOP_eff h
  | LABEL => exact LABEL_eff h
  | DCL => exact DCL_eff h
  | NRM => exact NRM_eff h
  | SINCOS => exact SINCOS_eff h
  | REP => exact REP_eff h
  | ENDREP => exact ENDREP_eff h
  | IF => exact IF_eff h
  | IFC => exact IFC_eff h
  | ELSE => exact ELSE_eff h
  | ENDIF => exact ENDIF_eff h
  | BREAKC => exact BREAKC_eff h
  | DEFB => exact DEFB_eff h
  | DEFI => exact DEFI_eff h
  | DEF => exact DEF_eff h
  | TEXCOORD => exact TEXCOORD_eff h
  | TEXKILL => exact TEXKILL_eff h
  | TEX => exact TEX_eff h
  | TEXBEM => exact unimplemented_eff h
  | TEXBEML => exact unimplemented_eff h
  | TEXREG2AR => exact unimplemented_eff h
  | TEXREG2GB => exact unimplemented_eff h
  | TEXM3x2PAD => exact unimplemented_eff h
  | TEXM3x2TEX => exact unimplemented_eff h
  | TEXM3x3PAD => exact unimplemented_eff h
  | TEXM3x3TEX => exact unimplemented_eff h
  | TEXM3x3SPEC => exact unimplemented_eff h
  | TEXM3x3VSPEC => exact unimplemented_eff h
  | TEXREG2RGB => exact unimplemented_eff h
  | TEXDP3TEX => exact unimplemented_eff h
  | TEXM3x2DEPTH => exact unimplemented_eff h
  | TEXDP3 => exact unimplemented_eff h
  | TEXM3x3 => exact unimplemented_eff h
  | TEXDEPTH => exact unimplemented_eff h
  | BEM => exact unimplemented_eff h
  | TEXLDD => exact TEXLDD_eff h
  | SETP => exact unimplemented_eff h
  | TEXLDL => exact TEXLDL_eff h
  | BREAKP => exact unimplemented_eff h
  | PHASE => exact PHASE_eff h
  | COMMENT => exact COMMENT_eff h

theorem reads_refl (tx : shader_translator) : reads 0 tx tx :=
  ⟨rfl, rfl, by omega, fun _ => rfl⟩

theorem reads_major {n : Nat} {tx tx' : shader_translator} (h : reads n tx tx') :
    tx'.version_major = tx.version_major := by
  rw [h.1]

theorem reads_trans {n m : Nat} {a b c : shader_translator} (h1 : reads n a b)
    (h2 : reads m b c) : reads (n + m) a c := by
  obtain ⟨f1, i1, p1, q1⟩ := h1
  obtain ⟨f2, i2, p2, q2⟩ := h2
  refine ⟨by rw [f2, f1], i2.trans i1, by omega, fun hv => ?_⟩
  have hb : b.version_major = a.version_major := by rw [f1]
  rw [q2 (by rw [hb]; exact hv), q1 hv]
  omega

theorem reads_congr {n m : Nat} {a b : shader_translator} (h : reads n a b) (hn : n = m) :
    reads m a b := by
  subst hn; exact h

theorem TOKEN_NEXT_inv {tx tx' : shader_translator} {tok : Nat}
    (h : TOKEN_NEXT tx = .ok (tok, tx')) :
    tx.byte_code[tx.parse]? = some tok ∧ tx' = { tx with parse := tx.parse + 1 } := by
  unfold TOKEN_NEXT TOKEN_PEEK at h
  cases hb : tx.byte_code[tx.parse]? with
  | none => rw [hb] at h; cases h
  | some w =>
    rw [hb] at h
    simp only [bind, Except.bind, pure, Except.pure, Except.ok.injEq, Prod.mk.injEq] at h
    exact ⟨by rw [h.1], h.2.symm⟩

theorem sm1_parse_get_param_inv {tx tx' : shader_translator} {r : Nat × Option Nat}
    (h : sm1_parse_get_param tx = .ok (r, tx')) :
    tx' = { tx with parse := tx'.parse } ∧ tx.parse + 1 ≤ tx'.parse ∧
    (tx.version_major < 2 → tx'.parse = tx.parse + 1) := by
  unfold sm1_parse_get_param at h
  rw [bind_eq_ok] at h
  obtain ⟨⟨reg, t1⟩, h1, h⟩ := h
  obtain ⟨_, rfl⟩ := TOKEN_NEXT_inv h1
  simp only [] at h
  split at h
  · split at h
    · rename_i hv
      rw [pure_eq_ok, Prod.mk.injEq] at h
      obtain ⟨_, h⟩ := h
      subst h
      exact ⟨rfl, by simp, fun _ => rfl⟩
    · rename_i hv
      rw [bind_eq_ok] at h
      obtain ⟨⟨rel, t2⟩, h2, h⟩ := h
      obtain ⟨_, rfl⟩ := TOKEN_NEXT_inv h2
      rw [pure_eq_ok, Prod.mk.injEq] at h
      obtain ⟨_, h⟩ := h
      subst h
      exact ⟨rfl, by simp, fun hlt => absurd hlt hv⟩
  · rw [pure_eq_ok, Prod.mk.injEq] at h
    obtain ⟨_, h⟩ := h
    subst h
    exact ⟨rfl, by simp, fun _ => rfl⟩

theorem sm1_read_dst_param_inv {tx tx' : shader_translator} {d : sm1_dst_param}
    (h : sm1_read_dst_param tx = .ok (d, tx')) :
    tx' = { tx with parse := tx'.parse } ∧ tx.parse + 1 ≤ tx'.parse ∧
    (tx.version_major < 2 → tx'.parse = tx.parse + 1) := by
  unfold sm1_read_dst_param at h
  rw [bind_eq_ok] at h
  obtain ⟨⟨⟨tok, rel⟩, t1⟩, h1, h⟩ := h
  have i1 := sm1_parse_get_param_inv h1
  cases rel with
  | none =>
    simp only [pure_eq_ok, Prod.mk.injEq] at h
    obtain ⟨_, h⟩ := h
    subst h
    exact i1
  | some r =>
    simp only [pure_eq_ok, Prod.mk.injEq] at h
    obtain ⟨_, h⟩ := h
    subst h
    exact i1

theorem sm1_read_src_param_inv {tx tx' : shader_translator} {old s : sm1_src_param}
    {has_rel : Bool} (h : sm1_read_src_param tx old has_rel = .ok (s, tx')) :
    tx' = { tx with parse := tx'.parse } ∧ tx.parse + 1 ≤ tx'.parse ∧
    (tx.version_major < 2 → tx'.parse = tx.parse + 1) := by
  unfold sm1_read_src_param at h
  rw [bind_eq_ok] at h
  obtain ⟨⟨⟨tok, rel⟩, t1⟩, h1, h⟩ := h
  have i1 := sm1_parse_get_param_inv h1
  cases rel with
  | none =>
    simp only [pure_eq_ok, Prod.mk.injEq] at h
    obtain ⟨_, h⟩ := h
    subst h
    exact i1
  | some r =>
    simp only [bind_eq_ok] at h
    obtain ⟨_, _, h⟩ := h
    split at h
    · simp only [bind_eq_ok] at h
      obtain ⟨_, ht, _⟩ := h
      exact absurd ht (throw_ne_ok _ _)
    · simp only [bind_eq_ok, pure_eq_ok, Prod.mk.injEq] at h
      obtain ⟨_, _, _, h⟩ := h
      subst h
      exact i1

theorem set_dst_head {insn insn' : sm1_instruction} {i : Nat} {d : sm1_dst_param}
    (h : insn.set_dst i d = some insn') : insn_head insn' = insn_head insn := by
  unfold sm1_instruction.set_dst at h
  split at h
  · cases h; rfl
  · cases h

theorem set_src_head {insn insn' : sm1_instruction} {i : Nat} {p : sm1_src_param}
    (h : insn.set_src i p = some insn') : insn_head insn' = insn_head insn := by
  unfold sm1_instruction.set_src at h
  split at h
  · cases h; rfl
  · cases h; rfl
  · cases h; rfl
  · cases h; rfl
  · cases h

theorem sm1_read_dst_params_reads (todo : Nat) : ∀ (i : Nat) (tx tx' : shader_translator),
    sm1_read_dst_params todo i tx = .ok tx' → reads todo tx tx' := by
  induction todo with
  | zero =>
    intro i tx tx' h
    unfold sm1_read_dst_params at h
    rw [pure_eq_ok] at h
    subst h
    exact reads_refl _
  | succ n ih =>
    intro i tx tx' h
    unfold sm1_read_dst_params at h
    rw [bind_eq_ok] at h
    obtain ⟨⟨d, t1⟩, h1, h⟩ := h
    obtain ⟨f1, p1, q1⟩ := sm1_read_dst_param_inv h1
    simp only [] at h
    split at h
    · rename_i insn hs
      have r2 := ih _ _ _ h
      have hi : t1.insn = tx.insn := by rw [f1]
      have r1 : reads 1 tx { t1 with insn := insn } :=
        ⟨by rw [f1], by
          show insn_head insn = insn_head tx.insn
          rw [set_dst_head hs, hi], p1, q1⟩
      exact reads_congr (reads_trans r1 r2) (by omega)
    · exact absurd h (throw_ne_ok _ _)

theorem sm1_read_src_params_reads (todo : Nat) : ∀ (i : Nat) (tx tx' : shader_translator),
    sm1_read_src_params todo i tx = .ok tx' → reads todo tx tx' := by
  induction todo with
  | zero =>
    intro i tx tx' h
    unfold sm1_read_src_params at h
    rw [pure_eq_ok] at h
    subst h
    exact reads_refl _
  | succ n ih =>
    intro i tx tx' h
    unfold sm1_read_src_params at h
    split at h
    · exact absurd h (throw_ne_ok _ _)
    · rw [bind_eq_ok] at h
      obtain ⟨⟨d, t1⟩, h1, h⟩ := h
      obtain ⟨f1, p1, q1⟩ := sm1_read_src_param_inv h1
      simp only [] at h
      split at h
      · rename_i insn hs
        have r2 := ih _ _ _ h
        have hi : t1.insn = tx.insn := by rw [f1]
        have r1 : reads 1 tx { t1 with insn := insn } :=
          ⟨by rw [f1], by
            show insn_head insn = insn_head tx.insn
            rw [set_src_head hs, hi], p1, q1⟩
        exact reads_congr (reads_trans r1 r2) (by omega)
      · exact absurd h (throw_ne_ok _ _)

theorem sm1_parse_immediate_reads {tx tx' : shader_translator}
    (hop : tx.insn.opcode = D3DSIO_DEF ∨ tx.insn.opcode = D3DSIO_DEFI ∨
      tx.insn.opcode = D3DSIO_DEFB)
    (h : sm1_parse_immediate tx = .ok tx') : reads (imm_words tx.insn.opcode) tx tx' := by
  unfold sm1_parse_immediate at h
  simp only [] at h
  split at h
  · rename_i c
    simp only [bind_eq_ok, pure_eq_ok] at h
    obtain ⟨_, _, _, _, _, _, _, _, h⟩ := h
    subst h
    have : imm_words tx.insn.opcode = 4 := by rw [imm_words, if_pos c]
    rw [this]
    exact ⟨rfl, rfl, by simp, fun _ => rfl⟩
  · rename_i c
    split at h
    · rename_i c2
      simp only [bind_eq_ok, pure_eq_ok] at h
      obtain ⟨_, _, h⟩ := h
      subst h
      have : imm_words tx.insn.opcode = 1 := by rw [imm_words, if_neg c, if_pos c2]
      rw [this]
      exact ⟨rfl, rfl, by simp, fun _ => rfl⟩
    · rename_i c2
      exfalso
      rcases hop with h1 | h1 | h1
      · exact c (Or.inl h1)
      · exact c (Or.inr h1)
      · exact c2 h1

theorem reads_head {n : Nat} {tx tx' : shader_translator} (h : reads n tx tx') :
    tx'.insn.opcode = tx.insn.opcode ∧ tx'.insn.flags = tx.insn.flags ∧
    tx'.insn.predicated = tx.insn.predicated ∧ tx'.insn.ndst = tx.insn.ndst ∧
    tx'.insn.nsrc = tx.insn.nsrc ∧ tx'.insn.info = tx.insn.info := by
  have := h.2.1
  simp only [insn_head, Prod.mk.injEq] at this
  obtain ⟨a, b, _, d, e, f, g⟩ := this
  exact ⟨a, b, d, e, f, g⟩

theorem body_handler {t4 tx' : shader_translator} {info : sm1_op_info}
    (h : (match info.handler with
          | some h => do
            let y ← run_handler t4 h
            pure (TOKEN_JUMP y.2)
          | none => do
            let y ← NineTranslateInstruction_Generic t4
            pure (TOKEN_JUMP y.2)) = .ok tx') :
    ∃ (hr : HRESULT) (tb : shader_translator),
      (match info.handler with
       | some id => run_handler t4 id
       | none => NineTranslateInstruction_Generic t4) = .ok (hr, tb) ∧
      tx' = TOKEN_JUMP tb := by
  cases hh : info.handler with
  | none =>
    rw [hh] at h
    simp only [bind_eq_ok, pure_eq_ok] at h
    obtain ⟨⟨hr, tb⟩, h5, h⟩ := h
    exact ⟨hr, tb, h5, h.symm⟩
  | some id =>
    rw [hh] at h
    simp only [bind_eq_ok, pure_eq_ok] at h
    obtain ⟨⟨hr, tb⟩, h5, h⟩ := h
    exact ⟨hr, tb, h5, h.symm⟩

theorem body_tail {t3 tx' : shader_translator} {info : sm1_op_info}
    (h : (if t3.insn.opcode = D3DSIO_DEF ∨ t3.insn.opcode = D3DSIO_DEFI ∨
            t3.insn.opcode = D3DSIO_DEFB then do
          let y ← sm1_parse_immediate t3
          sm1_dump_instruction y
          match info.handler with
            | some h => do
              let y ← run_handler y h
              pure (TOKEN_JUMP y.2)
            | none => do
              let y ← NineTranslateInstruction_Generic y
              pure (TOKEN_JUMP y.2)
        else do
          let y ← pure t3
          sm1_dump_instruction y
          match info.handler with
            | some h => do
              let y ← run_handler y h
              pure (TOKEN_JUMP y.2)
            | none => do
              let y ← NineTranslateInstruction_Generic y
              pure (TOKEN_JUMP y.2)) = .ok tx') :
    ∃ (t4 : shader_translator) (hr : HRESULT) (tb : shader_translator),
      reads (imm_words t3.insn.opcode) t3 t4 ∧
      (match info.handler with
       | some id => run_handler t4 id
       | none => NineTranslateInstruction_Generic t4) = .ok (hr, tb) ∧
      tx' = TOKEN_JUMP tb := by
  split at h
  · rename_i c
    rw [bind_eq_ok] at h
    obtain ⟨t4, h4, h⟩ := h
    rw [bind_eq_ok] at h
    obtain ⟨_, _, h⟩ := h
    obtain ⟨hr, tb, h5, h6⟩ := body_handler h
    exact ⟨t4, hr, tb, sm1_parse_immediate_reads c h4, h5, h6⟩
  · rename_i c
    rw [bind_eq_ok] at h
    obtain ⟨t4, h4, h⟩ := h
    rw [pure_eq_ok] at h4
    subst h4
    rw [bind_eq_ok] at h
    obtain ⟨_, _, h⟩ := h
    obtain ⟨hr, tb, h5, h6⟩ := body_handler h
    have : imm_words t3.insn.opcode = 0 := by
      unfold imm_words
      rw [if_neg (fun hc => c (by rcases hc with hc | hc
                                  · exact Or.inl hc
                                  · exact Or.inr (Or.inl hc))),
        if_neg (fun hc => c (Or.inr (Or.inr hc)))]
    rw [this]
    exact ⟨t3, hr, tb, reads_refl _, h5, h6⟩

/-- The steps of `sm1_parse_instruction` after the version check: the parameter and
immediate words are read, the handler runs, and the cursor jumps to `parse_next`. -/
theorem sm1_parse_instruction_body_inv {tx tx' : shader_translator} {info : sm1_op_info}
    (h : sm1_parse_instruction_body tx info = .ok tx') :
    ∃ (ta : shader_translator) (hr : HRESULT) (tb : shader_translator),
      reads (tx.insn.ndst + (if tx.insn.predicated then 1 else 0) + tx.insn.nsrc +
        imm_words tx.insn.opcode) tx ta ∧
      (match info.handler with
       | some id => run_handler ta id
       | none => NineTranslateInstruction_Generic ta) = .ok (hr, tb) ∧
      tx' = TOKEN_JUMP tb := by
  unfold sm1_parse_instruction_body at h
  rw [bind_eq_ok] at h
  obtain ⟨t1, h1, h⟩ := h
  have r1 := sm1_read_dst_params_reads _ _ _ _ h1
  have hp := (reads_head r1).2.2.1
  simp only [] at h
  split at h
  · rename_i c
    rw [bind_eq_ok] at h
    obtain ⟨⟨p, t⟩, hp2, h⟩ := h
    rw [bind_eq_ok] at h
    obtain ⟨t2, h2, h⟩ := h
    rw [pure_eq_ok] at h2
    subst h2
    rw [bind_eq_ok] at h
    obtain ⟨t3, h3, h⟩ := h
    obtain ⟨f, p1, q1⟩ := sm1_read_src_param_inv hp2
    have r2 : reads 1 t1 { t with insn := { t.insn with pred := p } } :=
      ⟨by rw [f], by
        show insn_head { t.insn with pred := p } = insn_head t1.insn
        have : t.insn = t1.insn := by rw [f]
        rw [this]; rfl, p1, q1⟩
    have r12 := reads_trans r1 r2
    have r3 := sm1_read_src_params_reads _ _ _ _ h3
    have hn := (reads_head r12).2.2.2.2.1
    have r123 := reads_trans r12 r3
    obtain ⟨t4, hr, tb, r4, h5, h6⟩ := body_tail h
    rw [(reads_head r123).1] at r4
    refine ⟨t4, hr, tb, reads_congr (reads_trans r123 r4) ?_, h5, h6⟩
    rw [← hp, c, hn]
    simp
  · rename_i c
    rw [bind_eq_ok] at h
    obtain ⟨t2, h2, h⟩ := h
    rw [pure_eq_ok] at h2
    subst h2
    rw [bind_eq_ok] at h
    obtain ⟨t3, h3, h⟩ := h
    have r3 := sm1_read_src_params_reads _ _ _ _ h3
    have hn := (reads_head r1).2.2.2.2.1
    have r13 := reads_trans r1 r3
    obtain ⟨t4, hr, tb, r4, h5, h6⟩ := body_tail h
    rw [(reads_head r13).1] at r4
    refine ⟨t4, hr, tb, reads_congr (reads_trans r13 r4) ?_, h5, h6⟩
    have : tx.insn.predicated = false := by rw [← hp]; simpa using c
    rw [this, hn]
    simp

theorem sm1_parse_instruction_head_eq (tx : shader_translator) (tok : Nat)
    (htok : tx.byte_code[tx.parse]? = some tok)
    (hnc : tok &&& D3DSI_OPCODE_MASK ≠ D3DSIO_COMMENT) :
    sm1_parse_instruction_head tx = .ok (sm1_lookup_info (tok &&& D3DSI_OPCODE_MASK),
      { tx with
        parse := tx.parse + 1,
        parse_next :=
          if tx.version_major ≥ 2 then
            some (tx.parse + 1 + ((tok &&& D3DSI_INSTLENGTH_MASK) >>> D3DSI_INSTLENGTH_SHIFT))
          else none,
        insn := { tx.insn with
          opcode := tok &&& D3DSI_OPCODE_MASK,
          flags := (tok &&& NINED3DSIO_OPCODE_FLAGS_MASK) >>> NINED3DSIO_OPCODE_FLAGS_SHIFT,
          coissue := tok &&& D3DSI_COISSUE ≠ 0,
          predicated := tok &&& NINED3DSHADER_INST_PREDICATED ≠ 0 } }) := by
  unfold sm1_parse_instruction_head
  rw [sm1_parse_comments_not_comment tx tok htok hnc]
  by_cases hv : tx.version_major ≥ 2
  · simp [sm1_parse_get_skip, TOKEN_NEXT, TOKEN_PEEK, htok, bind, Except.bind, pure,
      Except.pure, hv]
  · simp [sm1_parse_get_skip, TOKEN_NEXT, TOKEN_PEEK, htok, bind, Except.bind, pure,
      Except.pure, hv]

/-- A known instruction that passes the version check: its words are read, its handler
runs and the cursor jumps to `parse_next`. -/
theorem sm1_parse_instruction_known {tx tx' : shader_translator} {tok : Nat}
    {info : sm1_op_info}
    (htok : tx.byte_code[tx.parse]? = some tok)
    (hnc : tok &&& D3DSI_OPCODE_MASK ≠ D3DSIO_COMMENT)
    (hinfo : sm1_lookup_info (tok &&& D3DSI_OPCODE_MASK) = some info)
    (hver : sm1_version_rejected tx info = false)
    (h : sm1_parse_instruction tx = .ok tx') :
    ∃ (ta : shader_translator) (hr : HRESULT) (tb : shader_translator),
      reads (info.ndst + (if tok &&& NINED3DSHADER_INST_PREDICATED ≠ 0 then 1 else 0) +
        info.nsrc + imm_words (tok &&& D3DSI_OPCODE_MASK)) (tx_decoded tx tok info) ta ∧
      (match info.handler with
       | some id => run_handler ta id
       | none => NineTranslateInstruction_Generic ta) = .ok (hr, tb) ∧
      tx' = TOKEN_JUMP tb := by
  unfold sm1_parse_instruction at h
  rw [sm1_parse_instruction_head_eq tx tok htok hnc, hinfo] at h
  simp only [bind, Except.bind] at h
  have hv : sm1_version_rejected (tx_decoded tx tok info) info = false := hver
  unfold tx_decoded at hv
  simp only [] at hv
  rw [hv] at h
  simp only [Bool.false_eq_true, if_false] at h
  obtain ⟨ta, hr, tb, r, h5, h6⟩ := sm1_parse_instruction_body_inv h
  refine ⟨ta, hr, tb, ?_, h5, h6⟩
  have e : (decide (tok &&& NINED3DSHADER_INST_PREDICATED ≠ 0) = true) ↔
      (tok &&& NINED3DSHADER_INST_PREDICATED ≠ 0) := by simp
  simp only [e] at r
  exact r

theorem eff_cursor {tx tx' : shader_translator} (h : eff tx tx') :
    tx'.parse = tx.parse ∧ tx'.parse_next = tx.parse_next ∧
    tx'.byte_code = tx.byte_code ∧ tx'.version_major = tx.version_major := by
  rw [h.1]
  exact ⟨rfl, rfl, rfl, rfl⟩

/-- The row of DCL is the only one whose handler is the one of DCL. -/
theorem lookup_handler_DCL : ∀ op : Nat, op < 97 →
    (((sm1_lookup_info op).bind (fun i => i.handler) = some handler_id.DCL) ↔
      op = D3DSIO_DCL) := by
  decide!

theorem lookup_lt {op : Nat} {info : sm1_op_info} (h : sm1_lookup_info op = some info) :
    op < 97 ∨ op = D3DSIO_COMMENT ∨ op = D3DSIO_PHASE := by
  unfold sm1_lookup_info at h
  split at h
  · rename_i c
    left
    have : inst_table.length = 97 := by decide
    omega
  · split at h
    · rename_i c; exact Or.inr (Or.inl c)
    · split at h
      · rename_i c; exact Or.inr (Or.inr c)
      · cases h

theorem handler_words {op : Nat} {info : sm1_op_info} (h : sm1_lookup_info op = some info) :
    imm_words op + (if info.handler = some .DCL then 2 else 0) = spec_payload op := by
  have hd : info.handler = some .DCL ↔ op = D3DSIO_DCL := by
    rcases lookup_lt h with hl | hl | hl
    · have := lookup_handler_DCL op hl
      rw [h] at this
      exact this
    · subst hl
      rw [sm1_lookup_info_comment] at h
      cases h
      decide
    · subst hl
      have : sm1_lookup_info D3DSIO_PHASE = some inst_phase := by decide
      rw [this] at h
      cases h
      decide
  unfold imm_words spec_payload
  by_cases c1 : op = D3DSIO_DEF ∨ op = D3DSIO_DEFI
  · have : ¬ op = D3DSIO_DCL := by
      rcases c1 with c | c <;> (rw [c]; decide)
    rw [if_pos c1, if_pos c1, if_neg (fun hh => this (hd.mp hh))]
  · rw [if_neg c1, if_neg c1]
    by_cases c2 : op = D3DSIO_DEFB
    · have : ¬ op = D3DSIO_DCL := by rw [c2]; decide
      rw [if_pos c2, if_pos c2, if_neg (fun hh => this (hd.mp hh))]
    · rw [if_neg c2, if_neg c2]
      by_cases c3 : op = D3DSIO_DCL
      · rw [if_pos (hd.mpr c3), if_pos c3]
      · rw [if_neg (fun hh => c3 (hd.mp hh)), if_neg c3]

/-- The handler of an instruction moves the cursor by two words for DCL and leaves it
otherwise; `parse_next`, the token stream and the version stay. -/
theorem handler_cursor {ta tb : shader_translator} {hr : HRESULT} {info : sm1_op_info}
    (h : (match info.handler with
          | some id => run_handler ta id
          | none => NineTranslateInstruction_Generic ta) = .ok (hr, tb)) :
    tb.parse = ta.parse + (if info.handler = some .DCL then 2 else 0) ∧
    tb.parse_next = ta.parse_next ∧ tb.byte_code = ta.byte_code ∧
    tb.version_major = ta.version_major := by
  cases hh : info.handler with
  | none =>
    rw [hh] at h
    simpa using eff_cursor (Generic_eff h)
  | some id =>
    rw [hh] at h
    have := eff_cursor (run_handler_eff h)
    by_cases c : id = .DCL
    · subst c
      simpa using this
    · simp only [c, if_false, Nat.add_zero] at this
      simpa [c] using this

theorem entries_step_cons (a : sm1_local_const) (tab : List sm1_local_const)
    (e : sm1_local_const) :
    entries_step (a :: tab) e = if a.idx = e.idx then e :: tab else a :: entries_step tab e := by
  unfold entries_step
  simp only [List.findIdx_cons]
  by_cases c : a.idx = e.idx
  · simp [c]
  · simp only [c, decide_False, cond_false, if_false, List.length_cons, Nat.add_right_cancel_iff]
    split
    · simp
    · simp

theorem entries_step_find (tab : List sm1_local_const) (e : sm1_local_const) (i : Int) :
    (entries_step tab e).find? (fun c => decide (c.idx = i)) =
      if e.idx = i then some e else tab.find? (fun c => decide (c.idx = i)) := by
  induction tab with
  | nil =>
    simp [entries_step, List.find?]
    split <;> simp_all
  | cons a tab ih =>
    rw [entries_step_cons]
    by_cases c : a.idx = e.idx
    · rw [if_pos c]
      by_cases c2 : e.idx = i
      · simp [c2]
      · have : ¬ a.idx = i := by rw [c]; exact c2
        simp [c2, this]
    · rw [if_neg c]
      by_cases c3 : a.idx = i
      · have : ¬ e.idx = i := by rw [← c3]; exact fun h => c h.symm
        simp [c3, this]
      · simp [c3, ih]

/-- One call of `tx_set_lconstf` on a well-shaped table succeeds, registers one immediate
and acts on the entries in use as `entries_step` with that immediate. -/
theorem tx_set_lconstf_entries (tx : shader_translator) (index : Int) (f : List Nat)
    (hs : lconstf_shape tx) (hn : tx.num_lconstf + 1 < 2 ^ 32)
    (ha : tx.env.asserts = true → 0 ≤ index ∧ index < tx.env.NINE_MAX_CONST_F) :
    ∃ tx', tx_set_lconstf tx index f = .ok tx' ∧ lconstf_shape tx' ∧ tx'.env = tx.env ∧
      tx'.num_lconstf ≤ tx.num_lconstf + 1 ∧
      tx'.ureg.nr_immediates = tx.ureg.nr_immediates + 1 ∧
      lconstf_entries tx' = entries_step (lconstf_entries tx)
        { idx := index, reg := ureg_src_register .IMMEDIATE tx.ureg.nr_immediates,
          imm := payload_words f } := by
  obtain ⟨h8, hle, hlt⟩ := hs
  have hassert : tx_assert tx (decide (0 ≤ index ∧ index < tx.env.NINE_MAX_CONST_F))
      = .ok () := by
    rw [tx_assert_ok_iff]; intro h; simpa using ha h
  have hsearch := lconstf_search_eq tx.lconstf index tx.num_lconstf hle tx.num_lconstf 0
    (by omega)
  rw [Nat.zero_add, List.drop_zero] at hsearch
  have hlen : (lconstf_entries tx).length = tx.num_lconstf := by
    simp [lconstf_entries, List.length_take, hle]
  have hfl : (tx.lconstf.take tx.num_lconstf).findIdx (fun c => decide (c.idx = index))
      ≤ tx.num_lconstf := by
    have : List.findIdx (fun c : sm1_local_const => decide (c.idx = index))
        (tx.lconstf.take tx.num_lconstf) ≤ (tx.lconstf.take tx.num_lconstf).length :=
      List.findIdx_le_length _
    rw [List.length_take] at this; omega
  have hfi : (lconstf_entries tx).findIdx (fun c => decide (c.idx = index)) =
      (tx.lconstf.take tx.num_lconstf).findIdx (fun c => decide (c.idx = index)) := rfl
  generalize hnn : (tx.lconstf.take tx.num_lconstf).findIdx
    (fun c => decide (c.idx = index)) = n at hsearch hfi hfl
  unfold tx_set_lconstf
  rw [hassert, hsearch]
  simp only [bind, Except.bind, pure, Except.pure, tx_emit_get]
  unfold entries_step
  simp only [hfi, hlen]
  by_cases hnew : n = tx.num_lconstf
  · subst hnew
    simp only [if_true]
    by_cases h0 : tx.num_lconstf % 8 = 0
    · have hlen8 : tx.lconstf.length = tx.num_lconstf := by omega
      simp only [h0, if_true, arr_set, realloc_block]
      have hu : u32_inc tx.num_lconstf = tx.num_lconstf + 1 := by
        unfold u32_inc; exact Nat.mod_eq_of_lt hn
      rw [if_neg (by omega)]
      simp only [Int.toNat_ofNat]
      rw [if_pos (by simp [hlen8])]
      refine ⟨_, rfl, ⟨?_, ?_, ?_⟩, rfl, ?_, ?_, ?_⟩
      · simp [hlen8]; omega
      · simp [hlen8, hu]
      · simp [hlen8, hu]
      · simp [hu]
      · simp [ureg_imm4f, ureg_DECL_immediate, ureg_program.log]
      · simp only [lconstf_entries, hu]
        rw [take_succ_set _ _ _ (by simp [hlen8])]
        simp [hlen8, payload_words, List.take_append_eq_append_take, ureg_imm4f,
          ureg_DECL_immediate]
    · have hlt2 : tx.num_lconstf < tx.lconstf.length := by omega
      simp only [h0, if_false, arr_set]
      have hu : u32_inc tx.num_lconstf = tx.num_lconstf + 1 := by
        unfold u32_inc; exact Nat.mod_eq_of_lt hn
      rw [if_neg (by omega)]
      simp only [Int.toNat_ofNat]
      rw [if_pos hlt2]
      refine ⟨_, rfl, ⟨?_, ?_, ?_⟩, rfl, ?_, ?_, ?_⟩
      · simpa using h8
      · simp [hu]; omega
      · simp [hu]; omega
      · simp [hu]
      · simp [ureg_imm4f, ureg_DECL_immediate, ureg_program.log]
      · simp only [lconstf_entries, hu]
        rw [take_succ_set _ _ _ hlt2]
        simp [payload_words, ureg_imm4f, ureg_DECL_immediate]
  · have hlt2 : n < tx.num_lconstf := by omega
    simp only [hnew, if_false, arr_set]
    rw [if_neg (by omega)]
    simp only [Int.toNat_ofNat]
    rw [if_pos (by omega)]
    refine ⟨_, rfl, ⟨?_, ?_, ?_⟩, rfl, ?_, ?_, ?_⟩
    · simpa using h8
    · simpa using hle
    · simpa using hlt
    · simp
    · simp [ureg_imm4f, ureg_DECL_immediate, ureg_program.log]
    · simp only [lconstf_entries]
      rw [take_set_comm]
      simp [payload_words, ureg_imm4f, ureg_DECL_immediate]

/-- The lookup `tx_lconstf` on a well-shaped table: the register of the first entry in use
with the index. -/
theorem tx_lconstf_eq (tx : shader_translator) (index : Int) (hs : lconstf_shape tx)
    (ha : tx.env.asserts = true → 0 ≤ index ∧ index < tx.env.NINE_MAX_CONST_F) :
    tx_lconstf tx index =
      .ok (((lconstf_entries tx).find? (fun c => decide (c.idx = index))).map
        (fun c => c.reg)) := by
  obtain ⟨h8, hle, hlt⟩ := hs
  have hassert : tx_assert tx (decide (0 ≤ index ∧ index < tx.env.NINE_MAX_CONST_F))
      = .ok () := by
    rw [tx_assert_ok_iff]; intro h; simpa using ha h
  have hsearch := lconstf_search_eq tx.lconstf index tx.num_lconstf hle tx.num_lconstf 0
    (by omega)
  rw [Nat.zero_add, List.drop_zero] at hsearch
  have hlen : (tx.lconstf.take tx.num_lconstf).length = tx.num_lconstf := by
    simp [List.length_take, hle]
  unfold tx_lconstf lconstf_entries
  rw [hassert, hsearch]
  simp only [bind, Except.bind, pure, Except.pure]
  have key : ∀ (M : List sm1_local_const),
      M.find? (fun c => decide (c.idx = index)) =
        M[M.findIdx (fun c => decide (c.idx = index))]? := by
    intro M
    induction M with
    | nil => simp
    | cons a M ih =>
      by_cases c : a.idx = index
      · simp [List.findIdx_cons, c]
      · simp [List.findIdx_cons, c, ih]
  rw [key]
  generalize hk : (tx.lconstf.take tx.num_lconstf).findIdx
    (fun c => decide (c.idx = index)) = k
  by_cases hlt3 : k < tx.num_lconstf
  · rw [if_pos hlt3, List.getElem?_take_of_lt hlt3]
    have hk2 : k < tx.lconstf.length := by omega
    rw [List.getElem?_eq_getElem hk2]
    unfold arr_get
    rw [if_neg (by omega)]
    simp only [Int.toNat_ofNat, List.getElem?_eq_getElem hk2]
    rfl
  · rw [if_neg hlt3, List.getElem?_eq_none (by rw [hlen]; omega)]
    rfl

theorem last_def_reg_cons (n : Nat) (d : Int × List Nat) (rest : List (Int × List Nat))
    (i : Int) :
    last_def_reg n (d :: rest) i =
      match last_def_reg (n + 1) rest i with
      | some r => some r
      | none => if d.1 = i then some (ureg_src_register .IMMEDIATE n) else none := by
  rw [last_def_reg]

/-- After a sequence of DEF instructions the lookup of constant `i` finds the immediate
of the most recent DEF of `i`, or what it found before if there is none. -/
theorem run_defs_lookup (defs : List (Int × List Nat)) :
    ∀ tx : shader_translator, lconstf_shape tx → tx.num_lconstf + defs.length < 2 ^ 32 →
      (tx.env.asserts = true → ∀ d ∈ defs, 0 ≤ d.1 ∧ d.1 < tx.env.NINE_MAX_CONST_F) →
      ∃ tx', run_defs defs tx = .ok tx' ∧ lconstf_shape tx' ∧ tx'.env = tx.env ∧
        ∀ i : Int, ((lconstf_entries tx').find? (fun c => decide (c.idx = i))).map
            (fun c => c.reg) =
          match last_def_reg tx.ureg.nr_immediates defs i with
          | some r => some r
          | none => ((lconstf_entries tx).find? (fun c => decide (c.idx = i))).map
              (fun c => c.reg) := by
  induction defs with
  | nil => intro tx hs _ _; exact ⟨tx, rfl, hs, rfl, fun i => rfl⟩
  | cons d rest ih =>
    intro tx hs hn ha
    simp only [List.length_cons] at hn
    obtain ⟨tx1, h1, hs1, he1, hn1, hi1, ht1⟩ := tx_set_lconstf_entries tx d.1 d.2 hs
      (by omega) (fun h => ha h d (List.mem_cons_self _ _))
    obtain ⟨tx2, h2, hs2, he2, ht2⟩ := ih tx1 hs1 (by omega)
      (fun h e he => by
        rw [he1] at h ⊢
        exact ha h e (List.mem_cons_of_mem _ he))
    refine ⟨tx2, ?_, hs2, he2.trans he1, ?_⟩
    · unfold run_defs
      rw [h1]; exact h2
    · intro i
      rw [ht2 i, hi1, last_def_reg_cons, ht1, entries_step_find]
      cases last_def_reg (tx.ureg.nr_immediates + 1) rest i with
      | some r => rfl
      | none =>
        simp only []
        by_cases c : d.1 = i
        · simp [c]
        · simp [c]

theorem last_def_reg_none (defs : List (Int × List Nat)) (i : Int) :
    ∀ n : Nat, last_def_reg n defs i = none ↔ ∀ d ∈ defs, d.1 ≠ i := by
  induction defs with
  | nil => intro n; simp [last_def_reg]
  | cons d rest ih =>
    intro n
    rw [last_def_reg_cons]
    cases h : last_def_reg (n + 1) rest i with
    | some r =>
      have := (ih (n + 1)).not.mp (by rw [h]; simp)
      simp only [reduceCtorEq, false_iff]
      intro hall
      exact this (fun e he => hall e (List.mem_cons_of_mem _ he))
    | none =>
      have := (ih (n + 1)).mp h
      by_cases c : d.1 = i
      · simp [c]
      · simp only [c, if_false, true_iff]
        intro e he
        rcases List.mem_cons.mp he with h2 | h2
        · rw [h2]; exact c
        · exact this e h2

/-- The immediate of the most recent DEF: DEF number `k` of the sequence defines `i` and
no later one does. -/
theorem last_def_reg_some (defs : List (Int × List Nat)) (i : Int) (r : ureg_src) :
    ∀ n : Nat, last_def_reg n defs i = some r →
      ∃ k : Nat, k < defs.length ∧ r = ureg_src_register .IMMEDIATE ((n + k : Nat) : Int) ∧
        (defs[k]?.map Prod.fst) = some i ∧
        ∀ j : Nat, k < j → j < defs.length → (defs[j]?.map Prod.fst) ≠ some i := by
  induction defs with
  | nil => intro n h; simp [last_def_reg] at h
  | cons d rest ih =>
    intro n h
    rw [last_def_reg_cons] at h
    cases h1 : last_def_reg (n + 1) rest i with
    | some r1 =>
      rw [h1] at h
      simp only [Option.some.injEq] at h
      subst h
      obtain ⟨k, hk, hr, hd, hlast⟩ := ih (n + 1) h1
      refine ⟨k + 1, by simp; omega, ?_, by simpa using hd, ?_⟩
      · rw [hr]; congr 1; push_cast; omega
      · intro j hj hjl
        obtain ⟨j', rfl⟩ : ∃ j', j = j' + 1 := ⟨j - 1, by omega⟩
        simpa using hlast j' (by omega) (by simpa using hjl)
    | none =>
      rw [h1] at h
      simp only [] at h
      split at h
      · rename_i c
        simp only [Option.some.injEq] at h
        refine ⟨0, by simp, by rw [← h]; simp, by simp [c], ?_⟩
        intro j hj hjl
        obtain ⟨j', rfl⟩ : ∃ j', j = j' + 1 := ⟨j - 1, by omega⟩
        have hnone := (last_def_reg_none rest i (n + 1)).mp h1
        simp only [List.getElem?_cons_succ]
        simp only [List.length_cons, Nat.add_lt_add_iff_right] at hjl
        rw [List.getElem?_eq_getElem hjl]
        simp only [Option.map_some', ne_eq, Option.some.injEq]
        exact hnone _ (List.getElem_mem _)
      · cases h

theorem tx_src_param_file_CONST (tx : shader_translator) (p : sm1_src_param)
    (hf : p.file = D3DSPR_CONST) : tx_src_param_file tx p = tx_src_param_CONST tx p := by
  unfold tx_src_param_file
  rw [if_neg (by rw [hf]; decide), if_neg (by rw [hf]; decide), if_neg (by rw [hf]; decide),
    if_neg (by rw [hf]; decide), if_neg (by rw [hf]; decide), if_pos hf]

theorem sm1_parse_comments_loop_frame (fuel : Nat) : ∀ (tx tx' : shader_translator),
    sm1_parse_comments_loop fuel tx = .ok tx' →
    tx' = { tx with parse := tx'.parse } ∧ tx.parse ≤ tx'.parse := by
  induction fuel with
  | zero => intro tx tx' h; cases h
  | succ n ih =>
    intro tx tx' h
    unfold sm1_parse_comments_loop at h
    rw [bind_eq_ok] at h
    obtain ⟨tok, _, h⟩ := h
    split at h
    · obtain ⟨f, p⟩ := ih _ _ h
      refine ⟨by rw [f], ?_⟩
      simp only [] at p
      exact Nat.le_trans (Nat.le_add_right _ _) p
    · rw [pure_eq_ok] at h
      subst h
      exact ⟨rfl, Nat.le_refl _⟩

theorem sm1_parse_instruction_head_frame {tx tx1 : shader_translator}
    {info : Option sm1_op_info} (h : sm1_parse_instruction_head tx = .ok (info, tx1)) :
    decode_frame tx tx1 ∧ tx.parse < tx1.parse := by
  unfold sm1_parse_instruction_head at h
  simp only [bind_eq_ok, pure_eq_ok] at h
  obtain ⟨t0, h0, t1, h1, ⟨tok, t2⟩, h2, h⟩ := h
  rw [Prod.mk.injEq] at h
  obtain ⟨_, h⟩ := h
  subst h
  obtain ⟨f0, p0⟩ := sm1_parse_comments_loop_frame _ _ _ h0
  obtain ⟨_, rfl⟩ := TOKEN_NEXT_inv h2
  unfold sm1_parse_get_skip at h1
  rw [bind_eq_ok] at h1
  obtain ⟨_, _, h1⟩ := h1
  unfold decode_frame
  split at h1
  · rw [pure_eq_ok] at h1
    subst h1
    refine ⟨by rw [f0], ?_⟩
    simp only []
    omega
  · rw [pure_eq_ok] at h1
    subst h1
    refine ⟨by rw [f0], ?_⟩
    simp only []
    omega

theorem TOKEN_JUMP_frame (tx : shader_translator) :
    TOKEN_JUMP tx = { tx with parse := (TOKEN_JUMP tx).parse } := by
  unfold TOKEN_JUMP
  split
  · split <;> rfl
  · rfl

/-- The handler of an instruction, special or generic, acts as described by `eff`, from
the translator that the DCL handler sees after its two words. -/
theorem handler_eff {ta tb : shader_translator} {hr : HRESULT} {info : sm1_op_info}
    (h : (match info.handler with
          | some id => run_handler ta id
          | none => NineTranslateInstruction_Generic ta) = .ok (hr, tb)) :
    eff { ta with parse := ta.parse + (if info.handler = some .DCL then 2 else 0) } tb := by
  cases hh : info.handler with
  | none =>
    rw [hh] at h
    simpa using Generic_eff h
  | some id =>
    rw [hh] at h
    have := run_handler_eff h
    by_cases c : id = .DCL
    · subst c
      simpa using this
    · simpa [c] using this

/-- The flag `indirect_const_access` is raised by an instruction only if one of the
operands it decoded is a relatively addressed CONST register. -/
theorem sm1_parse_instruction_flag {tx tx' : shader_translator}
    (h : sm1_parse_instruction tx = .ok tx') (hf : tx'.indirect_const_access = true) :
    tx.indirect_const_access = true ∨ tx'.insn.rel_const = true := by
  unfold sm1_parse_instruction at h
  rw [bind_eq_ok] at h
  obtain ⟨⟨info, tx1⟩, h1, h⟩ := h
  obtain ⟨f1, _⟩ := sm1_parse_instruction_head_frame h1
  have hfl : tx1.indirect_const_access = tx.indirect_const_access := by rw [f1]
  cases info with
  | none =>
    simp only [pure_eq_ok] at h
    subst h
    left
    rw [← hfl]
    rw [TOKEN_JUMP_frame] at hf
    exact hf
  | some info =>
    simp only [] at h
    split at h
    · rw [pure_eq_ok] at h
      subst h
      left
      rw [← hfl]
      exact hf
    · obtain ⟨ta, hr, tb, r, h5, h6⟩ := sm1_parse_instruction_body_inv h
      have e := handler_eff h5
      subst h6
      have hfa : ta.indirect_const_access = tx1.indirect_const_access := by rw [r.1]
      have hib := eff_insn e
      simp only [] at hib
      rw [TOKEN_JUMP_frame] at hf ⊢
      rcases e.2 hf with hb | hb
      · left
        rw [← hfl, ← hfa]
        exact hb
      · right
        show tb.insn.rel_const = true
        rw [hib]
        exact hb

/-- The dispatch loop raises `indirect_const_access` only in a round that decodes a
relatively addressed CONST operand. -/
theorem nine_translate_shader_loop_flag (fuel : Nat) : ∀ (tx tx' : shader_translator),
    nine_translate_shader_loop fuel tx = .ok tx' → tx'.indirect_const_access = true →
    tx.indirect_const_access = true ∨
      ∃ r ∈ loop_rounds fuel tx, r.2.insn.rel_const = true := by
  induction fuel with
  | zero => intro tx tx' h; cases h
  | succ n ih =>
    intro tx tx' h hf
    unfold nine_translate_shader_loop at h
    rw [bind_eq_ok] at h
    obtain ⟨b, hb, h⟩ := h
    cases b with
    | true =>
      simp only [if_true, pure_eq_ok] at h
      subst h
      exact Or.inl hf
    | false =>
      simp only [Bool.false_eq_true, if_false, bind_eq_ok] at h
      obtain ⟨tx1, h1, h⟩ := h
      unfold loop_rounds
      rw [hb, h1]
      simp only [List.mem_cons, exists_eq_or_imp]
      rcases ih _ _ h hf with h2 | ⟨r, hr, h2⟩
      · rcases sm1_parse_instruction_flag h1 h2 with h3 | h3
        · exact Or.inl h3
        · exact Or.inr (Or.inl h3)
      · exact Or.inr (Or.inr ⟨r, hr, h2⟩)

/-- C22 (lowering of a float-constant source).  For a parameter of file CONST the operand
before swizzle and modifier is: without relative addressing, what `tx_lconstf` finds for
its index, or else register `idx` of the constant file; after a sequence of DEF
instructions `tx_lconstf` finds the immediate registered by the most recent DEF of the
index and nothing if there is none.  With relative addressing it is register `idx` of the
constant file, addressed indirectly by the lowered sub-parameter, and
`indirect_const_access` is set.  Lowering sets the flag in no other case, and an
instruction or the dispatch loop sets it only when an operand decoded is a relatively
addressed CONST register.  In `DEF c0; MOV r0, c0` the MOV reads immediate 0 and nothing
is exported; after a second DEF of c0 it reads immediate 1, and c1 is read from the
constant file; in `DEF c0; MOV r0, c0[a0.x]` it reads the constant file indirectly. -/
theorem C22_float_constant_lowering :
    (∀ (tx : shader_translator) (p : sm1_src_param), p.file = D3DSPR_CONST → p.rel = none →
      tx_src_param_file tx p = (tx_lconstf tx p.idx).bind (fun found =>
        match found with
        | some reg => .ok (reg, tx)
        | none => .ok (ureg_src_register .CONSTANT p.idx, tx))) ∧
    (∀ (tx0 : shader_translator) (defs : List (Int × List Nat)) (i : Int),
      tx0.lconstf = [] → tx0.num_lconstf = 0 → defs.length < 2 ^ 32 →
      (tx0.env.asserts = true → ∀ d ∈ defs, 0 ≤ d.1 ∧ d.1 < tx0.env.NINE_MAX_CONST_F) →
      (tx0.env.asserts = true → 0 ≤ i ∧ i < tx0.env.NINE_MAX_CONST_F) →
      ∃ tx, run_defs defs tx0 = .ok tx ∧
        tx_lconstf tx i = .ok (last_def_reg tx0.ureg.nr_immediates defs i)) ∧
    (∀ (defs : List (Int × List Nat)) (i : Int) (n : Nat),
      last_def_reg n defs i = none ↔ ∀ d ∈ defs, d.1 ≠ i) ∧
    (∀ (defs : List (Int × List Nat)) (i : Int) (r : ureg_src) (n : Nat),
      last_def_reg n defs i = some r →
      ∃ k : Nat, k < defs.length ∧ r = ureg_src_register .IMMEDIATE ((n + k : Nat) : Int) ∧
        (defs[k]?.map Prod.fst) = some i ∧
        ∀ j : Nat, k < j → j < defs.length → (defs[j]?.map Prod.fst) ≠ some i) ∧
    (∀ (tx : shader_translator) (p r : sm1_src_param), p.file = D3DSPR_CONST →
      p.rel = some r →
      tx_src_param_file tx p =
        .ok (ureg_src_register .CONSTANT p.idx, { tx with indirect_const_access := true }) ∧
      tx_src_param tx p =
        (tx_src_param { tx with indirect_const_access := true } r).bind (fun a =>
          tx_src_param_mod a.2 p.mod (tx_src_param_swizzle p.swizzle
            (ureg_src_indirect (ureg_src_register .CONSTANT p.idx) a.1)))) ∧
    (∀ (tx tx' : shader_translator) (p : sm1_src_param) (r : ureg_src),
      tx_src_param tx p = .ok (r, tx') →
      tx'.indirect_const_access = (tx.indirect_const_access || p.rel_const)) ∧
    (∀ (tx tx' : shader_translator) (p : sm1_dst_param) (r : ureg_dst),
      tx_dst_param tx p = .ok (r, tx') →
      tx'.indirect_const_access = (tx.indirect_const_access ||
        (match p.rel with
         | some q => q.rel_const
         | none => false))) ∧
    (∀ (tx tx' : shader_translator), sm1_parse_instruction tx = .ok tx' →
      tx'.indirect_const_access = true →
      tx.indirect_const_access = true ∨ tx'.insn.rel_const = true) ∧
    (∀ (fuel : Nat) (tx tx' : shader_translator),
      nine_translate_shader_loop fuel tx = .ok tx' → tx'.indirect_const_access = true →
      tx.indirect_const_access = true ∨
        ∃ r ∈ loop_rounds fuel tx, r.2.insn.rel_const = true) ∧
    (∀ env : build_env, (shader_translator.calloc env).indirect_const_access = false) ∧
    result_of ((nine_translate_shader small_device (example_info .VERTEX prog_def_mov)).map
        (fun r => (r.1, r.2.lconstf_num, (emitted_insns r.2).map ureg_item.opcode)))
      = some (.D3D_OK, 0, [.MOV, .END]) ∧
    result_of ((nine_translate_shader small_device (example_info .VERTEX prog_def_mov)).map
        (fun r => (emitted_insns r.2).map ureg_item.src_regs))
      = some [[(.IMMEDIATE, 0)], []] ∧
    result_of ((nine_translate_shader small_device
        (example_info .VERTEX prog_def_def_mov)).map
        (fun r => (emitted_insns r.2).map ureg_item.src_regs))
      = some [[(.IMMEDIATE, 1)], [(.CONSTANT, 1)], []] ∧
    result_of ((nine_translate_shader small_device
        (example_info .VERTEX prog_def_mov_rel)).map
        (fun r => (r.2.lconstf_num, (emitted_insns r.2).map ureg_item.src_regs)))
      = some (1, [[(.CONSTANT, 0)], []]) := by
  refine ⟨?_, ?_, ?_, ?_, ?_, ?_, ?_, ?_, ?_, ?_, ?_, ?_, ?_, ?_⟩
  · intro tx p hf hrel
    rw [tx_src_param_file_CONST tx p hf]
    unfold tx_src_param_CONST
    rw [hrel]
    rfl
  · intro tx0 defs i hl hn hlen hd hi
    have hshape : lconstf_shape tx0 := by
      unfold lconstf_shape; rw [hl, hn]; simp
    obtain ⟨tx, hrun, hs, he, hfind⟩ := run_defs_lookup defs tx0 hshape (by rw [hn]; omega) hd
    refine ⟨tx, hrun, ?_⟩
    rw [tx_lconstf_eq tx i hs (by rw [he]; exact hi), hfind i]
    have : lconstf_entries tx0 = [] := by simp [lconstf_entries, hl]
    rw [this]
    cases last_def_reg tx0.ureg.nr_immediates defs i <;> rfl
  · intro defs i n
    exact last_def_reg_none defs i n
  · intro defs i r n h
    exact last_def_reg_some defs i r n h
  · intro tx p r hf hrel
    have h1 : tx_src_param_file tx p =
        .ok (ureg_src_register .CONSTANT p.idx, { tx with indirect_const_access := true }) := by
      rw [tx_src_param_file_CONST tx p hf]
      unfold tx_src_param_CONST
      rw [hrel]
      rfl
    refine ⟨h1, ?_⟩
    obtain ⟨idx, rel, file, swizzle, mod, type, imm⟩ := p
    simp only at hrel
    subst hrel
    rw [tx_src_param, h1]
    rfl
  · intro tx tx' p r h
    exact steps_flag (tx_src_param_steps p tx tx' r h)
  · intro tx tx' p r h
    exact steps_flag (tx_dst_param_steps tx tx' p r h)
  · intro tx tx' h hf
    exact sm1_parse_instruction_flag h hf
  · intro fuel tx tx' h hf
    exact nine_translate_shader_loop_flag fuel tx tx' h hf
  · intro env; rfl
  · decide!
  · decide!
  · decide!
  · decide!

theorem steps_insn {i b : Bool} {tx tx' : shader_translator} (h : steps i b tx tx') :
    tx'.insn = tx.insn := by
  rw [h.1]

theorem steps_tx_insns {b : Bool} {tx tx' : shader_translator} (h : steps false b tx tx') :
    tx_insns tx' = tx_insns tx := by
  obtain ⟨_, l, hl, hp⟩ := h
  unfold tx_insns
  rw [hl, List.filter_append]
  have : l.filter ureg_item.is_insn = [] := by
    rw [List.filter_eq_nil_iff]
    intro it hit
    rw [(hp it hit).2 rfl]
    simp
  rw [this, List.append_nil]

/-- Lowering parameters without emitting modifiers adds no instruction. -/
theorem lower_in_order_quiet (ps : List sm1_src_param) :
    ∀ (tx tx' : shader_translator) (ss : List ureg_src),
      (∀ p ∈ ps, p.emits = false) → lower_in_order tx ps = .ok (ss, tx') →
      tx_insns tx' = tx_insns tx ∧ tx'.insn = tx.insn ∧ ss.length = ps.length := by
  induction ps with
  | nil =>
    intro tx tx' ss _ h
    unfold lower_in_order at h
    cases h
    exact ⟨rfl, rfl, rfl⟩
  | cons p ps ih =>
    intro tx tx' ss hq h
    unfold lower_in_order at h
    rw [except_bind_eq_ok] at h
    obtain ⟨⟨s, t1⟩, h1, h⟩ := h
    rw [except_bind_eq_ok] at h
    obtain ⟨⟨rest, t2⟩, h2, h⟩ := h
    simp only [Except.ok.injEq, Prod.mk.injEq] at h
    obtain ⟨rfl, rfl⟩ := h
    have s1 := tx_src_param_steps p _ _ _ h1
    rw [hq p (List.mem_cons_self _ _)] at s1
    obtain ⟨i2, j2, l2⟩ := ih _ _ _ (fun q hq2 => hq q (List.mem_cons_of_mem _ hq2)) h2
    exact ⟨i2.trans (steps_tx_insns s1), j2.trans (steps_insn s1), by simp [l2]⟩

theorem generic_lower_src_eq (todo : Nat) : ∀ (i : Nat) (tx : shader_translator),
    i + todo = 4 →
    generic_lower_src tx todo i =
      lower_in_order tx (([tx.insn.src0, tx.insn.src1, tx.insn.src2, tx.insn.src3].take
        tx.insn.nsrc).drop i) := by
  induction todo with
  | zero =>
    intro i tx hi
    have : i = 4 := by omega
    subst this
    unfold generic_lower_src
    have : (([tx.insn.src0, tx.insn.src1, tx.insn.src2, tx.insn.src3].take
        tx.insn.nsrc).drop 4) = [] := by
      apply List.drop_eq_nil_of_le
      simp [List.length_take]
    rw [this]
    rfl
  | succ n ih =>
    intro i tx hi
    have hi4 : i < 4 := by omega
    unfold generic_lower_src
    by_cases c : i < tx.insn.nsrc
    · rw [if_pos c]
      have hl4 : i < [tx.insn.src0, tx.insn.src1, tx.insn.src2, tx.insn.src3].length := by
        simpa using hi4
      have hsrc : tx.insn.src i =
          [tx.insn.src0, tx.insn.src1, tx.insn.src2, tx.insn.src3][i]? := by
        unfold sm1_instruction.src
        rcases i with _ | _ | _ | _ | i
        · rfl
        · rfl
        · rfl
        · rfl
        · omega
      rw [hsrc, List.getElem?_eq_getElem hl4]
      have hlt : i < ([tx.insn.src0, tx.insn.src1, tx.insn.src2, tx.insn.src3].take
          tx.insn.nsrc).length := by
        simp [List.length_take]; omega
      rw [List.drop_eq_getElem_cons hlt, List.getElem_take]
      simp only []
      unfold lower_in_order
      simp only [bind, Except.bind]
      generalize [tx.insn.src0, tx.insn.src1, tx.insn.src2, tx.insn.src3][i] = p
      cases h1 : tx_src_param tx p with
      | error e => rfl
      | ok a =>
        obtain ⟨s, t1⟩ := a
        have hins : t1.insn = tx.insn := steps_insn (tx_src_param_steps _ _ _ _ h1)
        simp only []
        rw [ih (i + 1) t1 (by omega), hins]
        rfl
    · rw [if_neg c]
      have : (([tx.insn.src0, tx.insn.src1, tx.insn.src2, tx.insn.src3].take
          tx.insn.nsrc).drop i) = [] := by
        apply List.drop_eq_nil_of_le
        simp [List.length_take]; omega
      rw [this]
      rfl

theorem tx_insns_insn (tx : shader_translator) (op : tgsi_opcode) (d : List ureg_dst)
    (s : List ureg_src) : tx_insns (tx_insn tx op d s) = tx_insns tx ++ [.insn op d s] := by
  simp [tx_insns, tx_insn, tx_emit, ureg_insn, ureg_program.log, List.filter_append,
    ureg_item.is_insn]

/-- The generic handler on operands without emitting modifiers: the destinations, then the
sources in order are lowered without an instruction, and one instruction with the target
opcode of the row is emitted with them. -/
theorem Generic_quiet {ta tb : shader_translator} {hr : HRESULT} {info : sm1_op_info}
    (h : NineTranslateInstruction_Generic ta = .ok (hr, tb))
    (hq : ta.insn.emits = false) (hi : ta.insn.info = some info) :
    ∃ (dsts : List ureg_dst) (srcs : List ureg_src) (t1 t2 : shader_translator),
      generic_lower_dst ta = .ok (dsts, t1) ∧
      lower_in_order t1 ta.insn.sources = .ok (srcs, t2) ∧
      dsts.length = ta.insn.ndst ∧ srcs.length = ta.insn.nsrc ∧
      tx_insns tb = tx_insns ta ++ [.insn info.opcode dsts srcs] ∧ tb.insn = ta.insn := by
  unfold NineTranslateInstruction_Generic at h
  simp only [bind_eq_ok, pure_eq_ok] at h
  obtain ⟨⟨d, t1⟩, h1, ⟨s, t2⟩, h2, h⟩ := h
  simp only [sm1_instruction.emits, Bool.or_eq_false_iff, Bool.and_eq_false_imp,
    decide_eq_true_eq] at hq
  obtain ⟨⟨⟨⟨q0, q1⟩, q2⟩, q3⟩, q4⟩ := hq
  -- the destination
  have hd : tx_insns t1 = tx_insns ta ∧ t1.insn = ta.insn ∧
      (d.length = ta.insn.ndst ∨ 1 < ta.insn.ndst) := by
    unfold generic_lower_dst at h1
    split at h1
    · rename_i c
      simp only [bind_eq_ok, pure_eq_ok] at h1
      obtain ⟨⟨d0, t⟩, hd0, h1⟩ := h1
      rw [Prod.mk.injEq] at h1
      obtain ⟨rfl, rfl⟩ := h1
      have st : steps false _ ta t :=
        steps_congr (tx_dst_param_steps _ _ _ _ hd0) (q0 c) rfl
      refine ⟨steps_tx_insns st, steps_insn st, ?_⟩
      simp only [List.length_singleton]
      omega
    · rename_i c
      rw [pure_eq_ok, Prod.mk.injEq] at h1
      obtain ⟨rfl, rfl⟩ := h1
      exact ⟨rfl, rfl, Or.inl (by simp; omega)⟩
  obtain ⟨hd1, hd2, hd3⟩ := hd
  -- the sources
  have h4 : ta.insn.nsrc ≤ 4 ∧ ta.insn.ndst ≤ 1 := by
    by_contra hc
    have hi2 : t2.insn = ta.insn := by
      have := eff_insn (generic_lower_src_eff _ _ _ _ _ h2)
      simp only [] at this
      rw [this, hd2]
    simp only [] at h
    rw [hi2, hi] at h
    simp only [] at h
    rw [if_pos (by omega)] at h
    simp only [bind_eq_ok] at h
    obtain ⟨_, ht, _⟩ := h
    exact absurd ht (throw_ne_ok _ _)
  rw [generic_lower_src_eq 4 0 t1 rfl, List.drop_zero, hd2] at h2
  have hsq : ∀ p ∈ ta.insn.sources, p.emits = false := by
    intro p hp
    unfold sm1_instruction.sources at hp
    have hmem := List.mem_take_iff_getElem.mp hp
    obtain ⟨i, hi1, rfl⟩ := hmem
    simp only [List.length_cons, List.length_nil, Nat.reduceAdd, lt_inf_iff] at hi1
    rcases i with _ | _ | _ | _ | i
    · exact q1 (by omega)
    · exact q2 (by omega)
    · exact q3 (by omega)
    · exact q4 (by omega)
    · omega
  obtain ⟨s1, s2, s3⟩ := lower_in_order_quiet _ _ _ _ hsq h2
  rw [s2, hd2, hi] at h
  simp only [] at h
  rw [if_neg (by omega)] at h
  simp only [bind_eq_ok, pure_eq_ok] at h
  obtain ⟨_, _, h⟩ := h
  rw [Prod.mk.injEq] at h
  obtain ⟨_, h⟩ := h
  subst h
  refine ⟨d, s, t1, t2, h1, h2, by omega, ?_, ?_, ?_⟩
  · rw [s3]
    simp [sm1_instruction.sources, List.length_take]
    omega
  · rw [tx_insns_insn, s1, hd1]
  · show t2.insn = ta.insn
    rw [s2, hd2]

theorem decode_frame_rejected {tx tx1 : shader_translator} (h : decode_frame tx tx1)
    (insn : sm1_instruction) (info : sm1_op_info) :
    sm1_version_rejected { tx1 with insn := insn } info = sm1_version_rejected tx info := by
  unfold decode_frame at h
  unfold sm1_version_rejected IS_VS
  rw [h]

theorem reads_tx_insns {n : Nat} {tx tx' : shader_translator} (h : reads n tx tx') :
    tx_insns tx' = tx_insns tx := by
  unfold tx_insns
  rw [h.1]

theorem TOKEN_JUMP_insns (tx : shader_translator) :
    tx_insns (TOKEN_JUMP tx) = tx_insns tx ∧ (TOKEN_JUMP tx).insn = tx.insn := by
  rw [TOKEN_JUMP_frame]
  exact ⟨rfl, rfl⟩

/-- One round of the dispatch loop on a version-valid instruction without special handler
and without emitting modifiers adds exactly one instruction: the target opcode of the row
with `ndst` destinations and `nsrc` sources, which are the operands of the decoded
instruction lowered in order. -/
theorem generic_round_emits {tx tx' : shader_translator}
    (h : sm1_parse_instruction tx = .ok tx') (hg : generic_round (tx, tx') = true) :
    ∃ (info : sm1_op_info) (dsts : List ureg_dst) (srcs : List ureg_src)
      (ta t1 t2 : shader_translator),
      round_row tx = some info ∧ ta.insn = tx'.insn ∧
      generic_lower_dst ta = .ok (dsts, t1) ∧
      lower_in_order t1 tx'.insn.sources = .ok (srcs, t2) ∧
      dsts.length = info.ndst ∧ srcs.length = info.nsrc ∧ tx'.insn.nsrc = info.nsrc ∧
      tx_insns tx' = tx_insns tx ++ [.insn info.opcode dsts srcs] := by
  have hg2 : ∃ info, round_row tx = some info ∧ info.handler = none ∧
      sm1_version_rejected tx info = false ∧ tx'.insn.emits = false := by
    unfold generic_round at hg
    cases hr : round_row tx with
    | none => rw [hr] at hg; cases hg
    | some info =>
      rw [hr] at hg
      simp only [Bool.and_eq_true, Bool.not_eq_true', Option.isNone_iff_eq_none] at hg
      exact ⟨info, rfl, hg.1.1, hg.1.2, hg.2⟩
  obtain ⟨info, hrow, hnone, hver, hq⟩ := hg2
  unfold round_row at hrow
  unfold sm1_parse_instruction at h
  rw [bind_eq_ok] at h
  obtain ⟨⟨oi, tx1⟩, h1, h⟩ := h
  rw [h1] at hrow
  simp only [] at hrow
  subst hrow
  obtain ⟨f1, _⟩ := sm1_parse_instruction_head_frame h1
  simp only [] at h
  rw [decode_frame_rejected f1, hver] at h
  simp only [Bool.false_eq_true, if_false] at h
  obtain ⟨ta, hr, tb, r, h5, h6⟩ := sm1_parse_instruction_body_inv h
  rw [hnone] at h5
  simp only [] at h5
  have hh := reads_head r
  simp only [] at hh
  obtain ⟨_, _, _, hnd, hns, hinf⟩ := hh
  subst h6
  have hjb := TOKEN_JUMP_insns tb
  -- the handler sees the decoded instruction
  have hib : tb.insn = ta.insn := eff_insn (Generic_eff h5)
  have hqa : ta.insn.emits = false := by rw [← hib, ← hjb.2]; exact hq
  obtain ⟨dsts, srcs, t1, t2, g1, g2, g3, g4, g5, g6⟩ := Generic_quiet h5 hqa hinf
  refine ⟨info, dsts, srcs, ta, t1, t2, by unfold round_row; rw [h1],
    by rw [hjb.2, hib], g1, ?_, by rw [g3, hnd],
    by rw [g4, hns], by rw [hjb.2, hib, hns], ?_⟩
  · rw [hjb.2, hib]; exact g2
  · rw [hjb.1, g5, reads_tx_insns r]
    have : tx_insns { tx1 with insn :=
        { tx1.insn with info := some info, ndst := info.ndst, nsrc := info.nsrc } } =
        tx_insns tx := by
      unfold tx_insns
      unfold decode_frame at f1
      rw [f1]
    rw [this]

theorem tx_insns_signature (op : tgsi_opcode) (d : List ureg_dst) (s : List ureg_src) :
    ureg_item.signature (.insn op d s) = (op, d.length, s.length) := rfl

/-- The dispatch loop on a program of version-valid instructions without special handler
and without emitting modifiers: the instructions emitted are, in the order of the rounds,
the target opcodes of the rows with their operand counts. -/
theorem generic_loop_emits (fuel : Nat) : ∀ (tx tx' : shader_translator),
    nine_translate_shader_loop fuel tx = .ok tx' →
    (∀ r ∈ loop_rounds fuel tx, generic_round r = true) →
    (tx_insns tx').map ureg_item.signature =
      (tx_insns tx).map ureg_item.signature ++ (loop_rounds fuel tx).map round_signature := by
  induction fuel with
  | zero => intro tx tx' h; cases h
  | succ n ih =>
    intro tx tx' h hall
    unfold nine_translate_shader_loop at h
    rw [bind_eq_ok] at h
    obtain ⟨b, hb, h⟩ := h
    cases b with
    | true =>
      simp only [if_true, pure_eq_ok] at h
      subst h
      unfold loop_rounds
      rw [hb]
      simp
    | false =>
      simp only [Bool.false_eq_true, if_false, bind_eq_ok] at h
      obtain ⟨tx1, h1, h⟩ := h
      unfold loop_rounds at hall ⊢
      rw [hb, h1] at hall ⊢
      simp only [List.mem_cons, forall_eq_or_imp] at hall
      obtain ⟨hg, hrest⟩ := hall
      obtain ⟨info, dsts, srcs, ta, t1, t2, hrow, _, _, _, hd, hs, _, hins⟩ :=
        generic_round_emits h1 hg
      rw [ih _ _ h hrest, hins]
      simp only [List.map_append, List.map_cons, List.map_nil, List.append_assoc,
        List.singleton_append, tx_insns_signature, hd, hs]
      congr 2
      unfold round_signature
      simp only []
      rw [hrow]

theorem head_parse_next {tx tx1 : shader_translator} {info : Option sm1_op_info}
    (h : sm1_parse_instruction_head tx = .ok (info, tx1)) :
    ∀ n, tx1.parse_next = some n → tx1.parse ≤ n := by
  unfold sm1_parse_instruction_head at h
  simp only [bind_eq_ok, pure_eq_ok] at h
  obtain ⟨t0, h0, t1, h1, ⟨tok, t2⟩, h2, h⟩ := h
  rw [Prod.mk.injEq] at h
  obtain ⟨_, h⟩ := h
  subst h
  obtain ⟨_, rfl⟩ := TOKEN_NEXT_inv h2
  unfold sm1_parse_get_skip at h1
  rw [bind_eq_ok] at h1
  obtain ⟨_, _, h1⟩ := h1
  intro n hn
  split at h1
  · rw [pure_eq_ok] at h1
    subst h1
    simp only [Option.some.injEq] at hn
    simp only []
    rw [← hn]
    exact Nat.le_add_right _ _
  · rw [pure_eq_ok] at h1
    subst h1
    cases hn

theorem TOKEN_JUMP_parse (tx : shader_translator) (p : Nat) (h1 : p < tx.parse)
    (h2 : ∀ n, tx.parse_next = some n → p < n) : p < (TOKEN_JUMP tx).parse := by
  unfold TOKEN_JUMP
  cases hn : tx.parse_next with
  | none => exact h1
  | some n =>
    simp only []
    split
    · exact h2 n hn
    · exact h1

/-- Every round of the dispatch loop moves the cursor forward and leaves the token
stream as it is. -/
theorem sm1_parse_instruction_progress {tx tx' : shader_translator}
    (h : sm1_parse_instruction tx = .ok tx') :
    tx.parse < tx'.parse ∧ tx'.byte_code = tx.byte_code := by
  unfold sm1_parse_instruction at h
  rw [bind_eq_ok] at h
  obtain ⟨⟨info, tx1⟩, h1, h⟩ := h
  obtain ⟨f1, p1⟩ := sm1_parse_instruction_head_frame h1
  have hn := head_parse_next h1
  have hb1 : tx1.byte_code = tx.byte_code := by rw [f1]
  cases info with
  | none =>
    simp only [pure_eq_ok] at h
    subst h
    refine ⟨TOKEN_JUMP_parse tx1 tx.parse p1 (fun n h => Nat.lt_of_lt_of_le p1 (hn n h)), ?_⟩
    rw [TOKEN_JUMP_frame]
    exact hb1
  | some info =>
    simp only [] at h
    split at h
    · rw [pure_eq_ok] at h
      subst h
      exact ⟨p1, hb1⟩
    · obtain ⟨ta, hr, tb, r, h5, h6⟩ := sm1_parse_instruction_body_inv h
      obtain ⟨c1, c2, c3, _⟩ := handler_cursor h5
      subst h6
      have ra : tx1.parse ≤ ta.parse := Nat.le_trans (Nat.le_add_right _ _) r.2.2.1
      have rn : ta.parse_next = tx1.parse_next := by rw [r.1]
      have rb : ta.byte_code = tx1.byte_code := by rw [r.1]
      refine ⟨TOKEN_JUMP_parse tb tx.parse ?_ ?_, ?_⟩
      · rw [c1]
        exact Nat.lt_of_lt_of_le p1 (Nat.le_trans ra (Nat.le_add_right _ _))
      · intro n h
        rw [c2, rn] at h
        exact Nat.lt_of_lt_of_le p1 (hn n h)
      · rw [TOKEN_JUMP_frame]
        show tb.byte_code = tx.byte_code
        rw [c3, rb, hb1]

theorem sm1_parse_eof_lt {tx : shader_translator} {b : Bool} (h : sm1_parse_eof tx = .ok b) :
    tx.parse < tx.byte_code.length := by
  unfold sm1_parse_eof TOKEN_PEEK at h
  by_contra hc
  rw [List.getElem?_eq_none (by omega)] at h
  cases h

/-- The dispatch loop does not depend on the fuel once it covers one round per word left
in the stream and the final test. -/
theorem loop_fuel_irrelevant (fuel : Nat) : ∀ (k : Nat) (tx : shader_translator),
    tx.byte_code.length + 1 ≤ fuel + tx.parse → 1 ≤ fuel →
    nine_translate_shader_loop (fuel + k) tx = nine_translate_shader_loop fuel tx := by
  induction fuel with
  | zero => intro k tx _ h; omega
  | succ n ih =>
    intro k tx hb _
    have : n + 1 + k = (n + k) + 1 := by omega
    rw [this]
    unfold nine_translate_shader_loop
    simp only [bind, Except.bind]
    cases he : sm1_parse_eof tx with
    | error e => rfl
    | ok b =>
      have hlt := sm1_parse_eof_lt he
      cases b with
      | true => rfl
      | false =>
        simp only [Bool.false_eq_true, if_false]
        cases hp : sm1_parse_instruction tx with
        | error e => rfl
        | ok tx1 =>
          obtain ⟨p, hbc⟩ := sm1_parse_instruction_progress hp
          simp only []
          exact ih k tx1 (by rw [hbc]; omega) (by omega)

theorem tx_before_loop_insns (device : NineDevice9) (tx : shader_translator) :
    tx_insns (tx_before_loop device tx) = tx_insns tx := by
  have : (tx_before_loop device tx).ureg = (tx_decl_constants tx).ureg := rfl
  unfold tx_insns
  rw [this, tx_decl_constants_items, List.filter_append]
  have : ((List.range (decl_constants_count tx.env)).map ureg_item.DECL_constant).filter
      ureg_item.is_insn = [] := by
    rw [List.filter_eq_nil_iff]
    intro it hit
    obtain ⟨i, _, rfl⟩ := List.mem_map.mp hit
    simp [ureg_item.is_insn]
  rw [this, List.append_nil]

/-! ## No run ends for lack of fuel

Only the two loops of the model that stand for `while` loops of the C code can report
`Fault.fuel`; both get one round per word that is left in the stream, and every round
moves the cursor forward. -/


theorem no_fuel_ok {α : Type} (a : α) : no_fuel (.ok a : Except Fault α) := by
  intro h; cases h

theorem no_fuel_pure {α : Type} (a : α) : no_fuel (pure a : Except Fault α) := by
  intro h; cases h

theorem no_fuel_undefined {α : Type} : no_fuel (.error .undefined : Except Fault α) := by
  intro h; cases h

theorem no_fuel_assertion {α : Type} : no_fuel (.error .assertion : Except Fault α) := by
  intro h; cases h

theorem no_fuel_throw_undefined {α : Type} :
    no_fuel (throw Fault.undefined : Except Fault α) := by
  intro h; cases h

theorem no_fuel_throw_assertion {α : Type} :
    no_fuel (throw Fault.assertion : Except Fault α) := by
  intro h; cases h

theorem no_fuel_bind_of_ok {α β : Type} {x : Except Fault α} {f : α → Except Fault β}
    (hx : no_fuel x) (hf : ∀ a, x = .ok a → no_fuel (f a)) : no_fuel (x >>= f) := by
  cases x with
  | error e =>
    intro h
    simp only [bind, Except.bind, Except.error.injEq] at h
    subst h
    exact hx rfl
  | ok a => exact hf a rfl

theorem no_fuel_bind {α β : Type} {x : Except Fault α} {f : α → Except Fault β}
    (hx : no_fuel x) (hf : ∀ a, no_fuel (f a)) : no_fuel (x >>= f) :=
  no_fuel_bind_of_ok hx (fun a _ => hf a)

theorem no_fuel_ebind {α β : Type} {x : Except Fault α} {f : α → Except Fault β}
    (hx : no_fuel x) (hf : ∀ a, no_fuel (f a)) : no_fuel (x.bind f) :=
  no_fuel_bind hx hf

theorem no_fuel_map {α β : Type} {x : Except Fault α} {f : α → β}
    (hx : no_fuel x) : no_fuel (x.map f) := by
  cases x with
  | error e =>
    intro h
    simp only [Except.map, Except.error.injEq] at h
    subst h
    exact hx rfl
  | ok a => exact no_fuel_ok _

theorem no_fuel_ite {α : Type} {c : Prop} [Decidable c] {a b : Except Fault α}
    (ha : no_fuel a) (hb : no_fuel b) : no_fuel (if c then a else b) := by
  split
  · exact ha
  · exact hb

theorem tx_assert_no_fuel (tx : shader_translator) (c : Bool) : no_fuel (tx_assert tx c) := by
  unfold tx_assert
  split
  · exact no_fuel_assertion
  · exact no_fuel_ok _

theorem arr_get_no_fuel {α : Type} (l : List α) (i : Int) : no_fuel (arr_get l i) := by
  unfold arr_get
  split
  · exact no_fuel_undefined
  · split
    · exact no_fuel_ok _
    · exact no_fuel_undefined

theorem arr_set_no_fuel {α : Type} (l : List α) (i : Int) (x : α) :
    no_fuel (arr_set l i x) := by
  unfold arr_set
  split
  · exact no_fuel_undefined
  · split
    · exact no_fuel_ok _
    · exact no_fuel_undefined




theorem lconstf_search_no_fuel (lconstf : List sm1_local_const) (index : Int) (num : Nat) :
    ∀ (todo n : Nat), no_fuel (lconstf_search lconstf index num todo n) := by
  intro todo
  induction todo with
  | zero => intro n; unfold lconstf_search; exact no_fuel_ok _
  | succ k ih =>
    intro n
    unfold lconstf_search
    repeat' (first
      | (with_reducible first
          | apply ih
          | exact no_fuel_ok _ | exact no_fuel_pure _ | exact no_fuel_undefined
          | exact no_fuel_assertion | exact no_fuel_throw_undefined
          | exact no_fuel_throw_assertion | refine no_fuel_bind ?_ (fun _ => ?_)
          | refine no_fuel_ebind ?_ (fun _ => ?_) | refine no_fuel_map ?_ | apply no_fuel_ite)
      | split )

theorem tx_lconstf_no_fuel (tx : shader_translator) (index : Int) :
    no_fuel (tx_lconstf tx index) := by
  unfold tx_lconstf
  repeat' (first
    | (with_reducible first
        | exact no_fuel_ok _ | exact no_fuel_pure _ | exact no_fuel_undefined
        | exact no_fuel_assertion | exact no_fuel_throw_undefined
        | exact no_fuel_throw_assertion | apply lconstf_search_no_fuel
        | apply tx_assert_no_fuel | apply arr_get_no_fuel
        | refine no_fuel_bind ?_ (fun _ => ?_) | refine no_fuel_ebind ?_ (fun _ => ?_)
        | refine no_fuel_map ?_ | apply no_fuel_ite))

theorem tx_lconsti_no_fuel (tx : shader_translator) (index : Int) :
    no_fuel (tx_lconsti tx index) := by
  unfold tx_lconsti
  repeat' (first
    | (with_reducible first
        | exact no_fuel_ok _ | exact no_fuel_pure _ | exact no_fuel_undefined
        | exact no_fuel_assertion | exact no_fuel_throw_undefined
        | exact no_fuel_throw_assertion | apply tx_assert_no_fuel | apply arr_get_no_fuel
        | refine no_fuel_bind ?_ (fun _ => ?_) | refine no_fuel_ebind ?_ (fun _ => ?_)
        | refine no_fuel_map ?_ | apply no_fuel_ite))

theorem tx_lconstb_no_fuel (tx : shader_translator) (index : Int) :
    no_fuel (tx_lconstb tx index) := by
  unfold tx_lconstb
  repeat' (first
    | (with_reducible first
        | exact no_fuel_ok _ | exact no_fuel_pure _ | exact no_fuel_undefined
        | exact no_fuel_assertion | exact no_fuel_throw_undefined
        | exact no_fuel_throw_assertion | apply tx_assert_no_fuel | apply arr_get_no_fuel
        | refine no_fuel_bind ?_ (fun _ => ?_) | refine no_fuel_ebind ?_ (fun _ => ?_)
        | refine no_fuel_map ?_ | apply no_fuel_ite))

theorem tx_set_lconstf_no_fuel (tx : shader_translator) (index : Int) (f : List Nat) :
    no_fuel (tx_set_lconstf tx index f) := by
  unfold tx_set_lconstf
  repeat' (first
    | (with_reducible first
        | exact no_fuel_ok _ | exact no_fuel_pure _ | exact no_fuel_undefined
        | exact no_fuel_assertion | exact no_fuel_throw_undefined
        | exact no_fuel_throw_assertion | apply lconstf_search_no_fuel
        | apply tx_assert_no_fuel | apply arr_set_no_fuel
        | refine no_fuel_bind ?_ (fun _ => ?_)))

theorem tx_set_lconsti_no_fuel (tx : shader_translator) (index : Int) (i : List Nat) :
    no_fuel (tx_set_lconsti tx index i) := by
  unfold tx_set_lconsti
  repeat' (first
    | (with_reducible first
        | exact no_fuel_ok _ | exact no_fuel_pure _ | exact no_fuel_undefined
        | exact no_fuel_assertion | exact no_fuel_throw_undefined
        | exact no_fuel_throw_assertion | apply tx_assert_no_fuel | apply arr_get_no_fuel
        | apply arr_set_no_fuel | refine no_fuel_bind ?_ (fun _ => ?_)))

theorem tx_set_lconstb_no_fuel (tx : shader_translator) (index : Int) (b : Nat) :
    no_fuel (tx_set_lconstb tx index b) := by
  unfold tx_set_lconstb
  repeat' (first
    | (with_reducible first
        | exact no_fuel_ok _ | exact no_fuel_pure _ | exact no_fuel_undefined
        | exact no_fuel_assertion | exact no_fuel_throw_undefined
        | exact no_fuel_throw_assertion | apply tx_assert_no_fuel | apply arr_get_no_fuel
        | apply arr_set_no_fuel | refine no_fuel_bind ?_ (fun _ => ?_)))

theorem tx_scratch_no_fuel (tx : shader_translator) :
    no_fuel (tx_scratch tx) := by
  unfold tx_scratch
  repeat' (first
    | (with_reducible first
        | exact no_fuel_ok _ | exact no_fuel_pure _ | exact no_fuel_undefined
        | exact no_fuel_assertion | exact no_fuel_throw_undefined
        | exact no_fuel_throw_assertion | apply tx_assert_no_fuel | apply arr_get_no_fuel
        | refine no_fuel_bind ?_ (fun _ => ?_)))

theorem tx_scratch_scalar_no_fuel (tx : shader_translator) :
    no_fuel (tx_scratch_scalar tx) := by
  unfold tx_scratch_scalar
  repeat' (first
    | (with_reducible first
        | exact no_fuel_ok _ | exact no_fuel_pure _ | exact no_fuel_undefined
        | exact no_fuel_assertion | exact no_fuel_throw_undefined
        | exact no_fuel_throw_assertion | apply tx_scratch_no_fuel
        | refine no_fuel_bind ?_ (fun _ => ?_)))

theorem tx_src_scalar_no_fuel (dst : ureg_dst) :
    no_fuel (tx_src_scalar dst) := by
  unfold tx_src_scalar
  repeat' (first
    | (with_reducible first
        | exact no_fuel_ok _ | exact no_fuel_pure _ | exact no_fuel_undefined
        | exact no_fuel_assertion | exact no_fuel_throw_undefined
        | exact no_fuel_throw_assertion | refine no_fuel_bind ?_ (fun _ => ?_)
        | refine no_fuel_ebind ?_ (fun _ => ?_) | refine no_fuel_map ?_ | apply no_fuel_ite))

theorem tx_temp_alloc_no_fuel (tx : shader_translator) (idx : Int) :
    no_fuel (tx_temp_alloc tx idx) := by
  unfold tx_temp_alloc
  repeat' (first
    | (with_reducible first
        | exact no_fuel_ok _ | exact no_fuel_pure _ | exact no_fuel_undefined
        | exact no_fuel_assertion | exact no_fuel_throw_undefined
        | exact no_fuel_throw_assertion | apply tx_assert_no_fuel | apply arr_get_no_fuel
        | apply arr_set_no_fuel | refine no_fuel_bind ?_ (fun _ => ?_)
        | refine no_fuel_ebind ?_ (fun _ => ?_) | refine no_fuel_map ?_ | apply no_fuel_ite))

theorem tx_addr_alloc_no_fuel (tx : shader_translator) (idx : Int) :
    no_fuel (tx_addr_alloc tx idx) := by
  unfold tx_addr_alloc
  repeat' (first
    | (with_reducible first
        | exact no_fuel_ok _ | exact no_fuel_pure _ | exact no_fuel_undefined
        | exact no_fuel_assertion | exact no_fuel_throw_undefined
        | exact no_fuel_throw_assertion | apply tx_assert_no_fuel
        | refine no_fuel_bind ?_ (fun _ => ?_) | refine no_fuel_ebind ?_ (fun _ => ?_)
        | refine no_fuel_map ?_ | apply no_fuel_ite))

theorem tx_pred_alloc_no_fuel (tx : shader_translator) (idx : Int) :
    no_fuel (tx_pred_alloc tx idx) := by
  unfold tx_pred_alloc
  repeat' (first
    | (with_reducible first
        | exact no_fuel_ok _ | exact no_fuel_pure _ | exact no_fuel_undefined
        | exact no_fuel_assertion | exact no_fuel_throw_undefined
        | exact no_fuel_throw_assertion | apply tx_assert_no_fuel
        | refine no_fuel_bind ?_ (fun _ => ?_) | refine no_fuel_ebind ?_ (fun _ => ?_)
        | refine no_fuel_map ?_ | apply no_fuel_ite))

theorem tx_texcoord_alloc_no_fuel (tx : shader_translator) (idx : Int) :
    no_fuel (tx_texcoord_alloc tx idx) := by
  unfold tx_texcoord_alloc
  repeat' (first
    | (with_reducible first
        | exact no_fuel_ok _ | exact no_fuel_pure _ | exact no_fuel_undefined
        | exact no_fuel_assertion | exact no_fuel_throw_undefined
        | exact no_fuel_throw_assertion | apply tx_assert_no_fuel | apply arr_get_no_fuel
        | apply arr_set_no_fuel | refine no_fuel_bind ?_ (fun _ => ?_)
        | refine no_fuel_ebind ?_ (fun _ => ?_) | refine no_fuel_map ?_ | apply no_fuel_ite))

theorem tx_bgnloop_no_fuel (tx : shader_translator) :
    no_fuel (tx_bgnloop tx) := by
  unfold tx_bgnloop
  repeat' (first
    | (with_reducible first
        | exact no_fuel_ok _ | exact no_fuel_pure _ | exact no_fuel_undefined
        | exact no_fuel_assertion | exact no_fuel_throw_undefined
        | exact no_fuel_throw_assertion | apply tx_assert_no_fuel
        | refine no_fuel_bind ?_ (fun _ => ?_)))

theorem tx_endloop_no_fuel (tx : shader_translator) :
    no_fuel (tx_endloop tx) := by
  unfold tx_endloop
  repeat' (first
    | (with_reducible first
        | exact no_fuel_ok _ | exact no_fuel_pure _ | exact no_fuel_undefined
        | exact no_fuel_assertion | exact no_fuel_throw_undefined
        | exact no_fuel_throw_assertion | apply tx_assert_no_fuel | apply arr_get_no_fuel
        | refine no_fuel_bind ?_ (fun _ => ?_)))

theorem tx_get_loopctr_no_fuel (tx : shader_translator) :
    no_fuel (tx_get_loopctr tx) := by
  unfold tx_get_loopctr
  repeat' (first
    | (with_reducible first
        | exact no_fuel_ok _ | exact no_fuel_pure _ | exact no_fuel_undefined
        | exact no_fuel_assertion | exact no_fuel_throw_undefined
        | exact no_fuel_throw_assertion | apply tx_assert_no_fuel | apply arr_get_no_fuel
        | refine no_fuel_bind ?_ (fun _ => ?_) | refine no_fuel_ebind ?_ (fun _ => ?_)
        | refine no_fuel_map ?_ | apply no_fuel_ite))

theorem tx_cond_no_fuel (tx : shader_translator) :
    no_fuel (tx_cond tx) := by
  unfold tx_cond
  repeat' (first
    | (with_reducible first
        | exact no_fuel_ok _ | exact no_fuel_pure _ | exact no_fuel_undefined
        | exact no_fuel_assertion | exact no_fuel_throw_undefined
        | exact no_fuel_throw_assertion | apply tx_assert_no_fuel
        | refine no_fuel_bind ?_ (fun _ => ?_)))

theorem tx_elsecond_no_fuel (tx : shader_translator) :
    no_fuel (tx_elsecond tx) := by
  unfold tx_elsecond
  repeat' (first
    | (with_reducible first
        | exact no_fuel_ok _ | exact no_fuel_pure _ | exact no_fuel_undefined
        | exact no_fuel_assertion | exact no_fuel_throw_undefined
        | exact no_fuel_throw_assertion | apply tx_assert_no_fuel
        | refine no_fuel_bind ?_ (fun _ => ?_)))

theorem tx_endcond_no_fuel (tx : shader_translator) :
    no_fuel (tx_endcond tx) := by
  unfold tx_endcond
  repeat' (first
    | (with_reducible first
        | exact no_fuel_ok _ | exact no_fuel_pure _ | exact no_fuel_undefined
        | exact no_fuel_assertion | exact no_fuel_throw_undefined
        | exact no_fuel_throw_assertion | apply tx_assert_no_fuel | apply arr_get_no_fuel
        | refine no_fuel_bind ?_ (fun _ => ?_)))

theorem tx_src_param_TEMP_no_fuel (tx : shader_translator) (param : sm1_src_param) :
    no_fuel (tx_src_param_TEMP tx param) := by
  unfold tx_src_param_TEMP
  repeat' (first
    | (with_reducible first
        | exact no_fuel_ok _ | exact no_fuel_pure _ | exact no_fuel_undefined
        | exact no_fuel_assertion | exact no_fuel_throw_undefined
        | exact no_fuel_throw_assertion | apply tx_temp_alloc_no_fuel
        | apply tx_assert_no_fuel | apply arr_get_no_fuel
        | refine no_fuel_bind ?_ (fun _ => ?_)))

theorem tx_src_param_ADDR_no_fuel (tx : shader_translator) (param : sm1_src_param) :
    no_fuel (tx_src_param_ADDR tx param) := by
  unfold tx_src_param_ADDR
  repeat' (first
    | (with_reducible first
        | exact no_fuel_ok _ | exact no_fuel_pure _ | exact no_fuel_undefined
        | exact no_fuel_assertion | exact no_fuel_throw_undefined
        | exact no_fuel_throw_assertion | apply tx_texcoord_alloc_no_fuel
        | apply tx_addr_alloc_no_fuel | apply tx_assert_no_fuel | apply arr_get_no_fuel
        | refine no_fuel_bind ?_ (fun _ => ?_) | refine no_fuel_ebind ?_ (fun _ => ?_)
        | refine no_fuel_map ?_ | apply no_fuel_ite))

theorem tx_src_param_PREDICATE_no_fuel (tx : shader_translator) (param : sm1_src_param) :
    no_fuel (tx_src_param_PREDICATE tx param) := by
  unfold tx_src_param_PREDICATE
  repeat' (first
    | (with_reducible first
        | exact no_fuel_ok _ | exact no_fuel_pure _ | exact no_fuel_undefined
        | exact no_fuel_assertion | exact no_fuel_throw_undefined
        | exact no_fuel_throw_assertion | apply tx_pred_alloc_no_fuel
        | apply tx_assert_no_fuel | refine no_fuel_bind ?_ (fun _ => ?_)))

theorem tx_src_param_SAMPLER_no_fuel (tx : shader_translator) (param : sm1_src_param) :
    no_fuel (tx_src_param_SAMPLER tx param) := by
  unfold tx_src_param_SAMPLER
  repeat' (first
    | (with_reducible first
        | exact no_fuel_ok _ | exact no_fuel_pure _ | exact no_fuel_undefined
        | exact no_fuel_assertion | exact no_fuel_throw_undefined
        | exact no_fuel_throw_assertion | apply tx_assert_no_fuel
        | refine no_fuel_bind ?_ (fun _ => ?_)))

theorem tx_src_param_CONST_no_fuel (tx : shader_translator) (param : sm1_src_param) :
    no_fuel (tx_src_param_CONST tx param) := by
  unfold tx_src_param_CONST
  repeat' (first
    | (with_reducible first
        | exact no_fuel_ok _ | exact no_fuel_pure _ | exact no_fuel_undefined
        | exact no_fuel_assertion | exact no_fuel_throw_undefined
        | exact no_fuel_throw_assertion | apply tx_lconstf_no_fuel
        | refine no_fuel_bind ?_ (fun _ => ?_) | refine no_fuel_ebind ?_ (fun _ => ?_)
        | refine no_fuel_map ?_ | apply no_fuel_ite)
    | split )

theorem tx_src_param_CONST234_no_fuel (tx : shader_translator) :
    no_fuel (tx_src_param_CONST234 tx) := by
  unfold tx_src_param_CONST234
  repeat' (first
    | (with_reducible first
        | exact no_fuel_ok _ | exact no_fuel_pure _ | exact no_fuel_undefined
        | exact no_fuel_assertion | exact no_fuel_throw_undefined
        | exact no_fuel_throw_assertion | apply tx_assert_no_fuel
        | refine no_fuel_bind ?_ (fun _ => ?_)))

theorem tx_src_param_CONSTINT_no_fuel (tx : shader_translator) (param : sm1_src_param) :
    no_fuel (tx_src_param_CONSTINT tx param) := by
  unfold tx_src_param_CONSTINT
  repeat' (first
    | (with_reducible first
        | exact no_fuel_ok _ | exact no_fuel_pure _ | exact no_fuel_undefined
        | exact no_fuel_assertion | exact no_fuel_throw_undefined
        | exact no_fuel_throw_assertion | apply tx_lconsti_no_fuel
        | refine no_fuel_bind ?_ (fun _ => ?_) | refine no_fuel_ebind ?_ (fun _ => ?_)
        | refine no_fuel_map ?_ | apply no_fuel_ite)
    | split )

theorem tx_src_param_CONSTBOOL_no_fuel (tx : shader_translator) (param : sm1_src_param) :
    no_fuel (tx_src_param_CONSTBOOL tx param) := by
  unfold tx_src_param_CONSTBOOL
  repeat' (first
    | (with_reducible first
        | exact no_fuel_ok _ | exact no_fuel_pure _ | exact no_fuel_undefined
        | exact no_fuel_assertion | exact no_fuel_throw_undefined
        | exact no_fuel_throw_assertion | apply tx_lconstb_no_fuel
        | refine no_fuel_bind ?_ (fun _ => ?_) | refine no_fuel_ebind ?_ (fun _ => ?_)
        | refine no_fuel_map ?_ | apply no_fuel_ite)
    | split )

theorem tx_src_param_LOOP_no_fuel (tx : shader_translator) :
    no_fuel (tx_src_param_LOOP tx) := by
  unfold tx_src_param_LOOP
  repeat' (first
    | (with_reducible first
        | exact no_fuel_ok _ | exact no_fuel_pure _ | exact no_fuel_undefined
        | exact no_fuel_assertion | exact no_fuel_throw_undefined
        | exact no_fuel_throw_assertion | apply tx_get_loopctr_no_fuel
        | refine no_fuel_bind ?_ (fun _ => ?_)))

theorem tx_src_param_MISCTYPE_idx_no_fuel (tx : shader_translator) (param : sm1_src_param) (src : ureg_src) :
    no_fuel (tx_src_param_MISCTYPE_idx tx param src) := by
  unfold tx_src_param_MISCTYPE_idx
  repeat' (first
    | (with_reducible first
        | exact no_fuel_ok _ | exact no_fuel_pure _ | exact no_fuel_undefined
        | exact no_fuel_assertion | exact no_fuel_throw_undefined
        | exact no_fuel_throw_assertion | apply tx_assert_no_fuel
        | refine no_fuel_bind ?_ (fun _ => ?_) | refine no_fuel_ebind ?_ (fun _ => ?_)
        | refine no_fuel_map ?_ | apply no_fuel_ite))

theorem tx_src_param_MISCTYPE_no_fuel (tx : shader_translator) (param : sm1_src_param) (src : ureg_src) :
    no_fuel (tx_src_param_MISCTYPE tx param src) := by
  unfold tx_src_param_MISCTYPE
  repeat' (first
    | (with_reducible first
        | exact no_fuel_ok _ | exact no_fuel_pure _ | exact no_fuel_undefined
        | exact no_fuel_assertion | exact no_fuel_throw_undefined
        | exact no_fuel_throw_assertion | apply tx_src_param_MISCTYPE_idx_no_fuel
        | apply tx_assert_no_fuel | refine no_fuel_bind ?_ (fun _ => ?_)))

theorem tx_src_param_default_no_fuel (tx : shader_translator) (src : ureg_src) :
    no_fuel (tx_src_param_default tx src) := by
  unfold tx_src_param_default
  repeat' (first
    | (with_reducible first
        | exact no_fuel_ok _ | exact no_fuel_pure _ | exact no_fuel_undefined
        | exact no_fuel_assertion | exact no_fuel_throw_undefined
        | exact no_fuel_throw_assertion | apply tx_assert_no_fuel
        | refine no_fuel_bind ?_ (fun _ => ?_)))

theorem tx_src_param_file_no_fuel (tx : shader_translator) (param : sm1_src_param) :
    no_fuel (tx_src_param_file tx param) := by
  unfold tx_src_param_file
  repeat' (first
    | (with_reducible first
        | exact no_fuel_ok _ | exact no_fuel_pure _ | exact no_fuel_undefined
        | exact no_fuel_assertion | exact no_fuel_throw_undefined
        | exact no_fuel_throw_assertion | apply tx_src_param_CONSTBOOL_no_fuel
        | apply tx_src_param_PREDICATE_no_fuel | apply tx_src_param_CONST234_no_fuel
        | apply tx_src_param_CONSTINT_no_fuel | apply tx_src_param_MISCTYPE_no_fuel
        | apply tx_src_param_SAMPLER_no_fuel | apply tx_src_param_default_no_fuel
        | apply tx_src_param_CONST_no_fuel | apply tx_src_param_LOOP_no_fuel
        | apply tx_src_param_TEMP_no_fuel | apply tx_src_param_ADDR_no_fuel
        | refine no_fuel_bind ?_ (fun _ => ?_) | refine no_fuel_ebind ?_ (fun _ => ?_)
        | refine no_fuel_map ?_ | apply no_fuel_ite))

theorem tx_src_mod_sub_no_fuel (tx : shader_translator) (src : ureg_src) (bits : Nat) (imm_first : Bool) :
    no_fuel (tx_src_mod_sub tx src bits imm_first) := by
  unfold tx_src_mod_sub
  repeat' (first
    | (with_reducible first
        | exact no_fuel_ok _ | exact no_fuel_pure _ | exact no_fuel_undefined
        | exact no_fuel_assertion | exact no_fuel_throw_undefined
        | exact no_fuel_throw_assertion | apply tx_scratch_no_fuel
        | refine no_fuel_bind ?_ (fun _ => ?_)))

theorem tx_src_mod_mad_no_fuel (tx : shader_translator) (src : ureg_src) (a b : Nat) :
    no_fuel (tx_src_mod_mad tx src a b) := by
  unfold tx_src_mod_mad
  repeat' (first
    | (with_reducible first
        | exact no_fuel_ok _ | exact no_fuel_pure _ | exact no_fuel_undefined
        | exact no_fuel_assertion | exact no_fuel_throw_undefined
        | exact no_fuel_throw_assertion | apply tx_scratch_no_fuel
        | refine no_fuel_bind ?_ (fun _ => ?_)))

theorem tx_src_mod_x2_no_fuel (tx : shader_translator) (src : ureg_src) (neg : Bool) :
    no_fuel (tx_src_mod_x2 tx src neg) := by
  unfold tx_src_mod_x2
  repeat' (first
    | (with_reducible first
        | exact no_fuel_ok _ | exact no_fuel_pure _ | exact no_fuel_undefined
        | exact no_fuel_assertion | exact no_fuel_throw_undefined
        | exact no_fuel_throw_assertion | apply tx_scratch_no_fuel
        | refine no_fuel_bind ?_ (fun _ => ?_)))

theorem tx_src_mod_not_no_fuel (tx : shader_translator) (src : ureg_src) :
    no_fuel (tx_src_mod_not tx src) := by
  unfold tx_src_mod_not
  repeat' (first
    | (with_reducible first
        | exact no_fuel_ok _ | exact no_fuel_pure _ | exact no_fuel_undefined
        | exact no_fuel_assertion | exact no_fuel_throw_undefined
        | exact no_fuel_throw_assertion | apply tx_scratch_no_fuel
        | refine no_fuel_bind ?_ (fun _ => ?_)))

theorem tx_src_mod_default_no_fuel (tx : shader_translator) (mod : Nat) (src : ureg_src) :
    no_fuel (tx_src_mod_default tx mod src) := by
  unfold tx_src_mod_default
  repeat' (first
    | (with_reducible first
        | exact no_fuel_ok _ | exact no_fuel_pure _ | exact no_fuel_undefined
        | exact no_fuel_assertion | exact no_fuel_throw_undefined
        | exact no_fuel_throw_assertion | apply tx_assert_no_fuel
        | refine no_fuel_bind ?_ (fun _ => ?_)))

theorem tx_src_param_mod_no_fuel (tx : shader_translator) (mod : Nat) (src : ureg_src) :
    no_fuel (tx_src_param_mod tx mod src) := by
  unfold tx_src_param_mod
  repeat' (first
    | (with_reducible first
        | exact no_fuel_ok _ | exact no_fuel_pure _ | exact no_fuel_undefined
        | exact no_fuel_assertion | exact no_fuel_throw_undefined
        | exact no_fuel_throw_assertion | apply tx_src_mod_default_no_fuel
        | apply tx_src_mod_mad_no_fuel | apply tx_src_mod_not_no_fuel
        | apply tx_src_mod_sub_no_fuel | apply tx_src_mod_x2_no_fuel
        | refine no_fuel_bind ?_ (fun _ => ?_) | refine no_fuel_ebind ?_ (fun _ => ?_)
        | refine no_fuel_map ?_ | apply no_fuel_ite))

theorem tx_src_param_no_fuel (param : sm1_src_param) :
    ∀ tx : shader_translator, no_fuel (tx_src_param tx param) := by
  refine @sm1_src_param.rec
    (fun p => ∀ tx : shader_translator, no_fuel (tx_src_param tx p))
    (fun o => ∀ p, o = some p → ∀ tx : shader_translator, no_fuel (tx_src_param tx p))
    ?_ ?_ ?_ param
  · intro idx rel file swizzle mod type imm ih tx
    unfold tx_src_param
    cases rel with
    | none =>
      repeat' (first
        | (with_reducible first
            | exact no_fuel_ok _ | exact no_fuel_pure _ | exact no_fuel_undefined
            | exact no_fuel_assertion | exact no_fuel_throw_undefined
            | exact no_fuel_throw_assertion | apply tx_src_param_file_no_fuel
            | apply tx_src_param_mod_no_fuel | refine no_fuel_bind ?_ (fun _ => ?_)))
    | some p =>
      have ihp := ih p rfl
      repeat' (first
        | (with_reducible first
            | apply ihp
            | exact no_fuel_ok _ | exact no_fuel_pure _ | exact no_fuel_undefined
            | exact no_fuel_assertion | exact no_fuel_throw_undefined
            | exact no_fuel_throw_assertion | apply tx_src_param_file_no_fuel
            | apply tx_src_param_mod_no_fuel | refine no_fuel_bind ?_ (fun _ => ?_)))
  · intro q hq; cases hq
  · intro p ih q hq tx; cases hq; exact ih tx

theorem tx_dst_param_TEMP_no_fuel (tx : shader_translator) (param : sm1_dst_param) :
    no_fuel (tx_dst_param_TEMP tx param) := by
  unfold tx_dst_param_TEMP
  repeat' (first
    | (with_reducible first
        | exact no_fuel_ok _ | exact no_fuel_pure _ | exact no_fuel_undefined
        | exact no_fuel_assertion | exact no_fuel_throw_undefined
        | exact no_fuel_throw_assertion | apply tx_temp_alloc_no_fuel
        | apply tx_assert_no_fuel | apply arr_get_no_fuel
        | refine no_fuel_bind ?_ (fun _ => ?_)))

theorem tx_dst_param_ADDR_no_fuel (tx : shader_translator) (param : sm1_dst_param) :
    no_fuel (tx_dst_param_ADDR tx param) := by
  unfold tx_dst_param_ADDR
  repeat' (first
    | (with_reducible first
        | exact no_fuel_ok _ | exact no_fuel_pure _ | exact no_fuel_undefined
        | exact no_fuel_assertion | exact no_fuel_throw_undefined
        | exact no_fuel_throw_assertion | apply tx_addr_alloc_no_fuel
        | apply tx_assert_no_fuel | refine no_fuel_bind ?_ (fun _ => ?_)))

theorem tx_dst_param_COLOROUT_no_fuel (tx : shader_translator) (param : sm1_dst_param) :
    no_fuel (tx_dst_param_COLOROUT tx param) := by
  unfold tx_dst_param_COLOROUT
  repeat' (first
    | (with_reducible first
        | exact no_fuel_ok _ | exact no_fuel_pure _ | exact no_fuel_undefined
        | exact no_fuel_assertion | exact no_fuel_throw_undefined
        | exact no_fuel_throw_assertion | apply tx_assert_no_fuel | apply arr_set_no_fuel
        | apply arr_get_no_fuel | refine no_fuel_bind ?_ (fun _ => ?_)
        | refine no_fuel_ebind ?_ (fun _ => ?_) | refine no_fuel_map ?_ | apply no_fuel_ite))

theorem tx_dst_param_DEPTHOUT_no_fuel (tx : shader_translator) (param : sm1_dst_param) :
    no_fuel (tx_dst_param_DEPTHOUT tx param) := by
  unfold tx_dst_param_DEPTHOUT
  repeat' (first
    | (with_reducible first
        | exact no_fuel_ok _ | exact no_fuel_pure _ | exact no_fuel_undefined
        | exact no_fuel_assertion | exact no_fuel_throw_undefined
        | exact no_fuel_throw_assertion | apply tx_assert_no_fuel
        | refine no_fuel_bind ?_ (fun _ => ?_) | refine no_fuel_ebind ?_ (fun _ => ?_)
        | refine no_fuel_map ?_ | apply no_fuel_ite))

theorem tx_dst_param_PREDICATE_no_fuel (tx : shader_translator) (param : sm1_dst_param) :
    no_fuel (tx_dst_param_PREDICATE tx param) := by
  unfold tx_dst_param_PREDICATE
  repeat' (first
    | (with_reducible first
        | exact no_fuel_ok _ | exact no_fuel_pure _ | exact no_fuel_undefined
        | exact no_fuel_assertion | exact no_fuel_throw_undefined
        | exact no_fuel_throw_assertion | apply tx_pred_alloc_no_fuel
        | apply tx_assert_no_fuel | refine no_fuel_bind ?_ (fun _ => ?_)))

theorem tx_dst_param_default_no_fuel (tx : shader_translator) (dst : ureg_dst) :
    no_fuel (tx_dst_param_default tx dst) := by
  unfold tx_dst_param_default
  repeat' (first
    | (with_reducible first
        | exact no_fuel_ok _ | exact no_fuel_pure _ | exact no_fuel_undefined
        | exact no_fuel_assertion | exact no_fuel_throw_undefined
        | exact no_fuel_throw_assertion | apply tx_assert_no_fuel
        | refine no_fuel_bind ?_ (fun _ => ?_)))

theorem tx_dst_param_file_no_fuel (tx : shader_translator) (param : sm1_dst_param) :
    no_fuel (tx_dst_param_file tx param) := by
  unfold tx_dst_param_file
  repeat' (first
    | (with_reducible first
        | exact no_fuel_ok _ | exact no_fuel_pure _ | exact no_fuel_undefined
        | exact no_fuel_assertion | exact no_fuel_throw_undefined
        | exact no_fuel_throw_assertion | apply tx_dst_param_PREDICATE_no_fuel
        | apply tx_dst_param_DEPTHOUT_no_fuel | apply tx_dst_param_COLOROUT_no_fuel
        | apply tx_dst_param_default_no_fuel | apply tx_dst_param_TEMP_no_fuel
        | apply tx_dst_param_ADDR_no_fuel | refine no_fuel_bind ?_ (fun _ => ?_)
        | refine no_fuel_ebind ?_ (fun _ => ?_) | refine no_fuel_map ?_ | apply no_fuel_ite))

theorem tx_dst_param_no_fuel (tx : shader_translator) (param : sm1_dst_param) :
    no_fuel (tx_dst_param tx param) := by
  unfold tx_dst_param
  repeat' (first
    | (with_reducible first
        | exact no_fuel_ok _ | exact no_fuel_pure _ | exact no_fuel_undefined
        | exact no_fuel_assertion | exact no_fuel_throw_undefined
        | exact no_fuel_throw_assertion | apply tx_dst_param_file_no_fuel
        | apply tx_src_param_no_fuel | apply tx_assert_no_fuel
        | refine no_fuel_bind ?_ (fun _ => ?_) | refine no_fuel_ebind ?_ (fun _ => ?_)
        | refine no_fuel_map ?_ | apply no_fuel_ite)
    | split )

theorem NineTranslateInstruction_Mkxn_no_fuel (tx : shader_translator) (k n : Nat) :
    no_fuel (NineTranslateInstruction_Mkxn tx k n) := by
  unfold NineTranslateInstruction_Mkxn
  repeat' (first
    | (with_reducible first
        | exact no_fuel_ok _ | exact no_fuel_pure _ | exact no_fuel_undefined
        | exact no_fuel_assertion | exact no_fuel_throw_undefined
        | exact no_fuel_throw_assertion | apply tx_src_param_no_fuel
        | apply tx_dst_param_no_fuel | refine no_fuel_bind ?_ (fun _ => ?_)))

theorem NineTranslateInstruction_M4x4_no_fuel (tx : shader_translator) :
    no_fuel (NineTranslateInstruction_M4x4 tx) := by
  unfold NineTranslateInstruction_M4x4
  repeat' (first
    | (with_reducible first
        | exact no_fuel_ok _ | exact no_fuel_pure _ | exact no_fuel_undefined
        | exact no_fuel_assertion | exact no_fuel_throw_undefined
        | exact no_fuel_throw_assertion | apply NineTranslateInstruction_Mkxn_no_fuel))

theorem NineTranslateInstruction_M4x3_no_fuel (tx : shader_translator) :
    no_fuel (NineTranslateInstruction_M4x3 tx) := by
  unfold NineTranslateInstruction_M4x3
  repeat' (first
    | (with_reducible first
        | exact no_fuel_ok _ | exact no_fuel_pure _ | exact no_fuel_undefined
        | exact no_fuel_assertion | exact no_fuel_throw_undefined
        | exact no_fuel_throw_assertion | apply NineTranslateInstruction_Mkxn_no_fuel))

theorem NineTranslateInstruction_M3x4_no_fuel (tx : shader_translator) :
    no_fuel (NineTranslateInstruction_M3x4 tx) := by
  unfold NineTranslateInstruction_M3x4
  repeat' (first
    | (with_reducible first
        | exact no_fuel_ok _ | exact no_fuel_pure _ | exact no_fuel_undefined
        | exact no_fuel_assertion | exact no_fuel_throw_undefined
        | exact no_fuel_throw_assertion | apply NineTranslateInstruction_Mkxn_no_fuel))

theorem NineTranslateInstruction_M3x3_no_fuel (tx : shader_translator) :
    no_fuel (NineTranslateInstruction_M3x3 tx) := by
  unfold NineTranslateInstruction_M3x3
  repeat' (first
    | (with_reducible first
        | exact no_fuel_ok _ | exact no_fuel_pure _ | exact no_fuel_undefined
        | exact no_fuel_assertion | exact no_fuel_throw_undefined
        | exact no_fuel_throw_assertion | apply NineTranslateInstruction_Mkxn_no_fuel))

theorem NineTranslateInstruction_M3x2_no_fuel (tx : shader_translator) :
    no_fuel (NineTranslateInstruction_M3x2 tx) := by
  unfold NineTranslateInstruction_M3x2
  repeat' (first
    | (with_reducible first
        | exact no_fuel_ok _ | exact no_fuel_pure _ | exact no_fuel_undefined
        | exact no_fuel_assertion | exact no_fuel_throw_undefined
        | exact no_fuel_throw_assertion | apply NineTranslateInstruction_Mkxn_no_fuel))

theorem tx_label_insn_cond_no_fuel (tx : shader_translator) (opcode : tgsi_opcode) (src : List ureg_src) (slot : Nat) :
    no_fuel (tx_label_insn_cond tx opcode src slot) := by
  unfold tx_label_insn_cond
  repeat' (first
    | (with_reducible first
        | exact no_fuel_ok _ | exact no_fuel_pure _ | exact no_fuel_undefined
        | exact no_fuel_assertion | exact no_fuel_throw_undefined
        | exact no_fuel_throw_assertion | apply arr_set_no_fuel
        | refine no_fuel_bind ?_ (fun _ => ?_)))

theorem tx_label_insn_loop_no_fuel (tx : shader_translator) (opcode : tgsi_opcode) (src : List ureg_src) (slot : Nat) :
    no_fuel (tx_label_insn_loop tx opcode src slot) := by
  unfold tx_label_insn_loop
  repeat' (first
    | (with_reducible first
        | exact no_fuel_ok _ | exact no_fuel_pure _ | exact no_fuel_undefined
        | exact no_fuel_assertion | exact no_fuel_throw_undefined
        | exact no_fuel_throw_assertion | apply arr_set_no_fuel
        | refine no_fuel_bind ?_ (fun _ => ?_)))

theorem tx_label_insn_inst_no_fuel (tx : shader_translator) (opcode : tgsi_opcode) (src : List ureg_src) (idx : Int) :
    no_fuel (tx_label_insn_inst tx opcode src idx) := by
  unfold tx_label_insn_inst
  repeat' (first
    | (with_reducible first
        | exact no_fuel_ok _ | exact no_fuel_pure _ | exact no_fuel_undefined
        | exact no_fuel_assertion | exact no_fuel_throw_undefined
        | exact no_fuel_throw_assertion | apply arr_set_no_fuel
        | refine no_fuel_bind ?_ (fun _ => ?_)))

theorem NineTranslateInstruction_CALL_no_fuel (tx : shader_translator) :
    no_fuel (NineTranslateInstruction_CALL tx) := by
  unfold NineTranslateInstruction_CALL
  repeat' (first
    | (with_reducible first
        | exact no_fuel_ok _ | exact no_fuel_pure _ | exact no_fuel_undefined
        | exact no_fuel_assertion | exact no_fuel_throw_undefined
        | exact no_fuel_throw_assertion | apply tx_label_insn_inst_no_fuel
        | apply tx_assert_no_fuel | refine no_fuel_bind ?_ (fun _ => ?_)))

theorem NineTranslateInstruction_CALLNZ_no_fuel (tx : shader_translator) :
    no_fuel (NineTranslateInstruction_CALLNZ tx) := by
  unfold NineTranslateInstruction_CALLNZ
  repeat' (first
    | (with_reducible first
        | exact no_fuel_ok _ | exact no_fuel_pure _ | exact no_fuel_undefined
        | exact no_fuel_assertion | exact no_fuel_throw_undefined
        | exact no_fuel_throw_assertion | apply tx_label_insn_inst_no_fuel
        | apply tx_label_insn_cond_no_fuel | apply tx_scratch_scalar_no_fuel
        | apply tx_src_scalar_no_fuel | apply tx_src_param_no_fuel | apply tx_endcond_no_fuel
        | apply tx_cond_no_fuel | refine no_fuel_bind ?_ (fun _ => ?_)
        | refine no_fuel_ebind ?_ (fun _ => ?_) | refine no_fuel_map ?_ | apply no_fuel_ite))

theorem NineTranslateInstruction_LOOP_no_fuel (tx : shader_translator) :
    no_fuel (NineTranslateInstruction_LOOP tx) := by
  unfold NineTranslateInstruction_LOOP
  repeat' (first
    | (with_reducible first
        | exact no_fuel_ok _ | exact no_fuel_pure _ | exact no_fuel_undefined
        | exact no_fuel_assertion | exact no_fuel_throw_undefined
        | exact no_fuel_throw_assertion | apply tx_label_insn_loop_no_fuel
        | apply tx_label_insn_cond_no_fuel | apply tx_scratch_scalar_no_fuel
        | apply tx_get_loopctr_no_fuel | apply tx_src_scalar_no_fuel
        | apply tx_src_param_no_fuel | apply tx_bgnloop_no_fuel | apply tx_endcond_no_fuel
        | apply tx_cond_no_fuel | refine no_fuel_bind ?_ (fun _ => ?_)
        | refine no_fuel_ebind ?_ (fun _ => ?_) | refine no_fuel_map ?_ | apply no_fuel_ite))

theorem NineTranslateInstruction_RET_no_fuel (tx : shader_translator) :
    no_fuel (NineTranslateInstruction_RET tx) := by
  unfold NineTranslateInstruction_RET
  repeat' (first
    | (with_reducible first
        | exact no_fuel_ok _ | exact no_fuel_pure _))

theorem NineTranslateInstruction_ENDLOOP_no_fuel (tx : shader_translator) :
    no_fuel (NineTranslateInstruction_ENDLOOP tx) := by
  unfold NineTranslateInstruction_ENDLOOP
  repeat' (first
    | (with_reducible first
        | exact no_fuel_ok _ | exact no_fuel_pure _ | exact no_fuel_undefined
        | exact no_fuel_assertion | exact no_fuel_throw_undefined
        | exact no_fuel_throw_assertion | apply tx_label_insn_loop_no_fuel
        | apply tx_endloop_no_fuel | refine no_fuel_bind ?_ (fun _ => ?_)))

theorem NineTranslateInstruction_LABEL_no_fuel (tx : shader_translator) :
    no_fuel (NineTranslateInstruction_LABEL tx) := by
  unfold NineTranslateInstruction_LABEL
  repeat' (first
    | (with_reducible first
        | exact no_fuel_ok _ | exact no_fuel_pure _ | exact no_fuel_undefined
        | exact no_fuel_assertion | exact no_fuel_throw_undefined
        | exact no_fuel_throw_assertion | apply tx_assert_no_fuel | apply arr_set_no_fuel
        | refine no_fuel_bind ?_ (fun _ => ?_)))

theorem NineTranslateInstruction_SINCOS_no_fuel (tx : shader_translator) :
    no_fuel (NineTranslateInstruction_SINCOS tx) := by
  unfold NineTranslateInstruction_SINCOS
  repeat' (first
    | (with_reducible first
        | exact no_fuel_ok _ | exact no_fuel_pure _ | exact no_fuel_undefined
        | exact no_fuel_assertion | exact no_fuel_throw_undefined
        | exact no_fuel_throw_assertion | apply tx_src_param_no_fuel
        | apply tx_dst_param_no_fuel | apply tx_assert_no_fuel
        | refine no_fuel_bind ?_ (fun _ => ?_) | refine no_fuel_ebind ?_ (fun _ => ?_)
        | refine no_fuel_map ?_ | apply no_fuel_ite))

theorem NineTranslateInstruction_REP_no_fuel (tx : shader_translator) :
    no_fuel (NineTranslateInstruction_REP tx) := by
  unfold NineTranslateInstruction_REP
  repeat' (first
    | (with_reducible first
        | exact no_fuel_ok _ | exact no_fuel_pure _ | exact no_fuel_undefined
        | exact no_fuel_assertion | exact no_fuel_throw_undefined
        | exact no_fuel_throw_assertion | apply tx_label_insn_loop_no_fuel
        | apply tx_scratch_scalar_no_fuel | apply tx_get_loopctr_no_fuel
        | apply tx_src_scalar_no_fuel | apply tx_src_param_no_fuel | apply tx_bgnloop_no_fuel
        | apply tx_assert_no_fuel | refine no_fuel_bind ?_ (fun _ => ?_)
        | refine no_fuel_ebind ?_ (fun _ => ?_) | refine no_fuel_map ?_ | apply no_fuel_ite))

theorem NineTranslateInstruction_ENDREP_no_fuel (tx : shader_translator) :
    no_fuel (NineTranslateInstruction_ENDREP tx) := by
  unfold NineTranslateInstruction_ENDREP
  repeat' (first
    | (with_reducible first
        | exact no_fuel_ok _ | exact no_fuel_pure _ | exact no_fuel_undefined
        | exact no_fuel_assertion | exact no_fuel_throw_undefined
        | exact no_fuel_throw_assertion | apply tx_label_insn_loop_no_fuel
        | apply tx_endloop_no_fuel | refine no_fuel_bind ?_ (fun _ => ?_)))

theorem NineTranslateInstruction_ENDIF_no_fuel (tx : shader_translator) :
    no_fuel (NineTranslateInstruction_ENDIF tx) := by
  unfold NineTranslateInstruction_ENDIF
  repeat' (first
    | (with_reducible first
        | exact no_fuel_ok _ | exact no_fuel_pure _ | exact no_fuel_undefined
        | exact no_fuel_assertion | exact no_fuel_throw_undefined
        | exact no_fuel_throw_assertion | apply tx_endcond_no_fuel
        | refine no_fuel_bind ?_ (fun _ => ?_)))

theorem NineTranslateInstruction_IF_no_fuel (tx : shader_translator) :
    no_fuel (NineTranslateInstruction_IF tx) := by
  unfold NineTranslateInstruction_IF
  repeat' (first
    | (with_reducible first
        | exact no_fuel_ok _ | exact no_fuel_pure _ | exact no_fuel_undefined
        | exact no_fuel_assertion | exact no_fuel_throw_undefined
        | exact no_fuel_throw_assertion | apply tx_label_insn_cond_no_fuel
        | apply tx_src_param_no_fuel | apply tx_cond_no_fuel
        | refine no_fuel_bind ?_ (fun _ => ?_)))

theorem sm1_insn_flags_to_tgsi_setop_no_fuel (tx : shader_translator) (flags : Nat) :
    no_fuel (sm1_insn_flags_to_tgsi_setop tx flags) := by
  unfold sm1_insn_flags_to_tgsi_setop
  repeat' (first
    | (with_reducible first
        | exact no_fuel_ok _ | exact no_fuel_pure _ | exact no_fuel_undefined
        | exact no_fuel_assertion | exact no_fuel_throw_undefined
        | exact no_fuel_throw_assertion | apply tx_assert_no_fuel
        | refine no_fuel_bind ?_ (fun _ => ?_) | refine no_fuel_ebind ?_ (fun _ => ?_)
        | refine no_fuel_map ?_ | apply no_fuel_ite))

theorem NineTranslateInstruction_IFC_no_fuel (tx : shader_translator) :
    no_fuel (NineTranslateInstruction_IFC tx) := by
  unfold NineTranslateInstruction_IFC
  repeat' (first
    | (with_reducible first
        | exact no_fuel_ok _ | exact no_fuel_pure _ | exact no_fuel_undefined
        | exact no_fuel_assertion | exact no_fuel_throw_undefined
        | exact no_fuel_throw_assertion | apply sm1_insn_flags_to_tgsi_setop_no_fuel
        | apply tx_label_insn_cond_no_fuel | apply tx_src_param_no_fuel
        | apply tx_scratch_no_fuel | apply tx_cond_no_fuel
        | refine no_fuel_bind ?_ (fun _ => ?_)))

theorem NineTranslateInstruction_ELSE_no_fuel (tx : shader_translator) :
    no_fuel (NineTranslateInstruction_ELSE tx) := by
  unfold NineTranslateInstruction_ELSE
  repeat' (first
    | (with_reducible first
        | exact no_fuel_ok _ | exact no_fuel_pure _ | exact no_fuel_undefined
        | exact no_fuel_assertion | exact no_fuel_throw_undefined
        | exact no_fuel_throw_assertion | apply tx_label_insn_cond_no_fuel
        | apply tx_elsecond_no_fuel | refine no_fuel_bind ?_ (fun _ => ?_)))

theorem NineTranslateInstruction_BREAKC_no_fuel (tx : shader_translator) :
    no_fuel (NineTranslateInstruction_BREAKC tx) := by
  unfold NineTranslateInstruction_BREAKC
  repeat' (first
    | (with_reducible first
        | exact no_fuel_ok _ | exact no_fuel_pure _ | exact no_fuel_undefined
        | exact no_fuel_assertion | exact no_fuel_throw_undefined
        | exact no_fuel_throw_assertion | apply sm1_insn_flags_to_tgsi_setop_no_fuel
        | apply tx_src_param_no_fuel | apply tx_scratch_no_fuel
        | refine no_fuel_bind ?_ (fun _ => ?_)))

theorem sm1_declusage_to_tgsi_no_fuel (tx : shader_translator) (tc : Bool) (dcl : sm1_semantic) :
    no_fuel (sm1_declusage_to_tgsi tx tc dcl) := by
  unfold sm1_declusage_to_tgsi
  repeat' (first
    | (with_reducible first
        | exact no_fuel_ok _ | exact no_fuel_pure _ | exact no_fuel_undefined
        | exact no_fuel_assertion | exact no_fuel_throw_undefined
        | exact no_fuel_throw_assertion | apply tx_assert_no_fuel
        | refine no_fuel_bind ?_ (fun _ => ?_) | refine no_fuel_ebind ?_ (fun _ => ?_)
        | refine no_fuel_map ?_ | apply no_fuel_ite))

theorem d3dstt_to_tgsi_tex_no_fuel (tx : shader_translator) (sampler_type : Nat) :
    no_fuel (d3dstt_to_tgsi_tex tx sampler_type) := by
  unfold d3dstt_to_tgsi_tex
  repeat' (first
    | (with_reducible first
        | exact no_fuel_ok _ | exact no_fuel_pure _ | exact no_fuel_undefined
        | exact no_fuel_assertion | exact no_fuel_throw_undefined
        | exact no_fuel_throw_assertion | apply tx_assert_no_fuel
        | refine no_fuel_bind ?_ (fun _ => ?_) | refine no_fuel_ebind ?_ (fun _ => ?_)
        | refine no_fuel_map ?_ | apply no_fuel_ite))

theorem nine_tgsi_to_interp_mode_no_fuel (tx : shader_translator) (sem : tgsi_declaration_semantic) :
    no_fuel (nine_tgsi_to_interp_mode tx sem) := by
  unfold nine_tgsi_to_interp_mode
  repeat' (first
    | (with_reducible first
        | exact no_fuel_ok _ | exact no_fuel_pure _ | exact no_fuel_undefined
        | exact no_fuel_assertion | exact no_fuel_throw_undefined
        | exact no_fuel_throw_assertion | apply tx_assert_no_fuel
        | refine no_fuel_bind ?_ (fun _ => ?_) | refine no_fuel_ebind ?_ (fun _ => ?_)
        | refine no_fuel_map ?_ | apply no_fuel_ite)
    | split )

theorem TOKEN_PEEK_no_fuel (tx : shader_translator) :
    no_fuel (TOKEN_PEEK tx) := by
  unfold TOKEN_PEEK
  repeat' (first
    | (with_reducible first
        | exact no_fuel_ok _ | exact no_fuel_pure _ | exact no_fuel_undefined
        | exact no_fuel_assertion | exact no_fuel_throw_undefined
        | exact no_fuel_throw_assertion | refine no_fuel_bind ?_ (fun _ => ?_)
        | refine no_fuel_ebind ?_ (fun _ => ?_) | refine no_fuel_map ?_ | apply no_fuel_ite)
    | split )

theorem TOKEN_NEXT_no_fuel (tx : shader_translator) :
    no_fuel (TOKEN_NEXT tx) := by
  unfold TOKEN_NEXT
  repeat' (first
    | (with_reducible first
        | exact no_fuel_ok _ | exact no_fuel_pure _ | exact no_fuel_undefined
        | exact no_fuel_assertion | exact no_fuel_throw_undefined
        | exact no_fuel_throw_assertion | apply TOKEN_PEEK_no_fuel
        | refine no_fuel_bind ?_ (fun _ => ?_)))

theorem sm1_parse_eof_no_fuel (tx : shader_translator) :
    no_fuel (sm1_parse_eof tx) := by
  unfold sm1_parse_eof
  repeat' (first
    | (with_reducible first
        | exact no_fuel_ok _ | exact no_fuel_pure _ | exact no_fuel_undefined
        | exact no_fuel_assertion | exact no_fuel_throw_undefined
        | exact no_fuel_throw_assertion | apply TOKEN_PEEK_no_fuel
        | refine no_fuel_bind ?_ (fun _ => ?_)))

theorem sm1_read_version_no_fuel (tx : shader_translator) :
    no_fuel (sm1_read_version tx) := by
  unfold sm1_read_version
  repeat' (first
    | (with_reducible first
        | exact no_fuel_ok _ | exact no_fuel_pure _ | exact no_fuel_undefined
        | exact no_fuel_assertion | exact no_fuel_throw_undefined
        | exact no_fuel_throw_assertion | apply TOKEN_NEXT_no_fuel
        | refine no_fuel_bind ?_ (fun _ => ?_) | refine no_fuel_ebind ?_ (fun _ => ?_)
        | refine no_fuel_map ?_ | apply no_fuel_ite))

theorem sm1_parse_get_skip_no_fuel (tx : shader_translator) :
    no_fuel (sm1_parse_get_skip tx) := by
  unfold sm1_parse_get_skip
  repeat' (first
    | (with_reducible first
        | exact no_fuel_ok _ | exact no_fuel_pure _ | exact no_fuel_undefined
        | exact no_fuel_assertion | exact no_fuel_throw_undefined
        | exact no_fuel_throw_assertion | apply TOKEN_PEEK_no_fuel
        | refine no_fuel_bind ?_ (fun _ => ?_) | refine no_fuel_ebind ?_ (fun _ => ?_)
        | refine no_fuel_map ?_ | apply no_fuel_ite))

/-- The loop over the comments does not run out of fuel when it has one round per word
left in the stream and one for the final test. -/
theorem sm1_parse_comments_loop_no_fuel (fuel : Nat) : ∀ tx : shader_translator,
    tx.byte_code.length - tx.parse + 1 ≤ fuel → no_fuel (sm1_parse_comments_loop fuel tx) := by
  induction fuel with
  | zero => intro tx h; omega
  | succ n ih =>
    intro tx h
    unfold sm1_parse_comments_loop
    refine no_fuel_bind_of_ok (TOKEN_PEEK_no_fuel tx) (fun tok hp => ?_)
    have hlt : tx.parse < tx.byte_code.length := by
      unfold TOKEN_PEEK at hp
      by_contra hc
      rw [List.getElem?_eq_none (by omega)] at hp
      cases hp
    split
    · apply ih
      show tx.byte_code.length - (tx.parse + (_ + 1)) + 1 ≤ n
      generalize (tok &&& D3DSI_COMMENTSIZE_MASK) >>> D3DSI_COMMENTSIZE_SHIFT = sz
      omega
    · exact no_fuel_pure _

theorem sm1_parse_comments_no_fuel (tx : shader_translator) :
    no_fuel (sm1_parse_comments tx) := by
  unfold sm1_parse_comments
  exact sm1_parse_comments_loop_no_fuel _ tx (Nat.le_refl _)

theorem sm1_parse_get_param_no_fuel (tx : shader_translator) :
    no_fuel (sm1_parse_get_param tx) := by
  unfold sm1_parse_get_param
  repeat' (first
    | (with_reducible first
        | exact no_fuel_ok _ | exact no_fuel_pure _ | exact no_fuel_undefined
        | exact no_fuel_assertion | exact no_fuel_throw_undefined
        | exact no_fuel_throw_assertion | apply TOKEN_NEXT_no_fuel
        | refine no_fuel_bind ?_ (fun _ => ?_) | refine no_fuel_ebind ?_ (fun _ => ?_)
        | refine no_fuel_map ?_ | apply no_fuel_ite))

theorem sm1_parse_immediate_no_fuel (tx : shader_translator) :
    no_fuel (sm1_parse_immediate tx) := by
  unfold sm1_parse_immediate
  repeat' (first
    | (with_reducible first
        | exact no_fuel_ok _ | exact no_fuel_pure _ | exact no_fuel_undefined
        | exact no_fuel_assertion | exact no_fuel_throw_undefined
        | exact no_fuel_throw_assertion | apply tx_assert_no_fuel | apply arr_get_no_fuel
        | refine no_fuel_bind ?_ (fun _ => ?_) | refine no_fuel_ebind ?_ (fun _ => ?_)
        | refine no_fuel_map ?_ | apply no_fuel_ite))

theorem sm1_read_dst_param_no_fuel (tx : shader_translator) :
    no_fuel (sm1_read_dst_param tx) := by
  unfold sm1_read_dst_param
  repeat' (first
    | (with_reducible first
        | exact no_fuel_ok _ | exact no_fuel_pure _ | exact no_fuel_undefined
        | exact no_fuel_assertion | exact no_fuel_throw_undefined
        | exact no_fuel_throw_assertion | apply sm1_parse_get_param_no_fuel
        | refine no_fuel_bind ?_ (fun _ => ?_) | refine no_fuel_ebind ?_ (fun _ => ?_)
        | refine no_fuel_map ?_ | apply no_fuel_ite)
    | split )

theorem sm1_read_src_param_no_fuel (tx : shader_translator) (old : sm1_src_param) (has_rel : Bool) :
    no_fuel (sm1_read_src_param tx old has_rel) := by
  unfold sm1_read_src_param
  repeat' (first
    | (with_reducible first
        | exact no_fuel_ok _ | exact no_fuel_pure _ | exact no_fuel_undefined
        | exact no_fuel_assertion | exact no_fuel_throw_undefined
        | exact no_fuel_throw_assertion | apply sm1_parse_get_param_no_fuel
        | apply tx_assert_no_fuel | refine no_fuel_bind ?_ (fun _ => ?_)
        | refine no_fuel_ebind ?_ (fun _ => ?_) | refine no_fuel_map ?_ | apply no_fuel_ite)
    | split )

theorem sm1_read_semantic_no_fuel (tx : shader_translator) :
    no_fuel (sm1_read_semantic tx) := by
  unfold sm1_read_semantic
  repeat' (first
    | (with_reducible first
        | exact no_fuel_ok _ | exact no_fuel_pure _ | exact no_fuel_undefined
        | exact no_fuel_assertion | exact no_fuel_throw_undefined
        | exact no_fuel_throw_assertion | apply TOKEN_NEXT_no_fuel
        | refine no_fuel_bind ?_ (fun _ => ?_)))

theorem sm1_dump_reg_no_fuel (file : Nat) :
    no_fuel (sm1_dump_reg file) := by
  unfold sm1_dump_reg
  repeat' (first
    | (with_reducible first
        | exact no_fuel_ok _ | exact no_fuel_pure _ | exact no_fuel_undefined
        | exact no_fuel_assertion | exact no_fuel_throw_undefined
        | exact no_fuel_throw_assertion | refine no_fuel_bind ?_ (fun _ => ?_)
        | refine no_fuel_ebind ?_ (fun _ => ?_) | refine no_fuel_map ?_ | apply no_fuel_ite))

theorem sm1_dump_immediate_no_fuel (tx : shader_translator) (param : sm1_src_param) :
    no_fuel (sm1_dump_immediate tx param) := by
  unfold sm1_dump_immediate
  repeat' (first
    | (with_reducible first
        | exact no_fuel_ok _ | exact no_fuel_pure _ | exact no_fuel_undefined
        | exact no_fuel_assertion | exact no_fuel_throw_undefined
        | exact no_fuel_throw_assertion | apply tx_assert_no_fuel
        | refine no_fuel_bind ?_ (fun _ => ?_) | refine no_fuel_ebind ?_ (fun _ => ?_)
        | refine no_fuel_map ?_ | apply no_fuel_ite))

theorem sm1_dump_src_param_no_fuel (tx : shader_translator) (param : sm1_src_param) :
    no_fuel (sm1_dump_src_param tx param) := by
  refine @sm1_src_param.rec
    (fun p => no_fuel (sm1_dump_src_param tx p))
    (fun o => ∀ p, o = some p → no_fuel (sm1_dump_src_param tx p))
    ?_ ?_ ?_ param
  · intro idx rel file swizzle mod type imm ih
    unfold sm1_dump_src_param
    cases rel with
    | none =>
      repeat' (first
        | (with_reducible first
            | exact no_fuel_ok _ | exact no_fuel_pure _ | exact no_fuel_undefined
            | exact no_fuel_assertion | exact no_fuel_throw_undefined
            | exact no_fuel_throw_assertion | apply sm1_dump_immediate_no_fuel
            | apply sm1_dump_reg_no_fuel | apply tx_assert_no_fuel
            | refine no_fuel_bind ?_ (fun _ => ?_) | refine no_fuel_ebind ?_ (fun _ => ?_)
            | refine no_fuel_map ?_ | apply no_fuel_ite))
    | some p =>
      have ihp := ih p rfl
      repeat' (first
        | (with_reducible first
            | exact ihp
            | exact no_fuel_ok _ | exact no_fuel_pure _ | exact no_fuel_undefined
            | exact no_fuel_assertion | exact no_fuel_throw_undefined
            | exact no_fuel_throw_assertion | apply sm1_dump_immediate_no_fuel
            | apply sm1_dump_reg_no_fuel | apply tx_assert_no_fuel
            | refine no_fuel_bind ?_ (fun _ => ?_) | refine no_fuel_ebind ?_ (fun _ => ?_)
            | refine no_fuel_map ?_ | apply no_fuel_ite))
  · intro q hq; cases hq
  · intro p ih q hq; cases hq; exact ih

theorem sm1_dump_dst_param_no_fuel (tx : shader_translator) (param : sm1_dst_param) :
    no_fuel (sm1_dump_dst_param tx param) := by
  unfold sm1_dump_dst_param
  repeat' (first
    | (with_reducible first
        | exact no_fuel_ok _ | exact no_fuel_pure _ | exact no_fuel_undefined
        | exact no_fuel_assertion | exact no_fuel_throw_undefined
        | exact no_fuel_throw_assertion | apply sm1_dump_src_param_no_fuel
        | apply sm1_dump_reg_no_fuel | refine no_fuel_bind ?_ (fun _ => ?_)
        | refine no_fuel_ebind ?_ (fun _ => ?_) | refine no_fuel_map ?_ | apply no_fuel_ite)
    | split )

theorem NineTranslateInstruction_DCL_no_fuel (tx : shader_translator) :
    no_fuel (NineTranslateInstruction_DCL tx) := by
  unfold NineTranslateInstruction_DCL
  repeat' (first
    | (with_reducible first
        | exact no_fuel_ok _ | exact no_fuel_pure _ | exact no_fuel_undefined
        | exact no_fuel_assertion | exact no_fuel_throw_undefined
        | exact no_fuel_throw_assertion | apply nine_tgsi_to_interp_mode_no_fuel
        | apply sm1_declusage_to_tgsi_no_fuel | apply sm1_dump_dst_param_no_fuel
        | apply d3dstt_to_tgsi_tex_no_fuel | apply sm1_read_semantic_no_fuel
        | apply tx_assert_no_fuel | apply arr_set_no_fuel
        | refine no_fuel_bind ?_ (fun _ => ?_) | refine no_fuel_ebind ?_ (fun _ => ?_)
        | refine no_fuel_map ?_ | apply no_fuel_ite))

theorem NineTranslateInstruction_DEF_no_fuel (tx : shader_translator) :
    no_fuel (NineTranslateInstruction_DEF tx) := by
  unfold NineTranslateInstruction_DEF
  repeat' (first
    | (with_reducible first
        | exact no_fuel_ok _ | exact no_fuel_pure _ | exact no_fuel_undefined
        | exact no_fuel_assertion | exact no_fuel_throw_undefined
        | exact no_fuel_throw_assertion | apply tx_set_lconstf_no_fuel
        | refine no_fuel_bind ?_ (fun _ => ?_)))

theorem NineTranslateInstruction_DEFB_no_fuel (tx : shader_translator) :
    no_fuel (NineTranslateInstruction_DEFB tx) := by
  unfold NineTranslateInstruction_DEFB
  repeat' (first
    | (with_reducible first
        | exact no_fuel_ok _ | exact no_fuel_pure _ | exact no_fuel_undefined
        | exact no_fuel_assertion | exact no_fuel_throw_undefined
        | exact no_fuel_throw_assertion | apply tx_set_lconstb_no_fuel
        | refine no_fuel_bind ?_ (fun _ => ?_)))

theorem NineTranslateInstruction_DEFI_no_fuel (tx : shader_translator) :
    no_fuel (NineTranslateInstruction_DEFI tx) := by
  unfold NineTranslateInstruction_DEFI
  repeat' (first
    | (with_reducible first
        | exact no_fuel_ok _ | exact no_fuel_pure _ | exact no_fuel_undefined
        | exact no_fuel_assertion | exact no_fuel_throw_undefined
        | exact no_fuel_throw_assertion | apply tx_set_lconsti_no_fuel
        | refine no_fuel_bind ?_ (fun _ => ?_)))

theorem NineTranslateInstruction_NRM_no_fuel (tx : shader_translator) :
    no_fuel (NineTranslateInstruction_NRM tx) := by
  unfold NineTranslateInstruction_NRM
  repeat' (first
    | (with_reducible first
        | exact no_fuel_ok _ | exact no_fuel_pure _ | exact no_fuel_undefined
        | exact no_fuel_assertion | exact no_fuel_throw_undefined
        | exact no_fuel_throw_assertion | apply tx_scratch_scalar_no_fuel
        | apply tx_src_scalar_no_fuel | apply tx_src_param_no_fuel
        | apply tx_dst_param_no_fuel | refine no_fuel_bind ?_ (fun _ => ?_)))

theorem NineTranslateInstruction_TEXCOORD_no_fuel (tx : shader_translator) :
    no_fuel (NineTranslateInstruction_TEXCOORD tx) := by
  unfold NineTranslateInstruction_TEXCOORD
  repeat' (first
    | (with_reducible first
        | exact no_fuel_ok _ | exact no_fuel_pure _ | exact no_fuel_undefined
        | exact no_fuel_assertion | exact no_fuel_throw_undefined
        | exact no_fuel_throw_assertion | refine no_fuel_bind ?_ (fun _ => ?_)
        | refine no_fuel_ebind ?_ (fun _ => ?_) | refine no_fuel_map ?_ | apply no_fuel_ite))

theorem NineTranslateInstruction_TEXKILL_no_fuel (tx : shader_translator) :
    no_fuel (NineTranslateInstruction_TEXKILL tx) := by
  unfold NineTranslateInstruction_TEXKILL
  repeat' (first
    | (with_reducible first
        | exact no_fuel_ok _ | exact no_fuel_pure _ | exact no_fuel_undefined
        | exact no_fuel_assertion | exact no_fuel_throw_undefined
        | exact no_fuel_throw_assertion | apply tx_dst_param_no_fuel
        | refine no_fuel_bind ?_ (fun _ => ?_) | refine no_fuel_ebind ?_ (fun _ => ?_)
        | refine no_fuel_map ?_ | apply no_fuel_ite))

theorem NineTranslateInstruction_unimplemented_no_fuel (tx : shader_translator) :
    no_fuel (NineTranslateInstruction_unimplemented tx) := by
  unfold NineTranslateInstruction_unimplemented
  repeat' (first
    | (with_reducible first
        | exact no_fuel_ok _ | exact no_fuel_pure _))

theorem NineTranslateInstruction_TEX_no_fuel (tx : shader_translator) :
    no_fuel (NineTranslateInstruction_TEX tx) := by
  unfold NineTranslateInstruction_TEX
  repeat' (first
    | (with_reducible first
        | exact no_fuel_ok _ | exact no_fuel_pure _ | exact no_fuel_undefined
        | exact no_fuel_assertion | exact no_fuel_throw_undefined
        | exact no_fuel_throw_assertion | apply tx_src_param_no_fuel
        | apply tx_dst_param_no_fuel | apply tx_assert_no_fuel | apply arr_get_no_fuel
        | refine no_fuel_bind ?_ (fun _ => ?_) | refine no_fuel_ebind ?_ (fun _ => ?_)
        | refine no_fuel_map ?_ | apply no_fuel_ite))

theorem NineTranslateInstruction_TEXLDD_no_fuel (tx : shader_translator) :
    no_fuel (NineTranslateInstruction_TEXLDD tx) := by
  unfold NineTranslateInstruction_TEXLDD
  repeat' (first
    | (with_reducible first
        | exact no_fuel_ok _ | exact no_fuel_pure _ | exact no_fuel_undefined
        | exact no_fuel_assertion | exact no_fuel_throw_undefined
        | exact no_fuel_throw_assertion | apply tx_src_param_no_fuel
        | apply tx_dst_param_no_fuel | apply tx_assert_no_fuel | apply arr_get_no_fuel
        | refine no_fuel_bind ?_ (fun _ => ?_)))

theorem NineTranslateInstruction_TEXLDL_no_fuel (tx : shader_translator) :
    no_fuel (NineTranslateInstruction_TEXLDL tx) := by
  unfold NineTranslateInstruction_TEXLDL
  repeat' (first
    | (with_reducible first
        | exact no_fuel_ok _ | exact no_fuel_pure _ | exact no_fuel_undefined
        | exact no_fuel_assertion | exact no_fuel_throw_undefined
        | exact no_fuel_throw_assertion | apply tx_src_param_no_fuel
        | apply tx_dst_param_no_fuel | apply tx_assert_no_fuel | apply arr_get_no_fuel
        | refine no_fuel_bind ?_ (fun _ => ?_)))

theorem NineTranslateInstruction_PHASE_no_fuel (tx : shader_translator) :
    no_fuel (NineTranslateInstruction_PHASE tx) := by
  unfold NineTranslateInstruction_PHASE
  repeat' (first
    | (with_reducible first
        | exact no_fuel_ok _ | exact no_fuel_pure _))

theorem NineTranslateInstruction_COMMENT_no_fuel (tx : shader_translator) :
    no_fuel (NineTranslateInstruction_COMMENT tx) := by
  unfold NineTranslateInstruction_COMMENT
  repeat' (first
    | (with_reducible first
        | exact no_fuel_ok _ | exact no_fuel_pure _))

theorem generic_lower_dst_no_fuel (tx : shader_translator) :
    no_fuel (generic_lower_dst tx) := by
  unfold generic_lower_dst
  repeat' (first
    | (with_reducible first
        | exact no_fuel_ok _ | exact no_fuel_pure _ | exact no_fuel_undefined
        | exact no_fuel_assertion | exact no_fuel_throw_undefined
        | exact no_fuel_throw_assertion | apply tx_dst_param_no_fuel
        | refine no_fuel_bind ?_ (fun _ => ?_) | refine no_fuel_ebind ?_ (fun _ => ?_)
        | refine no_fuel_map ?_ | apply no_fuel_ite))

theorem generic_lower_src_no_fuel (todo : Nat) :
    ∀ (tx : shader_translator) (i : Nat), no_fuel (generic_lower_src tx todo i) := by
  induction todo with
  | zero => intro tx i; unfold generic_lower_src; exact no_fuel_pure _
  | succ k ih =>
    intro tx i
    unfold generic_lower_src
    repeat' (first
      | (with_reducible first
          | apply ih
          | exact no_fuel_ok _ | exact no_fuel_pure _ | exact no_fuel_undefined
          | exact no_fuel_assertion | exact no_fuel_throw_undefined
          | exact no_fuel_throw_assertion | apply tx_src_param_no_fuel
          | refine no_fuel_bind ?_ (fun _ => ?_) | refine no_fuel_ebind ?_ (fun _ => ?_)
          | refine no_fuel_map ?_ | apply no_fuel_ite)
      | split )

theorem NineTranslateInstruction_Generic_no_fuel (tx : shader_translator) :
    no_fuel (NineTranslateInstruction_Generic tx) := by
  unfold NineTranslateInstruction_Generic
  repeat' (first
    | (with_reducible first
        | exact no_fuel_ok _ | exact no_fuel_pure _ | exact no_fuel_undefined
        | exact no_fuel_assertion | exact no_fuel_throw_undefined
        | exact no_fuel_throw_assertion | apply generic_lower_dst_no_fuel
        | apply generic_lower_src_no_fuel | refine no_fuel_bind ?_ (fun _ => ?_)
        | refine no_fuel_ebind ?_ (fun _ => ?_) | refine no_fuel_map ?_ | apply no_fuel_ite)
    | split )

theorem run_handler_no_fuel (tx : shader_translator) (id : handler_id) :
    no_fuel (run_handler tx id) := by
  cases id <;> unfold run_handler <;>
  repeat' (first
    | (with_reducible first
        | exact no_fuel_ok _ | exact no_fuel_pure _ | exact no_fuel_undefined
        | exact no_fuel_assertion | exact no_fuel_throw_undefined
        | exact no_fuel_throw_assertion | apply NineTranslateInstruction_unimplemented_no_fuel
        | apply NineTranslateInstruction_TEXCOORD_no_fuel
        | apply NineTranslateInstruction_COMMENT_no_fuel
        | apply NineTranslateInstruction_ENDLOOP_no_fuel
        | apply NineTranslateInstruction_TEXKILL_no_fuel
        | apply NineTranslateInstruction_TEXLDL_no_fuel
        | apply NineTranslateInstruction_CALLNZ_no_fuel
        | apply NineTranslateInstruction_ENDREP_no_fuel
        | apply NineTranslateInstruction_BREAKC_no_fuel
        | apply NineTranslateInstruction_SINCOS_no_fuel
        | apply NineTranslateInstruction_TEXLDD_no_fuel
        | apply NineTranslateInstruction_PHASE_no_fuel
        | apply NineTranslateInstruction_ENDIF_no_fuel
        | apply NineTranslateInstruction_LABEL_no_fuel
        | apply NineTranslateInstruction_LOOP_no_fuel
        | apply NineTranslateInstruction_DEFI_no_fuel
        | apply NineTranslateInstruction_CALL_no_fuel
        | apply NineTranslateInstruction_M3x3_no_fuel
        | apply NineTranslateInstruction_M3x2_no_fuel
        | apply NineTranslateInstruction_M4x4_no_fuel
        | apply NineTranslateInstruction_ELSE_no_fuel
        | apply NineTranslateInstruction_M3x4_no_fuel
        | apply NineTranslateInstruction_M4x3_no_fuel
        | apply NineTranslateInstruction_DEFB_no_fuel
        | apply NineTranslateInstruction_RET_no_fuel
        | apply NineTranslateInstruction_TEX_no_fuel
        | apply NineTranslateInstruction_NRM_no_fuel
        | apply NineTranslateInstruction_DEF_no_fuel
        | apply NineTranslateInstruction_REP_no_fuel
        | apply NineTranslateInstruction_IFC_no_fuel
        | apply NineTranslateInstruction_DCL_no_fuel
        | apply NineTranslateInstruction_IF_no_fuel))

theorem sm1_dump_instruction_no_fuel (tx : shader_translator) :
    no_fuel (sm1_dump_instruction tx) := by
  unfold sm1_dump_instruction
  repeat' (first
    | (with_reducible first
        | exact no_fuel_ok _ | exact no_fuel_pure _ | exact no_fuel_undefined
        | exact no_fuel_assertion | exact no_fuel_throw_undefined
        | exact no_fuel_throw_assertion | apply sm1_dump_src_param_no_fuel
        | apply sm1_dump_dst_param_no_fuel | apply sm1_dump_immediate_no_fuel
        | refine no_fuel_bind ?_ (fun _ => ?_) | refine no_fuel_ebind ?_ (fun _ => ?_)
        | refine no_fuel_map ?_ | apply no_fuel_ite))

theorem sm1_read_dst_params_no_fuel (todo : Nat) :
    ∀ (i : Nat) (tx : shader_translator), no_fuel (sm1_read_dst_params todo i tx) := by
  induction todo with
  | zero => intro i tx; unfold sm1_read_dst_params; exact no_fuel_pure _
  | succ k ih =>
    intro i tx
    unfold sm1_read_dst_params
    repeat' (first
      | (with_reducible first
          | apply ih
          | exact no_fuel_ok _ | exact no_fuel_pure _ | exact no_fuel_undefined
          | exact no_fuel_assertion | exact no_fuel_throw_undefined
          | exact no_fuel_throw_assertion | apply sm1_read_dst_param_no_fuel
          | refine no_fuel_bind ?_ (fun _ => ?_) | refine no_fuel_ebind ?_ (fun _ => ?_)
          | refine no_fuel_map ?_ | apply no_fuel_ite)
      | split )

theorem sm1_read_src_params_no_fuel (todo : Nat) :
    ∀ (i : Nat) (tx : shader_translator), no_fuel (sm1_read_src_params todo i tx) := by
  induction todo with
  | zero => intro i tx; unfold sm1_read_src_params; exact no_fuel_pure _
  | succ k ih =>
    intro i tx
    unfold sm1_read_src_params
    repeat' (first
      | (with_reducible first
          | apply ih
          | exact no_fuel_ok _ | exact no_fuel_pure _ | exact no_fuel_undefined
          | exact no_fuel_assertion | exact no_fuel_throw_undefined
          | exact no_fuel_throw_assertion | apply sm1_read_src_param_no_fuel
          | refine no_fuel_bind ?_ (fun _ => ?_) | refine no_fuel_ebind ?_ (fun _ => ?_)
          | refine no_fuel_map ?_ | apply no_fuel_ite)
      | split )

theorem sm1_parse_instruction_head_no_fuel (tx : shader_translator) :
    no_fuel (sm1_parse_instruction_head tx) := by
  unfold sm1_parse_instruction_head
  repeat' (first
    | (with_reducible first
        | exact no_fuel_ok _ | exact no_fuel_pure _ | exact no_fuel_undefined
        | exact no_fuel_assertion | exact no_fuel_throw_undefined
        | exact no_fuel_throw_assertion | apply sm1_parse_get_skip_no_fuel
        | apply sm1_parse_comments_no_fuel | apply TOKEN_NEXT_no_fuel
        | refine no_fuel_bind ?_ (fun _ => ?_)))

theorem sm1_parse_instruction_body_no_fuel (tx : shader_translator) (info : sm1_op_info) :
    no_fuel (sm1_parse_instruction_body tx info) := by
  unfold sm1_parse_instruction_body
  repeat' (first
    | (with_reducible first
        | exact no_fuel_ok _ | exact no_fuel_pure _ | exact no_fuel_undefined
        | exact no_fuel_assertion | exact no_fuel_throw_undefined
        | exact no_fuel_throw_assertion | apply NineTranslateInstruction_Generic_no_fuel
        | apply sm1_dump_instruction_no_fuel | apply sm1_parse_immediate_no_fuel
        | apply sm1_read_src_params_no_fuel | apply sm1_read_dst_params_no_fuel
        | apply sm1_read_src_param_no_fuel | apply run_handler_no_fuel
        | refine no_fuel_bind ?_ (fun _ => ?_) | refine no_fuel_ebind ?_ (fun _ => ?_)
        | refine no_fuel_map ?_ | apply no_fuel_ite)
    | split )

theorem sm1_parse_instruction_no_fuel (tx : shader_translator) :
    no_fuel (sm1_parse_instruction tx) := by
  unfold sm1_parse_instruction
  repeat' (first
    | (with_reducible first
        | exact no_fuel_ok _ | exact no_fuel_pure _ | exact no_fuel_undefined
        | exact no_fuel_assertion | exact no_fuel_throw_undefined
        | exact no_fuel_throw_assertion | apply sm1_parse_instruction_body_no_fuel
        | apply sm1_parse_instruction_head_no_fuel | refine no_fuel_bind ?_ (fun _ => ?_)
        | refine no_fuel_ebind ?_ (fun _ => ?_) | refine no_fuel_map ?_ | apply no_fuel_ite)
    | split )

theorem tx_ctor_no_fuel (tx : shader_translator) (info : nine_shader_info) :
    no_fuel (tx_ctor tx info) := by
  unfold tx_ctor
  repeat' (first
    | (with_reducible first
        | exact no_fuel_ok _ | exact no_fuel_pure _ | exact no_fuel_undefined
        | exact no_fuel_assertion | exact no_fuel_throw_undefined
        | exact no_fuel_throw_assertion | apply sm1_read_version_no_fuel))

/-- The dispatch loop does not run out of fuel when it has one round per word left in the
stream and one for the final test. -/
theorem nine_translate_shader_loop_no_fuel (fuel : Nat) : ∀ tx : shader_translator,
    tx.byte_code.length + 1 ≤ fuel + tx.parse → 1 ≤ fuel →
    no_fuel (nine_translate_shader_loop fuel tx) := by
  induction fuel with
  | zero => intro tx _ h; omega
  | succ n ih =>
    intro tx hb _
    unfold nine_translate_shader_loop
    refine no_fuel_bind_of_ok (sm1_parse_eof_no_fuel tx) (fun b he => ?_)
    have hlt := sm1_parse_eof_lt he
    cases b with
    | true => exact no_fuel_pure _
    | false =>
      simp only [Bool.false_eq_true, if_false]
      refine no_fuel_bind_of_ok (sm1_parse_instruction_no_fuel tx) (fun tx1 hp => ?_)
      obtain ⟨p, hbc⟩ := sm1_parse_instruction_progress hp
      exact ih tx1 (by rw [hbc]; omega) (by omega)

theorem record_lconstf_no_fuel (lconstf : List sm1_local_const) (todo : Nat) :
    ∀ i : Nat, no_fuel (record_lconstf lconstf todo i) := by
  induction todo with
  | zero => intro i; unfold record_lconstf; exact no_fuel_pure _
  | succ k ih =>
    intro i
    unfold record_lconstf
    repeat' (first
      | (with_reducible first
          | apply ih
          | exact no_fuel_ok _ | exact no_fuel_pure _ | exact no_fuel_undefined
          | exact no_fuel_assertion | exact no_fuel_throw_undefined
          | exact no_fuel_throw_assertion | apply arr_get_no_fuel
          | refine no_fuel_bind ?_ (fun _ => ?_)))

/-- The run of the translation never ends for lack of fuel: it returns or it ends in a
fault of the C code. -/
theorem nine_translate_shader_run_no_fuel (device : NineDevice9) (tx : shader_translator) :
    no_fuel (nine_translate_shader_run device tx) := by
  have hrun : nine_translate_shader_run device tx =
      (nine_translate_shader_loop (tx.byte_code.length + 1) (tx_before_loop device tx)).bind
        (fun tx2 => .ok (tx_insn { tx2 with parse := tx2.parse + 1 } .END [] [])) := rfl
  rw [hrun]
  refine no_fuel_ebind ?_ (fun _ => no_fuel_ok _)
  exact nine_translate_shader_loop_no_fuel _ _ (by
    have : (tx_before_loop device tx).byte_code = tx.byte_code := rfl
    rw [this]; omega) (by omega)

theorem nine_translate_shader_no_fuel (device : NineDevice9) (info : nine_shader_info) :
    no_fuel (nine_translate_shader device info) := by
  unfold nine_translate_shader
  repeat' (first
    | (with_reducible first
        | apply record_lconstf_no_fuel
        | exact no_fuel_ok _ | exact no_fuel_pure _ | exact no_fuel_undefined
        | exact no_fuel_assertion | exact no_fuel_throw_undefined
        | exact no_fuel_throw_assertion | apply nine_translate_shader_run_no_fuel
        | apply record_lconstf_no_fuel | apply tx_ctor_no_fuel
        | refine no_fuel_bind ?_ (fun _ => ?_) | refine no_fuel_ebind ?_ (fun _ => ?_)
        | refine no_fuel_map ?_ | apply no_fuel_ite))

/-- C20 (cursor after a dispatched instruction).  On a known instruction that passes the
version check and whose opcode word `tok` is at the cursor `tx.parse`, whenever
`sm1_parse_instruction` returns, from version 2 on the cursor is at `tx.parse + 1 + L`,
where `L` is the length field of `tok`, whatever was read; below version 2 it is at
`tx.parse + 1 + ndst + (1 if predicated) + nsrc + payload`, with the payload of the spec.
The call never ends for lack of fuel: it returns or it ends in a fault of the C code. -/
theorem C20_cursor_after_instruction (tx : shader_translator) (tok : Nat)
    (info : sm1_op_info)
    (htok : tx.byte_code[tx.parse]? = some tok)
    (hnc : tok &&& D3DSI_OPCODE_MASK ≠ D3DSIO_COMMENT)
    (hinfo : sm1_lookup_info (tok &&& D3DSI_OPCODE_MASK) = some info)
    (hver : sm1_version_rejected tx info = false) :
    no_fuel (sm1_parse_instruction tx) ∧
    ∀ tx' : shader_translator, sm1_parse_instruction tx = .ok tx' →
      (2 ≤ tx.version_major →
        tx'.parse = tx.parse + 1 +
          ((tok &&& D3DSI_INSTLENGTH_MASK) >>> D3DSI_INSTLENGTH_SHIFT)) ∧
      (tx.version_major < 2 →
        tx'.parse = tx.parse + 1 + info.ndst +
          (if tok &&& NINED3DSHADER_INST_PREDICATED ≠ 0 then 1 else 0) + info.nsrc +
          spec_payload (tok &&& D3DSI_OPCODE_MASK)) := by
  refine ⟨sm1_parse_instruction_no_fuel tx, ?_⟩
  intro tx' h
  obtain ⟨ta, hr, tb, r, h5, h6⟩ := sm1_parse_instruction_known htok hnc hinfo hver h
  obtain ⟨c1, c2, _, _⟩ := handler_cursor h5
  have hn : ta.parse_next = (tx_decoded tx tok info).parse_next := by rw [r.1]
  have hw := handler_words hinfo
  subst h6
  constructor
  · intro hv
    have : tb.parse_next = some (tx.parse + 1 +
        ((tok &&& D3DSI_INSTLENGTH_MASK) >>> D3DSI_INSTLENGTH_SHIFT)) := by
      rw [c2, hn]
      unfold tx_decoded
      simp only []
      rw [if_pos hv]
    unfold TOKEN_JUMP
    rw [this]
    simp only []
    split
    · rfl
    · rename_i c
      simpa using c
  · intro hv
    have : tb.parse_next = none := by
      rw [c2, hn]
      unfold tx_decoded
      simp only []
      rw [if_neg (by omega)]
    unfold TOKEN_JUMP
    rw [this]
    simp only []
    rw [c1, r.2.2.2 hv]
    unfold tx_decoded
    simp only []
    omega

/-- Witness for C20: in version 1.1, `MOV r0, c[a0.x + 5]` (relative bit on the source
word) leaves the cursor 3 words behind the opcode word at 1; in version 2.0, `MOV r0, c0`
with the length field 5 leaves it at 1 + 1 + 5 = 7, behind the end of the stream. -/
theorem C20_cursor_after_instruction_witness :
    (tx_mov_rel_v1.byte_code[tx_mov_rel_v1.parse]? = some 0x00000001 ∧
     0x00000001 &&& D3DSI_OPCODE_MASK ≠ D3DSIO_COMMENT ∧
     sm1_lookup_info (0x00000001 &&& D3DSI_OPCODE_MASK) = some (op_generic .MOV V03 V03 1 1) ∧
     sm1_version_rejected tx_mov_rel_v1 (op_generic .MOV V03 V03 1 1) = false) ∧
    result_of ((sm1_parse_instruction tx_mov_rel_v1).map (fun t => t.parse)) = some 4 ∧
    result_of ((sm1_parse_instruction tx_mov_len5).map (fun t => t.parse)) = some 7 ∧
    (no_fuel (sm1_parse_instruction tx_mov_rel_v1) ∧
     ∀ tx' : shader_translator, sm1_parse_instruction tx_mov_rel_v1 = .ok tx' →
      (2 ≤ tx_mov_rel_v1.version_major →
        tx'.parse = tx_mov_rel_v1.parse + 1 +
          ((0x00000001 &&& D3DSI_INSTLENGTH_MASK) >>> D3DSI_INSTLENGTH_SHIFT)) ∧
      (tx_mov_rel_v1.version_major < 2 →
        tx'.parse = tx_mov_rel_v1.parse + 1 + (op_generic .MOV V03 V03 1 1).ndst +
          (if 0x00000001 &&& NINED3DSHADER_INST_PREDICATED ≠ 0 then 1 else 0) +
          (op_generic .MOV V03 V03 1 1).nsrc +
          spec_payload (0x00000001 &&& D3DSI_OPCODE_MASK))) ∧
    (no_fuel (sm1_parse_instruction tx_mov_len5) ∧
     ∀ tx' : shader_translator, sm1_parse_instruction tx_mov_len5 = .ok tx' →
      (2 ≤ tx_mov_len5.version_major →
        tx'.parse = tx_mov_len5.parse + 1 +
          ((0x05000001 &&& D3DSI_INSTLENGTH_MASK) >>> D3DSI_INSTLENGTH_SHIFT)) ∧
      (tx_mov_len5.version_major < 2 →
        tx'.parse = tx_mov_len5.parse + 1 + (op_generic .MOV V03 V03 1 1).ndst +
          (if 0x05000001 &&& NINED3DSHADER_INST_PREDICATED ≠ 0 then 1 else 0) +
          (op_generic .MOV V03 V03 1 1).nsrc +
          spec_payload (0x05000001 &&& D3DSI_OPCODE_MASK))) :=
  ⟨⟨by decide, by decide, by decide, by decide⟩, by decide!, by decide!,
   C20_cursor_after_instruction tx_mov_rel_v1 0x00000001 (op_generic .MOV V03 V03 1 1)
     (by decide) (by decide) (by decide) (by decide),
   C20_cursor_after_instruction tx_mov_len5 0x05000001 (op_generic .MOV V03 V03 1 1)
     (by decide) (by decide) (by decide) (by decide)⟩

/-- C33 (DCL usage mapping).  `sm1_declusage_to_tgsi` maps BLENDWEIGHT, BLENDINDICES,
NORMAL, TANGENT, BINORMAL and TESSFACTOR to GENERIC 8 + 2 .. 8 + 7 in texcoord-slot mode
and to GENERIC 2 .. 7 otherwise; TEXCOORD with usage index u to TEXCOORD u in that mode
when u < 8, to GENERIC u - 8 in that mode when u >= 8, and to GENERIC u otherwise;
POSITION, POSITIONT and DEPTH to POSITION 0, COLOR to COLOR u, FOG to FOG 0 and PSIZE to
PSIZE 0.  It returns for each of them, in every build. -/
theorem C33_declusage_mapping (tx : shader_translator) (dcl : sm1_semantic) :
    (dcl.usage = D3DDECLUSAGE_BLENDWEIGHT →
      sm1_declusage_to_tgsi tx true dcl = .ok ⟨.GENERIC, 8 + 2⟩ ∧
      sm1_declusage_to_tgsi tx false dcl = .ok ⟨.GENERIC, 2⟩) ∧
    (dcl.usage = D3DDECLUSAGE_BLENDINDICES →
      sm1_declusage_to_tgsi tx true dcl = .ok ⟨.GENERIC, 8 + 3⟩ ∧
      sm1_declusage_to_tgsi tx false dcl = .ok ⟨.GENERIC, 3⟩) ∧
    (dcl.usage = D3DDECLUSAGE_NORMAL →
      sm1_declusage_to_tgsi tx true dcl = .ok ⟨.GENERIC, 8 + 4⟩ ∧
      sm1_declusage_to_tgsi tx false dcl = .ok ⟨.GENERIC, 4⟩) ∧
    (dcl.usage = D3DDECLUSAGE_TANGENT →
      sm1_declusage_to_tgsi tx true dcl = .ok ⟨.GENERIC, 8 + 5⟩ ∧
      sm1_declusage_to_tgsi tx false dcl = .ok ⟨.GENERIC, 5⟩) ∧
    (dcl.usage = D3DDECLUSAGE_BINORMAL →
      sm1_declusage_to_tgsi tx true dcl = .ok ⟨.GENERIC, 8 + 6⟩ ∧
      sm1_declusage_to_tgsi tx false dcl = .ok ⟨.GENERIC, 6⟩) ∧
    (dcl.usage = D3DDECLUSAGE_TESSFACTOR →
      sm1_declusage_to_tgsi tx true dcl = .ok ⟨.GENERIC, 8 + 7⟩ ∧
      sm1_declusage_to_tgsi tx false dcl = .ok ⟨.GENERIC, 7⟩) ∧
    (dcl.usage = D3DDECLUSAGE_TEXCOORD →
      (dcl.usage_idx < 8 →
        sm1_declusage_to_tgsi tx true dcl = .ok ⟨.TEXCOORD, dcl.usage_idx⟩) ∧
      (8 ≤ dcl.usage_idx →
        sm1_declusage_to_tgsi tx true dcl = .ok ⟨.GENERIC, dcl.usage_idx - 8⟩) ∧
      sm1_declusage_to_tgsi tx false dcl = .ok ⟨.GENERIC, dcl.usage_idx⟩) ∧
    (dcl.usage = D3DDECLUSAGE_POSITION ∨ dcl.usage = D3DDECLUSAGE_POSITIONT ∨
        dcl.usage = D3DDECLUSAGE_DEPTH →
      ∀ tc, sm1_declusage_to_tgsi tx tc dcl = .ok ⟨.POSITION, 0⟩) ∧
    (dcl.usage = D3DDECLUSAGE_COLOR →
      ∀ tc, sm1_declusage_to_tgsi tx tc dcl = .ok ⟨.COLOR, dcl.usage_idx⟩) ∧
    (dcl.usage = D3DDECLUSAGE_FOG →
      ∀ tc, sm1_declusage_to_tgsi tx tc dcl = .ok ⟨.FOG, 0⟩) ∧
    (dcl.usage = D3DDECLUSAGE_PSIZE →
      ∀ tc, sm1_declusage_to_tgsi tx tc dcl = .ok ⟨.PSIZE, 0⟩) := by
  refine ⟨?_, ?_, ?_, ?_, ?_, ?_, ?_, ?_, ?_, ?_, ?_⟩
  · intro h
    unfold sm1_declusage_to_tgsi
    simp [h, pure, Except.pure, D3DDECLUSAGE_POSITION, D3DDECLUSAGE_POSITIONT,
      D3DDECLUSAGE_DEPTH, D3DDECLUSAGE_COLOR, D3DDECLUSAGE_FOG, D3DDECLUSAGE_PSIZE,
      D3DDECLUSAGE_TEXCOORD, D3DDECLUSAGE_BLENDWEIGHT]
  · intro h
    unfold sm1_declusage_to_tgsi
    simp [h, pure, Except.pure, D3DDECLUSAGE_POSITION, D3DDECLUSAGE_POSITIONT,
      D3DDECLUSAGE_DEPTH, D3DDECLUSAGE_COLOR, D3DDECLUSAGE_FOG, D3DDECLUSAGE_PSIZE,
      D3DDECLUSAGE_TEXCOORD, D3DDECLUSAGE_BLENDWEIGHT, D3DDECLUSAGE_BLENDINDICES]
  · intro h
    unfold sm1_declusage_to_tgsi
    simp [h, pure, Except.pure, D3DDECLUSAGE_POSITION, D3DDECLUSAGE_POSITIONT,
      D3DDECLUSAGE_DEPTH, D3DDECLUSAGE_COLOR, D3DDECLUSAGE_FOG, D3DDECLUSAGE_PSIZE,
      D3DDECLUSAGE_TEXCOORD, D3DDECLUSAGE_BLENDWEIGHT, D3DDECLUSAGE_BLENDINDICES,
      D3DDECLUSAGE_NORMAL]
  · intro h
    unfold sm1_declusage_to_tgsi
    simp [h, pure, Except.pure, D3DDECLUSAGE_POSITION, D3DDECLUSAGE_POSITIONT,
      D3DDECLUSAGE_DEPTH, D3DDECLUSAGE_COLOR, D3DDECLUSAGE_FOG, D3DDECLUSAGE_PSIZE,
      D3DDECLUSAGE_TEXCOORD, D3DDECLUSAGE_BLENDWEIGHT, D3DDECLUSAGE_BLENDINDICES,
      D3DDECLUSAGE_NORMAL, D3DDECLUSAGE_TANGENT]
  · intro h
    unfold sm1_declusage_to_tgsi
    simp [h, pure, Except.pure, D3DDECLUSAGE_POSITION, D3DDECLUSAGE_POSITIONT,
      D3DDECLUSAGE_DEPTH, D3DDECLUSAGE_COLOR, D3DDECLUSAGE_FOG, D3DDECLUSAGE_PSIZE,
      D3DDECLUSAGE_TEXCOORD, D3DDECLUSAGE_BLENDWEIGHT, D3DDECLUSAGE_BLENDINDICES,
      D3DDECLUSAGE_NORMAL, D3DDECLUSAGE_TANGENT, D3DDECLUSAGE_BINORMAL]
  · intro h
    unfold sm1_declusage_to_tgsi
    simp [h, pure, Except.pure, D3DDECLUSAGE_POSITION, D3DDECLUSAGE_POSITIONT,
      D3DDECLUSAGE_DEPTH, D3DDECLUSAGE_COLOR, D3DDECLUSAGE_FOG, D3DDECLUSAGE_PSIZE,
      D3DDECLUSAGE_TEXCOORD, D3DDECLUSAGE_BLENDWEIGHT, D3DDECLUSAGE_BLENDINDICES,
      D3DDECLUSAGE_NORMAL, D3DDECLUSAGE_TANGENT, D3DDECLUSAGE_BINORMAL,
      D3DDECLUSAGE_TESSFACTOR]
  · intro h
    unfold sm1_declusage_to_tgsi
    refine ⟨?_, ?_, ?_⟩
    · intro hu
      simp [h, hu, pure, Except.pure, D3DDECLUSAGE_POSITION, D3DDECLUSAGE_POSITIONT,
        D3DDECLUSAGE_DEPTH, D3DDECLUSAGE_COLOR, D3DDECLUSAGE_FOG, D3DDECLUSAGE_PSIZE,
        D3DDECLUSAGE_TEXCOORD]
    · intro hu
      simp [h, Nat.not_lt.mpr hu, pure, Except.pure, D3DDECLUSAGE_POSITION,
        D3DDECLUSAGE_POSITIONT, D3DDECLUSAGE_DEPTH, D3DDECLUSAGE_COLOR, D3DDECLUSAGE_FOG,
        D3DDECLUSAGE_PSIZE, D3DDECLUSAGE_TEXCOORD]
    · simp [h, pure, Except.pure, D3DDECLUSAGE_POSITION, D3DDECLUSAGE_POSITIONT,
        D3DDECLUSAGE_DEPTH, D3DDECLUSAGE_COLOR, D3DDECLUSAGE_FOG, D3DDECLUSAGE_PSIZE,
        D3DDECLUSAGE_TEXCOORD]
  · intro h tc
    unfold sm1_declusage_to_tgsi
    rw [if_pos h]
    rfl
  · intro h tc
    unfold sm1_declusage_to_tgsi
    simp [h, pure, Except.pure, D3DDECLUSAGE_POSITION, D3DDECLUSAGE_POSITIONT,
      D3DDECLUSAGE_DEPTH, D3DDECLUSAGE_COLOR]
  · intro h tc
    unfold sm1_declusage_to_tgsi
    simp [h, pure, Except.pure, D3DDECLUSAGE_POSITION, D3DDECLUSAGE_POSITIONT,
      D3DDECLUSAGE_DEPTH, D3DDECLUSAGE_COLOR, D3DDECLUSAGE_FOG]
  · intro h tc
    unfold sm1_declusage_to_tgsi
    simp [h, pure, Except.pure, D3DDECLUSAGE_POSITION, D3DDECLUSAGE_POSITIONT,
      D3DDECLUSAGE_DEPTH, D3DDECLUSAGE_COLOR, D3DDECLUSAGE_FOG, D3DDECLUSAGE_PSIZE]

theorem sm1_read_semantic_reg {tx tx' : shader_translator} {sem : sm1_semantic}
    (h : sm1_read_semantic tx = .ok (sem, tx')) :
    ∃ tok, sem.reg = sm1_parse_dst_param tok := by
  unfold sm1_read_semantic TOKEN_NEXT at h
  simp only [bind_eq_ok, pure_eq_ok] at h
  obtain ⟨_, ⟨_, _, rfl⟩, _, ⟨tok, _, rfl⟩, h⟩ := h
  rw [Prod.mk.injEq] at h
  obtain ⟨h, _⟩ := h
  subst h
  exact ⟨tok, rfl⟩

theorem sm1_declusage_to_tgsi_returns (tx : shader_translator) (tc : Bool)
    (dcl : sm1_semantic) (h : dcl.usage < 14) :
    ∃ t, sm1_declusage_to_tgsi tx tc dcl = .ok t := by
  unfold sm1_declusage_to_tgsi
  simp only [D3DDECLUSAGE_POSITION, D3DDECLUSAGE_POSITIONT, D3DDECLUSAGE_DEPTH,
    D3DDECLUSAGE_COLOR, D3DDECLUSAGE_FOG, D3DDECLUSAGE_PSIZE, D3DDECLUSAGE_TEXCOORD,
    D3DDECLUSAGE_BLENDWEIGHT, D3DDECLUSAGE_BLENDINDICES, D3DDECLUSAGE_NORMAL,
    D3DDECLUSAGE_TANGENT, D3DDECLUSAGE_BINORMAL, D3DDECLUSAGE_TESSFACTOR,
    D3DDECLUSAGE_SAMPLE]
  have hc : dcl.usage = 0 ∨ dcl.usage = 1 ∨ dcl.usage = 2 ∨ dcl.usage = 3 ∨ dcl.usage = 4 ∨
      dcl.usage = 5 ∨ dcl.usage = 6 ∨ dcl.usage = 7 ∨ dcl.usage = 8 ∨ dcl.usage = 9 ∨
      dcl.usage = 10 ∨ dcl.usage = 11 ∨ dcl.usage = 12 ∨ dcl.usage = 13 := by omega
  rcases hc with c | c | c | c | c | c | c | c | c | c | c | c | c | c <;>
    (rw [c]; exact ⟨_, rfl⟩)

/-- A vertex-shader DCL of an input register declares the input, whatever its writemask. -/
theorem DCL_vs_input (tx tx1 : shader_translator) (sem : sm1_semantic)
    (h1 : sm1_read_semantic tx = .ok (sem, tx1)) (hvs : tx.processor = .VERTEX)
    (hf : sem.reg.file = D3DSPR_INPUT) (hu : sem.usage < 13)
    (hi : sem.reg.idx.toNat < tx.input_map.length) :
    ∃ tx', NineTranslateInstruction_DCL tx = .ok (.D3D_OK, tx') ∧
      tx'.ureg.items = tx.ureg.items ++ [.DECL_vs_input sem.reg.idx] := by
  obtain ⟨tok, hreg⟩ := sm1_read_semantic_reg h1
  have hp := sm1_read_semantic_parse h1
  have hrel : sem.reg.rel = none := by rw [hreg]; rfl
  have h0 : 0 ≤ sem.reg.idx := by rw [hreg]; exact Int.natCast_nonneg _
  obtain ⟨t, ht⟩ := sm1_declusage_to_tgsi_returns tx1 tx1.want_texcoord sem (by omega)
  have hdump : sm1_dump_dst_param tx1 sem.reg = .ok () := by
    unfold sm1_dump_dst_param
    rw [hrel]
    simp only [hf]
    rfl
  have hvs1 : IS_VS tx1 = true := by
    rw [hp]
    simp [IS_VS, hvs]
  have hset : arr_set tx1.input_map sem.reg.idx (sm1_to_nine_declusage sem) =
      .ok (tx1.input_map.set sem.reg.idx.toNat (sm1_to_nine_declusage sem)) := by
    rw [arr_set_ok_iff]
    refine ⟨h0, ?_, rfl⟩
    rw [hp]
    exact hi
  unfold NineTranslateInstruction_DCL
  rw [h1]
  simp only [bind, Except.bind, hdump]
  rw [if_neg (by omega)]
  simp only [pure, Except.pure]
  rw [if_neg (by simp only [D3DDECLUSAGE_SAMPLE]; omega)]
  simp only [ht, hvs1, if_true, hf, tx_emit, hset]
  refine ⟨_, rfl, ?_⟩
  rw [hp]
  rfl

theorem sm1_declusage_to_tgsi_interp (tx : shader_translator) (tc : Bool)
    (dcl : sm1_semantic) (h : dcl.usage < 13) :
    ∃ t i, sm1_declusage_to_tgsi tx tc dcl = .ok t ∧ nine_tgsi_to_interp_mode tx t = .ok i := by
  unfold sm1_declusage_to_tgsi
  simp only [D3DDECLUSAGE_POSITION, D3DDECLUSAGE_POSITIONT, D3DDECLUSAGE_DEPTH,
    D3DDECLUSAGE_COLOR, D3DDECLUSAGE_FOG, D3DDECLUSAGE_PSIZE, D3DDECLUSAGE_TEXCOORD,
    D3DDECLUSAGE_BLENDWEIGHT, D3DDECLUSAGE_BLENDINDICES, D3DDECLUSAGE_NORMAL,
    D3DDECLUSAGE_TANGENT, D3DDECLUSAGE_BINORMAL, D3DDECLUSAGE_TESSFACTOR,
    D3DDECLUSAGE_SAMPLE]
  have hc : dcl.usage = 0 ∨ dcl.usage = 1 ∨ dcl.usage = 2 ∨ dcl.usage = 3 ∨ dcl.usage = 4 ∨
      dcl.usage = 5 ∨ dcl.usage = 6 ∨ dcl.usage = 7 ∨ dcl.usage = 8 ∨ dcl.usage = 9 ∨
      dcl.usage = 10 ∨ dcl.usage = 11 ∨ dcl.usage = 12 := by omega
  rcases hc with c | c | c | c | c | c | c | c | c | c | c | c | c <;> rw [c]
  any_goals exact ⟨_, _, rfl, rfl⟩
  by_cases hx : tc = true ∧ dcl.usage_idx < 8
  · exact ⟨_, .PERSPECTIVE, rfl, by simp [nine_tgsi_to_interp_mode, hx, pure, Except.pure]⟩
  · exact ⟨_, .PERSPECTIVE, rfl, by simp [nine_tgsi_to_interp_mode, hx, pure, Except.pure]⟩

/-- A pixel-shader DCL of an input register declares the input, whatever its writemask. -/
theorem DCL_ps_input (tx tx1 : shader_translator) (sem : sm1_semantic)
    (h1 : sm1_read_semantic tx = .ok (sem, tx1)) (hps : tx.processor ≠ .VERTEX)
    (hf : sem.reg.file = D3DSPR_INPUT) (hu : sem.usage < 13) :
    ∃ tx' tgsi interp, NineTranslateInstruction_DCL tx = .ok (.D3D_OK, tx') ∧
      sm1_declusage_to_tgsi tx1 tx1.want_texcoord sem = .ok tgsi ∧
      tx'.ureg.items = tx.ureg.items ++
        [.DECL_fs_input tgsi.Name tgsi.Index interp 0
          (decide (sem.reg.mod = NINED3DSPDM_CENTROID))] := by
  obtain ⟨tok, hreg⟩ := sm1_read_semantic_reg h1
  have hp := sm1_read_semantic_parse h1
  have hrel : sem.reg.rel = none := by rw [hreg]; rfl
  obtain ⟨t, i, ht, hi⟩ := sm1_declusage_to_tgsi_interp tx1 tx1.want_texcoord sem hu
  have hdump : sm1_dump_dst_param tx1 sem.reg = .ok () := by
    unfold sm1_dump_dst_param
    rw [hrel]
    simp only [hf]
    rfl
  have hvs1 : IS_VS tx1 = false := by
    rw [hp]
    simpa [IS_VS] using hps
  unfold NineTranslateInstruction_DCL
  rw [h1]
  simp only [bind, Except.bind, hdump]
  rw [if_neg (by omega)]
  simp only [pure, Except.pure]
  rw [if_neg (by simp only [D3DDECLUSAGE_SAMPLE]; omega)]
  simp only [ht, hvs1, hf, hi, Bool.false_eq_true, if_false, if_true]
  refine ⟨_, t, i, rfl, rfl, ?_⟩
  rw [hp]
  rfl

/-- A DCL of a register that is neither an input nor a sampler, with writemask 0, does
not return in a build with assertions. -/
theorem DCL_output_mask0 (tx tx1 : shader_translator) (sem : sm1_semantic)
    (h1 : sm1_read_semantic tx = .ok (sem, tx1)) (ha : tx.env.asserts = true)
    (hf : sem.reg.file ≠ D3DSPR_INPUT) (hu : sem.usage ≠ D3DDECLUSAGE_SAMPLE)
    (hm : sem.reg.mask = 0) :
    result_of (NineTranslateInstruction_DCL tx) = none := by
  have hp := sm1_read_semantic_parse h1
  have ha1 : tx1.env.asserts = true := by rw [hp]; exact ha
  cases hd : NineTranslateInstruction_DCL tx with
  | error e => rfl
  | ok r =>
    exfalso
    obtain ⟨hr, tx'⟩ := r
    unfold NineTranslateInstruction_DCL at hd
    rw [h1] at hd
    rw [bind_eq_except_bind, except_bind_ok] at hd
    rw [bind_eq_ok] at hd
    obtain ⟨_, _, hd⟩ := hd
    simp only [] at hd
    split at hd
    · simp only [bind_eq_ok] at hd
      obtain ⟨_, hthrow, _⟩ := hd
      exact absurd hthrow (throw_ne_ok _ _)
    · rw [bind_eq_ok] at hd
      obtain ⟨_, _, hd⟩ := hd
      rw [bind_eq_ok] at hd
      obtain ⟨tgsi, _, hd⟩ := hd
      split at hd
      · rw [bind_eq_ok] at hd
        obtain ⟨_, hass, _⟩ := hd
        rw [tx_assert_eq_ok] at hass
        have := hass ha1
        simp [hm] at this
      · rw [bind_eq_ok] at hd
        obtain ⟨_, hass, _⟩ := hd
        rw [tx_assert_eq_ok] at hass
        have := hass ha1
        simp [hm] at this

/-- C34 (writemask 0 on a declaration).  The handler of DCL looks at the writemask only
for registers that are not inputs, and only through an `assert`: a DCL of an input
register is declared whatever its writemask, in both stages, and a DCL with writemask 0
of another register is declared with the usage mask 0 in a build without assertions; in
a build with assertions that one does not return.  `vs_3_0; DCL_POSITION v0` and
`ps_3_0; DCL_COLOR v0` with writemask 0 are translated with their declaration. -/
theorem C34_DCL_of_input_ignores_the_writemask :
    (∀ (tx tx1 : shader_translator) (sem : sm1_semantic),
      sm1_read_semantic tx = .ok (sem, tx1) → tx.processor = .VERTEX →
      sem.reg.file = D3DSPR_INPUT → sem.usage < 13 →
      sem.reg.idx.toNat < tx.input_map.length →
      ∃ tx', NineTranslateInstruction_DCL tx = .ok (.D3D_OK, tx') ∧
        tx'.ureg.items = tx.ureg.items ++ [.DECL_vs_input sem.reg.idx]) ∧
    (∀ (tx tx1 : shader_translator) (sem : sm1_semantic),
      sm1_read_semantic tx = .ok (sem, tx1) → tx.processor ≠ .VERTEX →
      sem.reg.file = D3DSPR_INPUT → sem.usage < 13 →
      ∃ tx' tgsi interp, NineTranslateInstruction_DCL tx = .ok (.D3D_OK, tx') ∧
        sm1_declusage_to_tgsi tx1 tx1.want_texcoord sem = .ok tgsi ∧
        tx'.ureg.items = tx.ureg.items ++
          [.DECL_fs_input tgsi.Name tgsi.Index interp 0
            (decide (sem.reg.mod = NINED3DSPDM_CENTROID))]) ∧
    (∀ (tx tx1 : shader_translator) (sem : sm1_semantic),
      sm1_read_semantic tx = .ok (sem, tx1) → tx.env.asserts = true →
      sem.reg.file ≠ D3DSPR_INPUT → sem.usage ≠ D3DDECLUSAGE_SAMPLE → sem.reg.mask = 0 →
      result_of (NineTranslateInstruction_DCL tx) = none) ∧
    result_of ((nine_translate_shader small_device
        (example_info .VERTEX (prog_dcl 0xfffe0300 0x00000000 0x10000000))).map
        (fun r => (r.1, emitted_items r.2)))
      = some (.D3D_OK, [.DECL_vs_input 0, .insn .END [] []]) ∧
    result_of ((nine_translate_shader small_device
        (example_info .FRAGMENT (prog_dcl 0xffff0300 0x0000000a 0x10000000))).map
        (fun r => (r.1, emitted_items r.2)))
      = some (.D3D_OK, [.DECL_fs_input .COLOR 0 .PERSPECTIVE 0 false, .insn .END [] []]) ∧
    fault_of (nine_translate_shader small_device
        (example_info .VERTEX (prog_dcl 0xfffe0300 0x00000000 0x60000000)))
      = some .assertion ∧
    result_of ((nine_translate_shader
        { small_device with env := { small_env with asserts := false } }
        (example_info .VERTEX (prog_dcl 0xfffe0300 0x00000000 0x60000000))).map
        (fun r => (r.1, (emitted_items r.2).filterMap ureg_item.decl_output_mask)))
      = some (.D3D_OK, [(.POSITION, 0, 0)]) ∧
    result_of ((nine_translate_shader small_device
        (example_info .VERTEX (prog_dcl 0xfffe0300 0x00000000 0x600f0000))).map
        (fun r => (r.1, (emitted_items r.2).filterMap ureg_item.decl_output_mask)))
      = some (.D3D_OK, [(.POSITION, 0, 15)]) := by
  refine ⟨?_, ?_, ?_, by decide!, by decide!, by decide!, by decide!, by decide!⟩
  · intro tx tx1 sem h1 hvs hf hu hi
    exact DCL_vs_input tx tx1 sem h1 hvs hf hu hi
  · intro tx tx1 sem h1 hps hf hu
    exact DCL_ps_input tx tx1 sem h1 hps hf hu
  · intro tx tx1 sem h1 ha hf hu hm
    exact DCL_output_mask0 tx tx1 sem h1 ha hf hu hm

theorem replicate_zero_get (n : Nat) (i : Int) (h0 : 0 ≤ i) (h : i.toNat < n) :
    arr_get (List.replicate n sm1_local_const.zero) i = .ok sm1_local_const.zero := by
  rw [arr_get_ok_iff]
  refine ⟨h0, ?_⟩
  rw [List.getElem?_replicate]
  simp [h]

theorem tx_src_param_file_CONSTINT (tx : shader_translator) (p : sm1_src_param)
    (h : p.file = D3DSPR_CONSTINT) :
    tx_src_param_file tx p = tx_src_param_CONSTINT tx p := by
  simp [tx_src_param_file, h, D3DSPR_CONSTBOOL, D3DSPR_SAMPLER, D3DSPR_PREDICATE,
    D3DSPR_INPUT, D3DSPR_ADDR, D3DSPR_TEMP, D3DSPR_CONST, D3DSPR_CONST2, D3DSPR_CONST3,
    D3DSPR_CONST4, D3DSPR_CONSTINT]

/-- C39 (lookup of integer and boolean local constants).  After `calloc` every entry of
`lconsti` and `lconstb` has `idx == 0`, so `tx_lconsti(0)` and `tx_lconstb(0)` succeed
without any DEFI or DEFB and yield the zeroed register; for the other indices they find
nothing.  A CONSTINT or CONSTBOOL source without relative addressing is lowered to what
the lookup finds.  In `vs_2_0; MOV r0, i0` the MOV therefore reads the NULL file, where
the spec has it read constant-file register NINE_CONST_I_BASE_IDX + 0, and in
`vs_2_0; IF b0` the IF tests the NULL file; with i1 and b1 the constant file is read. -/
theorem C39_zeroed_local_constant_0_is_found :
    (∀ env : build_env, 0 < env.NINE_MAX_CONST_I →
      tx_lconsti (shader_translator.calloc env) 0 = .ok (some ureg_src_undef)) ∧
    (∀ env : build_env, 0 < env.NINE_MAX_CONST_B →
      tx_lconstb (shader_translator.calloc env) 0 = .ok (some ureg_src_undef)) ∧
    (∀ (env : build_env) (i : Int), 0 < i → i < env.NINE_MAX_CONST_I →
      tx_lconsti (shader_translator.calloc env) i = .ok none) ∧
    (∀ (env : build_env) (i : Int), 0 < i → i < env.NINE_MAX_CONST_B →
      tx_lconstb (shader_translator.calloc env) i = .ok none) ∧
    (∀ (tx : shader_translator) (p : sm1_src_param) (r : ureg_src),
      p.file = D3DSPR_CONSTINT → p.rel = none → tx_lconsti tx p.idx = .ok (some r) →
      tx_src_param_file tx p = .ok (r, tx)) ∧
    (∀ (tx : shader_translator) (p : sm1_src_param) (r : ureg_src),
      p.file = D3DSPR_CONSTBOOL → p.rel = none → tx_lconstb tx p.idx = .ok (some r) →
      tx_src_param_file tx p = .ok (r, tx)) ∧
    result_of ((nine_translate_shader small_device (example_info .VERTEX (prog_mov_i 0))).map
        (fun r => (r.1, (emitted_insns r.2).map ureg_item.src_regs)))
      = some (.D3D_OK, [[(.NULL, 0)], []]) ∧
    result_of ((nine_translate_shader small_device (example_info .VERTEX (prog_mov_i 1))).map
        (fun r => (r.1, (emitted_insns r.2).map ureg_item.src_regs)))
      = some (.D3D_OK, [[(.CONSTANT, (small_env.NINE_CONST_I_BASE_IDX : Int) + 1)], []]) ∧
    result_of ((nine_translate_shader small_device (example_info .VERTEX (prog_if_b 0))).map
        (fun r => (r.1, (emitted_insns r.2).map ureg_item.src_regs)))
      = some (.D3D_OK, [[(.NULL, 0)], [], []]) ∧
    result_of ((nine_translate_shader small_device (example_info .VERTEX (prog_if_b 1))).map
        (fun r => (r.1, (emitted_insns r.2).map ureg_item.src_regs)))
      = some (.D3D_OK, [[(.CONSTANT, (small_env.NINE_CONST_B_BASE_IDX : Int))], [], []]) := by
  refine ⟨?_, ?_, ?_, ?_, ?_, ?_, by decide!, by decide!, by decide!, by decide!⟩
  · intro env h
    have hg : arr_get (shader_translator.calloc env).lconsti 0 = .ok sm1_local_const.zero :=
      replicate_zero_get _ 0 (by omega) (by simpa using h)
    have ha : tx_assert (shader_translator.calloc env)
        (decide (0 ≤ (0 : Int) ∧ (0 : Int) < (shader_translator.calloc env).env.NINE_MAX_CONST_I)) = .ok () := by
      rw [tx_assert_ok_iff]
      intro _
      have : (shader_translator.calloc env).env = env := rfl
      rw [this]
      simp only [decide_eq_true_eq]
      omega
    unfold tx_lconsti
    rw [ha, hg]
    simp only [bind, Except.bind, pure, Except.pure, sm1_local_const.zero]
    rfl
  · intro env h
    have hg : arr_get (shader_translator.calloc env).lconstb 0 = .ok sm1_local_const.zero :=
      replicate_zero_get _ 0 (by omega) (by simpa using h)
    have ha : tx_assert (shader_translator.calloc env)
        (decide (0 ≤ (0 : Int) ∧ (0 : Int) < (shader_translator.calloc env).env.NINE_MAX_CONST_B)) = .ok () := by
      rw [tx_assert_ok_iff]
      intro _
      have : (shader_translator.calloc env).env = env := rfl
      rw [this]
      simp only [decide_eq_true_eq]
      omega
    unfold tx_lconstb
    rw [ha, hg]
    simp only [bind, Except.bind, pure, Except.pure, sm1_local_const.zero]
    rfl
  · intro env i h0 h
    have hg : arr_get (shader_translator.calloc env).lconsti i = .ok sm1_local_const.zero :=
      replicate_zero_get _ i (by omega) (by omega)
    have ha : tx_assert (shader_translator.calloc env)
        (decide (0 ≤ (i : Int) ∧ (i : Int) < (shader_translator.calloc env).env.NINE_MAX_CONST_I)) = .ok () := by
      rw [tx_assert_ok_iff]
      intro _
      have : (shader_translator.calloc env).env = env := rfl
      rw [this]
      simp only [decide_eq_true_eq]
      omega
    unfold tx_lconsti
    rw [ha, hg]
    simp only [bind, Except.bind, pure, Except.pure, sm1_local_const.zero]
    rw [if_neg (by omega)]
  · intro env i h0 h
    have hg : arr_get (shader_translator.calloc env).lconstb i = .ok sm1_local_const.zero :=
      replicate_zero_get _ i (by omega) (by omega)
    have ha : tx_assert (shader_translator.calloc env)
        (decide (0 ≤ (i : Int) ∧ (i : Int) < (shader_translator.calloc env).env.NINE_MAX_CONST_B)) = .ok () := by
      rw [tx_assert_ok_iff]
      intro _
      have : (shader_translator.calloc env).env = env := rfl
      rw [this]
      simp only [decide_eq_true_eq]
      omega
    unfold tx_lconstb
    rw [ha, hg]
    simp only [bind, Except.bind, pure, Except.pure, sm1_local_const.zero]
    rw [if_neg (by omega)]
  · intro tx p r hf hrel hl
    rw [tx_src_param_file_CONSTINT tx p hf]
    unfold tx_src_param_CONSTINT
    rw [hrel, hl]
    rfl
  · intro tx p r hf hrel hl
    rw [tx_src_param_file_CONSTBOOL tx p hf]
    unfold tx_src_param_CONSTBOOL
    rw [hrel, hl]
    rfl

/-- With `num_scratch` behind the end of `regs.t`, `tx_scratch` fails its assertion; a
build without assertions reads outside the array. -/
theorem tx_scratch_exhausted (tx : shader_translator)
    (h : tx.regs.t.length ≤ tx.num_scratch) :
    tx_scratch tx = .error (if tx.env.asserts then .assertion else .undefined) := by
  unfold tx_scratch tx_assert
  have hd : decide (tx.num_scratch < tx.regs.t.length) = false := by
    simp only [decide_eq_false_iff_not]; omega
  rw [hd]
  cases ha : tx.env.asserts
  · have hg : arr_get tx.regs.t (tx.num_scratch : Int) = .error .undefined := by
      unfold arr_get
      rw [if_neg (by omega)]
      rw [List.getElem?_eq_none (by simpa using h)]
    simp only [Bool.false_and, Bool.false_eq_true, if_false, bind, Except.bind, hg]
  · rfl

/-- C38 (scratch temporaries).  `tx_scratch` hands out `regs.t[num_scratch]` as it is
and counts `num_scratch` up; at `num_scratch >= 5` it fails its assertion (without
assertions it reads outside the array).  After `calloc` the five elements are the
undefined register, and decoding the next instruction leaves `regs` and `num_scratch`
as they are: the count is not reset between instructions and no scratch register is
declared.  `vs_2_0` with two `ADD r0, r1_bias, r2_x2` ends with `num_scratch = 4` and
the five elements still undefined; with three of them the sixth request for a scratch
register ends the translation. -/
theorem C38_scratch_registers_are_undeclared_and_run_out :
    (∀ (tx : shader_translator) (t : ureg_dst), tx.regs.t[tx.num_scratch]? = some t →
      tx_scratch tx = .ok (t, { tx with num_scratch := u32_inc tx.num_scratch })) ∧
    (∀ tx : shader_translator, tx.regs.t.length ≤ tx.num_scratch →
      tx_scratch tx = .error (if tx.env.asserts then .assertion else .undefined)) ∧
    (∀ env : build_env,
      (shader_translator.calloc env).regs.t = List.replicate 5 ureg_dst_undef ∧
      (shader_translator.calloc env).num_scratch = 0) ∧
    (∀ (tx tx1 : shader_translator) (info : Option sm1_op_info),
      sm1_parse_instruction_head tx = .ok (info, tx1) →
      tx1.num_scratch = tx.num_scratch ∧ tx1.regs = tx.regs) ∧
    (∀ (n : Nat) (tx tx1 : shader_translator), reads n tx tx1 →
      tx1.num_scratch = tx.num_scratch ∧ tx1.regs = tx.regs) ∧
    result_of ((nine_translate_shader_run small_device (tx_adds 1)).map
        (fun t => (t.num_scratch, t.regs.t))) = some (2, List.replicate 5 ureg_dst_undef) ∧
    result_of ((nine_translate_shader_run small_device (tx_adds 2)).map
        (fun t => (t.num_scratch, t.regs.t))) = some (4, List.replicate 5 ureg_dst_undef) ∧
    result_of ((nine_translate_shader small_device (example_info .VERTEX (prog_adds 2))).map
        (fun r => (r.1, (emitted_insns r.2).map ureg_item.dst_regs)))
      = some (.D3D_OK, [[(.NULL, 0, 0)], [(.NULL, 0, 0)], [(.TEMPORARY, 0, 15)],
                        [(.NULL, 0, 0)], [(.NULL, 0, 0)], [(.TEMPORARY, 0, 15)], []]) ∧
    fault_of (nine_translate_shader small_device (example_info .VERTEX (prog_adds 3)))
      = some .assertion ∧
    fault_of (nine_translate_shader
        { small_device with env := { small_env with asserts := false } }
        (example_info .VERTEX (prog_adds 3)))
      = some .undefined := by
  refine ⟨?_, ?_, ?_, ?_, ?_, by decide!, by decide!, by decide!, by decide!, by decide!⟩
  · intro tx t h
    exact tx_scratch_ok tx t h
  · intro tx h
    exact tx_scratch_exhausted tx h
  · intro env
    exact ⟨rfl, rfl⟩
  · intro tx tx1 info h
    obtain ⟨f, _⟩ := sm1_parse_instruction_head_frame h
    unfold decode_frame at f
    constructor
    · rw [f]
    · rw [f]
  · intro n tx tx1 h
    constructor
    · rw [h.1]
    · rw [h.1]

theorem set_src_other {insn insn' : sm1_instruction} {i : Nat} {p : sm1_src_param}
    (h : insn.set_src i p = some insn') (j : Nat) (hj : j ≠ i) :
    insn'.src j = insn.src j := by
  unfold sm1_instruction.set_src at h
  split at h
  · cases h
    unfold sm1_instruction.src
    split <;> first | rfl | omega
  · cases h
    unfold sm1_instruction.src
    split <;> first | rfl | omega
  · cases h
    unfold sm1_instruction.src
    split <;> first | rfl | omega
  · cases h
    unfold sm1_instruction.src
    split <;> first | rfl | omega
  · cases h

theorem set_dst_src {insn insn' : sm1_instruction} {i : Nat} {d : sm1_dst_param}
    (h : insn.set_dst i d = some insn') (j : Nat) : insn'.src j = insn.src j := by
  unfold sm1_instruction.set_dst at h
  split at h
  · cases h; rfl
  · cases h

/-- Reading the destination parameters leaves the source parameters as they are. -/
theorem sm1_read_dst_params_src (todo : Nat) : ∀ (i : Nat) (tx tx' : shader_translator),
    sm1_read_dst_params todo i tx = .ok tx' → ∀ j, tx'.insn.src j = tx.insn.src j := by
  induction todo with
  | zero =>
    intro i tx tx' h j
    unfold sm1_read_dst_params at h
    rw [pure_eq_ok] at h
    subst h
    rfl
  | succ n ih =>
    intro i tx tx' h j
    unfold sm1_read_dst_params at h
    rw [bind_eq_ok] at h
    obtain ⟨⟨d, t1⟩, h1, h⟩ := h
    obtain ⟨f1, _, _⟩ := sm1_read_dst_param_inv h1
    simp only [] at h
    split at h
    · rename_i insn hs
      have hi : t1.insn = tx.insn := by rw [f1]
      rw [ih _ _ _ h j]
      show insn.src j = _
      rw [set_dst_src hs, hi]
    · exact absurd h (throw_ne_ok _ _)

/-- Reading `todo` source parameters from element `i` on leaves the other elements of
`insn->src` as they are. -/
theorem sm1_read_src_params_src (todo : Nat) : ∀ (i : Nat) (tx tx' : shader_translator),
    sm1_read_src_params todo i tx = .ok tx' →
    ∀ j, j < i ∨ i + todo ≤ j → tx'.insn.src j = tx.insn.src j := by
  induction todo with
  | zero =>
    intro i tx tx' h j _
    unfold sm1_read_src_params at h
    rw [pure_eq_ok] at h
    subst h
    rfl
  | succ n ih =>
    intro i tx tx' h j hj
    unfold sm1_read_src_params at h
    split at h
    · exact absurd h (throw_ne_ok _ _)
    · rw [bind_eq_ok] at h
      obtain ⟨⟨d, t1⟩, h1, h⟩ := h
      obtain ⟨f1, _, _⟩ := sm1_read_src_param_inv h1
      simp only [] at h
      split at h
      · rename_i insn hs
        have hi : t1.insn = tx.insn := by rw [f1]
        rw [ih _ _ _ h j (by omega)]
        show insn.src j = _
        rw [set_src_other hs j (by omega), hi]
      · exact absurd h (throw_ne_ok _ _)

theorem body_tail_plain {t3 tx' : shader_translator} {info : sm1_op_info}
    (hop : ¬ (t3.insn.opcode = D3DSIO_DEF ∨ t3.insn.opcode = D3DSIO_DEFI ∨
      t3.insn.opcode = D3DSIO_DEFB))
    (h : (if t3.insn.opcode = D3DSIO_DEF ∨ t3.insn.opcode = D3DSIO_DEFI ∨
            t3.insn.opcode = D3DSIO_DEFB then do
          let y ← sm1_parse_immediate t3
          sm1_dump_instruction y
          match info.handler with
            | some h => do
              let y ← run_handler y h
              pure (TOKEN_JUMP y.2)
            | none => do
              let y ← NineTranslateInstruction_Generic y
              pure (TOKEN_JUMP y.2)
        else do
          let y ← pure t3
          sm1_dump_instruction y
          match info.handler with
            | some h => do
              let y ← run_handler y h
              pure (TOKEN_JUMP y.2)
            | none => do
              let y ← NineTranslateInstruction_Generic y
              pure (TOKEN_JUMP y.2)) = .ok tx') :
    ∃ (hr : HRESULT) (tb : shader_translator),
      (match info.handler with
       | some id => run_handler t3 id
       | none => NineTranslateInstruction_Generic t3) = .ok (hr, tb) ∧
      tx' = TOKEN_JUMP tb := by
  rw [if_neg hop] at h
  rw [bind_eq_ok] at h
  obtain ⟨t4, h4, h⟩ := h
  rw [pure_eq_ok] at h4
  subst h4
  rw [bind_eq_ok] at h
  obtain ⟨_, _, h⟩ := h
  exact body_handler h

/-- The instruction that `sm1_parse_instruction_body` hands to the handler: elements of
`insn->src` from `nsrc` on are those of the instruction before, unless the instruction
is DEF, DEFI or DEFB. -/
theorem sm1_parse_instruction_body_stale {tx tx' : shader_translator} {info : sm1_op_info}
    (hop : ¬ (tx.insn.opcode = D3DSIO_DEF ∨ tx.insn.opcode = D3DSIO_DEFI ∨
      tx.insn.opcode = D3DSIO_DEFB))
    (h : sm1_parse_instruction_body tx info = .ok tx') :
    ∃ (ta : shader_translator) (hr : HRESULT) (tb : shader_translator),
      (match info.handler with
       | some id => run_handler ta id
       | none => NineTranslateInstruction_Generic ta) = .ok (hr, tb) ∧
      tx' = TOKEN_JUMP tb ∧
      ∀ j, tx.insn.nsrc ≤ j → ta.insn.src j = tx.insn.src j := by
  unfold sm1_parse_instruction_body at h
  rw [bind_eq_ok] at h
  obtain ⟨t1, h1, h⟩ := h
  have r1 := sm1_read_dst_params_reads _ _ _ _ h1
  have s1 := sm1_read_dst_params_src _ _ _ _ h1
  simp only [] at h
  split at h
  · rename_i c
    rw [bind_eq_ok] at h
    obtain ⟨⟨p, t⟩, hp2, h⟩ := h
    rw [bind_eq_ok] at h
    obtain ⟨t2, h2, h⟩ := h
    rw [pure_eq_ok] at h2
    subst h2
    rw [bind_eq_ok] at h
    obtain ⟨t3, h3, h⟩ := h
    obtain ⟨f, p1, q1⟩ := sm1_read_src_param_inv hp2
    have hti : t.insn = t1.insn := by rw [f]
    have r2 : reads 1 t1 { t with insn := { t.insn with pred := p } } :=
      ⟨by rw [f], by
        show insn_head { t.insn with pred := p } = insn_head t1.insn
        rw [hti]; rfl, p1, q1⟩
    have r12 := reads_trans r1 r2
    have r3 := sm1_read_src_params_reads _ _ _ _ h3
    have s3 := sm1_read_src_params_src _ _ _ _ h3
    have hn := (reads_head r12).2.2.2.2.1
    have r123 := reads_trans r12 r3
    have ho3 : t3.insn.opcode = tx.insn.opcode := (reads_head r123).1
    have hop3 : ¬ (t3.insn.opcode = D3DSIO_DEF ∨ t3.insn.opcode = D3DSIO_DEFI ∨
        t3.insn.opcode = D3DSIO_DEFB) := by rw [ho3]; exact hop
    obtain ⟨hr, tb, h5, h6⟩ := body_tail_plain hop3 h
    refine ⟨t3, hr, tb, h5, h6, ?_⟩
    intro j hj
    rw [s3 j (Or.inr (by
      show 0 + ({ t with insn := { t.insn with pred := p } } : shader_translator).insn.nsrc ≤ j
      rw [hn]; omega))]
    show t.insn.src j = _
    rw [hti, s1 j]
  · rename_i c
    rw [bind_eq_ok] at h
    obtain ⟨t2, h2, h⟩ := h
    rw [pure_eq_ok] at h2
    subst h2
    rw [bind_eq_ok] at h
    obtain ⟨t3, h3, h⟩ := h
    have r3 := sm1_read_src_params_reads _ _ _ _ h3
    have s3 := sm1_read_src_params_src _ _ _ _ h3
    have hn := (reads_head r1).2.2.2.2.1
    have r13 := reads_trans r1 r3
    have ho3 : t3.insn.opcode = tx.insn.opcode := (reads_head r13).1
    have hop3 : ¬ (t3.insn.opcode = D3DSIO_DEF ∨ t3.insn.opcode = D3DSIO_DEFI ∨
        t3.insn.opcode = D3DSIO_DEFB) := by rw [ho3]; exact hop
    obtain ⟨hr, tb, h5, h6⟩ := body_tail_plain hop3 h
    refine ⟨t3, hr, tb, h5, h6, ?_⟩
    intro j hj
    rw [s3 j (Or.inr (by rw [hn]; omega)), s1 j]

/-- A known instruction that passes the version check and is not DEF, DEFI or DEFB: the
instruction that its handler sees has, from element `nsrc` of the table row on, the source
parameters that the instruction before left in `insn->src`. -/
theorem sm1_parse_instruction_stale {tx tx' : shader_translator} {tok : Nat}
    {info : sm1_op_info}
    (htok : tx.byte_code[tx.parse]? = some tok)
    (hnc : tok &&& D3DSI_OPCODE_MASK ≠ D3DSIO_COMMENT)
    (hinfo : sm1_lookup_info (tok &&& D3DSI_OPCODE_MASK) = some info)
    (hver : sm1_version_rejected tx info = false)
    (hop : ¬ (tok &&& D3DSI_OPCODE_MASK = D3DSIO_DEF ∨ tok &&& D3DSI_OPCODE_MASK = D3DSIO_DEFI
      ∨ tok &&& D3DSI_OPCODE_MASK = D3DSIO_DEFB))
    (h : sm1_parse_instruction tx = .ok tx') :
    ∃ (ta : shader_translator) (hr : HRESULT) (tb : shader_translator),
      (match info.handler with
       | some id => run_handler ta id
       | none => NineTranslateInstruction_Generic ta) = .ok (hr, tb) ∧
      tx' = TOKEN_JUMP tb ∧
      ∀ j, info.nsrc ≤ j → ta.insn.src j = tx.insn.src j := by
  unfold sm1_parse_instruction at h
  rw [sm1_parse_instruction_head_eq tx tok htok hnc, hinfo] at h
  simp only [bind, Except.bind] at h
  have hv : sm1_version_rejected (tx_decoded tx tok info) info = false := hver
  unfold tx_decoded at hv
  simp only [] at hv
  rw [hv] at h
  simp only [Bool.false_eq_true, if_false] at h
  obtain ⟨ta, hr, tb, h5, h6, hs⟩ := sm1_parse_instruction_body_stale hop h
  exact ⟨ta, hr, tb, h5, h6, fun j hj => hs j hj⟩

/-- The handler of BREAKC: the compare selected by the flags, on the lowered `src[0]` and
`src[1]` of the decoded instruction, into the next scratch register restricted to x, and
a BREAKC on its x lane. -/
theorem BREAKC_eq (tx tx1 tx2 : shader_translator) (t : ureg_dst) (op : tgsi_opcode)
    (s0 s1 : ureg_src)
    (hop : sm1_insn_flags_to_tgsi_setop tx tx.insn.flags = .ok op)
    (ht : tx.regs.t[tx.num_scratch]? = some t)
    (h0 : tx_src_param { tx with num_scratch := u32_inc tx.num_scratch } tx.insn.src0
      = .ok (s0, tx1))
    (h1 : tx_src_param tx1 tx.insn.src1 = .ok (s1, tx2)) :
    NineTranslateInstruction_BREAKC tx = .ok (.D3D_OK,
      tx_insn (tx_insn tx2 op [ureg_writemask t TGSI_WRITEMASK_X] [s0, s1]) .BREAKC []
        [ureg_scalar (ureg_src_of (ureg_writemask t TGSI_WRITEMASK_X)) TGSI_SWIZZLE_X]) ∧
    tx2.cond_depth = tx.cond_depth := by
  have hs := tx_scratch_ok tx t ht
  have l0 := tx_src_param_lowers _ _ _ _ h0
  have l1 := tx_src_param_lowers _ _ _ _ h1
  have hi1 : tx1.insn = tx.insn := lowers_insn l0
  have hc := lowers_cond (lowers_trans l0 l1)
  refine ⟨?_, hc.1⟩
  unfold NineTranslateInstruction_BREAKC
  rw [hop]
  simp only [bind, Except.bind, pure, Except.pure, hs, h0, hi1, h1]

/-- C31 (operands of BREAKC).  The handler of BREAKC emits the compare that IFC emits for
the same flags, on `src[0]` and `src[1]` of the decoded instruction, followed by a BREAKC
on the result, and leaves the conditional depth as it is.  But the table row of BREAKC
has `nsrc = 1`: only `src[0]` is decoded from the tokens of the instruction, and `src[1]`
is what an earlier instruction left there.  In `ADD r0, r1, c2; BREAKC_GT r3, r4` the
compare is `SGT tmp, r3, c2`, and with `c7` in the ADD it is `SGT tmp, r3, c7`; the
second operand `r4` of the BREAKC is skipped.  (r3 is the third temporary declared; the
destination of the compare is the undefined scratch register.) -/
theorem C31_BREAKC_second_operand_is_stale :
    (sm1_lookup_info D3DSIO_BREAKC).map (fun i => (i.ndst, i.nsrc, i.handler))
      = some (0, 1, some .BREAKC) ∧
    (∀ (tx tx1 tx2 : shader_translator) (t : ureg_dst) (op : tgsi_opcode) (s0 s1 : ureg_src),
      sm1_insn_flags_to_tgsi_setop tx tx.insn.flags = .ok op →
      tx.regs.t[tx.num_scratch]? = some t →
      tx_src_param { tx with num_scratch := u32_inc tx.num_scratch } tx.insn.src0
        = .ok (s0, tx1) →
      tx_src_param tx1 tx.insn.src1 = .ok (s1, tx2) →
      NineTranslateInstruction_BREAKC tx = .ok (.D3D_OK,
        tx_insn (tx_insn tx2 op [ureg_writemask t TGSI_WRITEMASK_X] [s0, s1]) .BREAKC []
          [ureg_scalar (ureg_src_of (ureg_writemask t TGSI_WRITEMASK_X)) TGSI_SWIZZLE_X]) ∧
      tx2.cond_depth = tx.cond_depth) ∧
    (∀ (tx tx' : shader_translator) (tok : Nat) (info : sm1_op_info),
      tx.byte_code[tx.parse]? = some tok → tok &&& D3DSI_OPCODE_MASK = D3DSIO_BREAKC →
      sm1_lookup_info D3DSIO_BREAKC = some info → sm1_version_rejected tx info = false →
      sm1_parse_instruction tx = .ok tx' →
      ∃ (ta : shader_translator) (hr : HRESULT) (tb : shader_translator),
        NineTranslateInstruction_BREAKC ta = .ok (hr, tb) ∧ tx' = TOKEN_JUMP tb ∧
        ta.insn.src1 = tx.insn.src1) ∧
    result_of ((nine_translate_shader small_device (example_info .VERTEX (prog_breakc 2))).map
        (fun r => (r.1, (emitted_insns r.2).map ureg_item.opcode)))
      = some (.D3D_OK, [.ADD, .SGT, .BREAKC, .END]) ∧
    result_of ((nine_translate_shader small_device (example_info .VERTEX (prog_breakc 2))).map
        (fun r => (emitted_insns r.2).map ureg_item.src_regs))
      = some [[(.TEMPORARY, 1), (.CONSTANT, 2)], [(.TEMPORARY, 2), (.CONSTANT, 2)],
              [(.NULL, 0)], []] ∧
    result_of ((nine_translate_shader small_device (example_info .VERTEX (prog_breakc 7))).map
        (fun r => (emitted_insns r.2).map ureg_item.src_regs))
      = some [[(.TEMPORARY, 1), (.CONSTANT, 7)], [(.TEMPORARY, 2), (.CONSTANT, 7)],
              [(.NULL, 0)], []] ∧
    result_of ((nine_translate_shader small_device (example_info .VERTEX (prog_breakc 2))).map
        (fun r => (emitted_insns r.2).map ureg_item.dst_regs))
      = some [[(.TEMPORARY, 0, 15)], [(.NULL, 0, 0)], [], []] := by
  refine ⟨by decide!, ?_, ?_, by decide!, by decide!, by decide!, by decide!⟩
  · intro tx tx1 tx2 t op s0 s1 hop ht h0 h1
    exact BREAKC_eq tx tx1 tx2 t op s0 s1 hop ht h0 h1
  · intro tx tx' tok info htok hopc hinfo hver h
    have hrow : (sm1_lookup_info D3DSIO_BREAKC).map (fun i => (i.nsrc, i.handler))
        = some (1, some .BREAKC) := by decide!
    rw [hinfo] at hrow
    simp only [Option.map_some', Option.some.injEq, Prod.mk.injEq] at hrow
    have hnc : tok &&& D3DSI_OPCODE_MASK ≠ D3DSIO_COMMENT := by rw [hopc]; decide
    have hnd : ¬ (tok &&& D3DSI_OPCODE_MASK = D3DSIO_DEF ∨
        tok &&& D3DSI_OPCODE_MASK = D3DSIO_DEFI ∨
        tok &&& D3DSI_OPCODE_MASK = D3DSIO_DEFB) := by rw [hopc]; decide
    have hi : sm1_lookup_info (tok &&& D3DSI_OPCODE_MASK) = some info := by
      rw [hopc]; exact hinfo
    obtain ⟨ta, hr, tb, h5, h6, hs⟩ := sm1_parse_instruction_stale htok hnc hi hver hnd h
    rw [hrow.2] at h5
    refine ⟨ta, hr, tb, h5, h6, ?_⟩
    have := hs 1 (by rw [hrow.1])
    simpa [sm1_instruction.src] using this

theorem realloc_block_length {α : Type} (l : List α) (n : Nat) (fill : α) :
    (realloc_block l n fill).length = n := by
  unfold realloc_block
  rw [List.length_append, List.length_take, List.length_replicate]
  omega

/-- The handler of LABEL returns only for a label number below `num_inst_labels`; it then
stores the current instruction number at that index and changes nothing else. -/
theorem LABEL_inv {tx tx' : shader_translator} {hr : HRESULT}
    (h : NineTranslateInstruction_LABEL tx = .ok (hr, tx')) :
    to_u32 tx.insn.src0.idx < tx.num_inst_labels ∧ hr = .D3D_OK ∧
    to_u32 tx.insn.src0.idx < tx.inst_labels.length ∧
    tx' = { tx with inst_labels :=
      tx.inst_labels.set (to_u32 tx.insn.src0.idx) (ureg_get_instruction_number tx.ureg) } := by
  unfold NineTranslateInstruction_LABEL at h
  simp only [bind_eq_ok, pure_eq_ok] at h
  obtain ⟨_, _, labels, hset, h⟩ := h
  rw [Prod.mk.injEq] at h
  obtain ⟨h1, h2⟩ := h
  rw [arr_set_ok_iff] at hset
  obtain ⟨_, hlt, hl⟩ := hset
  simp only [Int.toNat_ofNat] at hlt hl
  by_cases c : to_u32 tx.insn.src0.idx ≥ tx.num_inst_labels
  · exfalso
    rw [if_pos c] at hlt
    simp only [] at hlt
    rw [realloc_block_length] at hlt
    omega
  · rw [if_neg c] at hlt hl h2
    subst hl
    exact ⟨by omega, h1.symm, hlt, h2.symm⟩

/-- For a label number that is not below `num_inst_labels` the block is reallocated to
exactly that many entries and the store goes behind its end. -/
theorem LABEL_beyond (tx : shader_translator)
    (h : tx.num_inst_labels ≤ to_u32 tx.insn.src0.idx)
    (ha : tx.env.asserts = true → to_u32 tx.insn.src0.idx < 2048) :
    NineTranslateInstruction_LABEL tx = .error .undefined := by
  unfold NineTranslateInstruction_LABEL
  have h1 : tx_assert tx (decide (to_u32 tx.insn.src0.idx < 2048)) = .ok () := by
    rw [tx_assert_ok_iff]
    intro a
    simpa using ha a
  simp only [h1, bind, Except.bind]
  rw [if_pos h]
  have : arr_set (realloc_block tx.inst_labels (to_u32 tx.insn.src0.idx) 0)
      (to_u32 tx.insn.src0.idx : Int) (ureg_get_instruction_number tx.ureg)
      = .error .undefined := by
    unfold arr_set
    rw [if_neg (by omega), realloc_block_length]
    simp
  simp only [this]

/-- The handler of CALL with `num_inst_labels = 0`. -/
theorem CALL_without_labels (tx : shader_translator) (h : tx.num_inst_labels = 0)
    (ha : tx.env.asserts = true) :
    NineTranslateInstruction_CALL tx = .error .assertion := by
  unfold NineTranslateInstruction_CALL
  have : tx_assert tx (decide (to_u32 tx.insn.src0.idx < tx.num_inst_labels))
      = .error .assertion := by
    rw [tx_assert_of_asserts _ _ ha, h]
    simp
  simp only [this, bind, Except.bind]

/-- No instruction changes `num_inst_labels`. -/
theorem sm1_parse_instruction_labels {tx tx' : shader_translator}
    (h : sm1_parse_instruction tx = .ok tx') :
    tx'.num_inst_labels = tx.num_inst_labels := by
  unfold sm1_parse_instruction at h
  rw [bind_eq_ok] at h
  obtain ⟨⟨info, tx1⟩, h1, h⟩ := h
  obtain ⟨f1, _⟩ := sm1_parse_instruction_head_frame h1
  have hfl : tx1.num_inst_labels = tx.num_inst_labels := by rw [f1]
  cases info with
  | none =>
    simp only [pure_eq_ok] at h
    subst h
    rw [TOKEN_JUMP_frame]
    exact hfl
  | some info =>
    simp only [] at h
    split at h
    · rw [pure_eq_ok] at h
      subst h
      exact hfl
    · obtain ⟨ta, hr, tb, r, h5, h6⟩ := sm1_parse_instruction_body_inv h
      have e := (handler_eff h5).1
      subst h6
      have hfa : ta.num_inst_labels = tx1.num_inst_labels := by rw [r.1]
      have hfb : tb.num_inst_labels = ta.num_inst_labels := by
        unfold handler_frame at e
        rw [e]
      rw [TOKEN_JUMP_frame]
      show tb.num_inst_labels = _
      rw [hfb, hfa]
      exact hfl

theorem nine_translate_shader_loop_labels (fuel : Nat) : ∀ (tx tx' : shader_translator),
    nine_translate_shader_loop fuel tx = .ok tx' →
    tx'.num_inst_labels = tx.num_inst_labels := by
  induction fuel with
  | zero => intro tx tx' h; cases h
  | succ n ih =>
    intro tx tx' h
    unfold nine_translate_shader_loop at h
    rw [bind_eq_ok] at h
    obtain ⟨b, hb, h⟩ := h
    cases b with
    | true =>
      simp only [if_true, pure_eq_ok] at h
      subst h
      rfl
    | false =>
      simp only [Bool.false_eq_true, if_false, bind_eq_ok] at h
      obtain ⟨tx1, h1, h⟩ := h
      rw [ih _ _ h, sm1_parse_instruction_labels h1]

/-- C32 (the label number of LABEL).  When the handler of LABEL returns, it has stored the
current instruction number at index `src[0].idx` of the label table and left the other
entries as they are.  But the table row of LABEL has `nsrc = 0`: the label operand of the
instruction is not decoded, and `src[0]` is what an earlier instruction left there.  In
`MOV r0, r3; LABEL l5`, on a state with a table of 8 labels, entry 3 is written and entry
5 is not; after `MOV r0, r6` it is entry 6.  (From the state after `tx_ctor` the handler
does not return: the table is empty.) -/
theorem C32_LABEL_operand_is_stale :
    (sm1_lookup_info D3DSIO_LABEL).map (fun i => (i.ndst, i.nsrc, i.handler))
      = some (0, 0, some .LABEL) ∧
    (∀ (tx tx' : shader_translator) (hr : HRESULT),
      NineTranslateInstruction_LABEL tx = .ok (hr, tx') →
      to_u32 tx.insn.src0.idx < tx.inst_labels.length ∧
      tx' = { tx with inst_labels :=
        tx.inst_labels.set (to_u32 tx.insn.src0.idx) (ureg_get_instruction_number tx.ureg) } ∧
      ∀ m, m ≠ to_u32 tx.insn.src0.idx → tx'.inst_labels[m]? = tx.inst_labels[m]?) ∧
    (∀ (tx tx' : shader_translator) (tok : Nat) (info : sm1_op_info),
      tx.byte_code[tx.parse]? = some tok → tok &&& D3DSI_OPCODE_MASK = D3DSIO_LABEL →
      sm1_lookup_info D3DSIO_LABEL = some info → sm1_version_rejected tx info = false →
      sm1_parse_instruction tx = .ok tx' →
      ∃ (ta : shader_translator) (hr : HRESULT) (tb : shader_translator),
        NineTranslateInstruction_LABEL ta = .ok (hr, tb) ∧ tx' = TOKEN_JUMP tb ∧
        ta.insn.src0 = tx.insn.src0) ∧
    result_of ((nine_translate_shader_run small_device
        (tx_with_labels 8 (prog_mov_label 3))).map (fun t => t.inst_labels))
      = some [0, 0, 0, 1, 0, 0, 0, 0] ∧
    result_of ((nine_translate_shader_run small_device
        (tx_with_labels 8 (prog_mov_label 6))).map (fun t => t.inst_labels))
      = some [0, 0, 0, 0, 0, 0, 1, 0] ∧
    (sm1_parse_src_param sm1_src_param.zero 0x20e41005).file = D3DSPR_LABEL ∧
    (sm1_parse_src_param sm1_src_param.zero 0x20e41005).idx = 5 ∧
    fault_of (nine_translate_shader small_device (example_info .VERTEX (prog_mov_label 3)))
      = some .undefined := by
  refine ⟨by decide!, ?_, ?_, by decide!, by decide!, by decide, by decide, by decide!⟩
  · intro tx tx' hr h
    obtain ⟨_, _, h3, h4⟩ := LABEL_inv h
    refine ⟨h3, h4, ?_⟩
    intro m hm
    rw [h4]
    exact List.getElem?_set_ne (fun e => hm e.symm)
  · intro tx tx' tok info htok hopc hinfo hver h
    have hrow : (sm1_lookup_info D3DSIO_LABEL).map (fun i => (i.nsrc, i.handler))
        = some (0, some .LABEL) := by decide!
    rw [hinfo] at hrow
    simp only [Option.map_some', Option.some.injEq, Prod.mk.injEq] at hrow
    have hnc : tok &&& D3DSI_OPCODE_MASK ≠ D3DSIO_COMMENT := by rw [hopc]; decide
    have hnd : ¬ (tok &&& D3DSI_OPCODE_MASK = D3DSIO_DEF ∨
        tok &&& D3DSI_OPCODE_MASK = D3DSIO_DEFI ∨
        tok &&& D3DSI_OPCODE_MASK = D3DSIO_DEFB) := by rw [hopc]; decide
    have hi : sm1_lookup_info (tok &&& D3DSI_OPCODE_MASK) = some info := by
      rw [hopc]; exact hinfo
    obtain ⟨ta, hr, tb, h5, h6, hs⟩ := sm1_parse_instruction_stale htok hnc hi hver hnd h
    rw [hrow.2] at h5
    refine ⟨ta, hr, tb, h5, h6, ?_⟩
    have := hs 0 (by rw [hrow.1])
    simpa [sm1_instruction.src] using this

/-- C40 (size of the label table).  For a label number `n` that is not below
`num_inst_labels` the handler of LABEL reallocates the table to `n` entries, not `n + 1`,
so the store to entry `n` goes behind its end; and neither this handler nor any other
instruction changes `num_inst_labels`, which is 0 after `calloc`.  So the handler
returns only where `n < num_inst_labels` held before, never in a translation; and CALL
finds `num_inst_labels = 0`, so its assertion fails.  `vs_2_0; LABEL l0` ends in the
store outside the table and `vs_2_0; CALL l0` in the failed assertion (without
assertions in the store of the label token outside the table). -/
theorem C40_label_table_is_one_entry_short :
    (∀ (tx : shader_translator), tx.num_inst_labels ≤ to_u32 tx.insn.src0.idx →
      (tx.env.asserts = true → to_u32 tx.insn.src0.idx < 2048) →
      (realloc_block tx.inst_labels (to_u32 tx.insn.src0.idx) 0).length
        = to_u32 tx.insn.src0.idx ∧
      NineTranslateInstruction_LABEL tx = .error .undefined) ∧
    (∀ (tx tx' : shader_translator) (hr : HRESULT),
      NineTranslateInstruction_LABEL tx = .ok (hr, tx') →
      to_u32 tx.insn.src0.idx < tx.num_inst_labels ∧
      tx'.num_inst_labels = tx.num_inst_labels) ∧
    (∀ (tx tx' : shader_translator), sm1_parse_instruction tx = .ok tx' →
      tx'.num_inst_labels = tx.num_inst_labels) ∧
    (∀ (fuel : Nat) (tx tx' : shader_translator),
      nine_translate_shader_loop fuel tx = .ok tx' →
      tx'.num_inst_labels = tx.num_inst_labels) ∧
    (∀ env : build_env, (shader_translator.calloc env).num_inst_labels = 0 ∧
      (shader_translator.calloc env).inst_labels = []) ∧
    (∀ tx : shader_translator, tx.num_inst_labels = 0 → tx.env.asserts = true →
      NineTranslateInstruction_CALL tx = .error .assertion) ∧
    fault_of (nine_translate_shader small_device (example_info .VERTEX prog_label0))
      = some .undefined ∧
    fault_of (nine_translate_shader
        { small_device with env := { small_env with asserts := false } }
        (example_info .VERTEX prog_label0))
      = some .undefined ∧
    fault_of (nine_translate_shader small_device (example_info .VERTEX prog_call0))
      = some .assertion ∧
    fault_of (nine_translate_shader
        { small_device with env := { small_env with asserts := false } }
        (example_info .VERTEX prog_call0))
      = some .undefined := by
  refine ⟨?_, ?_, ?_, ?_, ?_, ?_, by decide!, by decide!, by decide!, by decide!⟩
  · intro tx h ha
    exact ⟨realloc_block_length _ _ _, LABEL_beyond tx h ha⟩
  · intro tx tx' hr h
    obtain ⟨h1, _, _, h4⟩ := LABEL_inv h
    refine ⟨h1, ?_⟩
    rw [h4]
  · intro tx tx' h
    exact sm1_parse_instruction_labels h
  · intro fuel tx tx' h
    exact nine_translate_shader_loop_labels fuel tx tx' h
  · intro env
    exact ⟨rfl, rfl⟩
  · intro tx h ha
    exact CALL_without_labels tx h ha

theorem u32_dec_pos (n : Nat) (h0 : 0 < n) (h : n < 2 ^ 32) : u32_dec n = n - 1 := by
  unfold u32_dec; omega

/-- The handler of ELSE inside a conditional: one ELSE instruction whose label token
replaces the content of the current slot of `cond_labels`; no label is fixed up. -/
theorem ELSE_inv {tx tx' : shader_translator} {hr : HRESULT}
    (h0 : 0 < tx.cond_depth) (hb : tx.cond_depth < 2 ^ 32)
    (h : NineTranslateInstruction_ELSE tx = .ok (hr, tx')) :
    hr = .D3D_OK ∧
    tx'.ureg.items = tx.ureg.items ++ [.label_insn .ELSE []] ∧
    tx'.cond_depth = tx.cond_depth ∧
    tx.cond_depth - 1 < tx.cond_labels.length ∧
    tx'.cond_labels = tx.cond_labels.set (tx.cond_depth - 1) tx.ureg.items.length := by
  unfold NineTranslateInstruction_ELSE tx_elsecond tx_label_insn_cond at h
  rw [u32_dec_pos _ h0 hb] at h
  simp only [bind_eq_ok, pure_eq_ok] at h
  obtain ⟨⟨slot, t1⟩, ⟨_, _, hs⟩, t2, ⟨labels, hset, h2⟩, h⟩ := h
  rw [Prod.mk.injEq] at hs h
  obtain ⟨hs1, hs2⟩ := hs
  obtain ⟨h1, h3⟩ := h
  subst hs1 hs2 h2 h3
  rw [arr_set_ok_iff] at hset
  obtain ⟨_, hlt, hl⟩ := hset
  simp only [Int.toNat_ofNat] at hlt hl
  exact ⟨h1.symm, rfl, rfl, hlt, hl⟩

/-- The handler of ENDIF inside a conditional: the label in the slot below the current
depth is fixed up to the current instruction number, then ENDIF is emitted. -/
theorem ENDIF_inv {tx tx' : shader_translator} {hr : HRESULT}
    (h0 : 0 < tx.cond_depth) (hb : tx.cond_depth < 2 ^ 32)
    (h : NineTranslateInstruction_ENDIF tx = .ok (hr, tx')) :
    hr = .D3D_OK ∧
    ∃ label, tx.cond_labels[tx.cond_depth - 1]? = some label ∧
      tx'.ureg.items = tx.ureg.items ++
        [.fixup_label label tx.ureg.nr_instructions, .insn .ENDIF [] []] ∧
      tx'.cond_depth = tx.cond_depth - 1 ∧ tx'.cond_labels = tx.cond_labels := by
  unfold NineTranslateInstruction_ENDIF tx_endcond at h
  rw [u32_dec_pos _ h0 hb] at h
  simp only [bind_eq_ok, pure_eq_ok] at h
  obtain ⟨t1, ⟨_, _, label, hget, h1⟩, h⟩ := h
  rw [Prod.mk.injEq] at h
  obtain ⟨h0, h2⟩ := h
  subst h1 h2
  rw [arr_get_ok_iff] at hget
  obtain ⟨_, hget⟩ := hget
  simp only [Int.toNat_ofNat] at hget
  refine ⟨h0.symm, label, hget, ?_, rfl, rfl⟩
  simp [tx_insn, tx_emit, ureg_insn, ureg_fixup_label, ureg_program.log,
    ureg_get_instruction_number]

/-- The handler of IF below the depth limit: the operand is lowered, then one IF
instruction is emitted whose label token is stored in the slot of the depth before. -/
theorem IF_inv {tx tx' : shader_translator} {hr : HRESULT}
    (hd : tx.cond_depth < NINE_MAX_COND_DEPTH)
    (h : NineTranslateInstruction_IF tx = .ok (hr, tx')) :
    hr = .D3D_OK ∧
    ∃ (src : ureg_src) (tx1 : shader_translator),
      tx_src_param tx tx.insn.src0 = .ok (src, tx1) ∧
      tx'.ureg.items = tx1.ureg.items ++ [.label_insn .IF [src]] ∧
      tx'.cond_depth = tx.cond_depth + 1 ∧
      tx.cond_depth < tx.cond_labels.length ∧
      tx'.cond_labels = tx.cond_labels.set tx.cond_depth tx1.ureg.items.length := by
  unfold NineTranslateInstruction_IF at h
  simp only [bind_eq_ok, pure_eq_ok] at h
  obtain ⟨⟨src, tx1⟩, hsrc, ⟨slot, t1⟩, hc, t2, hl, h⟩ := h
  have l0 := tx_src_param_lowers _ _ _ _ hsrc
  have hcd := lowers_cond l0
  rw [tx_cond_ok tx1 (by rw [hcd.1]; exact hd)] at hc
  simp only [Except.ok.injEq, Prod.mk.injEq] at hc h
  obtain ⟨hs1, hs2⟩ := hc
  obtain ⟨h1, h3⟩ := h
  subst hs1 hs2 h3
  unfold tx_label_insn_cond at hl
  simp only [bind_eq_ok, pure_eq_ok] at hl
  obtain ⟨labels, hset, h2⟩ := hl
  subst h2
  rw [arr_set_ok_iff] at hset
  obtain ⟨_, hlt, hl⟩ := hset
  simp only [Int.toNat_ofNat] at hlt hl
  refine ⟨h1.symm, src, tx1, hsrc, rfl, ?_, ?_, ?_⟩
  · show tx1.cond_depth + 1 = _
    rw [hcd.1]
  · have : tx1.cond_depth < tx1.cond_labels.length := hlt
    rw [hcd.1, hcd.2] at this
    exact this
  · rw [hl]
    show tx1.cond_labels.set tx1.cond_depth _ = _
    rw [hcd.1, hcd.2]
    rfl

/-- C35 (label fix-ups of ELSE and ENDIF).  The handler of IF stores the label token of
its IF in the slot of its depth; the handler of ENDIF fixes up the label in the slot
below the current depth to the current instruction number and lowers the depth again.
The handler of ELSE emits ELSE, which stores its own token in the same slot, and issues
no fix-up: in IF, ELSE, ENDIF the label of the IF is overwritten without ever being fixed
up.  In the program of IF b0, ELSE, ENDIF the labels handed out are those of IF
(token 13) and ELSE (token 14) and the only fix-up is the one of the ELSE label by ENDIF;
without the ELSE the label of the IF is fixed up by ENDIF.  The conditional depth is back
at 0 in both. -/
theorem C35_ELSE_does_not_fix_up_the_label_of_IF :
    (∀ (tx tx' : shader_translator) (hr : HRESULT),
      0 < tx.cond_depth → tx.cond_depth < 2 ^ 32 →
      NineTranslateInstruction_ELSE tx = .ok (hr, tx') →
      tx'.ureg.items = tx.ureg.items ++ [.label_insn .ELSE []] ∧
      tx'.cond_depth = tx.cond_depth ∧
      tx'.cond_labels = tx.cond_labels.set (tx.cond_depth - 1) tx.ureg.items.length) ∧
    (∀ (tx tx' : shader_translator) (hr : HRESULT),
      0 < tx.cond_depth → tx.cond_depth < 2 ^ 32 →
      NineTranslateInstruction_ENDIF tx = .ok (hr, tx') →
      ∃ label, tx.cond_labels[tx.cond_depth - 1]? = some label ∧
        tx'.ureg.items = tx.ureg.items ++
          [.fixup_label label tx.ureg.nr_instructions, .insn .ENDIF [] []] ∧
        tx'.cond_depth = tx.cond_depth - 1 ∧ tx'.cond_labels = tx.cond_labels) ∧
    (∀ (tx tx' : shader_translator) (hr : HRESULT),
      tx.cond_depth < NINE_MAX_COND_DEPTH →
      NineTranslateInstruction_IF tx = .ok (hr, tx') →
      ∃ (src : ureg_src) (tx1 : shader_translator),
        tx_src_param tx tx.insn.src0 = .ok (src, tx1) ∧
        tx'.ureg.items = tx1.ureg.items ++ [.label_insn .IF [src]] ∧
        tx'.cond_depth = tx.cond_depth + 1 ∧
        tx'.cond_labels = tx.cond_labels.set tx.cond_depth tx1.ureg.items.length) ∧
    (∀ (t0 t1 t2 t3 : shader_translator) (r1 r2 r3 : HRESULT),
      t0.cond_depth < NINE_MAX_COND_DEPTH →
      NineTranslateInstruction_IF t0 = .ok (r1, t1) →
      NineTranslateInstruction_ELSE t1 = .ok (r2, t2) →
      NineTranslateInstruction_ENDIF t2 = .ok (r3, t3) →
      ∃ (src : ureg_src) (n : Nat),
        t3.ureg.items = t1.ureg.items ++
          [.label_insn .ELSE [], .fixup_label t1.ureg.items.length n, .insn .ENDIF [] []] ∧
        t1.ureg.items[t1.ureg.items.length - 1]? = some (.label_insn .IF [src]) ∧
        t1.cond_labels[t0.cond_depth]? = some (t1.ureg.items.length - 1) ∧
        t3.cond_depth = t0.cond_depth) ∧
    result_of ((nine_translate_shader small_device (example_info .VERTEX prog_if_else)).map
        (fun r => (r.1, r.2.cso.map (fun u => label_tokens u.items))))
      = some (.D3D_OK, some [(.IF, 13), (.ELSE, 14)]) ∧
    result_of ((nine_translate_shader small_device (example_info .VERTEX prog_if_else)).map
        (fun r => r.2.cso.map (fun u => u.items.filterMap ureg_item.fixup)))
      = some (some [(14, 2)]) ∧
    result_of ((nine_translate_shader small_device (example_info .VERTEX (prog_if_b 0))).map
        (fun r => r.2.cso.map (fun u => (label_tokens u.items, u.items.filterMap ureg_item.fixup))))
      = some (some ([(.IF, 13)], [(13, 1)])) ∧
    result_of ((nine_translate_shader_run small_device (tx_vs_2_0 prog_if_else)).map
        (fun t => t.cond_depth)) = some 0 ∧
    result_of ((nine_translate_shader_run small_device (tx_vs_2_0 (prog_if_b 0))).map
        (fun t => t.cond_depth)) = some 0 := by
  refine ⟨?_, ?_, ?_, ?_, by decide!, by decide!, by decide!, by decide!, by decide!⟩
  · intro tx tx' hr h0 hb h
    obtain ⟨_, h1, h2, _, h3⟩ := ELSE_inv h0 hb h
    exact ⟨h1, h2, h3⟩
  · intro tx tx' hr h0 hb h
    exact (ENDIF_inv h0 hb h).2
  · intro tx tx' hr hd h
    obtain ⟨_, src, tx1, a, b, c, _, d⟩ := IF_inv hd h
    exact ⟨src, tx1, a, b, c, d⟩
  · intro t0 t1 t2 t3 r1 r2 r3 hd h1 h2 h3
    obtain ⟨_, src, ta, _, i1, d1, l1, c1⟩ := IF_inv hd h1
    have hd' : t0.cond_depth < 64 := hd
    have p1 : 0 < t1.cond_depth := by omega
    have b1 : t1.cond_depth < 2 ^ 32 := by omega
    obtain ⟨_, i2, d2, l2, c2⟩ := ELSE_inv p1 b1 h2
    obtain ⟨_, label, g3, i3, d3, _⟩ := ENDIF_inv (by omega) (by omega) h3
    have e1 : t1.cond_depth - 1 = t0.cond_depth := by omega
    rw [d2, e1, c2, e1] at g3
    rw [e1] at l2
    rw [List.getElem?_set_self l2] at g3
    simp only [Option.some.injEq] at g3
    refine ⟨src, t2.ureg.nr_instructions, ?_, ?_, ?_, ?_⟩
    · rw [i3, i2, ← g3]
      simp
    · rw [i1]
      simp
    · rw [c1, List.getElem?_set_self l1, i1]
      simp
    · rw [d3, d2, e1]

theorem arr_get_beyond {α : Type} (l : List α) (n : Nat) (h : l.length ≤ n) :
    arr_get l (n : Int) = .error .undefined := by
  unfold arr_get
  have h0 : ¬ ((n : Int) < 0) := by omega
  rw [if_neg h0, Int.toNat_ofNat, List.getElem?_eq_none h]

theorem arr_set_beyond {α : Type} (l : List α) (n : Nat) (x : α) (h : l.length ≤ n) :
    arr_set l (n : Int) x = .error .undefined := by
  unfold arr_set
  have h0 : ¬ ((n : Int) < 0) := by omega
  have h1 : ¬ (n < l.length) := by omega
  rw [if_neg h0, Int.toNat_ofNat, if_neg h1]

/-- At depth 64 the assertion of `tx_cond` passes: the depth becomes 65 and the slot
returned is the one of index 64. -/
theorem tx_cond_at_limit (tx : shader_translator) (h : tx.cond_depth = NINE_MAX_COND_DEPTH) :
    tx_cond tx = .ok (64, { tx with cond_depth := 65 }) := by
  unfold NINE_MAX_COND_DEPTH at h
  unfold tx_cond
  have ha : tx_assert tx (decide (tx.cond_depth ≤ NINE_MAX_COND_DEPTH)) = .ok () := by
    rw [tx_assert_ok_iff]; intro _; simp [NINE_MAX_COND_DEPTH]; omega
  rw [ha]
  have h1 : u32_inc tx.cond_depth = 65 := by unfold u32_inc; omega
  have h2 : u32_dec 65 = 64 := by unfold u32_dec; omega
  simp only [bind, Except.bind, pure, Except.pure, h1, h2]

theorem tx_elsecond_pos (tx : shader_translator) (h0 : 0 < tx.cond_depth)
    (hb : tx.cond_depth < 2 ^ 32) :
    tx_elsecond tx = .ok (tx.cond_depth - 1, tx) := by
  unfold tx_elsecond
  have ha : tx_assert tx (decide (tx.cond_depth ≠ 0)) = .ok () := by
    rw [tx_assert_ok_iff]; intro _; simp; omega
  rw [ha, u32_dec_pos _ h0 hb]
  rfl

theorem tx_endcond_beyond (tx : shader_translator) (h0 : 0 < tx.cond_depth)
    (hb : tx.cond_depth < 2 ^ 32) (hl : tx.cond_labels.length ≤ tx.cond_depth - 1) :
    tx_endcond tx = .error .undefined := by
  unfold tx_endcond
  have ha : tx_assert tx (decide (tx.cond_depth ≠ 0)) = .ok () := by
    rw [tx_assert_ok_iff]; intro _; simp; omega
  rw [ha, u32_dec_pos _ h0 hb]
  have hg : arr_get tx.cond_labels ((tx.cond_depth - 1 : Nat) : Int) = .error .undefined :=
    arr_get_beyond _ _ hl
  simp only [bind, Except.bind]
  rw [hg]

theorem tx_label_insn_cond_beyond (tx : shader_translator) (op : tgsi_opcode)
    (src : List ureg_src) (slot : Nat) (hl : tx.cond_labels.length ≤ slot) :
    tx_label_insn_cond tx op src slot = .error .undefined := by
  unfold tx_label_insn_cond
  have hg : arr_set tx.cond_labels (slot : Int) tx.ureg.items.length = .error .undefined :=
    arr_set_beyond _ _ _ hl
  simp only [bind, Except.bind, tx_emit_get, ureg_label_insn]
  rw [hg]

/-- C37 (conditional depth and the label array).  Below depth 64 `tx_cond` returns the
slot of the old depth, inside the 64-entry array, and the depth stays at most 64.  At
depth 64 the assertion of `tx_cond` still passes, in every build: the depth becomes 65
and the slot returned has index 64, outside the array; with assertions enabled `tx_cond`
returns exactly when the depth before is at most 64.  At depth 65 `tx_elsecond` returns
slot 64 as well and `tx_endcond` reads element 64 of the array.  A vertex shader of 64
nested IF is translated with depth 64; with 65 nested IF and assertions enabled no
assertion fails and the label of the last IF is stored outside the array. -/
theorem C37_tx_cond_hands_out_slot_64 :
    (∀ tx : shader_translator, tx.cond_depth < 64 →
      tx_cond tx = .ok (tx.cond_depth, { tx with cond_depth := tx.cond_depth + 1 })) ∧
    (∀ tx : shader_translator, tx.cond_depth = 64 →
      tx_cond tx = .ok (64, { tx with cond_depth := 65 })) ∧
    (∀ tx : shader_translator, tx.env.asserts = true →
      ((∃ r, tx_cond tx = .ok r) ↔ tx.cond_depth ≤ 64)) ∧
    (∀ tx : shader_translator, tx.cond_depth = 65 → tx_elsecond tx = .ok (64, tx)) ∧
    (∀ tx : shader_translator, tx.cond_depth = 65 → tx.cond_labels.length = 64 →
      tx_endcond tx = .error .undefined) ∧
    (∀ (tx : shader_translator) (op : tgsi_opcode) (src : List ureg_src),
      tx.cond_labels.length = 64 → tx_label_insn_cond tx op src 64 = .error .undefined) ∧
    (shader_translator.calloc small_env).cond_labels.length = 64 ∧
    small_device.env.asserts = true ∧
    result_of ((nine_translate_shader_run small_device (tx_vs_2_0 (prog_ifs 64))).map
        (fun t => t.cond_depth)) = some 64 ∧
    fault_of (nine_translate_shader small_device (example_info .VERTEX (prog_ifs 65)))
      = some .undefined := by
  refine ⟨fun tx h => tx_cond_ok tx h, fun tx h => tx_cond_at_limit tx h, ?_, ?_, ?_, ?_,
    by decide!, by decide!, by decide!, by decide!⟩
  · intro tx ha
    constructor
    · rintro ⟨r, hr⟩
      unfold tx_cond at hr
      simp only [bind_eq_ok] at hr
      obtain ⟨_, h1, _⟩ := hr
      rw [tx_assert_eq_ok] at h1
      have := h1 ha
      simp only [decide_eq_true_eq] at this
      exact this
    · intro h
      rcases Nat.lt_or_ge tx.cond_depth 64 with h1 | h1
      · exact ⟨_, tx_cond_ok tx h1⟩
      · exact ⟨_, tx_cond_at_limit tx (by unfold NINE_MAX_COND_DEPTH; omega)⟩
  · intro tx h
    rw [tx_elsecond_pos tx (by omega) (by omega), h]
  · intro tx h hl
    exact tx_endcond_beyond tx (by omega) (by omega) (by omega)
  · intro tx op src hl
    exact tx_label_insn_cond_beyond tx op src 64 (by omega)

/-- The TEXLDD handler as a composition: the five operands are lowered in order, then one
TXD is emitted with the target recorded for the index of src1. -/
theorem TEXLDD_eq (tx : shader_translator) (T : tgsi_texture) (h0 : 0 ≤ tx.insn.src1.idx)
    (hT : tx.sampler_targets[tx.insn.src1.idx.toNat]? = some T)
    (h3 : tx.env.asserts = true →
      0 ≤ tx.insn.src3.idx ∧ tx.insn.src3.idx < tx.sampler_targets.length) :
    NineTranslateInstruction_TEXLDD tx =
      (tx_dst_param tx tx.insn.dst0).bind fun d =>
      (tx_src_param d.2 tx.insn.src0).bind fun s0 =>
      (tx_src_param s0.2 tx.insn.src1).bind fun s1 =>
      (tx_src_param s1.2 tx.insn.src2).bind fun s2 =>
      (tx_src_param s2.2 tx.insn.src3).bind fun s3 =>
        .ok (.D3D_OK, tx_emit s3.2
          (fun u => ureg_tex_insn u .TXD d.1 T [s0.1, s1.1, s2.1, s3.1])) := by
  unfold NineTranslateInstruction_TEXLDD
  cases h1 : tx_dst_param tx tx.insn.dst0 with
  | error e => rfl
  | ok r1 =>
    obtain ⟨d, tx1⟩ := r1
    have l1 := tx_dst_param_lowers _ _ _ _ h1
    rw [bind_eq_except_bind, except_bind_ok, except_bind_ok]
    simp only [lowers_insn l1]
    cases h2 : tx_src_param tx1 tx.insn.src0 with
    | error e => rfl
    | ok r2 =>
      obtain ⟨s0, tx2⟩ := r2
      have l2 := lowers_trans l1 (tx_src_param_lowers _ _ _ _ h2)
      rw [bind_eq_except_bind, except_bind_ok, except_bind_ok]
      simp only [lowers_insn l2]
      cases h3a : tx_src_param tx2 tx.insn.src1 with
      | error e => rfl
      | ok r3 =>
        obtain ⟨s1, tx3⟩ := r3
        have l3 := lowers_trans l2 (tx_src_param_lowers _ _ _ _ h3a)
        rw [bind_eq_except_bind, except_bind_ok, except_bind_ok]
        simp only [lowers_insn l3]
        cases h4 : tx_src_param tx3 tx.insn.src2 with
        | error e => rfl
        | ok r4 =>
          obtain ⟨s2, tx4⟩ := r4
          have l4 := lowers_trans l3 (tx_src_param_lowers _ _ _ _ h4)
          rw [bind_eq_except_bind, except_bind_ok, except_bind_ok]
          simp only [lowers_insn l4]
          cases h5 : tx_src_param tx4 tx.insn.src3 with
          | error e => rfl
          | ok r5 =>
            obtain ⟨s3, tx5⟩ := r5
            have l5 := lowers_trans l4 (tx_src_param_lowers _ _ _ _ h5)
            rw [bind_eq_except_bind, except_bind_ok, except_bind_ok]
            simp only [lowers_insn l5, lowers_sampler_targets l5]
            have ha : tx_assert tx5 (decide (0 ≤ tx.insn.src3.idx ∧
                tx.insn.src3.idx < tx.sampler_targets.length)) = .ok () := by
              rw [tx_assert_eq_ok, lowers_env l5]
              intro hx
              simpa using h3 hx
            rw [ha, arr_get_eq_ok _ _ _ h0 hT]
            rfl

/-- C9, amended (sampler target of TEXLDD).  The sampler operand of TEXLDD is its second
source, src1.  When target `T` is recorded for the index `s` of src1, and the register
index of src3 is one that the assertion of the handler admits (a build with assertions
wants it below the number of sampler slots), the handler lowers dst and src0 to src3 in
this order and appends exactly one TXD tagged `T`, whatever the indices of the other
operands; its second operand is the lowered src1: sampler register `s` for a plain
sampler operand. -/
theorem C9_TEXLDD_sampler_target_round_trip (tx : shader_translator) (s : Int)
    (T : tgsi_texture) (hs : tx.insn.src1.idx = s) (h0 : 0 ≤ s)
    (hT : tx.sampler_targets[s.toNat]? = some T)
    (h3 : tx.env.asserts = true →
      0 ≤ tx.insn.src3.idx ∧ tx.insn.src3.idx < tx.sampler_targets.length) :
    (NineTranslateInstruction_TEXLDD tx =
      (tx_dst_param tx tx.insn.dst0).bind fun d =>
      (tx_src_param d.2 tx.insn.src0).bind fun s0 =>
      (tx_src_param s0.2 tx.insn.src1).bind fun s1 =>
      (tx_src_param s1.2 tx.insn.src2).bind fun s2 =>
      (tx_src_param s2.2 tx.insn.src3).bind fun s3 =>
        .ok (.D3D_OK, tx_emit s3.2
          (fun u => ureg_tex_insn u .TXD d.1 T [s0.1, s1.1, s2.1, s3.1])))
    ∧ (∀ hr tx', NineTranslateInstruction_TEXLDD tx = .ok (hr, tx') →
        hr = .D3D_OK ∧ ∃ d s0 s1 s2 s3,
          tex_insns tx' = tex_insns tx ++ [.tex_insn .TXD d T [s0, s1, s2, s3]] ∧
          (tx.insn.src1.is_plain_sampler → s1 = ureg_src_register .SAMPLER s)) := by
  subst hs
  have heq := TEXLDD_eq tx T h0 hT h3
  refine ⟨heq, ?_⟩
  intro hr tx' h
  rw [heq] at h
  simp only [except_bind_eq_ok] at h
  obtain ⟨⟨d, tx1⟩, h1, ⟨s0, tx2⟩, h2, ⟨s1, tx3⟩, h3a, ⟨s2, tx4⟩, h4, ⟨s3, tx5⟩, h5, h⟩ := h
  have l5 : lowers tx tx5 :=
    lowers_trans (tx_dst_param_lowers _ _ _ _ h1)
      (lowers_trans (tx_src_param_lowers _ _ _ _ h2)
        (lowers_trans (tx_src_param_lowers _ _ _ _ h3a)
          (lowers_trans (tx_src_param_lowers _ _ _ _ h4) (tx_src_param_lowers _ _ _ _ h5))))
  simp only [Except.ok.injEq, Prod.mk.injEq] at h
  obtain ⟨rfl, rfl⟩ := h
  refine ⟨rfl, d, s0, s1, s2, s3, ?_, fun hp => tx_src_param_plain_sampler _ _ _ _ hp h3a⟩
  have := lowers_tex_insns l5
  unfold tex_insns at this ⊢
  simp only [tx_emit, ureg_tex_insn, ureg_program.log, List.filter_append, this]
  simp [ureg_item.is_tex]

/-- Witness for C9: `TEXLDD r0, r0, s1, r1, r2` with 2D recorded for sampler 0 and CUBE
for sampler 1 gives one TXD tagged CUBE, and so does the whole program
`DCL_2D s0; DCL_CUBE s1; TEXLDD r0, r0, s1, r1, r2`. -/
theorem C9_TEXLDD_sampler_target_round_trip_witness :
    tx_texldd_s1.insn.src1.idx = 1 ∧ (0 : Int) ≤ 1 ∧
    tx_texldd_s1.sampler_targets[(1 : Int).toNat]? = some .CUBE ∧
    (tx_texldd_s1.env.asserts = true →
      0 ≤ tx_texldd_s1.insn.src3.idx ∧
      tx_texldd_s1.insn.src3.idx < tx_texldd_s1.sampler_targets.length) ∧
    result_of ((NineTranslateInstruction_TEXLDD tx_texldd_s1).map
      (fun r => (r.1, (tex_insns r.2).map ureg_item.opcode,
        (tex_insns r.2).map ureg_item.tex_target)))
      = some (.D3D_OK, [.TXD], [some .CUBE]) ∧
    result_of ((nine_translate_shader example_device
        (example_info .FRAGMENT prog_texldd_s1)).map
        (fun r => (r.1, (emitted_insns r.2).map ureg_item.opcode,
                   (emitted_insns r.2).map ureg_item.tex_target)))
      = some (.D3D_OK, [.TXD, .END], [some .CUBE, none]) ∧
    result_of ((nine_translate_shader example_device
        (example_info .FRAGMENT prog_texldd_s1)).map
        (fun r => (emitted_insns r.2).map ureg_item.src_regs))
      = some [[(.TEMPORARY, 0), (.SAMPLER, 1), (.TEMPORARY, 1), (.TEMPORARY, 2)], []] ∧
    ((NineTranslateInstruction_TEXLDD tx_texldd_s1 =
      (tx_dst_param tx_texldd_s1 tx_texldd_s1.insn.dst0).bind fun d =>
      (tx_src_param d.2 tx_texldd_s1.insn.src0).bind fun s0 =>
      (tx_src_param s0.2 tx_texldd_s1.insn.src1).bind fun s1 =>
      (tx_src_param s1.2 tx_texldd_s1.insn.src2).bind fun s2 =>
      (tx_src_param s2.2 tx_texldd_s1.insn.src3).bind fun s3 =>
        .ok (.D3D_OK, tx_emit s3.2
          (fun u => ureg_tex_insn u .TXD d.1 .CUBE [s0.1, s1.1, s2.1, s3.1])))
    ∧ (∀ hr tx', NineTranslateInstruction_TEXLDD tx_texldd_s1 = .ok (hr, tx') →
        hr = .D3D_OK ∧ ∃ d s0 s1 s2 s3,
          tex_insns tx' = tex_insns tx_texldd_s1 ++ [.tex_insn .TXD d .CUBE [s0, s1, s2, s3]] ∧
          (tx_texldd_s1.insn.src1.is_plain_sampler → s1 = ureg_src_register .SAMPLER 1))) := by
  have h : result_of ((nine_translate_shader example_device
        (example_info .FRAGMENT prog_texldd_s1)).map
        (fun r =>
          decide (r.1 = .D3D_OK) &&
          decide ((emitted_insns r.2).map ureg_item.opcode = [.TXD, .END]) &&
          decide ((emitted_insns r.2).map ureg_item.tex_target = [some .CUBE, none]) &&
          decide ((emitted_insns r.2).map ureg_item.src_regs =
            [[(.TEMPORARY, 0), (.SAMPLER, 1), (.TEMPORARY, 1), (.TEMPORARY, 2)], []])))
      = some true := by decide!
  obtain ⟨h, h4⟩ := result_of_and h
  obtain ⟨h, h3⟩ := result_of_and h
  obtain ⟨h1, h2⟩ := result_of_and h
  exact ⟨by decide!, by decide, by decide!, by decide!, by decide!,
    result_of_pair (result_of_decide h1)
      (result_of_pair (result_of_decide h2) (result_of_decide h3)),
    result_of_decide h4,
    C9_TEXLDD_sampler_target_round_trip tx_texldd_s1 1 .CUBE (by decide!) (by decide)
      (by decide!) (by decide!)⟩

/-- C18, amended: in a pixel shader of version 3.0 scenario S6 is translated to SGT, IF,
MOV, ELSE, MOV, ENDIF, END.  IFC passes version gating (its pixel-shader range is 2.1 to
3.0, like that of ELSE and ENDIF); the compare is a set-greater of the two sources r0 and
c0 of IFC and the IF tests the register that the compare writes; the MOVs of c1 and c2 to
oC0 are emitted in their branches; ELSE and ENDIF are dispatched, and ENDIF fixes up the
label of ELSE to the instruction number it is emitted at; the conditional depth is 0 at
the end. -/
theorem C18_S6_in_ps_3_0 :
    (sm1_lookup_info D3DSIO_IFC).map (fun i => (i.frag_version.min, i.frag_version.max))
      = some (0x201, 0x300) ∧
    (sm1_lookup_info D3DSIO_ELSE).map (fun i => (i.frag_version.min, i.frag_version.max))
      = some (0x201, 0x300) ∧
    (sm1_lookup_info D3DSIO_ENDIF).map (fun i => (i.frag_version.min, i.frag_version.max))
      = some (0x201, 0x300) ∧
    result_of ((nine_translate_shader example_device
        (example_info .FRAGMENT (prog_ifc 0x300))).map (fun r => r.1)) = some .D3D_OK ∧
    result_of ((nine_translate_shader example_device
        (example_info .FRAGMENT (prog_ifc 0x300))).map
        (fun r => (emitted_insns r.2).map ureg_item.opcode))
      = some [.SGT, .IF, .MOV, .ELSE, .MOV, .ENDIF, .END] ∧
    result_of ((nine_translate_shader example_device
        (example_info .FRAGMENT (prog_ifc 0x300))).map
        (fun r => ((emitted_insns r.2).take 1).map ureg_item.src_regs))
      = some [[(.TEMPORARY, 0), (.CONSTANT, 0)]] ∧
    result_of ((nine_translate_shader example_device
        (example_info .FRAGMENT (prog_ifc 0x300))).map
        (fun r => decide
          (((emitted_insns r.2).take 1).map
              (fun it => it.dst_regs.map (fun d => (d.1, d.2.1))) =
            (((emitted_insns r.2).drop 1).take 1).map ureg_item.src_regs)))
      = some true ∧
    result_of ((nine_translate_shader example_device
        (example_info .FRAGMENT (prog_ifc 0x300))).map
        (fun r => ((emitted_insns r.2).drop 2).map ureg_item.src_regs))
      = some [[(.CONSTANT, 1)], [], [(.CONSTANT, 2)], [], []] ∧
    result_of ((nine_translate_shader example_device
        (example_info .FRAGMENT (prog_ifc 0x300))).map
        (fun r => ((emitted_insns r.2).drop 2).map ureg_item.dst_regs))
      = some [[(.OUTPUT, 0, 15)], [], [(.OUTPUT, 0, 15)], [], []] ∧
    result_of ((nine_translate_shader example_device
        (example_info .FRAGMENT (prog_ifc 0x300))).map
        (fun r => (r.2.cso.map (fun u => label_tokens u.items)).getD []))
      = some [(.IF, 278), (.ELSE, 281)] ∧
    result_of ((nine_translate_shader example_device
        (example_info .FRAGMENT (prog_ifc 0x300))).map
        (fun r => decide ((281, 5) ∈ (emitted_items r.2).filterMap ureg_item.fixup)))
      = some true ∧
    result_of ((final_tx .FRAGMENT (prog_ifc 0x300)).map (fun tx => tx.cond_depth))
      = some 0 := by
  have h : result_of ((nine_translate_shader example_device
        (example_info .FRAGMENT (prog_ifc 0x300))).map
        (fun r =>
          decide (r.1 = .D3D_OK) &&
          decide ((emitted_insns r.2).map ureg_item.opcode =
            [.SGT, .IF, .MOV, .ELSE, .MOV, .ENDIF, .END]) &&
          decide (((emitted_insns r.2).take 1).map ureg_item.src_regs =
            [[(.TEMPORARY, 0), (.CONSTANT, 0)]]) &&
          decide (((emitted_insns r.2).take 1).map
              (fun it => it.dst_regs.map (fun d => (d.1, d.2.1))) =
            (((emitted_insns r.2).drop 1).take 1).map ureg_item.src_regs) &&
          decide (((emitted_insns r.2).drop 2).map ureg_item.src_regs =
            [[(.CONSTANT, 1)], [], [(.CONSTANT, 2)], [], []]) &&
          decide (((emitted_insns r.2).drop 2).map ureg_item.dst_regs =
            [[(.OUTPUT, 0, 15)], [], [(.OUTPUT, 0, 15)], [], []]) &&
          decide ((r.2.cso.map (fun u => label_tokens u.items)).getD [] =
            [(.IF, 278), (.ELSE, 281)]) &&
          decide ((281, 5) ∈ (emitted_items r.2).filterMap ureg_item.fixup)))
      = some true := by decide!
  obtain ⟨h, h8⟩ := result_of_and h
  obtain ⟨h, h7⟩ := result_of_and h
  obtain ⟨h, h6⟩ := result_of_and h
  obtain ⟨h, h5⟩ := result_of_and h
  obtain ⟨h, h4⟩ := result_of_and h
  obtain ⟨h, h3⟩ := result_of_and h
  obtain ⟨h1, h2⟩ := result_of_and h
  exact ⟨by decide!, by decide!, by decide!, result_of_decide h1, result_of_decide h2,
    result_of_decide h3, h4, result_of_decide h5, result_of_decide h6, result_of_decide h7,
    h8, by decide!⟩

theorem generic_lower_dst_eq (tx : shader_translator) (h : tx.insn.ndst ≤ 1) :
    generic_lower_dst tx = lower_dsts_in_order tx tx.insn.dests := by
  unfold generic_lower_dst sm1_instruction.dests
  rcases Nat.eq_zero_or_pos tx.insn.ndst with h0 | h0
  · rw [h0]
    rfl
  · have h1 : tx.insn.ndst = 1 := by omega
    rw [if_pos h0, h1]
    simp only [List.take, lower_dsts_in_order]
    cases tx_dst_param tx tx.insn.dst0 with
    | error e => rfl
    | ok a => rfl

/-- One round of the dispatch loop on a version-valid instruction without special handler
and without emitting modifiers adds exactly the instruction of the spec. -/
theorem generic_round_emits_item {tx tx' : shader_translator}
    (h : sm1_parse_instruction tx = .ok tx') (hg : generic_round (tx, tx') = true) :
    ∃ it, round_emits (tx, tx') it ∧ tx_insns tx' = tx_insns tx ++ [it] := by
  have hg2 : ∃ info, round_row tx = some info ∧ info.handler = none ∧
      sm1_version_rejected tx info = false ∧ tx'.insn.emits = false := by
    unfold generic_round at hg
    cases hr : round_row tx with
    | none => rw [hr] at hg; cases hg
    | some info =>
      rw [hr] at hg
      simp only [Bool.and_eq_true, Bool.not_eq_true', Option.isNone_iff_eq_none] at hg
      exact ⟨info, rfl, hg.1.1, hg.1.2, hg.2⟩
  obtain ⟨info, hrow, hnone, hver, hq⟩ := hg2
  unfold round_row at hrow
  unfold sm1_parse_instruction at h
  rw [bind_eq_ok] at h
  obtain ⟨⟨oi, tx1⟩, h1, h⟩ := h
  rw [h1] at hrow
  simp only [] at hrow
  subst hrow
  obtain ⟨f1, _⟩ := sm1_parse_instruction_head_frame h1
  simp only [] at h
  rw [decode_frame_rejected f1, hver] at h
  simp only [Bool.false_eq_true, if_false] at h
  obtain ⟨ta, hr, tb, r, h5, h6⟩ := sm1_parse_instruction_body_inv h
  rw [hnone] at h5
  simp only [] at h5
  have hh := reads_head r
  simp only [] at hh
  obtain ⟨_, _, _, hnd, hns, hinf⟩ := hh
  subst h6
  have hjb := TOKEN_JUMP_insns tb
  have hib : tb.insn = ta.insn := eff_insn (Generic_eff h5)
  have hqa : ta.insn.emits = false := by rw [← hib, ← hjb.2]; exact hq
  obtain ⟨dsts, srcs, t1, t2, g1, g2, g3, g4, g5, g6⟩ := Generic_quiet h5 hqa hinf
  have hfa : decode_frame tx ta := by
    have e := r.1
    unfold decode_frame at f1 ⊢
    rw [e]
    simp only []
    rw [f1]
  have hle : ta.insn.ndst ≤ 1 := by
    rw [← g3]
    unfold generic_lower_dst at g1
    split at g1
    · simp only [bind_eq_ok, pure_eq_ok] at g1
      obtain ⟨_, _, g1⟩ := g1
      rw [Prod.mk.injEq] at g1
      rw [← g1.1]
      simp
    · rw [pure_eq_ok, Prod.mk.injEq] at g1
      rw [← g1.1]
      simp
  have hjt : (TOKEN_JUMP tb).insn = ta.insn := by rw [hjb.2, hib]
  refine ⟨.insn info.opcode dsts srcs, ⟨info, ta, t1, t2, dsts, srcs,
    by unfold round_row; rw [h1], hfa, hjt.symm, by rw [hjt, hnd], by rw [hjt, hns],
    ?_, ?_, by rw [g3, hnd], by rw [g4, hns], rfl⟩, ?_⟩
  · show lower_dsts_in_order ta (TOKEN_JUMP tb).insn.dests = _
    rw [hjt, ← generic_lower_dst_eq ta hle]
    exact g1
  · show lower_in_order t1 (TOKEN_JUMP tb).insn.sources = _
    rw [hjt]
    exact g2
  · rw [hjb.1, g5, reads_tx_insns r]
    have : tx_insns { tx1 with insn :=
        { tx1.insn with info := some info, ndst := info.ndst, nsrc := info.nsrc } } =
        tx_insns tx := by
      unfold tx_insns
      unfold decode_frame at f1
      rw [f1]
    rw [this]

/-- The dispatch loop on a program of version-valid instructions without special handler
and without emitting modifiers: round by round, the instruction of the spec is appended. -/
theorem generic_loop_emits_items (fuel : Nat) : ∀ (tx tx' : shader_translator),
    nine_translate_shader_loop fuel tx = .ok tx' →
    (∀ r ∈ loop_rounds fuel tx, generic_round r = true) →
    ∃ its : List ureg_item, List.Forall₂ round_emits (loop_rounds fuel tx) its ∧
      tx_insns tx' = tx_insns tx ++ its := by
  induction fuel with
  | zero => intro tx tx' h; cases h
  | succ n ih =>
    intro tx tx' h hall
    unfold nine_translate_shader_loop at h
    rw [bind_eq_ok] at h
    obtain ⟨b, hb, h⟩ := h
    cases b with
    | true =>
      simp only [if_true, pure_eq_ok] at h
      subst h
      unfold loop_rounds
      rw [hb]
      exact ⟨[], List.Forall₂.nil, by simp⟩
    | false =>
      simp only [Bool.false_eq_true, if_false, bind_eq_ok] at h
      obtain ⟨tx1, h1, h⟩ := h
      unfold loop_rounds at hall ⊢
      rw [hb, h1] at hall ⊢
      simp only [List.mem_cons, forall_eq_or_imp] at hall
      obtain ⟨hg, hrest⟩ := hall
      obtain ⟨it, hit, hins⟩ := generic_round_emits_item h1 hg
      obtain ⟨its, hf, hi⟩ := ih _ _ h hrest
      exact ⟨it :: its, List.Forall₂.cons hit hf, by rw [hi, hins, List.append_assoc]; rfl⟩

/-- C19 (strict source-order generic emission).  Let every round of the dispatch loop
decode an instruction that passes the version check, has no special handler and carries
no modifier that is lowered to an instruction on the operands it lowers.  Then, whenever
the translation returns, the instructions of the program are, round by round in the order
of the rounds, the target opcode of the row applied to the `ndst` destinations and then
the `nsrc` sources of the decoded instruction, each lowered by `tx_dst_param` and
`tx_src_param` in operand order on the program and registers that the rounds before have
left, followed by one END; in particular their opcodes and operand counts are those of
the rows.  The translation never ends for lack of fuel (it returns or it ends in a fault
of the C code), and more fuel than one round per word of the stream does not change the
run. -/
theorem C19_generic_emission_in_source_order (device : NineDevice9) (tx : shader_translator)
    (h0 : tx_insns tx = [])
    (hall : ∀ r ∈ loop_rounds (tx.byte_code.length + 1) (tx_before_loop device tx),
      generic_round r = true) :
    no_fuel (nine_translate_shader_run device tx) ∧
    (∀ tx' : shader_translator, nine_translate_shader_run device tx = .ok tx' →
      ∃ its : List ureg_item,
        List.Forall₂ round_emits
          (loop_rounds (tx.byte_code.length + 1) (tx_before_loop device tx)) its ∧
        tx_insns tx' = its ++ [.insn .END [] []] ∧
        (tx_insns tx').map ureg_item.signature =
          (loop_rounds (tx.byte_code.length + 1) (tx_before_loop device tx)).map
            round_signature ++ [(.END, 0, 0)]) ∧
    (∀ k : Nat, nine_translate_shader_loop (tx.byte_code.length + 1 + k)
        (tx_before_loop device tx) =
      nine_translate_shader_loop (tx.byte_code.length + 1) (tx_before_loop device tx)) := by
  refine ⟨nine_translate_shader_run_no_fuel device tx, ?_, ?_⟩
  · intro tx' h
    have hrun : nine_translate_shader_run device tx =
        (nine_translate_shader_loop (tx.byte_code.length + 1) (tx_before_loop device tx)).bind
          (fun tx2 => .ok (tx_insn { tx2 with parse := tx2.parse + 1 } .END [] [])) := rfl
    rw [hrun, except_bind_eq_ok] at h
    obtain ⟨tx2, h2, h⟩ := h
    simp only [Except.ok.injEq] at h
    subst h
    obtain ⟨its, hf, hi⟩ := generic_loop_emits_items _ _ _ h2 hall
    have hsig := generic_loop_emits _ _ _ h2 hall
    rw [tx_before_loop_insns, h0] at hi hsig
    have e : tx_insns { tx2 with parse := tx2.parse + 1 } = tx_insns tx2 := rfl
    refine ⟨its, hf, ?_, ?_⟩
    · rw [tx_insns_insn, e, hi, List.nil_append]
    · rw [tx_insns_insn, e, List.map_append, hsig]
      rfl
  · intro k
    exact loop_fuel_irrelevant _ k _ (by
      have : (tx_before_loop device tx).byte_code = tx.byte_code := rfl
      rw [this]; omega) (by omega)

/-- Witness for C19: `vs_2_0; comment; ADD r0, r1, r2; MOV r3, -r0; MAD r4, |r0|, r1, c7;
END` is translated to ADD, MOV, MAD and END; the destinations are the temporaries declared
for r0, r3 and r4 with the full writemask, the sources the temporaries of r1 and r2, of r0
negated, and of r0 as absolute value, r1 and constant 7. -/
theorem C19_generic_emission_in_source_order_witness :
    tx_insns tx_generic = [] ∧
    (∀ r ∈ loop_rounds (tx_generic.byte_code.length + 1)
      (tx_before_loop small_device tx_generic), generic_round r = true) ∧
    (loop_rounds (tx_generic.byte_code.length + 1)
      (tx_before_loop small_device tx_generic)).map round_signature =
      [(.ADD, 1, 2), (.MOV, 1, 1), (.MAD, 1, 3)] ∧
    result_of ((nine_translate_shader_run small_device tx_generic).map
      (fun t => (tx_insns t).map ureg_item.opcode)) = some [.ADD, .MOV, .MAD, .END] ∧
    result_of ((nine_translate_shader_run small_device tx_generic).map
      (fun t => (tx_insns t).map ureg_item.dst_regs)) =
      some [[(.TEMPORARY, 0, 15)], [(.TEMPORARY, 3, 15)], [(.TEMPORARY, 4, 15)], []] ∧
    result_of ((nine_translate_shader_run small_device tx_generic).map
      (fun t => (tx_insns t).map ureg_item.src_regs)) =
      some [[(.TEMPORARY, 1), (.TEMPORARY, 2)], [(.TEMPORARY, 0)],
            [(.TEMPORARY, 0), (.TEMPORARY, 1), (.CONSTANT, 7)], []] ∧
    result_of ((nine_translate_shader_run small_device tx_generic).map
      (fun t => (tx_insns t).map ureg_item.src_mods)) =
      some [[(false, false), (false, false)], [(true, false)],
            [(false, true), (false, false), (false, false)], []] ∧
    (no_fuel (nine_translate_shader_run small_device tx_generic) ∧
    (∀ tx' : shader_translator, nine_translate_shader_run small_device tx_generic = .ok tx' →
      ∃ its : List ureg_item,
        List.Forall₂ round_emits
          (loop_rounds (tx_generic.byte_code.length + 1)
            (tx_before_loop small_device tx_generic)) its ∧
        tx_insns tx' = its ++ [.insn .END [] []] ∧
        (tx_insns tx').map ureg_item.signature =
          (loop_rounds (tx_generic.byte_code.length + 1)
            (tx_before_loop small_device tx_generic)).map round_signature ++
            [(.END, 0, 0)]) ∧
    (∀ k : Nat, nine_translate_shader_loop (tx_generic.byte_code.length + 1 + k)
        (tx_before_loop small_device tx_generic) =
      nine_translate_shader_loop (tx_generic.byte_code.length + 1)
        (tx_before_loop small_device tx_generic))) :=
  ⟨by decide, by decide!, by decide!, by decide!, by decide!, by decide!, by decide!,
   C19_generic_emission_in_source_order small_device tx_generic (by decide) (by decide!)⟩

theorem grows_refl (tx : shader_translator) : grows tx tx :=
  ⟨[], (List.append_nil _).symm⟩

theorem grows_trans {a b c : shader_translator} (h1 : grows a b) (h2 : grows b c) :
    grows a c := by
  obtain ⟨l1, e1⟩ := h1
  obtain ⟨l2, e2⟩ := h2
  exact ⟨l1 ++ l2, by rw [e2, e1, List.append_assoc]⟩

theorem steps_grows {i b : Bool} {tx tx' : shader_translator} (h : steps i b tx tx') :
    grows tx tx' := by
  obtain ⟨_, l, hl, _⟩ := h
  exact ⟨l, hl⟩

theorem param_grows {tx tx' : shader_translator} {r : ureg_src} {p : sm1_src_param}
    (h : tx_src_param tx p = .ok (r, tx')) : grows tx tx' :=
  steps_grows (tx_src_param_steps _ _ _ _ h)

theorem src0_grows {tx tx' : shader_translator} {r : ureg_src}
    (h : tx_src_param tx tx.insn.src0 = .ok (r, tx')) : grows tx tx' := param_grows h

theorem src1_grows {tx tx' : shader_translator} {r : ureg_src}
    (h : tx_src_param tx tx.insn.src1 = .ok (r, tx')) : grows tx tx' := param_grows h

theorem src2_grows {tx tx' : shader_translator} {r : ureg_src}
    (h : tx_src_param tx tx.insn.src2 = .ok (r, tx')) : grows tx tx' := param_grows h

theorem src3_grows {tx tx' : shader_translator} {r : ureg_src}
    (h : tx_src_param tx tx.insn.src3 = .ok (r, tx')) : grows tx tx' := param_grows h

theorem dst0_grows {tx tx' : shader_translator} {r : ureg_dst}
    (h : tx_dst_param tx tx.insn.dst0 = .ok (r, tx')) : grows tx tx' :=
  steps_grows (tx_dst_param_steps _ _ _ _ h)

theorem tx_insn_grows (tx : shader_translator) (op : tgsi_opcode) (d : List ureg_dst)
    (s : List ureg_src) : grows tx (tx_insn tx op d s) :=
  ⟨[.insn op d s], rfl⟩

theorem tx_imm1f_grows (tx : shader_translator) (bits : Nat) :
    grows tx (tx_imm1f tx bits).2 :=
  ⟨[_], rfl⟩

theorem Mkxn_rows_grows (k : Nat) (dst : ureg_dst) (src0 : ureg_src) :
    ∀ (todo i : Nat) (src1 : ureg_src) (ureg : ureg_program),
      ∃ l, (Mkxn_rows k dst src0 todo i src1 ureg).items = ureg.items ++ l := by
  intro todo
  induction todo with
  | zero => intro i src1 ureg; exact ⟨[], (List.append_nil _).symm⟩
  | succ todo ih =>
    intro i src1 ureg
    unfold Mkxn_rows
    simp only []
    split
    · exact ih _ _ _
    · split
      · obtain ⟨l, hl⟩ := ih (i + 1) { src1 with Index := src1.Index + 1 }
          (ureg_insn ureg .DP3 [ureg_writemask dst (1 <<< i)] [src0, src1])
        exact ⟨(.insn .DP3 [ureg_writemask dst (1 <<< i)] [src0, src1]) :: l, by rw [hl]; simp [ureg_insn, ureg_program.log]⟩
      · split
        · obtain ⟨l, hl⟩ := ih (i + 1) { src1 with Index := src1.Index + 1 }
            (ureg_insn ureg .DP4 [ureg_writemask dst (1 <<< i)] [src0, src1])
          exact ⟨(.insn .DP4 [ureg_writemask dst (1 <<< i)] [src0, src1]) :: l, by rw [hl]; simp [ureg_insn, ureg_program.log]⟩
        · exact ih _ _ _

theorem tx_scratch_grows {tx tx' : shader_translator} {r : ureg_dst}
    (h : tx_scratch tx = .ok (r, tx')) : grows tx tx' :=
  steps_grows (tx_scratch_steps _ _ _ h)

theorem tx_scratch_scalar_grows {tx tx' : shader_translator} {r : ureg_dst}
    (h : tx_scratch_scalar tx = .ok (r, tx')) : grows tx tx' := by
  unfold tx_scratch_scalar at h
  simp only [bind_eq_ok, pure_eq_ok] at h
  obtain ⟨⟨t, tx1⟩, h1, h⟩ := h
  cases h
  exact tx_scratch_grows h1

theorem tx_get_loopctr_grows {tx tx' : shader_translator} {r : ureg_dst}
    (h : tx_get_loopctr tx = .ok (r, tx')) : grows tx tx' :=
  steps_grows (tx_get_loopctr_steps _ _ _ h)

theorem tx_cond_grows {tx tx' : shader_translator} {s : Nat}
    (h : tx_cond tx = .ok (s, tx')) : grows tx tx' := by
  unfold tx_cond at h
  simp only [bind_eq_ok, pure_eq_ok] at h
  obtain ⟨_, _, h⟩ := h
  rw [Prod.mk.injEq] at h
  obtain ⟨_, h⟩ := h
  subst h
  exact ⟨[], (List.append_nil _).symm⟩

theorem tx_elsecond_grows {tx tx' : shader_translator} {s : Nat}
    (h : tx_elsecond tx = .ok (s, tx')) : grows tx tx' := by
  unfold tx_elsecond at h
  simp only [bind_eq_ok, pure_eq_ok] at h
  obtain ⟨_, _, h⟩ := h
  rw [Prod.mk.injEq] at h
  obtain ⟨_, h⟩ := h
  subst h
  exact grows_refl tx

theorem tx_endcond_grows {tx tx' : shader_translator}
    (h : tx_endcond tx = .ok tx') : grows tx tx' := by
  unfold tx_endcond at h
  simp only [bind_eq_ok, pure_eq_ok] at h
  obtain ⟨_, _, l, _, h⟩ := h
  cases h
  exact ⟨[_], rfl⟩

theorem tx_bgnloop_grows {tx tx' : shader_translator} {s : Nat}
    (h : tx_bgnloop tx = .ok (s, tx')) : grows tx tx' := by
  unfold tx_bgnloop at h
  simp only [bind_eq_ok, pure_eq_ok] at h
  obtain ⟨_, _, h⟩ := h
  rw [Prod.mk.injEq] at h
  obtain ⟨_, h⟩ := h
  subst h
  split
  · exact ⟨[], (List.append_nil _).symm⟩
  · exact ⟨[], (List.append_nil _).symm⟩

theorem tx_endloop_grows {tx tx' : shader_translator} {s : Nat}
    (h : tx_endloop tx = .ok (s, tx')) : grows tx tx' := by
  unfold tx_endloop at h
  simp only [bind_eq_ok, pure_eq_ok] at h
  obtain ⟨_, _, l, _, h⟩ := h
  rw [Prod.mk.injEq] at h
  obtain ⟨_, h⟩ := h
  subst h
  exact ⟨[_], rfl⟩

theorem tx_label_insn_cond_grows {tx tx' : shader_translator} {op : tgsi_opcode}
    {src : List ureg_src} {slot : Nat}
    (h : tx_label_insn_cond tx op src slot = .ok tx') : grows tx tx' := by
  unfold tx_label_insn_cond at h
  simp only [bind_eq_ok, pure_eq_ok] at h
  obtain ⟨l, _, h⟩ := h
  cases h
  exact ⟨[_], rfl⟩

theorem tx_label_insn_loop_grows {tx tx' : shader_translator} {op : tgsi_opcode}
    {src : List ureg_src} {slot : Nat}
    (h : tx_label_insn_loop tx op src slot = .ok tx') : grows tx tx' := by
  unfold tx_label_insn_loop at h
  simp only [bind_eq_ok, pure_eq_ok] at h
  obtain ⟨l, _, h⟩ := h
  cases h
  exact ⟨[_], rfl⟩

theorem tx_label_insn_inst_grows {tx tx' : shader_translator} {op : tgsi_opcode}
    {src : List ureg_src} {idx : Int}
    (h : tx_label_insn_inst tx op src idx = .ok tx') : grows tx tx' := by
  unfold tx_label_insn_inst at h
  simp only [bind_eq_ok, pure_eq_ok] at h
  obtain ⟨l, _, h⟩ := h
  cases h
  exact ⟨[_], rfl⟩

theorem tx_set_lconstf_grows {tx tx' : shader_translator} {index : Int} {f : List Nat}
    (h : tx_set_lconstf tx index f = .ok tx') : grows tx tx' := by
  unfold tx_set_lconstf at h
  simp only [bind_eq_ok, pure_eq_ok] at h
  obtain ⟨_, _, n, _, l, _, h⟩ := h
  cases h
  split
  · split
    · exact ⟨[_], rfl⟩
    · exact ⟨[_], rfl⟩
  · exact ⟨[_], rfl⟩

theorem tx_set_lconsti_grows {tx tx' : shader_translator} {index : Int} {f : List Nat}
    (h : tx_set_lconsti tx index f = .ok tx') : grows tx tx' := by
  unfold tx_set_lconsti at h
  simp only [bind_eq_ok, pure_eq_ok] at h
  obtain ⟨_, _, o, _, l, _, h⟩ := h
  cases h
  unfold grows
  by_cases hn : tx.native_integers = true
  · simp only [hn, if_true]
    exact ⟨[_], rfl⟩
  · simp only [hn, if_false]
    exact ⟨[_], rfl⟩

theorem tx_set_lconstb_grows {tx tx' : shader_translator} {index : Int} {b : Nat}
    (h : tx_set_lconstb tx index b = .ok tx') : grows tx tx' := by
  unfold tx_set_lconstb at h
  simp only [bind_eq_ok, pure_eq_ok] at h
  obtain ⟨_, _, o, _, l, _, h⟩ := h
  cases h
  unfold grows
  by_cases hn : tx.native_integers = true
  · simp only [hn, if_true]
    exact ⟨[_], rfl⟩
  · simp only [hn, if_false]
    exact ⟨[_], rfl⟩


theorem Mkxn_grows {tx tx' : shader_translator} {hr : HRESULT} {k n : Nat}
    (h : NineTranslateInstruction_Mkxn tx k n = .ok (hr, tx')) : grows tx tx' := by
  unfold NineTranslateInstruction_Mkxn at h
  simp only [bind_eq_ok, pure_eq_ok] at h
  obtain ⟨⟨d, t1⟩, h1, ⟨s0, t2⟩, h2, ⟨s1, t3⟩, h3, h⟩ := h
  rw [Prod.mk.injEq] at h
  obtain ⟨_, h⟩ := h
  subst h
  exact grows_trans (dst0_grows h1) (grows_trans (src0_grows h2) (grows_trans (src1_grows h3)
    (Mkxn_rows_grows _ _ _ _ _ _ _)))

theorem CALL_grows {tx tx' : shader_translator} {hr : HRESULT}
    (h : NineTranslateInstruction_CALL tx = .ok (hr, tx')) : grows tx tx' := by
  unfold NineTranslateInstruction_CALL at h
  simp only [bind_eq_ok, pure_eq_ok] at h
  obtain ⟨_, _, t1, h1, h⟩ := h
  rw [Prod.mk.injEq] at h
  obtain ⟨_, h⟩ := h
  subst h
  exact tx_label_insn_inst_grows h1

theorem CALLNZ_grows {tx tx' : shader_translator} {hr : HRESULT}
    (h : NineTranslateInstruction_CALLNZ tx = .ok (hr, tx')) : grows tx tx' := by
  unfold NineTranslateInstruction_CALLNZ at h
  rw [bind_eq_ok] at h
  obtain ⟨⟨tmp, t1⟩, h1, h⟩ := h
  rw [bind_eq_ok] at h
  obtain ⟨⟨src, t2⟩, h2, h⟩ := h
  have e2 : grows t2 (if t2.insn.flags = 0 then
      if t2.native_integers then tx_insn t2 .NOT [tmp] [src]
      else tx_insn (tx_imm1f t2 F32_1_0).2 .SUB [tmp] [(tx_imm1f t2 F32_1_0).1, src]
    else t2) := by
    split
    · split
      · exact tx_insn_grows _ _ _ _
      · exact grows_trans (tx_imm1f_grows _ _) (tx_insn_grows _ _ _ _)
    · exact grows_refl _
  simp only [] at h
  generalize (if t2.insn.flags = 0 then
      if t2.native_integers then tx_insn t2 .NOT [tmp] [src]
      else tx_insn (tx_imm1f t2 F32_1_0).2 .SUB [tmp] [(tx_imm1f t2 F32_1_0).1, src]
    else t2) = tX at h e2
  have e := grows_trans (tx_scratch_scalar_grows h1) (grows_trans (src1_grows h2) e2)
  split at h <;>
  · simp only [bind_eq_ok, pure_eq_ok] at h
    obtain ⟨c, _, ⟨slot, t3⟩, h3, t4, h4, t5, h5, t6, h6, h⟩ := h
    rw [Prod.mk.injEq] at h
    obtain ⟨_, h⟩ := h
    subst h
    exact grows_trans e
      (grows_trans (tx_cond_grows h3) (grows_trans (tx_label_insn_cond_grows h4)
        (grows_trans (tx_label_insn_inst_grows h5) (grows_trans (tx_endcond_grows h6)
          (tx_insn_grows _ _ _ _)))))

theorem RET_grows {tx tx' : shader_translator} {hr : HRESULT}
    (h : NineTranslateInstruction_RET tx = .ok (hr, tx')) : grows tx tx' := by
  unfold NineTranslateInstruction_RET at h
  simp only [pure_eq_ok] at h
  rw [Prod.mk.injEq] at h
  obtain ⟨_, h⟩ := h
  subst h
  exact tx_insn_grows _ _ _ _

theorem ENDLOOP_grows {tx tx' : shader_translator} {hr : HRESULT}
    (h : NineTranslateInstruction_ENDLOOP tx = .ok (hr, tx')) : grows tx tx' := by
  unfold NineTranslateInstruction_ENDLOOP at h
  simp only [bind_eq_ok, pure_eq_ok] at h
  obtain ⟨⟨l, t1⟩, h1, t2, h2, h⟩ := h
  rw [Prod.mk.injEq] at h
  obtain ⟨_, h⟩ := h
  subst h
  exact grows_trans (tx_endloop_grows h1) (tx_label_insn_loop_grows h2)

theorem ENDREP_grows {tx tx' : shader_translator} {hr : HRESULT}
    (h : NineTranslateInstruction_ENDREP tx = .ok (hr, tx')) : grows tx tx' := by
  unfold NineTranslateInstruction_ENDREP at h
  simp only [bind_eq_ok, pure_eq_ok] at h
  obtain ⟨⟨l, t1⟩, h1, t2, h2, h⟩ := h
  rw [Prod.mk.injEq] at h
  obtain ⟨_, h⟩ := h
  subst h
  exact grows_trans (tx_endloop_grows h1) (tx_label_insn_loop_grows h2)

theorem LABEL_grows {tx tx' : shader_translator} {hr : HRESULT}
    (h : NineTranslateInstruction_LABEL tx = .ok (hr, tx')) : grows tx tx' := by
  unfold NineTranslateInstruction_LABEL at h
  simp only [bind_eq_ok, pure_eq_ok] at h
  obtain ⟨_, _, l, _, h⟩ := h
  rw [Prod.mk.injEq] at h
  obtain ⟨_, h⟩ := h
  subst h
  split
  · exact ⟨[], (List.append_nil _).symm⟩
  · exact ⟨[], (List.append_nil _).symm⟩

theorem SINCOS_grows {tx tx' : shader_translator} {hr : HRESULT}
    (h : NineTranslateInstruction_SINCOS tx = .ok (hr, tx')) : grows tx tx' := by
  unfold NineTranslateInstruction_SINCOS at h
  simp only [bind_eq_ok, pure_eq_ok] at h
  obtain ⟨⟨d, t1⟩, h1, ⟨s, t2⟩, h2, h⟩ := h
  have e := grows_trans (dst0_grows h1) (src0_grows h2)
  split at h
  · rw [pure_eq_ok, Prod.mk.injEq] at h
    obtain ⟨_, h⟩ := h
    subst h
    exact e
  · simp only [bind_eq_ok, pure_eq_ok] at h
    obtain ⟨_, _, h⟩ := h
    rw [Prod.mk.injEq] at h
    obtain ⟨_, h⟩ := h
    subst h
    exact grows_trans e (tx_insn_grows _ _ _ _)

theorem ENDIF_grows {tx tx' : shader_translator} {hr : HRESULT}
    (h : NineTranslateInstruction_ENDIF tx = .ok (hr, tx')) : grows tx tx' := by
  unfold NineTranslateInstruction_ENDIF at h
  simp only [bind_eq_ok, pure_eq_ok] at h
  obtain ⟨t1, h1, h⟩ := h
  rw [Prod.mk.injEq] at h
  obtain ⟨_, h⟩ := h
  subst h
  exact grows_trans (tx_endcond_grows h1) (tx_insn_grows _ _ _ _)

theorem IF_grows {tx tx' : shader_translator} {hr : HRESULT}
    (h : NineTranslateInstruction_IF tx = .ok (hr, tx')) : grows tx tx' := by
  unfold NineTranslateInstruction_IF at h
  simp only [bind_eq_ok, pure_eq_ok] at h
  obtain ⟨⟨s, t1⟩, h1, ⟨slot, t2⟩, h2, t3, h3, h⟩ := h
  rw [Prod.mk.injEq] at h
  obtain ⟨_, h⟩ := h
  subst h
  exact grows_trans (src0_grows h1) (grows_trans (tx_cond_grows h2) (tx_label_insn_cond_grows h3))

theorem IFC_grows {tx tx' : shader_translator} {hr : HRESULT}
    (h : NineTranslateInstruction_IFC tx = .ok (hr, tx')) : grows tx tx' := by
  unfold NineTranslateInstruction_IFC at h
  simp only [bind_eq_ok, pure_eq_ok] at h
  obtain ⟨op, _, ⟨t, t1⟩, h1, ⟨s0, t2⟩, h2, ⟨s1, t3⟩, h3, ⟨slot, t4⟩, h4, t5, h5, h⟩ := h
  rw [Prod.mk.injEq] at h
  obtain ⟨_, h⟩ := h
  subst h
  exact grows_trans (tx_scratch_grows h1) (grows_trans (src0_grows h2) (grows_trans (src1_grows h3)
    (grows_trans (tx_insn_grows _ _ _ _) (grows_trans (tx_cond_grows h4)
      (tx_label_insn_cond_grows h5)))))

theorem ELSE_grows {tx tx' : shader_translator} {hr : HRESULT}
    (h : NineTranslateInstruction_ELSE tx = .ok (hr, tx')) : grows tx tx' := by
  unfold NineTranslateInstruction_ELSE at h
  simp only [bind_eq_ok, pure_eq_ok] at h
  obtain ⟨⟨slot, t1⟩, h1, t2, h2, h⟩ := h
  rw [Prod.mk.injEq] at h
  obtain ⟨_, h⟩ := h
  subst h
  exact grows_trans (tx_elsecond_grows h1) (tx_label_insn_cond_grows h2)

theorem BREAKC_grows {tx tx' : shader_translator} {hr : HRESULT}
    (h : NineTranslateInstruction_BREAKC tx = .ok (hr, tx')) : grows tx tx' := by
  unfold NineTranslateInstruction_BREAKC at h
  simp only [bind_eq_ok, pure_eq_ok] at h
  obtain ⟨op, _, ⟨t, t1⟩, h1, ⟨s0, t2⟩, h2, ⟨s1, t3⟩, h3, h⟩ := h
  rw [Prod.mk.injEq] at h
  obtain ⟨_, h⟩ := h
  subst h
  exact grows_trans (tx_scratch_grows h1) (grows_trans (src0_grows h2) (grows_trans (src1_grows h3)
    (grows_trans (tx_insn_grows _ _ _ _) (tx_insn_grows _ _ _ _))))

theorem DEF_grows {tx tx' : shader_translator} {hr : HRESULT}
    (h : NineTranslateInstruction_DEF tx = .ok (hr, tx')) : grows tx tx' := by
  unfold NineTranslateInstruction_DEF at h
  simp only [bind_eq_ok, pure_eq_ok] at h
  obtain ⟨t1, h1, h⟩ := h
  rw [Prod.mk.injEq] at h
  obtain ⟨_, h⟩ := h
  subst h
  exact tx_set_lconstf_grows h1

theorem DEFB_grows {tx tx' : shader_translator} {hr : HRESULT}
    (h : NineTranslateInstruction_DEFB tx = .ok (hr, tx')) : grows tx tx' := by
  unfold NineTranslateInstruction_DEFB at h
  simp only [bind_eq_ok, pure_eq_ok] at h
  obtain ⟨t1, h1, h⟩ := h
  rw [Prod.mk.injEq] at h
  obtain ⟨_, h⟩ := h
  subst h
  exact tx_set_lconstb_grows h1

theorem DEFI_grows {tx tx' : shader_translator} {hr : HRESULT}
    (h : NineTranslateInstruction_DEFI tx = .ok (hr, tx')) : grows tx tx' := by
  unfold NineTranslateInstruction_DEFI at h
  simp only [bind_eq_ok, pure_eq_ok] at h
  obtain ⟨t1, h1, h⟩ := h
  rw [Prod.mk.injEq] at h
  obtain ⟨_, h⟩ := h
  subst h
  exact tx_set_lconsti_grows h1

theorem NRM_grows {tx tx' : shader_translator} {hr : HRESULT}
    (h : NineTranslateInstruction_NRM tx = .ok (hr, tx')) : grows tx tx' := by
  unfold NineTranslateInstruction_NRM at h
  simp only [bind_eq_ok, pure_eq_ok] at h
  obtain ⟨⟨tmp, t1⟩, h1, nrm, _, ⟨s, t2⟩, h2, ⟨d, t3⟩, h3, h⟩ := h
  rw [Prod.mk.injEq] at h
  obtain ⟨_, h⟩ := h
  subst h
  have e3 : grows (tx_insn (tx_insn t2 .DP3 [tmp] [s, s]) .RSQ [tmp] [nrm]) t3 := dst0_grows h3
  exact grows_trans (tx_scratch_scalar_grows h1) (grows_trans (src0_grows h2)
    (grows_trans (tx_insn_grows _ _ _ _) (grows_trans (tx_insn_grows _ _ _ _)
      (grows_trans e3 (tx_insn_grows _ _ _ _)))))

theorem TEXCOORD_grows {tx tx' : shader_translator} {hr : HRESULT}
    (h : NineTranslateInstruction_TEXCOORD tx = .ok (hr, tx')) : grows tx tx' := by
  unfold NineTranslateInstruction_TEXCOORD at h
  split at h <;>
  · rw [pure_eq_ok, Prod.mk.injEq] at h
    obtain ⟨_, h⟩ := h
    subst h
    exact grows_refl _

theorem TEXKILL_grows {tx tx' : shader_translator} {hr : HRESULT}
    (h : NineTranslateInstruction_TEXKILL tx = .ok (hr, tx')) : grows tx tx' := by
  unfold NineTranslateInstruction_TEXKILL at h
  split at h
  · simp only [bind_eq_ok, pure_eq_ok] at h
    obtain ⟨⟨d, t1⟩, h1, h⟩ := h
    rw [Prod.mk.injEq] at h
    obtain ⟨_, h⟩ := h
    subst h
    exact grows_trans (dst0_grows h1) (tx_insn_grows _ _ _ _)
  · rw [pure_eq_ok, Prod.mk.injEq] at h
    obtain ⟨_, h⟩ := h
    subst h
    exact grows_refl _

theorem unimplemented_grows {tx tx' : shader_translator} {hr : HRESULT}
    (h : NineTranslateInstruction_unimplemented tx = .ok (hr, tx')) : grows tx tx' := by
  unfold NineTranslateInstruction_unimplemented at h
  rw [pure_eq_ok, Prod.mk.injEq] at h
  obtain ⟨_, h⟩ := h
  subst h
  exact grows_refl _

theorem PHASE_grows {tx tx' : shader_translator} {hr : HRESULT}
    (h : NineTranslateInstruction_PHASE tx = .ok (hr, tx')) : grows tx tx' := by
  unfold NineTranslateInstruction_PHASE at h
  rw [pure_eq_ok, Prod.mk.injEq] at h
  obtain ⟨_, h⟩ := h
  subst h
  exact grows_refl _

theorem COMMENT_grows {tx tx' : shader_translator} {hr : HRESULT}
    (h : NineTranslateInstruction_COMMENT tx = .ok (hr, tx')) : grows tx tx' := by
  unfold NineTranslateInstruction_COMMENT at h
  rw [pure_eq_ok, Prod.mk.injEq] at h
  obtain ⟨_, h⟩ := h
  subst h
  exact grows_refl _


theorem LOOP_grows {tx tx' : shader_translator} {hr : HRESULT}
    (h : NineTranslateInstruction_LOOP tx = .ok (hr, tx')) : grows tx tx' := by
  unfold NineTranslateInstruction_LOOP at h
  simp only [bind_eq_ok, pure_eq_ok] at h
  obtain ⟨⟨src, t1⟩, h1, ⟨tmp, t2⟩, h2, ⟨label, t3⟩, h3, ⟨ctr, t4⟩, h4, t5, h5, h⟩ := h
  have e5 := grows_trans (src1_grows h1) (grows_trans (tx_scratch_scalar_grows h2)
    (grows_trans (tx_bgnloop_grows h3) (grows_trans (tx_get_loopctr_grows h4)
      (grows_trans (tx_insn_grows _ _ _ _) (tx_label_insn_loop_grows h5)))))
  split at h <;>
  · simp only [bind_eq_ok, pure_eq_ok] at h
    obtain ⟨_, _, _, _, _, _, ⟨slot, t8⟩, h8, t9, h9, t10, h10, h⟩ := h
    rw [Prod.mk.injEq] at h
    obtain ⟨_, h⟩ := h
    subst h
    exact grows_trans e5 (grows_trans (tx_insn_grows _ _ _ _) (grows_trans (tx_insn_grows _ _ _ _)
      (grows_trans (tx_insn_grows _ _ _ _) (grows_trans (tx_cond_grows h8)
        (grows_trans (tx_label_insn_cond_grows h9) (grows_trans (tx_insn_grows _ _ _ _)
          (grows_trans (tx_endcond_grows h10) (tx_insn_grows _ _ _ _))))))))

theorem REP_grows {tx tx' : shader_translator} {hr : HRESULT}
    (h : NineTranslateInstruction_REP tx = .ok (hr, tx')) : grows tx tx' := by
  unfold NineTranslateInstruction_REP at h
  simp only [bind_eq_ok, pure_eq_ok] at h
  obtain ⟨⟨src, t1⟩, h1, ⟨tmp, t2⟩, h2, ⟨label, t3⟩, h3, ⟨ctr, t4⟩, h4, _, _, t5, h5, h⟩ := h
  have e2 : grows t2 (if t2.native_integers = true then tx_emit_get t2 fun u => ureg_imm1u u 0
      else tx_imm1f t2 F32_0_0).2 := by
    split
    · exact ⟨[_], rfl⟩
    · exact tx_imm1f_grows _ _
  have e5 := grows_trans (src0_grows h1) (grows_trans (tx_scratch_scalar_grows h2) (grows_trans e2
    (grows_trans (tx_bgnloop_grows h3) (grows_trans (tx_get_loopctr_grows h4)
      (grows_trans (tx_insn_grows _ _ _ _) (tx_label_insn_loop_grows h5))))))
  split at h
  · simp only [bind_eq_ok, pure_eq_ok] at h
    obtain ⟨_, _, _, _, _, rfl, h⟩ := h
    rw [Prod.mk.injEq] at h
    obtain ⟨_, h⟩ := h
    subst h
    exact grows_trans e5 (grows_trans (tx_insn_grows _ _ _ _) (grows_trans ⟨[_], rfl⟩
      (grows_trans (tx_insn_grows _ _ _ _) (tx_insn_grows _ _ _ _))))
  · simp only [bind_eq_ok, pure_eq_ok] at h
    obtain ⟨_, _, _, _, _, rfl, h⟩ := h
    rw [Prod.mk.injEq] at h
    obtain ⟨_, h⟩ := h
    subst h
    exact grows_trans e5 (grows_trans (tx_insn_grows _ _ _ _) (grows_trans (tx_imm1f_grows _ _)
      (grows_trans (tx_insn_grows _ _ _ _) (tx_insn_grows _ _ _ _))))

/-- The handler of DCL reads two words and otherwise only extends the program. -/
theorem DCL_grows {tx tx' : shader_translator} {hr : HRESULT}
    (h : NineTranslateInstruction_DCL tx = .ok (hr, tx')) :
    grows { tx with parse := tx.parse + 2 } tx' := by
  unfold NineTranslateInstruction_DCL at h
  rw [bind_eq_ok] at h
  obtain ⟨⟨sem, t1⟩, h1, h⟩ := h
  rw [← sm1_read_semantic_parse h1]
  rw [bind_eq_ok] at h
  obtain ⟨_, _, h⟩ := h
  simp only [] at h
  split at h
  · simp only [bind_eq_ok] at h
    obtain ⟨_, ht, _⟩ := h
    exact absurd ht (throw_ne_ok _ _)
  · rw [bind_eq_ok] at h
    obtain ⟨_, _, h⟩ := h
    split at h
    · simp only [bind_eq_ok, pure_eq_ok] at h
      obtain ⟨target, _, targets, _, h⟩ := h
      rw [Prod.mk.injEq] at h
      obtain ⟨_, h⟩ := h
      subst h
      exact ⟨[_], rfl⟩
    · rw [bind_eq_ok] at h
      obtain ⟨tgsi, _, h⟩ := h
      split at h
      · split at h
        · simp only [bind_eq_ok, pure_eq_ok] at h
          obtain ⟨m, _, h⟩ := h
          rw [Prod.mk.injEq] at h
          obtain ⟨_, h⟩ := h
          subst h
          exact ⟨[_], rfl⟩
        · simp only [bind_eq_ok, pure_eq_ok] at h
          obtain ⟨_, _, h⟩ := h
          rw [Prod.mk.injEq] at h
          obtain ⟨_, h⟩ := h
          subst h
          exact ⟨[_], rfl⟩
      · split at h
        · simp only [bind_eq_ok, pure_eq_ok] at h
          obtain ⟨m, _, h⟩ := h
          rw [Prod.mk.injEq] at h
          obtain ⟨_, h⟩ := h
          subst h
          exact ⟨[_], rfl⟩
        · simp only [bind_eq_ok, pure_eq_ok] at h
          obtain ⟨_, _, h⟩ := h
          rw [Prod.mk.injEq] at h
          obtain ⟨_, h⟩ := h
          subst h
          exact ⟨[_], rfl⟩

theorem TEX_grows {tx tx' : shader_translator} {hr : HRESULT}
    (h : NineTranslateInstruction_TEX tx = .ok (hr, tx')) : grows tx tx' := by
  unfold NineTranslateInstruction_TEX at h
  simp only [bind_eq_ok, pure_eq_ok] at h
  obtain ⟨⟨d, t1⟩, h1, ⟨s0, t2⟩, h2, ⟨s1, t3⟩, h3, _, _, target, _, h⟩ := h
  have e := grows_trans (dst0_grows h1) (grows_trans (src0_grows h2) (src1_grows h3))
  split at h
  · rw [pure_eq_ok, Prod.mk.injEq] at h
    obtain ⟨_, h⟩ := h
    subst h
    exact grows_trans e ⟨[_], rfl⟩
  · split at h
    · rw [pure_eq_ok, Prod.mk.injEq] at h
      obtain ⟨_, h⟩ := h
      subst h
      exact grows_trans e ⟨[_], rfl⟩
    · split at h
      · rw [pure_eq_ok, Prod.mk.injEq] at h
        obtain ⟨_, h⟩ := h
        subst h
        exact grows_trans e ⟨[_], rfl⟩
      · simp only [bind_eq_ok, pure_eq_ok] at h
        obtain ⟨_, _, h⟩ := h
        rw [Prod.mk.injEq] at h
        obtain ⟨_, h⟩ := h
        subst h
        exact e

theorem TEXLDD_grows {tx tx' : shader_translator} {hr : HRESULT}
    (h : NineTranslateInstruction_TEXLDD tx = .ok (hr, tx')) : grows tx tx' := by
  unfold NineTranslateInstruction_TEXLDD at h
  simp only [bind_eq_ok, pure_eq_ok] at h
  obtain ⟨⟨d, t1⟩, h1, ⟨s0, t2⟩, h2, ⟨s1, t3⟩, h3, ⟨s2, t4⟩, h4, ⟨s3, t5⟩, h5, _, _,
    target, _, h⟩ := h
  rw [Prod.mk.injEq] at h
  obtain ⟨_, h⟩ := h
  subst h
  exact grows_trans (dst0_grows h1) (grows_trans (src0_grows h2) (grows_trans (src1_grows h3)
    (grows_trans (src2_grows h4) (grows_trans (src3_grows h5) ⟨[_], rfl⟩))))

theorem TEXLDL_grows {tx tx' : shader_translator} {hr : HRESULT}
    (h : NineTranslateInstruction_TEXLDL tx = .ok (hr, tx')) : grows tx tx' := by
  unfold NineTranslateInstruction_TEXLDL at h
  simp only [bind_eq_ok, pure_eq_ok] at h
  obtain ⟨⟨d, t1⟩, h1, ⟨s0, t2⟩, h2, ⟨s1, t3⟩, h3, _, _, target, _, h⟩ := h
  rw [Prod.mk.injEq] at h
  obtain ⟨_, h⟩ := h
  subst h
  exact grows_trans (dst0_grows h1) (grows_trans (src0_grows h2) (grows_trans (src1_grows h3)
    ⟨[_], rfl⟩))

theorem generic_lower_dst_grows {tx tx' : shader_translator} {d : List ureg_dst}
    (h : generic_lower_dst tx = .ok (d, tx')) : grows tx tx' := by
  unfold generic_lower_dst at h
  split at h
  · simp only [bind_eq_ok, pure_eq_ok] at h
    obtain ⟨⟨d0, t1⟩, h1, h⟩ := h
    rw [Prod.mk.injEq] at h
    obtain ⟨_, h⟩ := h
    subst h
    exact dst0_grows h1
  · rw [pure_eq_ok, Prod.mk.injEq] at h
    obtain ⟨_, h⟩ := h
    subst h
    exact grows_refl _

theorem generic_lower_src_grows (todo : Nat) : ∀ (i : Nat) (tx tx' : shader_translator)
    (s : List ureg_src), generic_lower_src tx todo i = .ok (s, tx') → grows tx tx' := by
  induction todo with
  | zero =>
    intro i tx tx' s h
    unfold generic_lower_src at h
    rw [pure_eq_ok, Prod.mk.injEq] at h
    obtain ⟨_, h⟩ := h
    subst h
    exact grows_refl _
  | succ n ih =>
    intro i tx tx' s h
    unfold generic_lower_src at h
    split at h
    · split at h
      · rename_i p hp
        simp only [bind_eq_ok, pure_eq_ok] at h
        obtain ⟨⟨s1, t1⟩, h1, ⟨rest, t2⟩, h2, h⟩ := h
        rw [Prod.mk.injEq] at h
        obtain ⟨_, h⟩ := h
        subst h
        exact grows_trans (param_grows h1) (ih _ _ _ _ h2)
      · rw [pure_eq_ok, Prod.mk.injEq] at h
        obtain ⟨_, h⟩ := h
        subst h
        exact grows_refl _
    · rw [pure_eq_ok, Prod.mk.injEq] at h
      obtain ⟨_, h⟩ := h
      subst h
      exact grows_refl _

theorem Generic_grows {tx tx' : shader_translator} {hr : HRESULT}
    (h : NineTranslateInstruction_Generic tx = .ok (hr, tx')) : grows tx tx' := by
  unfold NineTranslateInstruction_Generic at h
  simp only [bind_eq_ok, pure_eq_ok] at h
  obtain ⟨⟨d, t1⟩, h1, ⟨s, t2⟩, h2, h⟩ := h
  have e := grows_trans (generic_lower_dst_grows h1) (generic_lower_src_grows _ _ _ _ _ h2)
  split at h
  · exact absurd h (throw_ne_ok _ _)
  · split at h
    · simp only [bind_eq_ok] at h
      obtain ⟨_, ht, _⟩ := h
      exact absurd ht (throw_ne_ok _ _)
    · simp only [bind_eq_ok, pure_eq_ok] at h
      obtain ⟨_, _, h⟩ := h
      rw [Prod.mk.injEq] at h
      obtain ⟨_, h⟩ := h
      subst h
      exact grows_trans e (tx_insn_grows _ _ _ _)

/-- Every special handler but the one of DCL leaves the cursor where it is; the handler
of DCL moves it by two words. -/
theorem run_handler_grows {tx tx' : shader_translator} {hr : HRESULT} {id : handler_id}
    (h : run_handler tx id = .ok (hr, tx')) :
    grows { tx with parse := tx.parse + (if id = .DCL then 2 else 0) } tx' := by
  cases id with
  | M4x4 => exact Mkxn_grows h
  | M4x3 => exact Mkxn_grows h
  | M3x4 => exact Mkxn_grows h
  | M3x3 => exact Mkxn_grows h
  | M3x2 => exact Mkxn_grows h
  | CALL => exact CALL_grows h
  | CALLNZ => exact CALLNZ_grows h
  | LOOP => exact LOOP_grows h
  | RET => exact RET_grows h
  | ENDLOOP => exact ENDLOOP_grows h
  | LABEL => exact LABEL_grows h
  | DCL => exact DCL_grows h
  | NRM => exact NRM_grows h
  | SINCOS => exact SINCOS_grows h
  | REP => exact REP_grows h
  | ENDREP => exact ENDREP_grows h
  | IF => exact IF_grows h
  | IFC => exact IFC_grows h
  | ELSE => exact ELSE_grows h
  | ENDIF => exact ENDIF_grows h
  | BREAKC => exact BREAKC_grows h
  | DEFB => exact DEFB_grows h
  | DEFI => exact DEFI_grows h
  | DEF => exact DEF_grows h
  | TEXCOORD => exact TEXCOORD_grows h
  | TEXKILL => exact TEXKILL_grows h
  | TEX => exact TEX_grows h
  | TEXBEM => exact unimplemented_grows h
  | TEXBEML => exact unimplemented_grows h
  | TEXREG2AR => exact unimplemented_grows h
  | TEXREG2GB => exact unimplemented_grows h
  | TEXM3x2PAD => exact unimplemented_grows h
  | TEXM3x2TEX => exact unimplemented_grows h
  | TEXM3x3PAD => exact unimplemented_grows h
  | TEXM3x3TEX => exact unimplemented_grows h
  | TEXM3x3SPEC => exact unimplemented_grows h
  | TEXM3x3VSPEC => exact unimplemented_grows h
  | TEXREG2RGB => exact unimplemented_grows h
  | TEXDP3TEX => exact unimplemented_grows h
  | TEXM3x2DEPTH => exact unimplemented_grows h
  | TEXDP3 => exact unimplemented_grows h
  | TEXM3x3 => exact unimplemented_grows h
  | TEXDEPTH => exact unimplemented_grows h
  | BEM => exact unimplemented_grows h
  | TEXLDD => exact TEXLDD_grows h
  | SETP => exact unimplemented_grows h
  | TEXLDL => exact TEXLDL_grows h
  | BREAKP => exact unimplemented_grows h
  | PHASE => exact PHASE_grows h
  | COMMENT => exact COMMENT_grows h

theorem handler_grows {ta tb : shader_translator} {hr : HRESULT} {info : sm1_op_info}
    (h : (match info.handler with
          | some id => run_handler ta id
          | none => NineTranslateInstruction_Generic ta) = .ok (hr, tb)) :
    grows ta tb := by
  cases hh : info.handler with
  | none =>
    rw [hh] at h
    exact Generic_grows h
  | some id =>
    rw [hh] at h
    exact run_handler_grows h

/-- An instruction only appends to the program under construction. -/
theorem sm1_parse_instruction_grows {tx tx' : shader_translator}
    (h : sm1_parse_instruction tx = .ok tx') : grows tx tx' := by
  unfold sm1_parse_instruction at h
  rw [bind_eq_ok] at h
  obtain ⟨⟨info, tx1⟩, h1, h⟩ := h
  obtain ⟨f1, _⟩ := sm1_parse_instruction_head_frame h1
  have hfl : tx1.ureg = tx.ureg := by rw [f1]
  cases info with
  | none =>
    simp only [pure_eq_ok] at h
    subst h
    refine ⟨[], ?_⟩
    rw [TOKEN_JUMP_frame, List.append_nil]
    show tx1.ureg.items = _
    rw [hfl]
  | some info =>
    simp only [] at h
    split at h
    · rw [pure_eq_ok] at h
      subst h
      refine ⟨[], ?_⟩
      rw [List.append_nil]
      show tx1.ureg.items = _
      rw [hfl]
    · obtain ⟨ta, hr, tb, r, h5, h6⟩ := sm1_parse_instruction_body_inv h
      obtain ⟨l, e⟩ := handler_grows h5
      subst h6
      have hfa : ta.ureg = tx1.ureg := by rw [r.1]
      refine ⟨l, ?_⟩
      rw [TOKEN_JUMP_frame]
      show tb.ureg.items = _
      rw [e, hfa]
      show tx1.ureg.items ++ l = _
      rw [hfl]

theorem nine_translate_shader_loop_grows (fuel : Nat) : ∀ (tx tx' : shader_translator),
    nine_translate_shader_loop fuel tx = .ok tx' → grows tx tx' := by
  induction fuel with
  | zero => intro tx tx' h; cases h
  | succ n ih =>
    intro tx tx' h
    unfold nine_translate_shader_loop at h
    rw [bind_eq_ok] at h
    obtain ⟨b, hb, h⟩ := h
    cases b with
    | true =>
      simp only [if_true, pure_eq_ok] at h
      subst h
      exact grows_refl _
    | false =>
      simp only [Bool.false_eq_true, if_false, bind_eq_ok] at h
      obtain ⟨tx1, h1, h⟩ := h
      exact grows_trans (sm1_parse_instruction_grows h1) (ih _ _ h)

/-- Every round of the dispatch loop starts on a program that extends the one the loop
started on. -/
theorem loop_rounds_grows (fuel : Nat) : ∀ (tx : shader_translator),
    ∀ r ∈ loop_rounds fuel tx, grows tx r.1 := by
  induction fuel with
  | zero => intro tx r hr; cases hr
  | succ n ih =>
    intro tx r hr
    unfold loop_rounds at hr
    split at hr
    · split at hr
      · rename_i tx1 h1
        rcases List.mem_cons.mp hr with rfl | hr
        · exact grows_refl _
        · exact grows_trans (sm1_parse_instruction_grows h1) (ih _ r hr)
      · cases hr
    · cases hr

/-- The first round of the dispatch loop starts on the translator the loop is given. -/
theorem loop_rounds_head (fuel : Nat) (tx : shader_translator)
    (r : shader_translator × shader_translator)
    (rest : List (shader_translator × shader_translator))
    (h : loop_rounds fuel tx = r :: rest) : r.1 = tx := by
  cases fuel with
  | zero => cases h
  | succ n =>
    unfold loop_rounds at h
    split at h
    · split at h
      · rw [List.cons.injEq] at h
        rw [← h.1]
      · cases h
    · cases h

theorem spec_constant_slots_eq (env : build_env) (hB : env.NINE_MAX_CONST_B % 4 = 0) :
    decl_constants_count env = spec_constant_slots env := by
  unfold decl_constants_count spec_constant_slots
  omega

/-- C11 (constant pre-declaration).  In a build whose bound on boolean constants is a
multiple of 4, as it is with the bounds 256, 16 and 16 of the driver, `tx_decl_constants`
appends to the program exactly max-F + max-I + ceil(max-B / 4) constant declarations,
with the indices 0, 1, 2, ... in that order.  In `nine_translate_shader` they are emitted
before the first instruction is dispatched: the first round of the dispatch loop starts
on the program that ends with them, every round that is reached starts on a program
that begins with them, and so does the program of every run that returns. -/
theorem C11_constant_predeclaration (device : NineDevice9) (tx : shader_translator)
    (hB : tx.env.NINE_MAX_CONST_B % 4 = 0) :
    (tx_decl_constants tx).ureg.items =
      tx.ureg.items ++
        (List.range (spec_constant_slots tx.env)).map ureg_item.DECL_constant ∧
    (∀ (fuel : Nat) (r : shader_translator × shader_translator)
        (rest : List (shader_translator × shader_translator)),
      loop_rounds fuel (tx_before_loop device tx) = r :: rest →
      r.1.ureg.items = tx.ureg.items ++
        (List.range (spec_constant_slots tx.env)).map ureg_item.DECL_constant) ∧
    (∀ (fuel : Nat), ∀ r ∈ loop_rounds fuel (tx_before_loop device tx),
      ∃ l : List ureg_item, r.1.ureg.items = tx.ureg.items ++
        (List.range (spec_constant_slots tx.env)).map ureg_item.DECL_constant ++ l) ∧
    (∀ tx' : shader_translator, nine_translate_shader_run device tx = .ok tx' →
      ∃ l : List ureg_item, tx'.ureg.items = tx.ureg.items ++
        (List.range (spec_constant_slots tx.env)).map ureg_item.DECL_constant ++ l) := by
  have h0 : (tx_before_loop device tx).ureg.items = tx.ureg.items ++
      (List.range (spec_constant_slots tx.env)).map ureg_item.DECL_constant := by
    have : (tx_before_loop device tx).ureg = (tx_decl_constants tx).ureg := rfl
    rw [this, tx_decl_constants_items, spec_constant_slots_eq _ hB]
  refine ⟨by rw [tx_decl_constants_items, spec_constant_slots_eq _ hB], ?_, ?_, ?_⟩
  · intro fuel r rest h
    rw [loop_rounds_head _ _ _ _ h, h0]
  · intro fuel r hr
    obtain ⟨l, hl⟩ := loop_rounds_grows fuel _ r hr
    exact ⟨l, by rw [hl, h0]⟩
  · intro tx' h
    unfold nine_translate_shader_run at h
    simp only [bind_eq_ok, pure_eq_ok] at h
    obtain ⟨t1, h1, h⟩ := h
    subst h
    obtain ⟨l, hl⟩ := nine_translate_shader_loop_grows _ _ _ h1
    refine ⟨l ++ [.insn .END [] []], ?_⟩
    show t1.ureg.items ++ [.insn .END [] []] = _
    rw [hl]
    have h0x := h0
    unfold tx_before_loop at h0x
    rw [h0x, List.append_assoc]

theorem C11_constant_predeclaration_witness :
    tx_generic_full.env.NINE_MAX_CONST_B % 4 = 0 ∧
    spec_constant_slots tx_generic_full.env = 276 ∧
    tx_generic_full.ureg.items = [] ∧
    example_tx .VERTEX prog_generic = .ok tx_generic_full ∧
    result_of ((nine_translate_shader_run example_device tx_generic_full).map
      (fun t => (t.ureg.items.takeWhile (fun it => it.decl_constant.isSome)).filterMap
        ureg_item.decl_constant)) = some (List.range 276) ∧
    result_of ((nine_translate_shader_run example_device tx_generic_full).map
      (fun t => t.ureg.items.filterMap ureg_item.decl_constant)) = some (List.range 276) ∧
    result_of ((nine_translate_shader_run example_device tx_generic_full).map
      (fun t => (tx_insns t).map ureg_item.opcode)) = some [.ADD, .MOV, .MAD, .END] ∧
    ((tx_decl_constants tx_generic_full).ureg.items =
      tx_generic_full.ureg.items ++
        (List.range (spec_constant_slots tx_generic_full.env)).map ureg_item.DECL_constant ∧
    (∀ (fuel : Nat) (r : shader_translator × shader_translator)
        (rest : List (shader_translator × shader_translator)),
      loop_rounds fuel (tx_before_loop example_device tx_generic_full) = r :: rest →
      r.1.ureg.items = tx_generic_full.ureg.items ++
        (List.range (spec_constant_slots tx_generic_full.env)).map
          ureg_item.DECL_constant) ∧
    (∀ (fuel : Nat), ∀ r ∈ loop_rounds fuel (tx_before_loop example_device tx_generic_full),
      ∃ l : List ureg_item, r.1.ureg.items = tx_generic_full.ureg.items ++
        (List.range (spec_constant_slots tx_generic_full.env)).map
          ureg_item.DECL_constant ++ l) ∧
    (∀ tx' : shader_translator,
      nine_translate_shader_run example_device tx_generic_full = .ok tx' →
      ∃ l : List ureg_item, tx'.ureg.items = tx_generic_full.ureg.items ++
        (List.range (spec_constant_slots tx_generic_full.env)).map
          ureg_item.DECL_constant ++ l)) := by
  have h : result_of ((nine_translate_shader_run example_device tx_generic_full).map
      (fun t =>
        decide ((t.ureg.items.takeWhile (fun it => it.decl_constant.isSome)).filterMap
          ureg_item.decl_constant = List.range 276) &&
        decide (t.ureg.items.filterMap ureg_item.decl_constant = List.range 276) &&
        decide ((tx_insns t).map ureg_item.opcode = [.ADD, .MOV, .MAD, .END])))
      = some true := by decide!
  obtain ⟨h, h3⟩ := result_of_and h
  obtain ⟨h1, h2⟩ := result_of_and h
  exact ⟨by decide, by decide, by decide, rfl, result_of_decide h1, result_of_decide h2,
    result_of_decide h3,
    C11_constant_predeclaration example_device tx_generic_full (by decide)⟩

end Nine
